import Mathlib

/-!
# Bloodline `ImporterScientific`: binary decoders

A shallow embedding of `src/ImporterScientific.cpp`.

* A file is a list of bytes (`List Nat`, every entry is used modulo 256).
* `IfStream` is an opened `std::ifstream`: content, read position, and the
  `good()` flag.  `IfStream.extract` is `istream::read`: on a stream that is no
  longer good it extracts nothing, otherwise it extracts as many of the
  requested bytes as remain and clears `good()` when fewer remain.
* `Run` is the state one decoder call works on: the stream, the report
  `_res`, the floating-point format flags of `_res`, and two traces that the
  C++ program does not keep but that its behaviour determines: the byte count
  requested by every `file.read`, and the (index, length) pair of every
  `operator[]` evaluated on a buffer.  An index outside its buffer is undefined
  behaviour in C++; the embedding records it in the trace and lets the
  evaluation yield the value 0, so that stream consumption and indexing can be
  studied separately.  A run of the embedding stands for a run of the program as
  long as its trace holds no such evaluation (`InBounds`); a state behind one
  shows what the code asks for, not what the program then does.
* `std::getline` on the three text files is `Run.getline`; the text on
  `std::cout`, which only `read_landmark_measuring_planes` writes, is carried by
  `landmark_run`.
* Integers are little-endian.  A `double` is carried as its 64-bit pattern;
  how `operator<<` prints it is a parameter `sf` of the decoders (it depends on
  the format flags, hence `FloatFmt`).
* `unsigned int` arithmetic is taken modulo `2^32`.
-/

namespace Bloodline

/-! ## Constants -/

/-- The preview bound `NUM_DEMO` of `ImporterScientific.h`. -/
def NUM_DEMO : Nat := 3

/-- Modulus of `unsigned int` / `std::uint32_t` arithmetic. -/
def U32 : Nat := 4294967296

/-! ## Bytes and little-endian values -/

/-- Little-endian value of a byte list. -/
def leNat : List Nat → Nat
  | [] => 0
  | b :: bs => b % 256 + 256 * leNat bs

/-- A zero-initialised object of `n` bytes (`std::uint32_t x = 0;`,
`std::vector<T> v(k)`, `s.resize(len)` on an empty string). -/
def zeros (n : Nat) : List Nat := List.replicate n 0

/-- Bytes `[p, p + n)` of a file. -/
def slice (data : List Nat) (p n : Nat) : List Nat := (data.drop p).take n

/-- Element `i` of a buffer of `w`-byte little-endian elements (0 outside). -/
def elemAt (w : Nat) (buf : List Nat) (i : Nat) : Nat := leNat (slice buf (w * i) w)

/-! ## Streams -/

/-- An opened binary `std::ifstream`. -/
structure IfStream where
  data : List Nat
  pos : Nat
  good : Bool
deriving DecidableEq, Repr

/-- The bytes `istream::read(dst, n)` extracts, and the stream afterwards. -/
def IfStream.extract (f : IfStream) (n : Nat) : List Nat × IfStream :=
  if f.good then
    let got := slice f.data f.pos n
    (got, { f with pos := f.pos + got.length, good := decide (got.length = n) })
  else
    ([], f)

/-- Format flags of the report stream that decide how a double is printed. -/
structure FloatFmt where
  fixed : Bool
  precision : Nat
deriving DecidableEq, Repr

/-- Flags of a freshly constructed `std::stringstream`. -/
def FloatFmt.default : FloatFmt := { fixed := false, precision := 6 }

/-- State of one decoder call. -/
structure Run where
  file : IfStream
  res : String
  fmt : FloatFmt
  reads : List Nat
  idx : List (Nat × Nat)
deriving DecidableEq, Repr

/-- The call `file.read(dst, n)` where `buf` is the current content of `dst`:
the extracted bytes overwrite the front of the object. -/
def Run.read (st : Run) (buf : List Nat) (n : Nat) : List Nat × Run :=
  let r := st.file.extract n
  (r.1 ++ buf.drop r.1.length, { st with file := r.2, reads := st.reads ++ [n] })

/-- The insertion `_res << s` of text. -/
def Run.put (st : Run) (s : String) : Run := { st with res := st.res ++ s }

/-- The insertion `_res << x` of a double with bit pattern `x`. -/
def Run.putF64 (sf : FloatFmt → Nat → String) (st : Run) (x : Nat) : Run :=
  st.put (sf st.fmt x)

/-- The evaluation `buf[i]` on a vector of `w`-byte elements. -/
def Run.index (st : Run) (w : Nat) (buf : List Nat) (i : Nat) : Nat × Run :=
  (elemAt w buf i, { st with idx := st.idx ++ [(i, buf.length / w)] })

/-- The loop `for (unsigned int i = from; i < from + k; ++i) body`. -/
def forFrom {α : Type} (body : Nat → α → α) : Nat → Nat → α → α
  | _, 0, s => s
  | i, k + 1, s => forFrom body (i + 1) k (body i s)

/-- The loop `for (unsigned int i = 0; i < n; ++i) body`. -/
def forLoop {α : Type} (n : Nat) (body : Nat → α → α) (s : α) : α :=
  forFrom body 0 n s

/-! ## `read_dicom_tags`: the length-prefixed string reader -/

/-- The lambda `read_string` of `read_dicom_tags`. -/
def read_string (st : Run) : List Nat × Run :=
  let r := st.read (zeros 2) 2
  let len := elemAt 2 r.1 0
  r.2.read (zeros len) len

/-! ## Report helpers -/

/-- The insertion `_res << buf[i]` for a `std::vector<double>`. -/
def Run.putF64At (sf : FloatFmt → Nat → String) (st : Run) (buf : List Nat) (i : Nat) : Run :=
  let a := st.index 8 buf i
  a.2.putF64 sf a.1

/-- The insertion `_res << buf[i]` for a `std::vector<std::uint32_t>`. -/
def Run.putU32At (st : Run) (buf : List Nat) (i : Nat) : Run :=
  let a := st.index 4 buf i
  a.2.put (toString a.1)

/-- The call `v.resize(k)` on a vector of `w`-byte elements: the leading elements
are kept, new elements are zero. -/
def vresize (w : Nat) (buf : List Nat) (k : Nat) : List Nat :=
  (buf ++ zeros (w * k - buf.length)).take (w * k)

/-! ## `_read_nd_scalar_image_in_sparse_matrix_style` -/

/-- Body of the inner loop of a matrix print: `_res << dbuffer[cnt++] << " "`; the
loop carries the counter `cnt`. -/
def matCell (sf : FloatFmt → Nat → String) (dbuffer : List Nat) (_colid : Nat)
    (cs : Nat × Run) : Nat × Run :=
  (cs.1 + 1, (cs.2.putF64At sf dbuffer cs.1).put " ")

/-- Body of the outer loop of a matrix print: the indentation, the row, the line
end. -/
def matRow (sf : FloatFmt → Nat → String) (n : Nat) (dbuffer : List Nat) (_rowid : Nat)
    (cs : Nat × Run) : Nat × Run :=
  let st := cs.2.put "\t\t\t"
  let cs := forLoop n (matCell sf dbuffer) (cs.1, st)
  (cs.1, cs.2.put "\n")

/-- The loop nest that prints `dbuffer` as an `n` x `n` matrix, with the running
counter `cnt` starting at 0 (source lines 123-132, 137-146, 151-160 and 165-174). -/
def putMatrix (sf : FloatFmt → Nat → String) (n : Nat) (dbuffer : List Nat) (st : Run) : Run :=
  (forLoop n (matRow sf n dbuffer) (0, st)).2

/-- Body of the loop `for (k < numDims) { _res << buf[k]; if (k < numDims - 1) _res << sep; }`
over a vector of `std::uint32_t`; `numDims - 1` is an unsigned subtraction. -/
def rowStepU32 (sep : String) (numDims : Nat) (buf : List Nat) (k : Nat) (st : Run) : Run :=
  let st := st.putU32At buf k
  if k < (numDims + U32 - 1) % U32 then st.put sep else st

/-- The loop of `rowStepU32` (source lines 90-95 and 201-206). -/
def putU32Row (sep : String) (numDims : Nat) (buf : List Nat) (st : Run) : Run :=
  forLoop numDims (rowStepU32 sep numDims buf) st

/-- The same loop body over a vector of doubles. -/
def rowStepF64 (sf : FloatFmt → Nat → String) (sep : String) (numDims : Nat) (buf : List Nat)
    (k : Nat) (st : Run) : Run :=
  let st := st.putF64At sf buf k
  if k < (numDims + U32 - 1) % U32 then st.put sep else st

/-- The loop of `rowStepF64` (source lines 105-110). -/
def putF64Row (sf : FloatFmt → Nat → String) (sep : String) (numDims : Nat) (buf : List Nat)
    (st : Run) : Run :=
  forLoop numDims (rowStepF64 sf sep numDims buf) st

/-- One iteration `i` of the loop over the non-zero values (source lines 185-209):
the loop carries the buffer `gridpos`. -/
def ndEntry (sf : FloatFmt → Nat → String) (numDims : Nat) (i : Nat) (gs : List Nat × Run) :
    List Nat × Run :=
  let r := gs.2.read gs.1 (numDims * 4)
  let gridpos := r.1
  let v := r.2.read (zeros 8) 8
  let val := elemAt 8 v.1 0
  let st := v.2
  if i < NUM_DEMO then
    let st := st.put ("\t\t\t- " ++ toString i ++ ": [")
    let st := putU32Row ", " numDims gridpos st
    let st := ((st.put "] = ").putF64 sf val).put "\n"
    (gridpos, st)
  else
    (gridpos, st)

/-- The call `file.read(dbuffer.data(), dbuffer.size() * sizeof(double))`. -/
def Run.readF64s (st : Run) (dbuffer : List Nat) : List Nat × Run :=
  st.read dbuffer (dbuffer.length / 8 * 8)

/-- Source lines 79-111: `numDims`, the grid size and the voxel scale.  Returns
`numDims` as well. -/
def nd_dims (sf : FloatFmt → Nat → String) (st : Run) : Nat × Run :=
  -- num dimensions
  let r := st.read (zeros 4) 4
  let numDims := elemAt 4 r.1 0
  let st := r.2.put ("\t\t- num. dimensions: " ++ toString numDims ++ "\n")
  -- grid size
  let r := st.read (zeros (4 * numDims)) (numDims * 4)
  let gridsize := r.1
  let st := r.2.put "\t\t- grid size: "
  let st := (putU32Row " x " numDims gridsize st).put "\n"
  -- voxel scale
  let r := st.read (zeros (8 * numDims)) (numDims * 8)
  let voxelscale := r.1
  let st := r.2.put "\t\t- voxel scale: "
  (numDims, (putF64Row sf " x " numDims voxelscale st).put "\n")

/-- Source lines 120-174: the four matrices, read into the one buffer `dbuffer`. -/
def nd_matrices (sf : FloatFmt → Nat → String) (st : Run) : Run :=
  let r := st.readF64s (zeros (8 * 16))
  let st := putMatrix sf 4 r.1 (r.2.put "\t\t- world matrix:\n")
  let r := st.readF64s r.1
  let st := putMatrix sf 4 r.1 (r.2.put "\t\t- inverse world matrix:\n")
  let r := st.readF64s (vresize 8 r.1 25)
  let st := putMatrix sf 5 r.1 (r.2.put "\t\t- world matrix with time:\n")
  let r := st.readF64s r.1
  putMatrix sf 5 r.1 (r.2.put "\t\t- inverse world matrix with time:\n")

/-- Source lines 179-210: the number of non-zero values, the loop over them, and
the closing line. -/
def nd_values (sf : FloatFmt → Nat → String) (numDims : Nat) (st : Run) : Run :=
  let r := st.read (zeros 4) 4
  let numNonZeroValues := elemAt 4 r.1 0
  let st := r.2.put ("\t\t- num. non-zero values: " ++ toString numNonZeroValues ++ "\n")
  let gridpos := zeros (4 * numDims)
  let gs := forLoop numNonZeroValues (ndEntry sf numDims) (gridpos, st)
  gs.2.put "\t\t\t- ...\n"

/-- The member function `_read_nd_scalar_image_in_sparse_matrix_style(file)`. -/
def _read_nd_scalar_image_in_sparse_matrix_style (sf : FloatFmt → Nat → String) (st : Run) : Run :=
  let h := nd_dims sf st
  nd_values sf h.1 (nd_matrices sf h.2)

/-! ## `read_mesh`: the reads after the open checks -/

/-- The insertion `_res << "[" << b[off] << ", " << b[off + 1] << ", " << b[off + 2]` on a
vector of doubles, followed by the text `close`. -/
def putTripleF64 (sf : FloatFmt → Nat → String) (close : String) (dbuffer : List Nat)
    (off : Nat) (st : Run) : Run :=
  let st := ((st.put "[").putF64At sf dbuffer off).put ", "
  let st := (st.putF64At sf dbuffer ((off + 1) % U32)).put ", "
  (st.putF64At sf dbuffer ((off + 2) % U32)).put close

/-- The same insertion on a vector of `std::uint32_t`. -/
def putTripleU32 (close : String) (ui32buffer : List Nat) (off : Nat) (st : Run) : Run :=
  let st := ((st.put "[").putU32At ui32buffer off).put ", "
  let st := (st.putU32At ui32buffer ((off + 1) % U32)).put ", "
  (st.putU32At ui32buffer ((off + 2) % U32)).put close

/-- Preview of a vector of 3-double elements: the loop over `pointid < NUM_DEMO` with
`off = pointid * 3`, then the ellipsis line (source lines 269-274, 282-287, 315-320,
527-532, 541-546, 555-560). -/
def previewTriplesF64 (sf : FloatFmt → Nat → String) (label : String) (dbuffer : List Nat)
    (st : Run) : Run :=
  (forLoop NUM_DEMO (fun pointid st =>
    let off := (pointid * 3) % U32
    putTripleF64 sf "]\n" dbuffer off
      (st.put ("\t\t\t- " ++ label ++ toString pointid ++ ": "))) st).put "\t\t\t- ...\n"

/-- Preview of the triangle list (source lines 302-307). -/
def previewTriplesU32 (label : String) (ui32buffer : List Nat) (st : Run) : Run :=
  (forLoop NUM_DEMO (fun cellid st =>
    let off := (cellid * 3) % U32
    putTripleU32 "]\n" ui32buffer off
      (st.put ("\t\t\t- " ++ label ++ toString cellid ++ ": "))) st).put "\t\t\t- ...\n"

/-- Preview of a scalar field per point and time: the loops over `pointid < NUM_DEMO`
and `timeid < NUM_DEMO` with `off = pointid * numTimes + timeid`
(source lines 336-347, 356-367, 377-388). -/
def previewPerTimeScalar (sf : FloatFmt → Nat → String) (numTimes : Nat) (dbuffer : List Nat)
    (st : Run) : Run :=
  forLoop NUM_DEMO (fun pointid st =>
    let st := st.put ("\t\t\t- point" ++ toString pointid ++ ": ")
    let st := forLoop NUM_DEMO (fun timeid st =>
      let off := (pointid * numTimes + timeid) % U32
      (st.putF64At sf dbuffer off).put ", ") st
    st.put "...\n") st

/-- Preview of a vector field per point and time: the same loops with
`off = pointid * numTimes + timeid * 3` (source lines 398-409, 419-430, 440-451). -/
def previewPerTimeVector (sf : FloatFmt → Nat → String) (numTimes : Nat) (dbuffer : List Nat)
    (st : Run) : Run :=
  forLoop NUM_DEMO (fun pointid st =>
    let st := st.put ("\t\t\t- point" ++ toString pointid ++ ": ")
    let st := forLoop NUM_DEMO (fun timeid st =>
      let off := (pointid * numTimes + timeid * 3) % U32
      putTripleF64 sf "], " dbuffer off st) st
    st.put "...\n") st

/-- Preview of a scalar per point: the loop over `pointid < NUM_DEMO` printing
`dbuffer[pointid]`, then the ellipsis line (source lines 461-463 and the five
repetitions after it). -/
def previewPerPointScalar (sf : FloatFmt → Nat → String) (dbuffer : List Nat) (st : Run) : Run :=
  (forLoop NUM_DEMO (fun pointid st =>
    ((st.put ("\t\t\t- point" ++ toString pointid ++ ": ")).putF64At sf dbuffer pointid).put
      "\n") st).put "\t\t\t- ...\n"

/-- Source lines 259-287 of `read_mesh`: `numPoints`, the points and their normals.
Returns `numPoints` and the buffer `dbuffer` as well. -/
def mesh_points (sf : FloatFmt → Nat → String) (st : Run) : Nat × List Nat × Run :=
  let r := st.read (zeros 4) 4
  let numPoints := elemAt 4 r.1 0
  let st := r.2.put ("\t\t- num. points: " ++ toString numPoints ++ "\n")
  let r := st.readF64s (zeros (8 * (3 * numPoints % U32)))
  let st := previewTriplesF64 sf "point" r.1 r.2
  let r := st.readF64s r.1
  (numPoints, r.1, previewTriplesF64 sf "normal" r.1 r.2)

/-- Source lines 292-320: `numTriangles`, the triangles and their normals. -/
def mesh_triangles (sf : FloatFmt → Nat → String) (dbuffer : List Nat) (st : Run) :
    Nat × List Nat × Run :=
  let r := st.read (zeros 4) 4
  let numTriangles := elemAt 4 r.1 0
  let ui32buffer := zeros (4 * (3 * numTriangles % U32))
  let r := r.2.read ui32buffer (ui32buffer.length / 4 * 4)
  let st := r.2.put ("\t\t- num. triangles: " ++ toString numTriangles ++ "\n")
  let st := previewTriplesU32 "triangle" r.1 st
  let r := st.readF64s (vresize 8 dbuffer (3 * numTriangles % U32))
  (numTriangles, r.1, previewTriplesF64 sf "normal" r.1 r.2)

/-- Source lines 325-452: `numTimes` and the fields per point and time. -/
def mesh_temporal (sf : FloatFmt → Nat → String) (numPoints : Nat) (dbuffer : List Nat)
    (st : Run) : Nat × List Nat × Run :=
  let r := st.read (zeros 4) 4
  let numTimes := elemAt 4 r.1 0
  let st := r.2.put ("\t\t- num. temporal positions: " ++ toString numTimes ++ "\n")
  -- wall shear stress per point over time
  let r := st.readF64s (vresize 8 dbuffer (numPoints * numTimes % U32))
  let st := previewPerTimeScalar sf numTimes r.1 (r.2.put "\t\t- WSS per point per time:\n")
  let r := st.readF64s r.1
  let st := (previewPerTimeScalar sf numTimes r.1
    (r.2.put "\t\t- Axial WSS per point per time:\n")).put "\t\t\t- ...\n"
  let r := st.readF64s r.1
  let st := (previewPerTimeScalar sf numTimes r.1
    (r.2.put "\t\t- Circumferential WSS per point per time:\n")).put "\t\t\t- ...\n"
  -- wall shear stress vector per point over time
  let r := st.readF64s (vresize 8 r.1 ((numPoints * numTimes % U32) * 3 % U32))
  let st := (previewPerTimeVector sf numTimes r.1
    (r.2.put "\t\t- WSS vector per point per time:\n")).put "\t\t\t- ...\n"
  let r := st.readF64s r.1
  let st := (previewPerTimeVector sf numTimes r.1
    (r.2.put "\t\t- Axial WSS vector per point per time:\n")).put "\t\t\t- ...\n"
  let r := st.readF64s r.1
  let st := (previewPerTimeVector sf numTimes r.1
    (r.2.put "\t\t- Circumferential WSS vector per point per time:\n")).put "\t\t\t- ...\n"
  (numTimes, r.1, st)

/-- Source lines 457-560: the fields per point. -/
def mesh_aggregates (sf : FloatFmt → Nat → String) (numPoints : Nat) (dbuffer : List Nat)
    (st : Run) : List Nat × Run :=
  let r := st.readF64s (vresize 8 dbuffer numPoints)
  let st := previewPerPointScalar sf r.1 (r.2.put "\t\t- Mean WSS per point:\n")
  let r := st.readF64s r.1
  let st := previewPerPointScalar sf r.1 (r.2.put "\t\t- Mean axial WSS per point:\n")
  let r := st.readF64s r.1
  let st := previewPerPointScalar sf r.1 (r.2.put "\t\t- Mean circumferential WSS per point:\n")
  let r := st.readF64s r.1
  let st := previewPerPointScalar sf r.1 (r.2.put "\t\t- OSI per point:\n")
  let r := st.readF64s r.1
  let st := previewPerPointScalar sf r.1 (r.2.put "\t\t- Axial OSI per point:\n")
  let r := st.readF64s r.1
  let st := previewPerPointScalar sf r.1 (r.2.put "\t\t- Circumferential OSI per point:\n")
  let r := st.readF64s (vresize 8 r.1 (numPoints * 3 % U32))
  let st := previewTriplesF64 sf "point" r.1 (r.2.put "\t\t- Mean WSS vector per point:\n")
  let r := st.readF64s r.1
  let st := previewTriplesF64 sf "point" r.1 (r.2.put "\t\t- Mean axial WSS vector per point:\n")
  let r := st.readF64s r.1
  let st := previewTriplesF64 sf "point" r.1
    (r.2.put "\t\t- Mean circumferential WSS vector per point:\n")
  (r.1, st)

/-- Source lines 259-560 of `read_mesh`: everything between the open checks and
`file.close()`. -/
def mesh_body (sf : FloatFmt → Nat → String) (st : Run) : Run :=
  let p := mesh_points sf st
  let t := mesh_triangles sf p.2.1 p.2.2
  let n := mesh_temporal sf p.1 t.2.1 t.2.2
  (mesh_aggregates sf p.1 n.2.1 n.2.2).2

/-! ## `read_landmark_measuring_planes`: the semantic tag -/

/-- The text the `switch (semantic)` of `read_landmark_measuring_planes` prints
(source lines 1150-1163). -/
def landMarkSemanticName (semantic : Nat) : String :=
  match semantic with
  | 1 => "LandMarkSemantic_Aorta_AboveAorticValve"
  | 2 => "LandMarkSemantic_Aorta_MidAscendingAorta"
  | 3 => "LandMarkSemantic_Aorta_BeforeBrachiocephalicArtery"
  | 4 => "LandMarkSemantic_Aorta_BetweenLeftCommonCarotid_and_LeftSubclavianArtery"
  | 5 => "LandMarkSemantic_Aorta_DistalToLeftSubclavianArtery"
  | 6 => "LandMarkSemantic_Aorta_MidDescendingAorta"
  | 7 => "LandMarkSemantic_PulmonaryArtery_AbovePulmonaryValve"
  | 8 => "LandMarkSemantic_PulmonaryArtery_BeforeJunction"
  | 9 => "LandMarkSemantic_PulmonaryArtery_LeftPulmonaryArtery_Begin"
  | 10 => "LandMarkSemantic_PulmonaryArtery_RightPulmonaryArtery_Begin"
  | _ => "None"

/-! ## Files and the decoders that take a path -/

/-- What the file system holds at a path: nothing, a file that cannot be opened
for reading, or a readable file with its bytes. -/
inductive FileState where
  | missing
  | unopenable
  | present (bytes : List Nat)
deriving DecidableEq, Repr

/-- The file system a decoder call sees. -/
abbrev FileSystem := String → FileState

/-- The member functions `read_X(std::string_view filepath)`. -/
inductive Decoder where
  | mesh | centerlines | landmark_measuring_planes | pathlines | flowfield
  | pressure_map | rotation_direction_map | axial_velocity_map
  | cos_angle_to_centerline_map | turbulent_kinetic_energy_map | flow_jet | ivsd
  | magnitude_tmip | flow_statistics | segmentation | segmentation_info
  | segmentation_graphcut_inside_outside_ids | segmentation_in_flowfield_size
  | vessel_section_segmentation_in_flowfield_size
  | vessel_section_segmentation_semantics | centerline_start_end_ids_on_mesh
  | static_tissue_mask | static_tissue_ivsd_thresholds | dataset_filter_tags
  | phase_wrapped_voxels | velocity_offset_correction_3dt | dicom_tags
  | cardiac_cycle_definition | venc
deriving DecidableEq, Repr

/-- The text each decoder writes before the path when the file does not exist. -/
def Decoder.absentNote : Decoder → String
  | .mesh => "\t- vessel has no mesh (path \""
  | .centerlines => "\t- vessel has no centerlines (path \""
  | .landmark_measuring_planes => "\t- vessel has no land marks of measuring planes (path \""
  | .pathlines => "\t- vessel has no pathlines (path \""
  | .flowfield => "\t- no flow field (path \""
  | .pressure_map => "\t- no pressure map (path \""
  | .rotation_direction_map => "\t- no rotation direction map (path \""
  | .axial_velocity_map => "\t- no axial velocity map (path \""
  | .cos_angle_to_centerline_map => "\t- no cos(angle) to centerline (path \""
  | .turbulent_kinetic_energy_map => "\t- no turbulent kinetic energy map (path \""
  | .flow_jet => "\t- no flow jet (path \""
  | .ivsd => "\t- no ivsd (path \""
  | .magnitude_tmip => "\t- no mag tmip (path \""
  | .flow_statistics => "\t- no flow statistics (path \""
  | .segmentation => "\t- no segmentation (path \""
  | .segmentation_info => "\t- no segmentation info (path \""
  | .segmentation_graphcut_inside_outside_ids =>
      "\t- no segmentation graph cut inside/outside ids (path \""
  | .segmentation_in_flowfield_size => "\t- no segmentation in flow field size (path \""
  | .vessel_section_segmentation_in_flowfield_size =>
      "\t- no vessel section segmentation in flow field size (path \""
  | .vessel_section_segmentation_semantics =>
      "\t- no vessel section segmentation semantics (path \""
  | .centerline_start_end_ids_on_mesh => "\t- no centerline start/end ids (path \""
  | .static_tissue_mask => "\t- no static tissue mask (path \""
  | .static_tissue_ivsd_thresholds => "\t- no static tissue ivsd thresholds (path \""
  | .dataset_filter_tags => "\t- no filter tags (path \""
  | .phase_wrapped_voxels => "\t- no phase wraps (path \""
  | .velocity_offset_correction_3dt =>
      "\t- no 3D+T flow images\x27 velocity offset correction (path \""
  | .dicom_tags => "\t- no dicom tags (path \""
  | .cardiac_cycle_definition => "\t- no cardiac cycle definition (path \""
  | .venc => "\t- no venc (path \""

/-- The text each decoder writes before the path when the file exists. -/
def Decoder.readingNote : Decoder → String
  | .mesh => "\t- reading mesh (path \""
  | .centerlines => "\t- reading centerlines (path \""
  | .landmark_measuring_planes => "\t- reading land marks of measuring planes (path \""
  | .pathlines => "\t- reading pathlines (path \""
  | .flowfield => "\t- reading flow field (path \""
  | .pressure_map => "\t- reading pressure map (path \""
  | .rotation_direction_map => "\t- reading rotation direction map (path \""
  | .axial_velocity_map => "\t- reading axial velocity map (path \""
  | .cos_angle_to_centerline_map => "\t- reading cos(angle) to centerline (path \""
  | .turbulent_kinetic_energy_map => "\t- reading turbulent kinetic energy map (path \""
  | .flow_jet => "\t- reading flow jet (path \""
  | .ivsd => "\t- reading ivsd (path \""
  | .magnitude_tmip => "\t- reading mag tmip (path \""
  | .flow_statistics => "\t- reading flow statistics (path \""
  | .segmentation => "\t- reading segmentation (path \""
  | .segmentation_info => "\t- reading segmentation info (path \""
  | .segmentation_graphcut_inside_outside_ids =>
      "\t- reading segmentation graph cut inside/outside ids (path \""
  | .segmentation_in_flowfield_size => "\t- reading segmentation in flow field size (path \""
  | .vessel_section_segmentation_in_flowfield_size =>
      "\t- reading vessel section segmentation in flow field size (path \""
  | .vessel_section_segmentation_semantics =>
      "\t- reading vessel section segmentation semantics (path \""
  | .centerline_start_end_ids_on_mesh => "\t- reading centerline start/end ids (path \""
  | .static_tissue_mask => "\t- reading static tissue mask (path \""
  | .static_tissue_ivsd_thresholds => "\t- reading static tissue ivsd thresholds (path \""
  | .dataset_filter_tags => "\t- reading filter tags (path \""
  | .phase_wrapped_voxels => "\t- reading phase wraps (path \""
  | .velocity_offset_correction_3dt =>
      "\t- reading flow images\x27 velocity offset correction (path \""
  | .dicom_tags => "\t- reading dicom tags (path \""
  | .cardiac_cycle_definition => "\t- reading cardiac cycle definition (path \""
  | .venc => "\t- reading venc (path \""

/-- The frame every `read_X(filepath)` shares: the existence check, the note, the
construction of the stream, the `good()` check, then the reads `body` of that
decoder, and the returned flag.  `body` is everything between the open check and
`file.close()`. -/
def Decoder.run (d : Decoder) (body : Run → Run) (fs : FileSystem) (filepath : String)
    (st : Run) : Bool × Run :=
  match fs filepath with
  | .missing => (false, st.put (d.absentNote ++ filepath ++ "\")\n"))
  | .unopenable =>
      let st := st.put (d.readingNote ++ filepath ++ "\")\n")
      (false, { st with file := ⟨[], 0, false⟩ }.put "\t\tFAILED! Could not open file!\n")
  | .present bytes =>
      let st := st.put (d.readingNote ++ filepath ++ "\")\n")
      (true, body { st with file := ⟨bytes, 0, true⟩ })

/-- The member function `read_mesh`. -/
def read_mesh (sf : FloatFmt → Nat → String) : FileSystem → String → Run → Bool × Run :=
  Decoder.mesh.run (mesh_body sf)

/-- The member function `read_pressure_map`. -/
def read_pressure_map (sf : FloatFmt → Nat → String) : FileSystem → String → Run → Bool × Run :=
  Decoder.pressure_map.run (_read_nd_scalar_image_in_sparse_matrix_style sf)

/-- A freshly constructed importer: empty report, default format flags, no
stream. -/
def Run.fresh : Run :=
  { file := ⟨[], 0, false⟩, res := "", fmt := FloatFmt.default, reads := [], idx := [] }

/-! ## Closed forms used by the proofs -/

/-- The effect of a piece of code that only writes to the report and evaluates
indices: text `t` is appended to `_res`, accesses `ix` to the index trace. -/
def Run.emit (st : Run) (t : String) (ix : List (Nat × Nat)) : Run :=
  { st with res := st.res ++ t, idx := st.idx ++ ix }

/-- Concatenation of a list of texts. -/
def cat : List String → String
  | [] => ""
  | a :: l => a ++ cat l

/-- Concatenation of a list of lists. -/
def catL {α : Type} : List (List α) → List α
  | [] => []
  | a :: l => a ++ catL l

/-- The `std::uint32_t` stored at byte offset `p` of a file. -/
def u32At (data : List Nat) (p : Nat) : Nat := leNat (slice data p 4)

/-- The `std::uint16_t` stored at byte offset `p` of a file. -/
def u16At (data : List Nat) (p : Nat) : Nat := leNat (slice data p 2)

/-- The bit pattern of the double stored at byte offset `p` of a file. -/
def f64At (data : List Nat) (p : Nat) : Nat := leNat (slice data p 8)

/-! ## The ND-sparse-field record and its rendering, as the specification words them -/

/-- The record `NDSparseField` of the data model: `numDims`, `gridSize[numDims]`,
`voxelScale[numDims]`, the four matrices, and the list of sparse entries
(index tuple, value).  Doubles are bit patterns. -/
structure NDSparseField where
  numDims : Nat
  gridSize : List Nat
  voxelScale : List Nat
  world4x4 : List Nat
  invWorld4x4 : List Nat
  world5x5 : List Nat
  invWorld5x5 : List Nat
  sparseEntries : List (List Nat × Nat)
deriving DecidableEq, Repr

/-- The `n` doubles stored from byte offset `q` on. -/
def f64sAt (data : List Nat) (q n : Nat) : List Nat :=
  (List.range n).map (fun i => f64At data (q + 8 * i))

/-- The sparse entry number `i` of a list of entries that starts at byte offset `e`,
for index tuples of `d` components: `indexTuple[d]:u32, value:f64`. -/
def sparseEntryAt (data : List Nat) (e d i : Nat) : List Nat × Nat :=
  ((List.range d).map (fun k => u32At data (e + i * (4 * d + 8) + 4 * k)),
    f64At data (e + i * (4 * d + 8) + 4 * d))

/-- The record a buffer encodes at offset `p`, by the ND-sparse-field grammar:
`numDims:u32, gridSize[numDims]:u32, voxelScale[numDims]:f64, 16 f64, 16 f64,
25 f64, 25 f64, numNonZero:u32`, then `numNonZero` times
`(indexTuple[numDims]:u32, value:f64)`. -/
def decodeNDSparse (data : List Nat) (p : Nat) : NDSparseField :=
  let d := u32At data p
  let q := p + 4 + 12 * d
  let n := u32At data (q + 656)
  { numDims := d
    gridSize := (List.range d).map (fun i => u32At data (p + 4 + 4 * i))
    voxelScale := f64sAt data (p + 4 + 4 * d) d
    world4x4 := f64sAt data q 16
    invWorld4x4 := f64sAt data (q + 128) 16
    world5x5 := f64sAt data (q + 256) 25
    invWorld5x5 := f64sAt data (q + 456) 25
    sparseEntries := (List.range n).map (sparseEntryAt data (q + 660) d) }

/-- Number of bytes of the record a buffer encodes at offset `p`. -/
def ndSparseSize (data : List Nat) (p : Nat) : Nat :=
  let d := u32At data p
  let n := u32At data (p + 660 + 12 * d)
  664 + 12 * d + n * (4 * d + 8)

/-- A square matrix as rows of values, each value followed by a blank. -/
def renderMatrix (sf : FloatFmt → Nat → String) (fmt : FloatFmt) (n : Nat) (m : List Nat) :
    String :=
  cat ((List.range n).map (fun r =>
    "\t\t\t" ++ cat ((List.range n).map (fun c => sf fmt (m.getD (r * n + c) 0) ++ " ")) ++ "\n"))

/-- One sparse entry with its label `i`: the index tuple joined by ", ", then the
value. -/
def renderEntry (sf : FloatFmt → Nat → String) (fmt : FloatFmt) (i : Nat)
    (e : List Nat × Nat) : String :=
  "\t\t\t- " ++ toString i ++ ": [" ++ ", ".intercalate (e.1.map toString) ++ "] = "
    ++ sf fmt e.2 ++ "\n"

/-- The preview of the sparse entries: the first `min (length) NUM_DEMO` entries in
stored order, entry `i` labelled `i`. -/
def renderPreview (sf : FloatFmt → Nat → String) (fmt : FloatFmt)
    (entries : List (List Nat × Nat)) : String :=
  cat (List.zipWith (renderEntry sf fmt) (List.range NUM_DEMO) entries)

/-- The report text of a record: `numDims`, the grid sizes joined by " x ", the
voxel scales, the four matrices, the number of entries, the preview of the
entries, and the closing line. -/
def renderNDSparse (sf : FloatFmt → Nat → String) (fmt : FloatFmt) (r : NDSparseField) :
    String :=
  "\t\t- num. dimensions: " ++ toString r.numDims ++ "\n"
  ++ "\t\t- grid size: " ++ " x ".intercalate (r.gridSize.map toString) ++ "\n"
  ++ "\t\t- voxel scale: " ++ " x ".intercalate (r.voxelScale.map (sf fmt)) ++ "\n"
  ++ "\t\t- world matrix:\n" ++ renderMatrix sf fmt 4 r.world4x4
  ++ "\t\t- inverse world matrix:\n" ++ renderMatrix sf fmt 4 r.invWorld4x4
  ++ "\t\t- world matrix with time:\n" ++ renderMatrix sf fmt 5 r.world5x5
  ++ "\t\t- inverse world matrix with time:\n" ++ renderMatrix sf fmt 5 r.invWorld5x5
  ++ "\t\t- num. non-zero values: " ++ toString r.sparseEntries.length ++ "\n"
  ++ renderPreview sf fmt r.sparseEntries
  ++ "\t\t\t- ...\n"


/-- Text written by `putMatrix`, in terms of the buffer. -/
def matText (sf : FloatFmt → Nat → String) (fmt : FloatFmt) (n : Nat) (buf : List Nat) : String :=
  cat ((List.range' 0 n).map (fun r =>
    "\t\t\t" ++ cat ((List.range' 0 n).map (fun c => sf fmt (elemAt 8 buf (r * n + c)) ++ " "))
      ++ "\n"))


/-- From a call state `st` the code reached `st'` with the stream good at offset
`p'` of `data`, having requested the reads `log` and written the text `text`. -/
def Reaches (data : List Nat) (st st' : Run) (p' : Nat) (log : List Nat) (text : String) : Prop :=
  st'.file = ⟨data, p', true⟩ ∧ st'.reads = st.reads ++ log ∧ st'.res = st.res ++ text ∧
    st'.fmt = st.fmt


/-- Index trace of a row loop over `d` elements of width `w`. -/
def rowIdx (w d : Nat) (buf : List Nat) : List (Nat × Nat) :=
  catL ((List.range' 0 d).map (fun k => [(k, buf.length / w)]))

/-- Index trace of `putMatrix`. -/
def matIdx (n : Nat) (buf : List Nat) : List (Nat × Nat) :=
  catL ((List.range' 0 n).map (fun r =>
    catL ((List.range' 0 n).map (fun c => [(r * n + c, buf.length / 8)]))))


/-! ## Concrete inputs -/

/-- A stand-in for the printing of doubles that shows the bit pattern in decimal,
for evaluating the decoders on concrete files. -/
def bitsF64 : FloatFmt → Nat → String := fun _ x => "#" ++ toString x

/-- The call state right after the stream over `bytes` was opened. -/
def Run.opened (st : Run) (bytes : List Nat) : Run := { st with file := ⟨bytes, 0, true⟩ }

/-- The synthetic ND-sparse-field file of the specification's scenario:
`numDims = 2`, `gridSize = [4, 4]`, `voxelScale = [1.0, 1.0]`, zeroed matrices,
`numNonZero = 2`, entries `([1, 2], 3.5)` and `([0, 0], -1.25)`; 720 bytes. -/
def exampleND : List Nat :=
  [2, 0, 0, 0, 4, 0, 0, 0, 4, 0, 0, 0]
    ++ [0, 0, 0, 0, 0, 0, 240, 63, 0, 0, 0, 0, 0, 0, 240, 63]
    ++ zeros 656
    ++ [2, 0, 0, 0]
    ++ [1, 0, 0, 0, 2, 0, 0, 0, 0, 0, 0, 0, 0, 0, 12, 64]
    ++ [0, 0, 0, 0, 0, 0, 0, 0, 0, 0, 0, 0, 0, 0, 244, 191]


/-- The report of `b` is the report of `a` with text appended. -/
def Extends (a b : Run) : Prop := ∃ t, b.res = a.res ++ t

/-- A file system that holds one file. -/
def oneFile (name : String) (s : FileState) : FileSystem :=
  fun q => if q = name then s else FileState.missing


/-- From `st` the code reached `st'` with the stream good at offset `p'` of `data`,
having requested the reads `log`. -/
def Consumes (data : List Nat) (st st' : Run) (p' : Nat) (log : List Nat) : Prop :=
  st'.file = ⟨data, p', true⟩ ∧ st'.reads = st.reads ++ log

/-- Between `a` and `b` the stream was not touched. -/
def StreamKept (a b : Run) : Prop := b.file = a.file ∧ b.reads = a.reads

/-- A mesh file with three points, three triangles and three temporal positions,
all coordinates, indices and values zero:
`12 + 168 * 3 + 36 * 3 + 96 * 9 = 1488` bytes. -/
def exampleMesh : List Nat :=
  [3, 0, 0, 0] ++ zeros 144 ++ [3, 0, 0, 0] ++ zeros 108 ++ [3, 0, 0, 0] ++ zeros 1224

/-- A mesh file with `numPoints = 0`, `numTriangles = 0` and `numTimes = 5`. -/
def emptyMesh : List Nat := [0, 0, 0, 0, 0, 0, 0, 0, 5, 0, 0, 0]


/-! ## The other decoders of one ND record -/

/-- The member function `read_rotation_direction_map`. -/
def read_rotation_direction_map (sf : FloatFmt → Nat → String) :
    FileSystem → String → Run → Bool × Run :=
  Decoder.rotation_direction_map.run (_read_nd_scalar_image_in_sparse_matrix_style sf)

/-- The member function `read_axial_velocity_map`. -/
def read_axial_velocity_map (sf : FloatFmt → Nat → String) :
    FileSystem → String → Run → Bool × Run :=
  Decoder.axial_velocity_map.run (_read_nd_scalar_image_in_sparse_matrix_style sf)

/-- The member function `read_cos_angle_to_centerline_map`. -/
def read_cos_angle_to_centerline_map (sf : FloatFmt → Nat → String) :
    FileSystem → String → Run → Bool × Run :=
  Decoder.cos_angle_to_centerline_map.run (_read_nd_scalar_image_in_sparse_matrix_style sf)

/-- The member function `read_turbulent_kinetic_energy_map`. -/
def read_turbulent_kinetic_energy_map (sf : FloatFmt → Nat → String) :
    FileSystem → String → Run → Bool × Run :=
  Decoder.turbulent_kinetic_energy_map.run (_read_nd_scalar_image_in_sparse_matrix_style sf)

/-- The member function `read_ivsd`. -/
def read_ivsd (sf : FloatFmt → Nat → String) : FileSystem → String → Run → Bool × Run :=
  Decoder.ivsd.run (_read_nd_scalar_image_in_sparse_matrix_style sf)

/-- The member function `read_magnitude_tmip`. -/
def read_magnitude_tmip (sf : FloatFmt → Nat → String) :
    FileSystem → String → Run → Bool × Run :=
  Decoder.magnitude_tmip.run (_read_nd_scalar_image_in_sparse_matrix_style sf)

/-- The member function `read_static_tissue_mask` (it leaves the closing of the
stream to the destructor). -/
def read_static_tissue_mask (sf : FloatFmt → Nat → String) :
    FileSystem → String → Run → Bool × Run :=
  Decoder.static_tissue_mask.run (_read_nd_scalar_image_in_sparse_matrix_style sf)

/-- The member function `read_segmentation`. -/
def read_segmentation (sf : FloatFmt → Nat → String) : FileSystem → String → Run → Bool × Run :=
  Decoder.segmentation.run (_read_nd_scalar_image_in_sparse_matrix_style sf)

/-- The member function `read_segmentation_in_flowfield_size`. -/
def read_segmentation_in_flowfield_size (sf : FloatFmt → Nat → String) :
    FileSystem → String → Run → Bool × Run :=
  Decoder.segmentation_in_flowfield_size.run (_read_nd_scalar_image_in_sparse_matrix_style sf)

/-! ## `read_vessel_section_segmentation_in_flowfield_size` -/

/-- Source lines 2609-2620: `numSections`, then one ND record per section, each
under its heading. -/
def vessel_sections_body (sf : FloatFmt → Nat → String) (st : Run) : Run :=
  let r := st.read (zeros 4) 4
  let numSections := elemAt 4 r.1 0
  let st := r.2.put ("\t\tnum. sections: " ++ toString numSections ++ "\n")
  forLoop numSections (fun sectionid st =>
    _read_nd_scalar_image_in_sparse_matrix_style sf
      (st.put ("\t\t- section " ++ toString sectionid ++ " of " ++ toString numSections
        ++ ":\n"))) st

/-- The member function `read_vessel_section_segmentation_in_flowfield_size`. -/
def read_vessel_section_segmentation_in_flowfield_size (sf : FloatFmt → Nat → String) :
    FileSystem → String → Run → Bool × Run :=
  Decoder.vessel_section_segmentation_in_flowfield_size.run (vessel_sections_body sf)

/-! ## `read_phase_wrapped_voxels` -/

/-- The text of `_res << static_cast<int>(b)` for a `std::int8_t` with byte `b`. -/
def int8Text (b : Nat) : String :=
  if b % 256 < 128 then toString (b % 256) else "-" ++ toString (256 - b % 256)

/-- One iteration `i` of the loop over the wrapped voxels (source lines 2826-2844):
the grid position is read into a new vector of four `std::uint32_t`, the wrap
factor into a new `std::int8_t`; both are printed for `i < NUM_DEMO` only. -/
def wrappedVoxel (i : Nat) (st : Run) : Run :=
  let r := st.read (zeros 16) 16
  let gridpos := r.1
  let st :=
    if i < NUM_DEMO then
      let st := (r.2.put ("\t\t\t- " ++ toString i ++ ": grid pos [")).putU32At gridpos 0
      let st := (st.put ", ").putU32At gridpos 1
      let st := (st.put ", ").putU32At gridpos 2
      ((st.put ", ").putU32At gridpos 3).put "]"
    else r.2
  let w := st.read (zeros 1) 1
  let wrapFactor := elemAt 1 w.1 0
  if i < NUM_DEMO then w.2.put (" is wrapped " ++ int8Text wrapFactor ++ "x\n") else w.2

/-- Source lines 2817-2846: for each of the three flow images the number of wrapped
voxels, the voxels, and the closing line. -/
def phase_wraps_body (st : Run) : Run :=
  forLoop 3 (fun dimid st =>
    let r := st.read (zeros 4) 4
    let numWrappedVoxels := elemAt 4 r.1 0
    let st := r.2.put ("\t\tnum. wrapped voxels of 3D+T flow image " ++ toString dimid ++ ": "
      ++ toString numWrappedVoxels ++ "\n")
    (forLoop numWrappedVoxels wrappedVoxel st).put "\t\t\t- ...\n") st

/-- The member function `read_phase_wrapped_voxels`. -/
def read_phase_wrapped_voxels : FileSystem → String → Run → Bool × Run :=
  Decoder.phase_wrapped_voxels.run phase_wraps_body

/-! ## `read_venc` -/

/-- The call `file.read(&buf[i], w)` on a vector of `w`-byte elements: element `i`
is the destination. -/
def Run.readElem (st : Run) (w : Nat) (buf : List Nat) (i : Nat) : List Nat × Run :=
  let a := st.index w buf i
  let r := a.2.read (slice buf (w * i) w) w
  (buf.take (w * i) ++ r.1 ++ buf.drop (w * i + w), r.2)

/-- The insertion `_res << buf[i]` for a `std::vector<std::uint16_t>`. -/
def Run.putU16At (st : Run) (buf : List Nat) (i : Nat) : Run :=
  let a := st.index 2 buf i
  a.2.put (toString a.1)

/-- Body of the two read loops of `read_venc` (source lines 3223-3227 and
3246-3250): the image id, then the venc, into element `i` of their vectors. -/
def vencPair (i : Nat) (s : List Nat × List Nat × Run) : List Nat × List Nat × Run :=
  let r := s.2.2.readElem 2 s.1 i
  let v := r.2.readElem 8 s.2.1 i
  (r.1, v.1, v.2)

/-- One of the three lines for the 3D+T flow images (source lines 3229-3231). -/
def putVenc3DT (sf : FloatFmt → Nat → String) (label : String) (ids vencs : List Nat) (i : Nat)
    (st : Run) : Run :=
  ((((st.put ("\t\t\t- " ++ label ++ " image (ID ")).putU16At ids i).put "): ").putF64At sf
    vencs i).put " [m/s]\n"

/-- Source lines 3218-3253 of `read_venc`: everything between the open checks and
`file.close()`. -/
def venc_body (sf : FloatFmt → Nat → String) (st : Run) : Run :=
  let st := st.put "\t\t- VENCs of 3D+T flow images:\n"
  let s := forLoop 3 vencPair (zeros (2 * 3), zeros (8 * 3), st)
  let st := putVenc3DT sf "X (LR)" s.1 s.2.1 0 s.2.2
  let st := putVenc3DT sf "Y (AP)" s.1 s.2.1 1 st
  let st := putVenc3DT sf "Z (FH)" s.1 s.2.1 2 st
  let r := st.read (zeros 1) 1
  let num2DTFlowImages := elemAt 1 r.1 0
  let st := r.2.put ("\t\t- num. 2D+T flow images: " ++ toString num2DTFlowImages ++ "\n")
  let s := forLoop num2DTFlowImages vencPair
    (zeros (2 * num2DTFlowImages), zeros (8 * num2DTFlowImages), st)
  forLoop num2DTFlowImages (fun i st =>
    ((((st.put ("\t\t\t- Image " ++ toString i ++ " (DICOM image ID")).putU16At s.1 i).put
      ") : VENC ").putF64At sf s.2.1 i).put " [m/s]\n") s.2.2

/-- The member function `read_venc`. -/
def read_venc (sf : FloatFmt → Nat → String) : FileSystem → String → Run → Bool × Run :=
  Decoder.venc.run (venc_body sf)

/-! ## `read_all`: the format of the report -/

/-- Source lines 3265-3267 of `read_all`: `_res.str(""); _res << std::fixed;
_res.precision(2);`.  No other statement of the file sets a format flag or the
precision of `_res`, and no other statement resets its content. -/
def read_all_begin (st : Run) : Run :=
  { st with res := "", fmt := { fixed := true, precision := 2 } }


/-! ## `read_centerlines` -/

/-- One iteration `clid` of the loop over the centerlines (source lines 604-663).
The loop carries `dbuffer`, which is declared before it. -/
def centerline (sf : FloatFmt → Nat → String) (clid : Nat) (s : List Nat × Run) :
    List Nat × Run :=
  let r := s.2.read (zeros 4) 4
  let numPoints := elemAt 4 r.1 0
  let st :=
    if clid < NUM_DEMO then
      r.2.put ("\t\t- num. points of centerline " ++ toString clid ++ ": "
        ++ toString numPoints ++ "\n")
    else r.2
  -- points
  let r := st.readF64s (vresize 8 s.1 (numPoints * 3 % U32))
  let st :=
    if clid < NUM_DEMO then
      (forLoop (min NUM_DEMO numPoints) (fun pointid st =>
        let off := pointid * 3 % U32
        putTripleF64 sf "]\n" r.1 off
          (st.put ("\t\t\t- point" ++ toString pointid ++ ": "))) r.2).put "\t\t\t- ...\n"
    else r.2
  -- vessel radius
  let r := st.readF64s (vresize 8 r.1 numPoints)
  let st :=
    if clid < NUM_DEMO then
      (forLoop (min NUM_DEMO numPoints) (fun pointid st =>
        ((st.put ("\t\t\t- point" ++ toString pointid ++ " vessel radius [mm]: ")).putF64At sf
          r.1 pointid).put "\n") r.2).put "\t\t\t- ...\n"
    else r.2
  -- local coordinate system
  let r := st.readF64s (vresize 8 r.1 (numPoints * 9 % U32))
  let st :=
    if clid < NUM_DEMO then
      (forLoop (min NUM_DEMO numPoints) (fun pointid st =>
        let off := pointid * 9 % U32
        let st := st.put ("\t\t\t- LCS at point" ++ toString pointid ++ ": ")
        let st := putTripleF64 sf "], " r.1 ((off + 0) % U32) (st.put "X=")
        let st := putTripleF64 sf "], " r.1 ((off + 3) % U32) (st.put "Y=")
        putTripleF64 sf "]\n" r.1 ((off + 6) % U32) (st.put "Z=")) r.2).put "\t\t\t- ...\n"
    else r.2
  (r.1, st)

/-- Source lines 595-663 of `read_centerlines`: everything between the open checks
and `file.close()`. -/
def centerlines_body (sf : FloatFmt → Nat → String) (st : Run) : Run :=
  let r := st.read (zeros 4) 4
  let numCenterlines := elemAt 4 r.1 0
  let st := r.2.put ("\t- num. centerlines: " ++ toString numCenterlines ++ "\n")
  (forLoop numCenterlines (centerline sf) ([], st)).2

/-- The member function `read_centerlines`. -/
def read_centerlines (sf : FloatFmt → Nat → String) : FileSystem → String → Run → Bool × Run :=
  Decoder.centerlines.run (centerlines_body sf)

/-! ## `read_landmark_measuring_planes`

The lines this decoder writes to `std::cout` (the two counts, the heading of every
plane, the semantic of a landmark) are not part of the report and are left out.
The evaluations `gridsize[0]`, `gridsize[1]`, `gridsize[2]` in buffer sizes, loop
conditions and offsets use constant indices of a vector of three elements and are
not entered into the index trace. -/

/-- The loop `for (unsigned int i = from; i < from + k && cond; ++i) body`, where
`cond` is evaluated on the loop state. -/
def forFromWhile {α : Type} (cond : α → Bool) (body : Nat → α → α) : Nat → Nat → α → α
  | _, 0, s => s
  | i, k + 1, s => if cond s then forFromWhile cond body (i + 1) k (body i s) else s

/-- The loop `for (unsigned int i = 0; i < n && cond; ++i) body`. -/
def forWhile {α : Type} (n : Nat) (cond : α → Bool) (body : Nat → α → α) (s : α) : α :=
  forFromWhile cond body 0 n s

/-- The loop condition `cnt < NUM_DEMO` on a loop state that carries `cnt`. -/
def cntBelowDemo (cs : Nat × Run) : Bool := decide (cs.1 < NUM_DEMO)

/-- The three nested loops of a preview over the grid (source lines 814-825,
850-861 and 869-880): `x`, `y` and `t` run below the grid sizes while
`cnt < NUM_DEMO`; the innermost loop prints by `cell x y t cnt` and increments
`cnt` together with `t`. -/
def gridPreview (g0 g1 g2 : Nat) (cell : Nat → Nat → Nat → Nat → Run → Run) (st : Run) : Run :=
  (forWhile g0 cntBelowDemo (fun x cs =>
    forWhile g1 cntBelowDemo (fun y cs =>
      forWhile g2 cntBelowDemo (fun t cs => (cs.1 + 1, cell x y t cs.1 cs.2)) cs) cs) (0, st)).2

/-- The two nested loops of the preview of the segmentation (source lines 834-842):
`cnt` is set to 0 before them and not incremented in them; the offset is
`x * gridsize[1] * +y`; the element is a `std::uint8_t`, which `operator<<` writes
as the character with that code. -/
def segPreview (g0 g1 : Nat) (ui8buffer : List Nat) (st : Run) : Run :=
  (forWhile g0 cntBelowDemo (fun x cs =>
    forWhile g1 cntBelowDemo (fun y cs =>
      let off := x * g1 * y % U32
      let a := (cs.2.put ("\t\t\t- seg value " ++ toString cs.1 ++ ": ")).index 1 ui8buffer off
      (cs.1, (a.2.put (String.singleton (Char.ofNat a.1))).put "\n")) cs) (0, st)).2

/-- A read into the three doubles of `dbuffer`, printed after `label` as
`[d0, d1, d2]` (source lines 781-799). -/
def readVec3 (sf : FloatFmt → Nat → String) (label : String) (s : List Nat × Run) :
    List Nat × Run :=
  let r := s.2.readF64s s.1
  (r.1, putTripleF64 sf "]\n" r.1 0 (r.2.put ("\t\t\t- " ++ label ++ ": ")))

/-- Source lines 757-805 of `readMeasuringPlane`: vessel id, grid size, voxel scale,
center, local coordinate system and vessel diameter.  `dtemp` is the variable of
the enclosing function that all measuring planes share.  Returns `gridsize`,
`dbuffer` and `dtemp` as well. -/
def plane_header (sf : FloatFmt → Nat → String) (dtemp : List Nat) (st : Run) :
    List Nat × List Nat × List Nat × Run :=
  -- vessel id
  let r := st.read (zeros 1) 1
  let st := r.2.put ("\t\t\t- vessel id: " ++ toString (elemAt 1 r.1 0) ++ "\n")
  -- grid size
  let r := st.read (zeros (4 * 3)) (3 * 4)
  let gridsize := r.1
  let st := ((r.2.put "\t\t\t- grid size: [").putU32At gridsize 0).put ", "
  let st := (((st.putU32At gridsize 1).put ", ").putU32At gridsize 2).put "]\n"
  -- voxel scale
  let r := st.readF64s (zeros (8 * 3))
  let st := ((r.2.put "\t\t\t- voxel scale: ").putF64At sf r.1 0).put " x "
  let st := (((st.putF64At sf r.1 1).put " [mm] / ").putF64At sf r.1 2).put " [ms]\n"
  -- center and local coordinate system
  let s := readVec3 sf "center" (r.1, st)
  let s := readVec3 sf "LCS X" s
  let s := readVec3 sf "LCS Y" s
  let s := readVec3 sf "LCS Z" s
  -- vessel diameter
  let d := s.2.read dtemp 8
  (gridsize, s.1, d.1,
    ((d.2.put "\t\t\t- vessel diameter: ").putF64 sf (elemAt 8 d.1 0)).put "\n")

/-- Source lines 811-880: the flow vectors, the segmentation, the axial and the
circumferential velocity per grid point, each with its preview. -/
def plane_fields (sf : FloatFmt → Nat → String) (g0 g1 g2 : Nat) (dbuffer : List Nat)
    (st : Run) : List Nat × Run :=
  -- velocity vector per grid point
  let r := st.readF64s (vresize 8 dbuffer (g0 * g1 * g2 * 3 % U32))
  let st := gridPreview g0 g1 g2 (fun x y t cnt st =>
    let off := (x * g1 * g2 * 3 + y * g2 * 3 + t * 3) % U32
    putTripleF64 sf "]\n" r.1 off (st.put ("\t\t\t- flow vector " ++ toString cnt ++ ": "))) r.2
  -- segmentation
  let ui8buffer := zeros (g0 * g1 % U32)
  let m := st.read ui8buffer ui8buffer.length
  let st := segPreview g0 g1 m.1 m.2
  -- axial velocity per grid point
  let r := st.readF64s (vresize 8 r.1 (g0 * g1 * g2 % U32))
  let st := gridPreview g0 g1 g2 (fun x y t cnt st =>
    let off := (x * g1 * g2 + y * g2 + t) % U32
    ((st.put ("\t\t\t- axial velocity " ++ toString cnt ++ ": ")).putF64At sf r.1 off).put
      "\n") r.2
  -- circumferential velocity per grid point
  let r := st.readF64s (vresize 8 r.1 (g0 * g1 * g2 % U32))
  let st := gridPreview g0 g1 g2 (fun x y t cnt st =>
    let off := (x * g1 * g2 + y * g2 + t) % U32
    ((st.put ("\t\t\t- circumferential velocity " ++ toString cnt ++ ": ")).putF64At sf r.1
      off).put "\n") r.2
  (r.1, st)

/-- A statistic read into `dtemp` and reported by its name alone:
`file.read(&dtemp, sizeof(double)); _res << "\t\t\t- name" << std::endl;`. -/
def readStat (s : List Nat × Run) (label : String) : List Nat × Run :=
  let r := s.2.read s.1 8
  (r.1, r.2.put ("\t\t\t- " ++ label ++ "\n"))

/-- A statistic per time read into `dbuffer` and reported by its name alone. -/
def readSeries (s : List Nat × Run) (label : String) : List Nat × Run :=
  let r := s.2.readF64s s.1
  (r.1, r.2.put ("\t\t\t- " ++ label ++ "\n"))

/-- The names of the statistics of source lines 885-949, in the order read. -/
def statNames : List String :=
  ["min flow rate per time", "max flow rate per time", "mean flow rate per time",
    "median flow rate per time", "forward flow volume", "backward flow volume",
    "net flow volume", "percentaged back flow volume", "cardiac output",
    "max velocity", "min velocity", "mean velocity", "median velocity",
    "min velocity axial", "max velocity axial", "mean velocity axial", "median velocity axial",
    "min velocity circumferential", "max velocity circumferential",
    "mean velocity circumferential", "median velocity circumferential", "area mm2"]

/-- The names of the statistics per time of source lines 951-975. -/
def seriesNames : List String :=
  ["flow rate per time", "areal mean velocity per time", "areal mean velocity axial per time",
    "areal mean velocity circumferential per time", "flow jet angle per time",
    "flow jet displacement per time", "flow jet high velocity area percent per time"]

/-- The names of the flow jet statistics of source lines 977-1029. -/
def jetStatNames : List String :=
  ["max flow jet angle per time", "min flow jet angle per time",
    "mean flow jet angle per time", "median flow jet angle per time",
    "flow jet angle at fastest time", "mean flow jet angle velocity weighted",
    "min flow jet displacement per time", "max flow jet displacement per time",
    "mean flow jet displacement per time", "median flow jet displacement per time",
    "flow jet displacement at fastest time", "mean flow jet displacement velocity weighted",
    "min flow jet high velocity area percent per time",
    "max flow jet high velocity area percent per time",
    "mean flow jet high velocity area percent per time",
    "median flow jet high velocity area percent per time",
    "flow jet high velocity at fastest time", "mean flow jet high velocity velocity weighted"]

/-- Source lines 885-1042: the statistics, the statistics per time, the flow jet
statistics, and the flow jet position per time with its preview. -/
def plane_stats (sf : FloatFmt → Nat → String) (g2 : Nat) (dbuffer dtemp : List Nat)
    (st : Run) : List Nat × List Nat × Run :=
  let d := statNames.foldl readStat (dtemp, st)
  let b := seriesNames.foldl readSeries (vresize 8 dbuffer g2, d.2)
  let d := jetStatNames.foldl readStat (d.1, b.2)
  let r := d.2.readF64s (vresize 8 b.1 (g2 * 3 % U32))
  let st := forLoop g2 (fun t st =>
    if t < NUM_DEMO then
      let off := t * 3 % U32
      putTripleF64 sf "]\n" r.1 off
        (st.put ("\t\t\t- flow jet position per time " ++ toString t ++ ": "))
    else st) r.2
  (r.1, d.1, st.put "\t\t\t- ...\n")

/-- One array of samples (source lines 1058-1103): the read, the name, the first
`NUM_DEMO` elements of `dbuffer`, and the closing text. -/
def readSamples (sf : FloatFmt → Nat → String) (s : List Nat × Run) (label : String) :
    List Nat × Run :=
  let r := s.2.readF64s s.1
  let st := r.2.put ("\t\t\t- samples " ++ label ++ ": ")
  let st := forLoop NUM_DEMO (fun i st => (st.putF64At sf r.1 i).put ", ") st
  (r.1, st.put "...\n")

/-- The names of the sample arrays, in the order read. -/
def sampleNames : List String :=
  ["net flow volume", "forward flow volume", "backward flow volume",
    "percentaged backward flow volume", "cardiac output"]

/-- Source lines 1050-1103: `numSamples` and the five arrays of samples. -/
def plane_samples (sf : FloatFmt → Nat → String) (dbuffer : List Nat) (st : Run) : Run :=
  let r := st.read (zeros 4) 4
  let numSamples := elemAt 4 r.1 0
  (sampleNames.foldl (readSamples sf) (vresize 8 dbuffer numSamples, r.2)).2

/-- The lambda `readMeasuringPlane` of `read_landmark_measuring_planes` (source
lines 752-1104).  It takes and returns the captured variable `dtemp`. -/
def readMeasuringPlane (sf : FloatFmt → Nat → String) (dtemp : List Nat) (st : Run) :
    List Nat × Run :=
  let h := plane_header sf dtemp st
  let g0 := elemAt 4 h.1 0
  let g1 := elemAt 4 h.1 1
  let g2 := elemAt 4 h.1 2
  let f := plane_fields sf g0 g1 g2 h.2.1 h.2.2.2
  let s := plane_stats sf g2 f.1 h.2.2.1 f.2
  (s.2.1, plane_samples sf s.1 s.2.2)

/-- Source lines 1124-1169 of `read_landmark_measuring_planes`: the two counts, the
measuring planes, and the measuring planes of landmarks, each after its
semantic. -/
def landmark_body (sf : FloatFmt → Nat → String) (st : Run) : Run :=
  let r := st.read (zeros 4) 4
  let numMeasuringPlanes := elemAt 4 r.1 0
  let r := r.2.read (zeros 4) 4
  let numMeasuringPlanesOfLandMarks := elemAt 4 r.1 0
  let s := forLoop numMeasuringPlanes (fun _ s => readMeasuringPlane sf s.1 s.2) (zeros 8, r.2)
  (forLoop numMeasuringPlanesOfLandMarks (fun _ s =>
    let q := s.2.read (zeros 4) 4
    readMeasuringPlane sf s.1 q.2) s).2

/-- The member function `read_landmark_measuring_planes`. -/
def read_landmark_measuring_planes (sf : FloatFmt → Nat → String) :
    FileSystem → String → Run → Bool × Run :=
  Decoder.landmark_measuring_planes.run (landmark_body sf)


/-! ## Relations used by the theorems on all decoders -/

/-- Between `a` and `b` the stream kept its content and its position did not move
back, it stayed within the content if it was within it, and the format flags of the
report were kept. -/
def Fwd (a b : Run) : Prop :=
  b.fmt = a.fmt ∧ b.file.data = a.file.data ∧ a.file.pos ≤ b.file.pos ∧
    (a.file.pos ≤ a.file.data.length → b.file.pos ≤ b.file.data.length)

/-- The state `st` with a text put in front of its report, and read counts and
index evaluations put in front of its traces. -/
def Run.rebase (st : Run) (r : String) (l : List Nat) (ix : List (Nat × Nat)) : Run :=
  { st with res := r ++ st.res, reads := l ++ st.reads, idx := ix ++ st.idx }

/-- The state a decoder body starts from when only the stream and the format flags
are given: empty report, empty traces. -/
def Run.start (bytes : List Nat) (fmt : FloatFmt) : Run :=
  { file := ⟨bytes, 0, true⟩, res := "", fmt := fmt, reads := [], idx := [] }

/-- What a decoder body does depends on the report and the traces it finds only in
that it appends to them. -/
def Appending (body : Run → Run) : Prop :=
  ∀ (st : Run) (r : String) (l : List Nat) (ix : List (Nat × Nat)),
    body (st.rebase r l ix) = (body st).rebase r l ix


/-- The text one call of a decoder with reads `body` appends to the report, from
what the file system holds at the path and the format flags of the report. -/
def Decoder.segment (d : Decoder) (body : Run → Run) (fs : FileSystem) (filepath : String)
    (fmt : FloatFmt) : String :=
  match fs filepath with
  | .missing => d.absentNote ++ filepath ++ "\")\n"
  | .unopenable => d.readingNote ++ filepath ++ "\")\n" ++ "\t\tFAILED! Could not open file!\n"
  | .present bytes => d.readingNote ++ filepath ++ "\")\n" ++ (body (Run.start bytes fmt)).res

/-- The ten decoders of a file that holds one ND record, each with its name in the
frame. -/
def ndDecoders (sf : FloatFmt → Nat → String) :
    List (Decoder × (FileSystem → String → Run → Bool × Run)) :=
  [(Decoder.pressure_map, read_pressure_map sf),
    (Decoder.rotation_direction_map, read_rotation_direction_map sf),
    (Decoder.axial_velocity_map, read_axial_velocity_map sf),
    (Decoder.cos_angle_to_centerline_map, read_cos_angle_to_centerline_map sf),
    (Decoder.turbulent_kinetic_energy_map, read_turbulent_kinetic_energy_map sf),
    (Decoder.ivsd, read_ivsd sf),
    (Decoder.magnitude_tmip, read_magnitude_tmip sf),
    (Decoder.static_tissue_mask, read_static_tissue_mask sf),
    (Decoder.segmentation, read_segmentation sf),
    (Decoder.segmentation_in_flowfield_size, read_segmentation_in_flowfield_size sf)]


/-- From `st` the code reached `st'` on a stream without content, having written
the text `text`. -/
def Spent (st st' : Run) (text : String) : Prop :=
  st'.file.data = [] ∧ st'.res = st.res ++ text ∧ st'.fmt = st.fmt

/-- A pressure-map file that ends right after its first matrix: `numDims = 0`, then
a world matrix whose first entry is 1.0 and whose other entries are 0; 132 bytes. -/
def staleND : List Nat := [0, 0, 0, 0] ++ [0, 0, 0, 0, 0, 0, 240, 63] ++ zeros 120


/-- Byte offset at which record `i` of a run of ND records starts, when the first
one starts at `q`: each record starts where the one before it ends. -/
def ndRecordStart (data : List Nat) (q : Nat) : Nat → Nat
  | 0 => q
  | i + 1 => ndRecordStart data q i + ndSparseSize data (ndRecordStart data q i)

/-- The byte counts the ND decoder requests for the complete record at offset
`p`. -/
def ndReadLog (data : List Nat) (p : Nat) : List Nat :=
  [4, u32At data p * 4, u32At data p * 8, 128, 128, 200, 200, 4] ++
    catL (List.replicate (u32At data (p + 660 + 12 * u32At data p)) [u32At data p * 4, 8])

/-- A vessel-section file with two sections, each the synthetic record `exampleND`:
`4 + 720 + 720 = 1444` bytes. -/
def exampleSections : List Nat := [2, 0, 0, 0] ++ exampleND ++ exampleND


/-- The `std::uint8_t` stored at byte offset `p` of a file. -/
def u8At (data : List Nat) (p : Nat) : Nat := leNat (slice data p 1)

/-- The pair number `i` of a run of (image id, venc) pairs that starts at byte
offset `q`: a `std::uint16_t` and a double, 10 bytes, no padding. -/
def vencPairAt (data : List Nat) (q i : Nat) : Nat × Nat :=
  (u16At data (q + 10 * i), f64At data (q + 10 * i + 2))

/-- The report text of a complete venc record at offset `p`, under the format flags
`fmt`: the three pairs of the 3D+T flow images, the number of 2D+T flow images, and
their pairs. -/
def vencText (sf : FloatFmt → Nat → String) (fmt : FloatFmt) (data : List Nat) (p : Nat) :
    String :=
  "\t\t- VENCs of 3D+T flow images:\n"
  ++ "\t\t\t- X (LR) image (ID " ++ toString (vencPairAt data p 0).1 ++ "): "
  ++ sf fmt (vencPairAt data p 0).2 ++ " [m/s]\n"
  ++ "\t\t\t- Y (AP) image (ID " ++ toString (vencPairAt data p 1).1 ++ "): "
  ++ sf fmt (vencPairAt data p 1).2 ++ " [m/s]\n"
  ++ "\t\t\t- Z (FH) image (ID " ++ toString (vencPairAt data p 2).1 ++ "): "
  ++ sf fmt (vencPairAt data p 2).2 ++ " [m/s]\n"
  ++ "\t\t- num. 2D+T flow images: " ++ toString (u8At data (p + 30)) ++ "\n"
  ++ cat ((List.range (u8At data (p + 30))).map (fun i =>
      "\t\t\t- Image " ++ toString i ++ " (DICOM image ID"
        ++ toString (vencPairAt data (p + 31) i).1 ++ ") : VENC "
        ++ sf fmt (vencPairAt data (p + 31) i).2 ++ " [m/s]\n"))

/-- A stand-in for the printing of doubles that shows the format flags in force
next to the bit pattern. -/
def flagsF64 : FloatFmt → Nat → String := fun fmt x =>
  (if fmt.fixed then "fixed/" else "default/") ++ toString fmt.precision ++ "#" ++ toString x

/-- A venc file: image ids 1, 2, 3 with venc 1.5 each (bit pattern
4609434218613702656), and no 2D+T flow image; 31 bytes. -/
def exampleVenc : List Nat :=
  [1, 0, 0, 0, 0, 0, 0, 0, 248, 63] ++ [2, 0, 0, 0, 0, 0, 0, 0, 248, 63]
    ++ [3, 0, 0, 0, 0, 0, 0, 0, 248, 63] ++ [0]


/-- The byte counts `readMeasuringPlane` requests for a complete record with grid
size `[gx, gy, gt]` and `S` samples, in the order of the reads: vessel id, grid
size, voxel scale, center, three axes, diameter, flow vectors, segmentation, axial
and circumferential velocity, 22 statistics, 7 statistics per time, 18 flow jet
statistics, flow jet positions, `numSamples`, and five arrays of samples. -/
def planeReadLog (gx gy gt S : Nat) : List Nat :=
  [1, 12, 24, 24, 24, 24, 24, 8]
    ++ [24 * (gx * gy * gt), gx * gy, 8 * (gx * gy * gt), 8 * (gx * gy * gt)]
    ++ List.replicate 22 8 ++ List.replicate 7 (8 * gt) ++ List.replicate 18 8
    ++ [24 * gt, 4] ++ List.replicate 5 (8 * S)

/-- A measuring-plane record with vessel id 7, grid size `[2, 2, 1]`, the
segmentation bytes 65, 66, 67, 68 (the characters A, B, C, D), three samples, and
zero everywhere else: `465 + 40 * 4 + 4 + 80 + 40 * 3 = 829` bytes. -/
def examplePlane : List Nat :=
  [7] ++ [2, 0, 0, 0, 2, 0, 0, 0, 1, 0, 0, 0] ++ zeros 128 ++ zeros 96 ++ [65, 66, 67, 68]
    ++ zeros 64 ++ zeros 400 ++ [3, 0, 0, 0] ++ zeros 120

/-- A landmark file with the one measuring plane `examplePlane` and no measuring
plane of a landmark: 837 bytes. -/
def exampleLandmarks : List Nat := [1, 0, 0, 0] ++ [0, 0, 0, 0] ++ examplePlane


/-- The text the preview of the segmentation writes for grid sizes `g0`, `g1` and
the mask `buf`, in closed form: one line for every pair `(x, y)`, each with the
label 0 and the element at offset `x * g1 * y`. -/
def segText (g0 g1 : Nat) (buf : List Nat) : String :=
  cat ((List.range' 0 g0).map (fun x => cat ((List.range' 0 g1).map (fun y =>
    "\t\t\t- seg value " ++ toString 0 ++ ": "
      ++ String.singleton (Char.ofNat (elemAt 1 buf (x * g1 * y % U32))) ++ "\n"))))

/-- The offsets the preview of the segmentation evaluates, with the length of the
mask, in closed form. -/
def segIdx (g0 g1 : Nat) (buf : List Nat) : List (Nat × Nat) :=
  catL ((List.range' 0 g0).map (fun x => catL ((List.range' 0 g1).map (fun y =>
    [(x * g1 * y % U32, buf.length / 1)]))))


/-- A venc file with two 2D+T flow images: image ids 1, 2, 3 with venc 1.5 each,
the count 2, then the pairs (4, 2.0) and (5, 3.0); 51 bytes. -/
def exampleVencTwo : List Nat :=
  [1, 0, 0, 0, 0, 0, 0, 0, 248, 63] ++ [2, 0, 0, 0, 0, 0, 0, 0, 248, 63]
    ++ [3, 0, 0, 0, 0, 0, 0, 0, 248, 63] ++ [2]
    ++ [4, 0, 0, 0, 0, 0, 0, 0, 0, 64] ++ [5, 0, 0, 0, 0, 0, 0, 0, 8, 64]


/-- The offsets the preview of a temporal vector field evaluates, with the number
`len` of doubles of the array, in closed form: for `pointid` and `timeid` below 3
the three elements from `pointid * numTimes + timeid * 3` on. -/
def wssVectorIdx (numTimes len : Nat) : List (Nat × Nat) :=
  catL ((List.range' 0 3).map (fun pointid => catL ((List.range' 0 3).map (fun timeid =>
    [((pointid * numTimes + timeid * 3) % U32, len),
      (((pointid * numTimes + timeid * 3) % U32 + 1) % U32, len),
      (((pointid * numTimes + timeid * 3) % U32 + 2) % U32, len)]))))

/-- The doubles with the bit patterns `0, 1, .., n - 1`, as bytes. -/
def countingDoubles (n : Nat) : List Nat :=
  catL ((List.range n).map (fun k => [k, 0, 0, 0, 0, 0, 0, 0]))

/-- The mesh file `exampleMesh` (three points, three triangles, three temporal
positions) in which double number `k` of the first temporal vector field, the 27
doubles from byte 480 on, has the bit pattern `k`. -/
def exampleMeshWss : List Nat :=
  [3, 0, 0, 0] ++ zeros 144 ++ [3, 0, 0, 0] ++ zeros 108 ++ [3, 0, 0, 0] ++ zeros 216
    ++ countingDoubles 27 ++ zeros 792


/-- A measuring-plane record with vessel id 7, grid size `[2, 3, 1]`, the
segmentation bytes 65 to 70 (the characters A to F), no samples, and zero
everywhere else: `465 + 40 * 6 + 6 + 80 + 0 = 791` bytes. -/
def examplePlaneWide : List Nat :=
  [7] ++ [2, 0, 0, 0, 3, 0, 0, 0, 1, 0, 0, 0] ++ zeros 128 ++ zeros 144
    ++ [65, 66, 67, 68, 69, 70] ++ zeros 96 ++ zeros 400 ++ [0, 0, 0, 0]

/-- A landmark file with the one measuring plane `examplePlaneWide` and no measuring
plane of a landmark: 799 bytes. -/
def exampleLandmarksWide : List Nat := [1, 0, 0, 0] ++ [0, 0, 0, 0] ++ examplePlaneWide


/-! ## `read_velocity_offset_correction_3dt` -/

/-- The loop over `z < NUM_DEMO` that prints three elements of the vector
`planeCoeffs` from `off = 3 * z` on (source lines 2897-2901). -/
def planeCoeffsPreview (sf : FloatFmt → Nat → String) (planeCoeffs : List Nat) (st : Run) : Run :=
  forLoop NUM_DEMO (fun z st =>
    let off := 3 * z % U32
    let st := (st.put ("\t\t\t- plane coeffs of slice " ++ toString z ++ ": ")).putF64At sf
      planeCoeffs off
    let st := (st.put ", ").putF64At sf planeCoeffs ((off + 1) % U32)
    ((st.put ", ").putF64At sf planeCoeffs ((off + 2) % U32)).put "\n") st

/-- One iteration `v` of the loop over the three flow images (source lines
2885-2903): `numSlices`, the read of `numSlices * 3` doubles into the new vector
`buf`, then the preview, which prints from `planeCoeffs`, and the closing line. -/
def velocity_offset_image (sf : FloatFmt → Nat → String) (planeCoeffs : List Nat) (v : Nat)
    (st : Run) : Run :=
  let r := st.read (zeros 4) 4
  let numSlices := elemAt 4 r.1 0
  let st := r.2.put ("\t\t\t- num. slices in flow image " ++ toString v ++ ": "
    ++ toString numSlices ++ "\n")
  let r := st.readF64s (zeros (8 * (numSlices * 3 % U32)))
  (planeCoeffsPreview sf planeCoeffs r.2).put "\t\t\t- ...\n"

/-- Source lines 2872-2903 of `read_velocity_offset_correction_3dt`: everything
between the open checks and `file.close()`.  `planeCoeffs` is constructed with
three zero elements and is not written to. -/
def velocity_offset_body (sf : FloatFmt → Nat → String) (st : Run) : Run :=
  let r := st.read (zeros 4) 4
  let end_diastolic_time_id := elemAt 4 r.1 0
  let st := r.2.put ("\t\t- end diastolic time point id: " ++ toString end_diastolic_time_id
    ++ "\n")
  let r := st.read (zeros 8) 8
  let ivsd_static_tissue_threshold := elemAt 8 r.1 0
  let st := ((r.2.put "\t\t- ivsd static tissue threshold: ").putF64 sf
    ivsd_static_tissue_threshold).put "\n"
  let planeCoeffs := zeros (8 * 3)
  forLoop 3 (velocity_offset_image sf planeCoeffs) st

/-- The member function `read_velocity_offset_correction_3dt`. -/
def read_velocity_offset_correction_3dt (sf : FloatFmt → Nat → String) :
    FileSystem → String → Run → Bool × Run :=
  Decoder.velocity_offset_correction_3dt.run (velocity_offset_body sf)

/-- A velocity-offset file: end diastolic time point 5, threshold 1.5, and for each
of the three flow images 3 slices whose 9 plane coefficients are the doubles with
the bit patterns 1 to 9; `12 + 3 * (4 + 72) = 240` bytes. -/
def exampleOffsets : List Nat :=
  [5, 0, 0, 0] ++ [0, 0, 0, 0, 0, 0, 248, 63]
    ++ [3, 0, 0, 0] ++ (countingDoubles 10).drop 8
    ++ [3, 0, 0, 0] ++ (countingDoubles 10).drop 8
    ++ [3, 0, 0, 0] ++ (countingDoubles 10).drop 8


/-! ## `read_cardiac_cycle_definition` -/

/-- One iteration `vid` of the loop over the vessels (source lines 3169-3177): the
heading, the elements `off + t` of `dbuffer` for `t < NUM_DEMO` with
`off = vid * numTimes`, and the closing text. -/
def cycleVessel (sf : FloatFmt → Nat → String) (numTimes : Nat) (dbuffer : List Nat) (vid : Nat)
    (st : Run) : Run :=
  let off := vid * numTimes % U32
  let st := st.put ("\t\t- mean axial velocity [m/s] per time in vessel " ++ toString vid
    ++ ": ")
  let st := forLoop NUM_DEMO (fun t st => (st.putF64At sf dbuffer ((off + t) % U32)).put ", ") st
  st.put "...\n"

/-- Source lines 3123-3177 of `read_cardiac_cycle_definition`: everything between
the open checks and `file.close()`. -/
def cardiac_cycle_body (sf : FloatFmt → Nat → String) (st : Run) : Run :=
  let r := st.read (zeros 4) 4
  let numTimes := elemAt 4 r.1 0
  let st := r.2.put ("\t\t- num. times: " ++ toString numTimes ++ "\n")
  let r := st.read (zeros 4) 4
  let idSystoleBegin := elemAt 4 r.1 0
  let r := r.2.read (zeros 8) 8
  let msSystoleBegin := elemAt 8 r.1 0
  let st := (((r.2.put "\t\t- systole begin (= diastole end): ").putF64 sf msSystoleBegin).put
    (" [ms] (time point id " ++ toString idSystoleBegin ++ ")\n"))
  let r := st.read (zeros 4) 4
  let idSystoleEnd := elemAt 4 r.1 0
  let r := r.2.read (zeros 8) 8
  let msSystoleEnd := elemAt 8 r.1 0
  let st := (((r.2.put "\t\t- systole end (= diastole begin): ").putF64 sf msSystoleEnd).put
    (" [ms] (time point id " ++ toString idSystoleEnd ++ ")\n"))
  let r := st.read (zeros 4) 4
  let numVessels := elemAt 4 r.1 0
  let st := r.2.put ("\t\t- num. vessels: " ++ toString numVessels ++ "\n")
  let r := st.readF64s (zeros (8 * (numVessels * numTimes % U32)))
  forLoop numVessels (cycleVessel sf numTimes r.1) r.2

/-- The member function `read_cardiac_cycle_definition`. -/
def read_cardiac_cycle_definition (sf : FloatFmt → Nat → String) :
    FileSystem → String → Run → Bool × Run :=
  Decoder.cardiac_cycle_definition.run (cardiac_cycle_body sf)

/-- The indices the preview of the axial velocities evaluates for `V` vessels and
`N` times on an array of `len` doubles, in closed form: for every vessel `v` the
three indices `v * N + t`, `t < 3`, in unsigned arithmetic. -/
def cycleIdx (N V len : Nat) : List (Nat × Nat) :=
  catL ((List.range' 0 V).map (fun v =>
    [((v * N % U32 + 0) % U32, len), ((v * N % U32 + 1) % U32, len),
      ((v * N % U32 + 2) % U32, len)]))

/-- A cardiac-cycle file with `numTimes = 1` and `numVessels = 2`: systole from
time point 0 (0 ms) to time point 0 (0 ms), and the axial velocities with the bit
patterns 0 and 1; `32 + 8 * 2 = 48` bytes. -/
def exampleCycle : List Nat :=
  [1, 0, 0, 0] ++ zeros 12 ++ zeros 12 ++ [2, 0, 0, 0] ++ countingDoubles 2


/-! ## `read_flowfield` -/

/-- Source lines 1356-1475 of `read_flowfield`: the grid size, the voxel scale, the
six matrices, and the read of the flow vectors into `dbuffer`, resized to
`gridsize[0] * gridsize[1] * gridsize[2] * gridsize[3] * 3` elements in unsigned
arithmetic.  Returns `gridsize` and `dbuffer` as well. -/
def flowfield_header (sf : FloatFmt → Nat → String) (st : Run) : List Nat × List Nat × Run :=
  -- grid size x y z t
  let r := st.read (zeros (4 * 4)) (4 * 4)
  let gridsize := r.1
  let st := ((r.2.put "\t\t- grid size: ").putU32At gridsize 0).put " x "
  let st := (st.putU32At gridsize 1).put " x "
  let st := (st.putU32At gridsize 2).put " x "
  let st := (st.putU32At gridsize 3).put "\n"
  -- voxel scale x y z t
  let r := st.readF64s (zeros (8 * 4))
  let st := ((r.2.put "\t\t- voxel scale: ").putF64At sf r.1 0).put " x "
  let st := (st.putF64At sf r.1 1).put " x "
  let st := (st.putF64At sf r.1 2).put " mm / "
  let st := (st.putF64At sf r.1 3).put " ms\n"
  -- world matrix and its inverse
  let r := st.readF64s (vresize 8 r.1 16)
  let st := putMatrix sf 4 r.1 (r.2.put "\t\t- world matrix:\n")
  let r := st.readF64s r.1
  let st := putMatrix sf 4 r.1 (r.2.put "\t\t- inverse world matrix:\n")
  -- world matrix with time and its inverse
  let r := st.readF64s (vresize 8 r.1 25)
  let st := putMatrix sf 5 r.1 (r.2.put "\t\t- world matrix with time:\n")
  let r := st.readF64s r.1
  let st := putMatrix sf 5 r.1 (r.2.put "\t\t- inverse world matrix with time:\n")
  -- rotational part of the world matrix and its inverse
  let r := st.readF64s (vresize 8 r.1 9)
  let st := putMatrix sf 3 r.1 (r.2.put "\t\t- rotational part of world matrix:\n")
  let r := st.readF64s r.1
  let st := putMatrix sf 3 r.1 (r.2.put "\t\t- inverse rotational part of world matrix:\n")
  -- flow vectors
  let r := st.readF64s (vresize 8 r.1
    (elemAt 4 gridsize 0 * elemAt 4 gridsize 1 * elemAt 4 gridsize 2 * elemAt 4 gridsize 3 * 3
      % U32))
  (gridsize, r.1, r.2)

/-- The loop condition `cntDemo < NUM_DEMO` on a loop state that carries `cnt` and
`cntDemo`. -/
def cntDemoBelow (s : Nat × Nat × Run) : Bool := decide (s.2.1 < NUM_DEMO)

/-- Body of the innermost loop of the preview of the flow vectors (source lines
1487-1488), with the increment `++cntDemo` of the loop header: the offset of the
grid position, the line labelled `cnt`, and `cnt++`. -/
def flowVector (sf : FloatFmt → Nat → String) (g1 g2 g3 : Nat) (dbuffer : List Nat)
    (x y z t : Nat) (s : Nat × Nat × Run) : Nat × Nat × Run :=
  let off := (x * g1 * g2 * g3 * 3 + y * g2 * g3 * 3 + z * g3 * 3 + t * 3) % U32
  let st := s.2.2.put ("\t\t- flow vector" ++ toString s.1 ++ " [m/s]: ")
  (s.1 + 1, s.2.1 + 1, putTripleF64 sf "]\n" dbuffer off st)

/-- The four nested loops of the preview of the flow vectors (source lines
1477-1492): `x`, `y`, `z` and `t` run below the grid sizes while
`cntDemo < NUM_DEMO`. -/
def flowPreview (sf : FloatFmt → Nat → String) (g0 g1 g2 g3 : Nat) (dbuffer : List Nat)
    (st : Run) : Run :=
  (forWhile g0 cntDemoBelow (fun x s =>
    forWhile g1 cntDemoBelow (fun y s =>
      forWhile g2 cntDemoBelow (fun z s =>
        forWhile g3 cntDemoBelow (fun t s => flowVector sf g1 g2 g3 dbuffer x y z t s) s) s) s)
    (0, 0, st)).2.2

/-- Source lines 1356-1493 of `read_flowfield`: everything between the open checks
and `file.close()`. -/
def flowfield_body (sf : FloatFmt → Nat → String) (st : Run) : Run :=
  let h := flowfield_header sf st
  (flowPreview sf (elemAt 4 h.1 0) (elemAt 4 h.1 1) (elemAt 4 h.1 2) (elemAt 4 h.1 3) h.2.1
    h.2.2).put "\t\t- ...\n"

/-- The member function `read_flowfield`. -/
def read_flowfield (sf : FloatFmt → Nat → String) : FileSystem → String → Run → Bool × Run :=
  Decoder.flowfield.run (flowfield_body sf)

/-- The line of vector `k` of an array of doubles: labelled `k`, the triple at the
flat positions `3 * k`, `3 * k + 1`, `3 * k + 2`. -/
def flowLine (sf : FloatFmt → Nat → String) (buf : List Nat) (fmt : FloatFmt) (k : Nat) : String :=
  "\t\t- flow vector" ++ toString k ++ " [m/s]: " ++ "[" ++ sf fmt (elemAt 8 buf (3 * k))
    ++ ", " ++ sf fmt (elemAt 8 buf (3 * k + 1)) ++ ", " ++ sf fmt (elemAt 8 buf (3 * k + 2))
    ++ "]\n"

/-- The index evaluations of vector `k` on an array of `len` doubles. -/
def flowAccess (len k : Nat) : List (Nat × Nat) :=
  [(3 * k, len), (3 * k + 1, len), (3 * k + 2, len)]

/-- The lines of the leading `m` vectors of an array of doubles, in stored order. -/
def flowText (sf : FloatFmt → Nat → String) (fmt : FloatFmt) (buf : List Nat) (m : Nat) : String :=
  cat ((List.range' 0 m).map (flowLine sf buf fmt))

/-- The index evaluations of the leading `m` vectors on an array of `len` doubles. -/
def flowIdx (len m : Nat) : List (Nat × Nat) :=
  catL ((List.range' 0 m).map (flowAccess len))

/-- A flow-field file with the grid size `[1, 2, 1, 2]`, zero scale and matrices,
and the 12 doubles with the bit patterns 0 to 11 as flow vectors;
`848 + 96 = 944` bytes. -/
def exampleFlowfield : List Nat :=
  [1, 0, 0, 0, 2, 0, 0, 0, 1, 0, 0, 0, 2, 0, 0, 0] ++ zeros 832 ++ countingDoubles 12

/-- A flow-field header with the grid size `[65536, 65536, 1, 1]`, whose number of
flow-vector components is `3 * 2^32`, and nothing after the matrices; 848 bytes. -/
def overflowFlowfield : List Nat :=
  [0, 0, 1, 0, 0, 0, 1, 0, 1, 0, 0, 0, 1, 0, 0, 0] ++ zeros 832


/-- Byte offset at which centerline `i` of a run of centerlines starts, when the
first one starts at `q`: a centerline with `P` points takes `4 + 104 * P` bytes
(the count, `3 * P` doubles of points, `P` radii, `9 * P` doubles of local
coordinate systems). -/
def clStart (data : List Nat) (q : Nat) : Nat → Nat
  | 0 => q
  | i + 1 => clStart data q i + (4 + 104 * u32At data (clStart data q i))

/-- The index evaluations of the previews of one rendered centerline with
`numPoints = P`: for the first `min NUM_DEMO P` points the three coordinates on the
array of `P * 3` doubles, the radius on the array of `P` doubles, and the nine
components of the local coordinate system on the array of `P * 9` doubles; the
array sizes are computed in unsigned arithmetic. -/
def clIdx (P : Nat) : List (Nat × Nat) :=
  catL ((List.range' 0 (min NUM_DEMO P)).map (fun i =>
      [(3 * i, P * 3 % U32), (3 * i + 1, P * 3 % U32), (3 * i + 2, P * 3 % U32)]))
    ++ catL ((List.range' 0 (min NUM_DEMO P)).map (fun i => [(i, P)]))
    ++ catL ((List.range' 0 (min NUM_DEMO P)).map (fun i =>
      [(9 * i, P * 9 % U32), (9 * i + 1, P * 9 % U32), (9 * i + 2, P * 9 % U32),
        (9 * i + 3, P * 9 % U32), (9 * i + 4, P * 9 % U32), (9 * i + 5, P * 9 % U32),
        (9 * i + 6, P * 9 % U32), (9 * i + 7, P * 9 % U32), (9 * i + 8, P * 9 % U32)]))

/-- The values of `numPoints` the loop over the centerlines decodes in the
iterations `clid, .., clid + k - 1`, started in the loop state `s`. -/
def pointCounts (sf : FloatFmt → Nat → String) : Nat → Nat → List Nat × Run → List Nat
  | _, 0, _ => []
  | clid, k + 1, s =>
      elemAt 4 (s.2.read (zeros 4) 4).1 0 :: pointCounts sf (clid + 1) k (centerline sf clid s)

/-- The values of `numPoints` that `read_centerlines` decodes on the call state
`st`, in the order of the centerlines. -/
def centerlineCounts (sf : FloatFmt → Nat → String) (st : Run) : List Nat :=
  let r := st.read (zeros 4) 4
  let numCenterlines := elemAt 4 r.1 0
  pointCounts sf 0 numCenterlines
    ([], r.2.put ("\t- num. centerlines: " ++ toString numCenterlines ++ "\n"))

/-- A centerlines file with four centerlines of 1, 2, 0 and 5 points, the doubles of
every centerline counting from 0: `4 + 108 + 212 + 4 + 524 = 852` bytes. -/
def exampleCenterlines : List Nat :=
  [4, 0, 0, 0] ++ [1, 0, 0, 0] ++ countingDoubles 13 ++ [2, 0, 0, 0] ++ countingDoubles 26
    ++ [0, 0, 0, 0] ++ [5, 0, 0, 0] ++ countingDoubles 65

/-- A centerlines file of 8 bytes: one centerline with `numPoints = 1431655766`
(`3 * 1431655766 = 2^32 + 2`), and nothing after the count. -/
def overflowCenterlines : List Nat := [1, 0, 0, 0] ++ [86, 85, 85, 85]


/-! ## `read_flow_jet` -/

/-- A read of three doubles: `dbuffer.resize(3)`, the read, and, when `shown`, the
line `label [d0, d1, d2]` (source lines 1711-1714 and the like). -/
def jetVec3 (sf : FloatFmt → Nat → String) (shown : Bool) (label : String)
    (s : List Nat × Run) : List Nat × Run :=
  let r := s.2.readF64s (vresize 8 s.1 3)
  (r.1, if shown then putTripleF64 sf "]\n" r.1 0 (r.2.put label) else r.2)

/-- A read of one double: `dbuffer.resize(1)`, the read, and, when `shown`, the line
`label d0` (source lines 1719-1722 and the like). -/
def jetScalar (sf : FloatFmt → Nat → String) (shown : Bool) (label : String)
    (s : List Nat × Run) : List Nat × Run :=
  let r := s.2.readF64s (vresize 8 s.1 1)
  (r.1, if shown then ((r.2.put label).putF64At sf r.1 0).put "\n" else r.2)

/-- One iteration `timeid` of the loop over the times of a point (source lines
1703-1757): seven reads, printed when `cnt < NUM_DEMO && timeid < NUM_DEMO`.  The
loop carries `dbuffer`. -/
def jetSample (sf : FloatFmt → Nat → String) (cnt pointid timeid : Nat) (s : List Nat × Run) :
    List Nat × Run :=
  let shown := decide (cnt < NUM_DEMO) && decide (timeid < NUM_DEMO)
  let st :=
    if shown then
      s.2.put ("\t\t\t- point " ++ toString pointid ++ " time " ++ toString timeid ++ "\n")
    else s.2
  let s := jetVec3 sf shown "\t\t\t\t- peak velocity position: " (s.1, st)
  let s := jetScalar sf shown "\t\t\t\t- peak velocity [m/s]: " s
  let s := jetVec3 sf shown "\t\t\t\t- area center: " s
  let s := jetVec3 sf shown "\t\t\t\t- area dir0: " s
  let s := jetScalar sf shown "\t\t\t\t- area radius0 [mm]: " s
  let s := jetVec3 sf shown "\t\t\t\t- area dir1: " s
  jetScalar sf shown "\t\t\t\t- area radius1 [mm]: " s

/-- One iteration `pointid` of the loop over the points of a flow jet (source lines
1701-1792): the time samples, then four reads for the cross-section, printed when
`cnt < NUM_DEMO`, and `++cnt`.  The loop carries `cnt` and `dbuffer`. -/
def jetPoint (sf : FloatFmt → Nat → String) (numTimes : Nat) (pointid : Nat)
    (s : Nat × List Nat × Run) : Nat × List Nat × Run :=
  let cnt := s.1
  let ds := forLoop numTimes (jetSample sf cnt pointid) s.2
  let shown := decide (cnt < NUM_DEMO)
  let st := if shown then ds.2.put "\t\t\t- ...\n" else ds.2
  let ds := jetVec3 sf shown "\t\t\t- vessel center: " (ds.1, st)
  let ds := jetScalar sf shown "\t\t\t- vessel radius [mm]: " ds
  let ds := jetVec3 sf shown "\t\t\t- x direction of local coordinate system: " ds
  let ds := jetVec3 sf shown "\t\t\t- y direction of local coordinate system: " ds
  (cnt + 1, ds)

/-- One iteration `fjid` of the loop over the flow jets (source lines 1677-1793):
the heading, `numPoints`, `numTimes`, and the points, with a new `dbuffer` and
`cnt = 0`. -/
def flowJet (sf : FloatFmt → Nat → String) (fjid : Nat) (st : Run) : Run :=
  let st := st.put ("\t\t- flow jet " ++ toString fjid ++ ":\n")
  let r := st.read (zeros 4) 4
  let numPoints := elemAt 4 r.1 0
  let st := r.2.put ("\t\t\t- num points: " ++ toString numPoints ++ "\n")
  let r := st.read (zeros 4) 4
  let numTimes := elemAt 4 r.1 0
  let st := r.2.put ("\t\t\t- num times: " ++ toString numTimes ++ "\n")
  (forLoop numPoints (jetPoint sf numTimes) (0, [], st)).2.2

/-- Source lines 1673-1793 of `read_flow_jet`: everything between the open checks
and `file.close()`. -/
def flow_jet_body (sf : FloatFmt → Nat → String) (st : Run) : Run :=
  let r := st.read (zeros 4) 4
  let numFlowjets := elemAt 4 r.1 0
  let st := r.2.put ("\t\t- num. flow jets: " ++ toString numFlowjets ++ "\n")
  forLoop numFlowjets (flowJet sf) st

/-- The member function `read_flow_jet`. -/
def read_flow_jet (sf : FloatFmt → Nat → String) : FileSystem → String → Run → Bool × Run :=
  Decoder.flow_jet.run (flow_jet_body sf)

/-- Number of bytes of the flow jet stored at byte offset `s`: the two counts
`numPoints = P` and `numTimes = T`, then per point `T` samples of 15 doubles and 10
doubles for the cross-section. -/
def jetSize (data : List Nat) (s : Nat) : Nat :=
  8 + u32At data s * (120 * u32At data (s + 4) + 80)

/-- Byte offset at which flow jet `i` of a run of flow jets starts, when the first
one starts at `q`. -/
def jetStart (data : List Nat) (q : Nat) : Nat → Nat
  | 0 => q
  | i + 1 => jetStart data q i + jetSize data (jetStart data q i)

/-- The byte counts of the reads of one flow jet with `P` points and `T` times: the
two counts, then per point `T` times the doubles 3, 1, 3, 3, 1, 3, 1 and once the
doubles 3, 1, 3, 3. -/
def jetReadLog (P T : Nat) : List Nat :=
  [4, 4] ++ catL (List.replicate P
    (catL (List.replicate T [24, 8, 24, 24, 8, 24, 8]) ++ [24, 8, 24, 24]))

/-- A flow-jet file with two flow jets: the first with 2 points and 1 time, the
second with 1 point and 0 times, all doubles zero:
`4 + (8 + 2 * 200) + (8 + 80) = 500` bytes. -/
def exampleFlowJets : List Nat :=
  [2, 0, 0, 0] ++ [2, 0, 0, 0, 1, 0, 0, 0] ++ zeros 400 ++ [1, 0, 0, 0, 0, 0, 0, 0] ++ zeros 80


/-! ## `read_dicom_tags`

An image of the file is read in three parts, in the order of the source: the sizes
and spacings (source lines 2947-2989), the patient and series tags (2991-3036),
and the pixel format, the acquisition tags, the orientation and the world matrix
(3038-3083). -/

/-- The text `_res << s` writes for a `std::string` with the bytes `s`: one
character per byte. -/
def bytesText (s : List Nat) : String := String.mk (s.map (fun b => Char.ofNat (b % 256)))

/-- A tag held in a `std::uint16_t`: declared with 0, read with
`sizeof(std::uint16_t)`, and printed after `label`. -/
def tagU16 (st : Run) (label : String) : Run :=
  let r := st.read (zeros 2) 2
  r.2.put (label ++ toString (elemAt 2 r.1 0) ++ "\n")

/-- A tag held in a `std::uint8_t`, printed as `static_cast<int>`. -/
def tagU8 (st : Run) (label : String) : Run :=
  let r := st.read (zeros 1) 1
  r.2.put (label ++ toString (elemAt 1 r.1 0) ++ "\n")

/-- A tag held in a `std::uint32_t`. -/
def tagU32 (st : Run) (label : String) : Run :=
  let r := st.read (zeros 4) 4
  r.2.put (label ++ toString (elemAt 4 r.1 0) ++ "\n")

/-- A tag held in a `double`. -/
def tagF64 (sf : FloatFmt → Nat → String) (st : Run) (label : String) : Run :=
  let r := st.read (zeros 8) 8
  ((r.2.put label).putF64 sf (elemAt 8 r.1 0)).put "\n"

/-- A tag held in a `std::string`, read by `read_string`. -/
def tagString (st : Run) (label : String) : Run :=
  let s := read_string st
  s.2.put (label ++ bytesText s.1 ++ "\n")

/-- A tag held in a new `std::vector<double>` of three elements, read with
`3 * sizeof(double)` and printed as `[v0, v1, v2]` (source lines 3064-3070). -/
def tagVec3 (sf : FloatFmt → Nat → String) (st : Run) (label : String) : Run :=
  let r := st.read (zeros (8 * 3)) (3 * 8)
  putTripleF64 sf "]\n" r.1 0 (r.2.put label)

/-- Body of the outer loop of the print of the world matrix of an image (source
lines 3076-3083): the rows are indented by four tabs. -/
def tagMatRow (sf : FloatFmt → Nat → String) (worldMatrix : List Nat) (_rowid : Nat)
    (cs : Nat × Run) : Nat × Run :=
  let st := cs.2.put "\t\t\t\t"
  let cs := forLoop 4 (matCell sf worldMatrix) (cs.1, st)
  (cs.1, cs.2.put "\n")

/-- Source lines 2947-2989: the six tags held in a `std::uint16_t`,
`NumberOfFrames`, and the four spacings.  `NumberOfFrames` is declared as
`std::uint16_t` and read with `sizeof(std::uint32_t)`: four bytes are requested
into an object of two bytes, whose value is made of the first two. -/
def dicom_geometry (sf : FloatFmt → Nat → String) (st : Run) : Run :=
  let st := tagU16 st "\t\t- DICOM image ID: "
  let st := tagU16 st "\t\t\t- nDimensions: "
  let st := tagU16 st "\t\t\t- Rows: "
  let st := tagU16 st "\t\t\t- Columns: "
  let st := tagU16 st "\t\t\t- Slices: "
  let st := tagU16 st "\t\t\t- TemporalPositions: "
  let r := st.read (zeros 2) 4
  let NumberOfFrames := elemAt 2 r.1 0
  let st := r.2.put ("\t\t\t- NumberOfFrames: " ++ toString NumberOfFrames ++ "\n")
  let st := tagF64 sf st "\t\t\t- RowSpacing: "
  let st := tagF64 sf st "\t\t\t- ColSpacing: "
  let st := tagF64 sf st "\t\t\t- SliceSpacing: "
  tagF64 sf st "\t\t\t- TemporalResolution: "

/-- The labels of the three strings of source lines 2991-2998. -/
def patientLabels : List String :=
  ["\t\t\t- PatientName: ", "\t\t\t- PatientID: ", "\t\t\t- PatientSex: "]

/-- The labels of the ten strings of source lines 3008-3036. -/
def studyLabels : List String :=
  ["\t\t\t- PatientBirthDate: ", "\t\t\t- SequenceName: ", "\t\t\t- SequenceName_Private: ",
    "\t\t\t- PatientPosition: ", "\t\t\t- StudyDescription: ", "\t\t\t- SeriesDescription: ",
    "\t\t\t- SeriesInstanceUID: ", "\t\t\t- StudyInstanceUID: ", "\t\t\t- ProtocolName: ",
    "\t\t\t- Modality: "]

/-- The labels of the two strings of source lines 3058-3062. -/
def acquisitionLabels : List String :=
  ["\t\t\t- AcquisitionDate: ", "\t\t\t- InstitutionName: "]

/-- Source lines 2991-3036: three strings, the age, the weight, and ten strings. -/
def dicom_patient (sf : FloatFmt → Nat → String) (st : Run) : Run :=
  let st := patientLabels.foldl tagString st
  let st := tagU8 st "\t\t\t- PatientAge: "
  let st := tagF64 sf st "\t\t\t- PatientWeight: "
  studyLabels.foldl tagString st

/-- Source lines 3038-3083: the pixel format, two strings, the two orientation
vectors, and the world matrix with its print. -/
def dicom_pixels (sf : FloatFmt → Nat → String) (st : Run) : Run :=
  let st := tagU8 st "\t\t\t- SamplesPerPixel: "
  let st := tagU32 st "\t\t\t- LargestImagePixelValue: "
  let st := tagU8 st "\t\t\t- BitsAllocated: "
  let st := tagU8 st "\t\t\t- BitsStored: "
  let st := tagU8 st "\t\t\t- HighBit: "
  let st := acquisitionLabels.foldl tagString st
  let st := tagVec3 sf st "\t\t\t- ImageOrientationPatientX: "
  let st := tagVec3 sf st "\t\t\t- ImageOrientationPatientY: "
  let r := st.read (zeros (8 * 16)) (16 * 8)
  (forLoop 4 (tagMatRow sf r.1) (0, r.2.put "\t\t\t- world matrix:\n")).2

/-- One iteration of the loop over the images (source lines 2945-3084). -/
def dicom_image (sf : FloatFmt → Nat → String) (_i : Nat) (st : Run) : Run :=
  dicom_pixels sf (dicom_patient sf (dicom_geometry sf st))

/-- Source lines 2940-3084 of `read_dicom_tags`: everything between the open checks
and `file.close()`. -/
def dicom_body (sf : FloatFmt → Nat → String) (st : Run) : Run :=
  let r := st.read (zeros 2) 2
  let numImages := elemAt 2 r.1 0
  let st := r.2.put ("\t\t- DICOM tags of " ++ toString numImages ++ " images: \n")
  forLoop numImages (dicom_image sf) st

/-- The member function `read_dicom_tags`. -/
def read_dicom_tags (sf : FloatFmt → Nat → String) : FileSystem → String → Run → Bool × Run :=
  Decoder.dicom_tags.run (dicom_body sf)

/-- Byte offset after the length-prefixed string stored at `q`: a `uint16` length,
then that many bytes. -/
def strEnd (data : List Nat) (q : Nat) : Nat := q + 2 + u16At data q

/-- Byte offset after `k` length-prefixed strings stored back to back from `q` on. -/
def strEnds (data : List Nat) : Nat → Nat → Nat
  | 0, q => q
  | k + 1, q => strEnds data k (strEnd data q)

/-- The byte lengths of `k` length-prefixed strings stored back to back from `q`
on. -/
def strLens (data : List Nat) : Nat → Nat → List Nat
  | 0, _ => []
  | k + 1, q => u16At data q :: strLens data k (strEnd data q)

/-- The byte lengths of the 15 strings of the image stored at byte offset `s`: three
after the 48 bytes of sizes and spacings, ten after the 9 bytes of age and weight,
two after the 8 bytes of the pixel format. -/
def dicomStrings (data : List Nat) (s : Nat) : List Nat :=
  strLens data 3 (s + 48)
    ++ strLens data 10 (strEnds data 3 (s + 48) + 9)
    ++ strLens data 2 (strEnds data 10 (strEnds data 3 (s + 48) + 9) + 8)

/-- Byte offset after the image stored at byte offset `s`. -/
def dicomImageEnd (data : List Nat) (s : Nat) : Nat :=
  strEnds data 2 (strEnds data 10 (strEnds data 3 (s + 48) + 9) + 8) + 176

/-- The byte counts of the reads of the image stored at byte offset `s`, in the
order of the reads: six `uint16`, the four bytes of `NumberOfFrames`, four doubles,
three strings (length, then bytes), a byte, a double, ten strings, a byte, a
`uint32`, three bytes, two strings, and 3, 3 and 16 doubles. -/
def dicomImageLog (data : List Nat) (s : Nat) : List Nat :=
  [2, 2, 2, 2, 2, 2, 4, 8, 8, 8, 8]
    ++ catL ((strLens data 3 (s + 48)).map (fun n => [2, n]))
    ++ [1, 8]
    ++ catL ((strLens data 10 (strEnds data 3 (s + 48) + 9)).map (fun n => [2, n]))
    ++ [1, 4, 1, 1, 1]
    ++ catL ((strLens data 2 (strEnds data 10 (strEnds data 3 (s + 48) + 9) + 8)).map
      (fun n => [2, n]))
    ++ [24, 24, 128]

/-- Byte offset at which image `i` of a run of images starts, when the first one
starts at `q`. -/
def dicomStart (data : List Nat) (q : Nat) : Nat → Nat
  | 0 => q
  | i + 1 => dicomImageEnd data (dicomStart data q i)

/-- A DICOM tag file with one image: image id 7, 3 dimensions, 4 rows, 5 columns,
6 slices, 2 temporal positions, the `NumberOfFrames` bytes `01 00 01 00` (the
`uint32` 65537), zero spacings, the patient name "AB", an empty patient id, the sex
"F", age 30, weight 0, nine empty strings and the modality "MR", 1 sample per
pixel, largest pixel value 255, 16 bits allocated, 12 stored, high bit 11, an empty
acquisition date, the institution "X", and zero orientation and matrix:
`2 + 271 + 6 = 279` bytes. -/
def exampleDicom : List Nat :=
  [1, 0] ++ [7, 0, 3, 0, 4, 0, 5, 0, 6, 0, 2, 0] ++ [1, 0, 1, 0] ++ zeros 32
    ++ [2, 0, 65, 66] ++ [0, 0] ++ [1, 0, 70] ++ [30] ++ zeros 8
    ++ zeros 18 ++ [2, 0, 77, 82]
    ++ [1] ++ [255, 0, 0, 0] ++ [16, 12, 11] ++ [0, 0] ++ [1, 0, 88] ++ zeros 176


/-! ## Index evaluations inside their vectors -/

/-- Every index evaluation of a trace lies inside its vector: what
`std::vector::operator[]` requires.  The states of a run agree with the program
as long as its trace has this property. -/
abbrev InBounds (ix : List (Nat × Nat)) : Prop := ∀ e ∈ ix, e.1 < e.2

/-! ## `read_landmark_measuring_planes`: the text on `std::cout` -/

/-- One pass `i` of the loop over the measuring planes (source lines 1135-1139)
with the line it writes to `std::cout`; the loop state is `dtemp`, the state of the
call and the text on `std::cout`. -/
def measuringPlane (sf : FloatFmt → Nat → String) (i : Nat) (s : List Nat × Run × String) :
    List Nat × Run × String :=
  let out := s.2.2 ++ ("\t\t- measuring plane " ++ toString i ++ ": " ++ "\n")
  let m := readMeasuringPlane sf s.1 s.2.1
  (m.1, m.2, out)

/-- One pass `i` of the loop over the measuring planes of landmarks (source lines
1142-1167): the line on `std::cout`, the read of `semantic`, the line with its
value and the text of the `switch`, and the measuring plane. -/
def landmarkPlane (sf : FloatFmt → Nat → String) (i : Nat) (s : List Nat × Run × String) :
    List Nat × Run × String :=
  let out := s.2.2 ++ ("\t\t- measuring plane " ++ toString i ++ " of landmarks: " ++ "\n")
  let q := s.2.1.read (zeros 4) 4
  let semantic := elemAt 4 q.1 0
  let out := out ++ ("\t\t\t- semantic: " ++ toString semantic ++ " (")
  let out := out ++ landMarkSemanticName semantic
  let out := out ++ (")" ++ "\n")
  let m := readMeasuringPlane sf s.1 q.2
  (m.1, m.2, out)

/-- Source lines 1124-1169 of `read_landmark_measuring_planes` together with
the text on `std::cout`, which holds `cout` before the call: the first component is
the state of the call, the second the text on `std::cout` after it. -/
def landmark_run (sf : FloatFmt → Nat → String) (st : Run) (cout : String) : Run × String :=
  let r := st.read (zeros 4) 4
  let numMeasuringPlanes := elemAt 4 r.1 0
  let out := cout ++ ("\t\t- num. measuring planes: " ++ toString numMeasuringPlanes ++ "\n")
  let r := r.2.read (zeros 4) 4
  let numMeasuringPlanesOfLandMarks := elemAt 4 r.1 0
  let out := out ++ ("\t\t- num. measuring planes of landmarks: "
    ++ toString numMeasuringPlanesOfLandMarks ++ "\n")
  let s := forLoop numMeasuringPlanes (measuringPlane sf) (zeros 8, r.2, out)
  (forLoop numMeasuringPlanesOfLandMarks (landmarkPlane sf) s).2

/-- A landmark file without a measuring plane and with two measuring planes of
landmarks, the record `examplePlane` under the tag 4 and under the tag 11:
`8 + 2 * (4 + 829) = 1674` bytes. -/
def exampleLandmarksTagged : List Nat :=
  [0, 0, 0, 0] ++ [2, 0, 0, 0] ++ [4, 0, 0, 0] ++ examplePlane ++ [11, 0, 0, 0] ++ examplePlane


/-! ## `read_pathlines` -/

/-- The insertion `"[" << b[off] << ", " << b[off + 1] << ", " << b[off + 2] << ", "
<< b[off + 3] << "]" << std::endl` on a vector of doubles (source line 1234). -/
def putQuadF64 (sf : FloatFmt → Nat → String) (dbuffer : List Nat) (off : Nat) (st : Run) : Run :=
  let st := ((st.put "[").putF64At sf dbuffer off).put ", "
  let st := (st.putF64At sf dbuffer ((off + 1) % U32)).put ", "
  let st := (st.putF64At sf dbuffer ((off + 2) % U32)).put ", "
  (st.putF64At sf dbuffer ((off + 3) % U32)).put "]\n"

/-- One attribute per point of a pathline (source lines 1242-1299): the read into
`dbuffer` and, for `plid < NUM_DEMO`, the first `min(NUM_DEMO, numPoints)` elements,
each after `label` and the number of the point, and the ellipsis line. -/
def pathAttribute (sf : FloatFmt → Nat → String) (plid numPoints : Nat) (label : String)
    (s : List Nat × Run) : List Nat × Run :=
  let r := s.2.readF64s s.1
  let st :=
    if plid < NUM_DEMO then
      (forLoop (min NUM_DEMO numPoints) (fun pointid st =>
        ((st.put (label ++ toString pointid ++ ": ")).putF64At sf r.1 pointid).put "\n")
        r.2).put "\t\t\t- ...\n"
    else r.2
  (r.1, st)

/-- One iteration `plid` of the loop over the pathlines (source lines 1216-1309).
The loop carries `dbuffer`, which is declared before it. -/
def pathline (sf : FloatFmt → Nat → String) (plid : Nat) (s : List Nat × Run) :
    List Nat × Run :=
  let r := s.2.read (zeros 4) 4
  let numPoints := elemAt 4 r.1 0
  let st :=
    if plid < NUM_DEMO then
      r.2.put ("\t\t- num. points of pathline" ++ toString plid ++ ": "
        ++ toString numPoints ++ "\n")
    else r.2
  -- points (xyz + time)
  let r := st.readF64s (vresize 8 s.1 (numPoints * 4 % U32))
  let st :=
    if plid < NUM_DEMO then
      (forLoop (min NUM_DEMO numPoints) (fun pointid st =>
        let off := pointid * 4 % U32
        putQuadF64 sf r.1 off
          (st.put ("\t\t\t- point" ++ toString pointid ++ ": "))) r.2).put "\t\t\t- ...\n"
    else r.2
  -- the five attributes per point; only the first is preceded by a resize
  let a := pathAttribute sf plid numPoints "\t\t\t- relative pressure [mmHg] of point"
    (vresize 8 r.1 numPoints, st)
  let a := pathAttribute sf plid numPoints
    "\t\t\t- cos(angle) pathline/centerline tangent of point" a
  let a := pathAttribute sf plid numPoints "\t\t\t- rotation direction of point" a
  let a := pathAttribute sf plid numPoints "\t\t\t- velocity [m/s] at point" a
  let a := pathAttribute sf plid numPoints "\t\t\t- axial velocity [m/s] at point" a
  -- length
  let r := a.2.read (zeros 8) 8
  let length := elemAt 8 r.1 0
  let st :=
    if plid < NUM_DEMO then
      ((r.2.put "\t\t\t- spatial length [mm]: ").putF64 sf length).put "\n"
    else r.2
  (a.1, st)

/-- Source lines 1207-1309 of `read_pathlines`: everything between the open checks
and `file.close()`. -/
def pathlines_body (sf : FloatFmt → Nat → String) (st : Run) : Run :=
  let r := st.read (zeros 4) 4
  let numPathines := elemAt 4 r.1 0
  let st := r.2.put ("\t- num. pathlines: " ++ toString numPathines ++ "\n")
  (forLoop numPathines (pathline sf) ([], st)).2

/-- The member function `read_pathlines`. -/
def read_pathlines (sf : FloatFmt → Nat → String) : FileSystem → String → Run → Bool × Run :=
  Decoder.pathlines.run (pathlines_body sf)

/-! ## `read_flow_statistics` -/

/-- The lambda `read_and_print_value` of `read_flow_statistics` (source lines
2107-2112). -/
def read_and_print_value (sf : FloatFmt → Nat → String) (st : Run) (name : String) : Run :=
  let r := st.read (zeros 8) 8
  let dtemp := elemAt 8 r.1 0
  ((r.2.put ("\t\t- " ++ name ++ ": ")).putF64 sf dtemp).put "\n"

/-- The lambda `read_and_print_vector` of `read_flow_statistics` (source lines
2114-2123): a new vector of `numTimes` doubles, the read, and a preview that runs
to `NUM_DEMO` whatever `numTimes` is. -/
def read_and_print_vector (sf : FloatFmt → Nat → String) (numTimes : Nat) (st : Run)
    (name : String) : Run :=
  let r := st.read (zeros (8 * numTimes)) (numTimes * 8)
  let st := r.2.put ("\t\t- " ++ name ++ ": ")
  (forLoop NUM_DEMO (fun i st => (st.putF64At sf r.1 i).put ", ") st).put "...\n"

/-- The calls of the two lambdas in `read_flow_statistics` (source lines 2125-2421),
in their order: the name, and whether the call is `read_and_print_vector`. -/
def flowStatCalls : List (Bool × String) :=
  [(false, "vortex pressure threshold"), (false, "volume total in ml"),
    (false, "section volume in ml"), (false, "section volume in percent"),
    (false, "min diameter in mm"), (false, "max diameter in mm"), (false, "mean diameter in mm"),
    (false, "median diameter in mm"), (false, "min cross sectional area in mm2"),
    (false, "max cross sectional area in mm2"), (false, "mean cross sectional area in mm2"),
    (false, "median cross sectional area in mm2"), (true, "vortex volume in ml per time"),
    (true, "vortex volume in percent per time"), (false, "max vortex volume in ml"),
    (false, "max vortex volume in percent"), (false, "max vortex volume time in ms"),
    (false, "mean vortex volume in ml"), (false, "mean vortex volume in percent"),
    (false, "median vortex volume in ml"), (false, "median vortex volume in percent"),
    (false, "systolic max vortex volume in ml"), (false, "systolic max vortex volume in percent"),
    (false, "systolic max vortex volume time in ms"), (false, "systolic mean vortex volume in ml"),
    (false, "systolic mean vortex volume in percent"),
    (false, "systolic median vortex volume in ml"),
    (false, "systolic median vortex volume in percent"),
    (false, "diastolic max vortex volume in ml"),
    (false, "diastolic max vortex volume in percent"),
    (false, "diastolic max vortex volume time in ms"),
    (false, "diastolic mean vortex volume in ml"),
    (false, "diastolic mean vortex volume in percent"),
    (false, "diastolic median vortex volume in ml"),
    (false, "diastolic median vortex volume in percent"), (false, "vortex coverage in ml"),
    (false, "vortex coverage in percent"), (false, "systolic vortex coverage in ml"),
    (false, "systolic vortex coverage in percent"), (false, "diastolic vortex coverage in ml"),
    (false, "diastolic vortex coverage in percent"), (true, "max velocity per time"),
    (true, "max axial velocity per time"), (true, "max circumferential velocity per time"),
    (true, "mean velocity per time"), (true, "mean axial velocity per time"),
    (true, "mean circumferential velocity per time"), (true, "median velocity per time"),
    (true, "median axial velocity per time"), (true, "median circumferential velocity per time"),
    (false, "max mean velocity"), (false, "max mean velocity time in ms"),
    (false, "max mean axial velocity"), (false, "max mean axial velocity time in ms"),
    (false, "max mean circumferential velocity"),
    (false, "max mean circumferential velocity time in ms"), (false, "mean mean velocity"),
    (false, "mean mean axial velocity"), (false, "mean mean circumferential velocity"),
    (false, "median mean velocity"), (false, "median mean axial velocity"),
    (false, "median mean circumferential velocity"), (false, "max overall velocity"),
    (false, "max overall velocity time in ms"), (false, "max overall velocity q99"),
    (false, "max overall velocity q99 time in ms"), (false, "max overall axial velocity"),
    (false, "max overall axial velocity time in ms"), (false, "max overall axial velocity q99"),
    (false, "max overall axial velocity q99 time in ms"),
    (false, "max overall circumferential velocity"),
    (false, "max overall circumferential velocity time in ms"),
    (false, "max overall circumferential velocity q99"),
    (false, "max overall circumferential velocity q99 time in ms"),
    (false, "systolic max mean velocity"), (false, "systolic max mean velocity time in ms"),
    (false, "systolic max mean axial velocity"),
    (false, "systolic max mean axial velocity time in ms"),
    (false, "systolic max mean circumferential velocity"),
    (false, "systolic max mean circumferential velocity time in ms"),
    (false, "systolic mean mean velocity"), (false, "systolic mean mean axial velocity"),
    (false, "systolic mean mean circumferential velocity"),
    (false, "systolic median mean velocity"), (false, "systolic median mean axial velocity"),
    (false, "systolic median mean circumferential velocity"),
    (false, "systolic max overall velocity"), (false, "systolic max overall velocity time in ms"),
    (false, "systolic max overall velocity q99"),
    (false, "systolic max overall velocity q99 time in ms"),
    (false, "systolic max overall axial velocity"),
    (false, "systolic max overall axial velocity time in ms"),
    (false, "systolic max overall axial velocity q99"),
    (false, "systolic max overall axial velocity q99 time in ms"),
    (false, "systolic max overall circumferential velocity"),
    (false, "systolic max overall circumferential velocity time in ms"),
    (false, "systolic max overall circumferential velocity q99"),
    (false, "systolic max overall circumferential velocity q99 time in ms"),
    (false, "diastolic max mean velocity"), (false, "diastolic max mean velocity time in ms"),
    (false, "diastolic max mean axial velocity"),
    (false, "diastolic max mean axial velocity time in ms"),
    (false, "diastolic max mean circumferential velocity"),
    (false, "diastolic max mean circumferential velocity time in ms"),
    (false, "diastolic mean mean velocity"), (false, "diastolic mean mean axial velocity"),
    (false, "diastolic mean mean circumferential velocity"),
    (false, "diastolic median mean velocity"), (false, "diastolic median mean axial velocity"),
    (false, "diastolic median mean circumferential velocity"),
    (false, "diastolic max overall velocity"),
    (false, "diastolic max overall velocity time in ms"),
    (false, "diastolic max overall velocity q99"),
    (false, "diastolic max overall velocity q99 time in ms"),
    (false, "diastolic max overall axial velocity"),
    (false, "diastolic max overall axial velocity time in ms"),
    (false, "diastolic max overall axial velocity q99"),
    (false, "diastolic max overall axial velocity q99 time in ms"),
    (false, "diastolic max overall circumferential velocity"),
    (false, "diastolic max overall circumferential velocity time in ms"),
    (false, "diastolic max overall circumferential velocity q99"),
    (false, "diastolic max overall circumferential velocity q99 time in ms"),
    (true, "left rotation volume in ml per time"),
    (true, "left rotation volume in percent per time"), (false, "max left rotation volume in ml"),
    (false, "max left rotation volume in percent"), (false, "max left rotation volume time in ms"),
    (false, "mean left rotation volume in ml"), (false, "mean left rotation volume in percent"),
    (false, "median left rotation volume in ml"),
    (false, "median left rotation volume in percent"),
    (false, "systolic max left rotation volume in ml"),
    (false, "systolic max left rotation volume in percent"),
    (false, "systolic max left rotation volume time in ms"),
    (false, "systolic mean left rotation volume in ml"),
    (false, "systolic mean left rotation volume in percent"),
    (false, "systolic median left rotation volume in ml"),
    (false, "systolic median left rotation volume in percent"),
    (false, "diastolic max left rotation volume in ml"),
    (false, "diastolic max left rotation volume in percent"),
    (false, "diastolic max left rotation volume time in ms"),
    (false, "diastolic mean left rotation volume in ml"),
    (false, "diastolic mean left rotation volume in percent"),
    (false, "diastolic median left rotation volume in ml"),
    (false, "diastolic median left rotation volume in percent"),
    (true, "right rotation volume in ml per time"),
    (true, "right rotation volume in percent per time"),
    (false, "max right rotation volume in ml"), (false, "max right rotation volume in percent"),
    (false, "max right rotation volume time in ms"), (false, "mean right rotation volume in ml"),
    (false, "mean right rotation volume in percent"),
    (false, "median right rotation volume in ml"),
    (false, "median right rotation volume in percent"),
    (false, "systolic max right rotation volume in ml"),
    (false, "systolic max right rotation volume in percent"),
    (false, "systolic max right rotation volume time in ms"),
    (false, "systolic mean right rotation volume in ml"),
    (false, "systolic mean right rotation volume in percent"),
    (false, "systolic median right rotation volume in ml"),
    (false, "systolic median right rotation volume in percent"),
    (false, "diastolic max right rotation volume in ml"),
    (false, "diastolic max right rotation volume in percent"),
    (false, "diastolic max right rotation volume time in ms"),
    (false, "diastolic mean right rotation volume in ml"),
    (false, "diastolic mean right rotation volume in percent"),
    (false, "diastolic median right rotation volume in ml"),
    (false, "diastolic median right rotation volume in percent"), (true, "mean pressure per time"),
    (false, "min mean pressure"), (false, "min mean pressure time in ms"),
    (false, "max mean pressure"), (false, "max mean pressure time in ms"),
    (false, "mean mean pressure"), (false, "median mean pressure"),
    (false, "systolic min mean pressure"), (false, "systolic min mean pressure time in ms"),
    (false, "systolic max mean pressure"), (false, "systolic max mean pressure time in ms"),
    (false, "systolic mean mean pressure"), (false, "systolic median mean pressure"),
    (false, "diastolic min mean pressure"), (false, "diastolic min mean pressure time in ms"),
    (false, "diastolic max mean pressure"), (false, "diastolic max mean pressure time in ms"),
    (false, "diastolic mean mean pressure"), (false, "diastolic median mean pressure"),
    (true, "mean pressure in vortex region per time"),
    (false, "min mean pressure in vortex region"),
    (false, "min mean pressure in vortex region time in ms"),
    (false, "max mean pressure in vortex region"),
    (false, "max mean pressure in vortex region time in ms"),
    (false, "mean mean pressure in vortex region"),
    (false, "median mean pressure in vortex region"),
    (false, "systolic min mean pressure in vortex region"),
    (false, "systolic min mean pressure in vortex region time in ms"),
    (false, "systolic max mean pressure in vortex region"),
    (false, "systolic max mean pressure in vortex region time in ms"),
    (false, "systolic mean mean pressure in vortex region"),
    (false, "systolic median mean pressure in vortex region"),
    (false, "diastolic min mean pressure in vortex region"),
    (false, "diastolic min mean pressure in vortex region time in ms"),
    (false, "diastolic max mean pressure in vortex region"),
    (false, "diastolic max mean pressure in vortex region time in ms"),
    (false, "diastolic mean mean pressure in vortex region"),
    (false, "diastolic median mean pressure in vortex region"),
    (false, "max flow jet displacement velocity weighted"),
    (false, "min flow jet displacement velocity weighted"),
    (false, "mean flow jet displacement velocity weighted"),
    (false, "median flow jet displacement velocity weighted"),
    (false, "max flow jet angle velocity weighted"),
    (false, "min flow jet angle velocity weighted"),
    (false, "mean flow jet angle velocity weighted"),
    (false, "median flow jet angle velocity weighted"),
    (false, "max flow jet high velocity area percent velocity weighted"),
    (false, "min flow jet high velocity area percent velocity weighted"),
    (false, "mean flow jet high velocity area percent velocity weighted"),
    (false, "median flow jet high velocity area percent velocity weighted")]

/-- Source lines 2098-2421 of `read_flow_statistics`: `numTimes`, then the calls of
`flowStatCalls`. -/
def flow_statistics_body (sf : FloatFmt → Nat → String) (st : Run) : Run :=
  let r := st.read (zeros 4) 4
  let numTimes := elemAt 4 r.1 0
  flowStatCalls.foldl (fun st call =>
    if call.1 then read_and_print_vector sf numTimes st call.2
    else read_and_print_value sf st call.2) r.2

/-- The member function `read_flow_statistics`. -/
def read_flow_statistics (sf : FloatFmt → Nat → String) :
    FileSystem → String → Run → Bool × Run :=
  Decoder.flow_statistics.run (flow_statistics_body sf)

/-! ## The decoders of text files -/

/-- The call `std::getline(file, line)` on a stream opened without
`std::ios_base::binary` (no translation takes place on the platforms where a line
ends with a line feed): the characters up to the next line feed (byte 10) replace
`line`, and the line feed is extracted and dropped; without a line feed the rest of
the stream is extracted and the stream is at its end (`eofbit`, and `failbit` when
nothing was extracted), hence not good.  A stream that is not good is left alone,
and so is `line`. -/
def Run.getline (st : Run) (line : List Nat) : List Nat × Run :=
  if st.file.good then
    let rest := st.file.data.drop st.file.pos
    let got := rest.takeWhile (fun b => b != 10)
    if got.length < rest.length then
      (got, { st with file := { st.file with pos := st.file.pos + got.length + 1 } })
    else
      (got, { st with file := { st.file with pos := st.file.pos + got.length, good := false } })
  else
    (line, st)

/-- The condition `!file.eof()` of the two loops over lines.  The stream is good
when the loop starts and `std::getline` is all that touches it, so it is not good
exactly when it is at its end. -/
def notAtEof (s : List Nat × Run) : Bool := s.2.file.good

/-- Body of the loop `while (!file.eof())` of `read_segmentation_info` and
`read_vessel_section_segmentation_semantics`: a line is read and, unless it is
empty, written between `before` and `after`.  The loop carries `line`. -/
def lineStep (before after : String) (_pass : Nat) (s : List Nat × Run) : List Nat × Run :=
  let r := s.2.getline s.1
  if r.1.isEmpty then r else (r.1, r.2.put (before ++ bytesText r.1 ++ after))

/-- The loop `while (!file.eof()) { std::getline(file, line); ... }`.  Every pass
extracts at least one byte or ends the stream, so the loop is over after at most
one pass more than there are bytes left. -/
def lineLoop (before after : String) (st : Run) : Run :=
  (forWhile (st.file.data.length - st.file.pos + 1) notAtEof (lineStep before after)
    ([], st)).2

/-- Source lines 2471-2480 of `read_segmentation_info`. -/
def segmentation_info_body (st : Run) : Run := lineLoop "\t\t-> \"" "\"\n" st

/-- The member function `read_segmentation_info`. -/
def read_segmentation_info : FileSystem → String → Run → Bool × Run :=
  Decoder.segmentation_info.run segmentation_info_body

/-- Source lines 2645-2654 of `read_vessel_section_segmentation_semantics`. -/
def section_semantics_body (st : Run) : Run := lineLoop "\t\t" "\n" st

/-- The member function `read_vessel_section_segmentation_semantics`. -/
def read_vessel_section_segmentation_semantics : FileSystem → String → Run → Bool × Run :=
  Decoder.vessel_section_segmentation_semantics.run section_semantics_body

/-- Source lines 2783-2794 of `read_dataset_filter_tags`: one line is read, and the
vector `tags` is printed after its size.  `tagsOf csv` stands for the content of
`tags` after the two statements `tags = bk::string_utils::split(csv, ";")` and
`tags.erase(std::remove_if(...))`; the function `split` belongs to a library that
is not part of this source. -/
def filter_tags_body (tagsOf : List Nat → List (List Nat)) (st : Run) : Run :=
  let r := st.getline []
  let tags := tagsOf r.1
  let st := r.2.put ("\t\t- " ++ toString tags.length ++ " filter tags: ")
  (tags.foldl (fun st s => (st.put (bytesText s)).put " ") st).put "\n"

/-- The member function `read_dataset_filter_tags`. -/
def read_dataset_filter_tags (tagsOf : List Nat → List (List Nat)) :
    FileSystem → String → Run → Bool × Run :=
  Decoder.dataset_filter_tags.run (filter_tags_body tagsOf)

/-! ## `read_segmentation_graphcut_inside_outside_ids` -/

/-- Source lines 2516-2557: the two counts, the inside ids with their preview, and
the outside ids with theirs. -/
def graphcut_ids_body (st : Run) : Run :=
  let r := st.read (zeros 4) 4
  let numInsideIds := elemAt 4 r.1 0
  let st := r.2.put ("\t\t- num. inside ids: " ++ toString numInsideIds ++ "\n")
  let r := st.read (zeros 4) 4
  let numOutsideIds := elemAt 4 r.1 0
  let st := r.2.put ("\t\t- num. outside ids: " ++ toString numOutsideIds ++ "\n")
  -- inside ids
  let ui32buffer := zeros (4 * (numInsideIds * 3 % U32))
  let r := st.read ui32buffer (ui32buffer.length / 4 * 4)
  let st := forLoop (min NUM_DEMO numInsideIds) (fun i st =>
    let off := i * 3 % U32
    putTripleU32 "]\n" r.1 off (st.put ("\t\t- inside grid pos " ++ toString i ++ ": "))) r.2
  let st := st.put "\t\t- ...\n"
  -- outside ids
  let ui32buffer := zeros (4 * (numOutsideIds * 3 % U32))
  let r := st.read ui32buffer (ui32buffer.length / 4 * 4)
  let st := forLoop (min NUM_DEMO numOutsideIds) (fun i st =>
    let off := i * 3 % U32
    putTripleU32 "]\n" r.1 off (st.put ("\t\t- outside grid pos " ++ toString i ++ ": "))) r.2
  if numOutsideIds != 0 then st.put "\t\t- ...\n"
  else st.put "\t\t- no outside ids specified\n"

/-- The member function `read_segmentation_graphcut_inside_outside_ids`. -/
def read_segmentation_graphcut_inside_outside_ids : FileSystem → String → Run → Bool × Run :=
  Decoder.segmentation_graphcut_inside_outside_ids.run graphcut_ids_body

/-! ## `read_centerline_start_end_ids_on_mesh` -/

/-- Source lines 2686-2707: the seed id, the number of target ids, and the target
ids, which the loop `for (std::uint32_t tid : targetIds)` prints one by one. -/
def centerline_ids_body (st : Run) : Run :=
  let r := st.read (zeros 4) 4
  let seedId := elemAt 4 r.1 0
  let st := r.2.put ("\t\t- seed id: " ++ toString seedId ++ "\n")
  let r := st.read (zeros 4) 4
  let numTargetIds := elemAt 4 r.1 0
  let r := r.2.read (zeros (4 * numTargetIds)) (numTargetIds * 4)
  let targetIds := r.1
  let st := r.2.put "\t\t- target ids: "
  let st := forLoop numTargetIds (fun k st =>
    (st.put (toString (elemAt 4 targetIds k))).put " ") st
  st.put "\n"

/-- The member function `read_centerline_start_end_ids_on_mesh`. -/
def read_centerline_start_end_ids_on_mesh : FileSystem → String → Run → Bool × Run :=
  Decoder.centerline_start_end_ids_on_mesh.run centerline_ids_body

/-! ## `read_static_tissue_ivsd_thresholds` -/

/-- Source lines 2754-2761: the two thresholds, read one after the other and then
printed. -/
def ivsd_thresholds_body (sf : FloatFmt → Nat → String) (st : Run) : Run :=
  let r := st.read (zeros 8) 8
  let lowerThreshold := elemAt 8 r.1 0
  let r := r.2.read (zeros 8) 8
  let upperThreshold := elemAt 8 r.1 0
  let st := ((r.2.put "\t\t- lower threshold: ").putF64 sf lowerThreshold).put "\n"
  ((st.put "\t\t- upper threshold: ").putF64 sf upperThreshold).put "\n"

/-- The member function `read_static_tissue_ivsd_thresholds`. -/
def read_static_tissue_ivsd_thresholds (sf : FloatFmt → Nat → String) :
    FileSystem → String → Run → Bool × Run :=
  Decoder.static_tissue_ivsd_thresholds.run (ivsd_thresholds_body sf)

/-! ## Every decoder with a path argument -/

/-- The reads of each decoder: everything between its open checks and its
`return true`. -/
def Decoder.body (sf : FloatFmt → Nat → String) (tagsOf : List Nat → List (List Nat)) :
    Decoder → Run → Run
  | .mesh => mesh_body sf
  | .centerlines => centerlines_body sf
  | .landmark_measuring_planes => landmark_body sf
  | .pathlines => pathlines_body sf
  | .flowfield => flowfield_body sf
  | .pressure_map => _read_nd_scalar_image_in_sparse_matrix_style sf
  | .rotation_direction_map => _read_nd_scalar_image_in_sparse_matrix_style sf
  | .axial_velocity_map => _read_nd_scalar_image_in_sparse_matrix_style sf
  | .cos_angle_to_centerline_map => _read_nd_scalar_image_in_sparse_matrix_style sf
  | .turbulent_kinetic_energy_map => _read_nd_scalar_image_in_sparse_matrix_style sf
  | .flow_jet => flow_jet_body sf
  | .ivsd => _read_nd_scalar_image_in_sparse_matrix_style sf
  | .magnitude_tmip => _read_nd_scalar_image_in_sparse_matrix_style sf
  | .flow_statistics => flow_statistics_body sf
  | .segmentation => _read_nd_scalar_image_in_sparse_matrix_style sf
  | .segmentation_info => segmentation_info_body
  | .segmentation_graphcut_inside_outside_ids => graphcut_ids_body
  | .segmentation_in_flowfield_size => _read_nd_scalar_image_in_sparse_matrix_style sf
  | .vessel_section_segmentation_in_flowfield_size => vessel_sections_body sf
  | .vessel_section_segmentation_semantics => section_semantics_body
  | .centerline_start_end_ids_on_mesh => centerline_ids_body
  | .static_tissue_mask => _read_nd_scalar_image_in_sparse_matrix_style sf
  | .static_tissue_ivsd_thresholds => ivsd_thresholds_body sf
  | .dataset_filter_tags => filter_tags_body tagsOf
  | .phase_wrapped_voxels => phase_wraps_body
  | .velocity_offset_correction_3dt => velocity_offset_body sf
  | .dicom_tags => dicom_body sf
  | .cardiac_cycle_definition => cardiac_cycle_body sf
  | .venc => venc_body sf

/-- The member function `read_X(filepath)` of the decoder `d`. -/
def Decoder.read (sf : FloatFmt → Nat → String) (tagsOf : List Nat → List (List Nat))
    (d : Decoder) : FileSystem → String → Run → Bool × Run :=
  d.run (d.body sf tagsOf)

/-- The 29 decoders with a path argument. -/
def Decoder.all : List Decoder :=
  [.mesh, .centerlines, .landmark_measuring_planes, .pathlines, .flowfield, .pressure_map,
    .rotation_direction_map, .axial_velocity_map, .cos_angle_to_centerline_map,
    .turbulent_kinetic_energy_map, .flow_jet, .ivsd, .magnitude_tmip, .flow_statistics,
    .segmentation, .segmentation_info, .segmentation_graphcut_inside_outside_ids,
    .segmentation_in_flowfield_size, .vessel_section_segmentation_in_flowfield_size,
    .vessel_section_segmentation_semantics, .centerline_start_end_ids_on_mesh,
    .static_tissue_mask, .static_tissue_ivsd_thresholds, .dataset_filter_tags,
    .phase_wrapped_voxels, .velocity_offset_correction_3dt, .dicom_tags,
    .cardiac_cycle_definition, .venc]



/-- The index evaluations one call of a decoder with reads `body` makes, from what
the file system holds at the path and the format flags of the report. -/
def Decoder.accesses (_ : Decoder) (body : Run → Run) (fs : FileSystem) (filepath : String)
    (fmt : FloatFmt) : List (Nat × Nat) :=
  match fs filepath with
  | .missing => []
  | .unopenable => []
  | .present bytes => (body (Run.start bytes fmt)).idx



/-! ## Reads that find nothing left -/

/-- From `st` the code reached `st'`, whose stream has nothing left to extract
(its position is at the end of the content), having written the text `text`. -/
def Drained (st st' : Run) (text : String) : Prop :=
  st'.file.data.length ≤ st'.file.pos ∧ st'.res = st.res ++ text ∧ st'.fmt = st.fmt

/-- What the ND decoder reports for a record that ends right after its world
matrix: the inverse world matrix repeats the world matrix, the two matrices with
time show its 16 entries followed by 9 zeros, and there is no sparse entry. -/
def staleAfterWorld (data : List Nat) (p : Nat) : NDSparseField :=
  let r := decodeNDSparse data p
  { r with
    invWorld4x4 := r.world4x4
    world5x5 := r.world4x4 ++ List.replicate 9 0
    invWorld5x5 := r.world4x4 ++ List.replicate 9 0
    sparseEntries := [] }

/-- The index tuple the ND decoder reports for a sparse entry it could not read,
when `k` entries of tuples of `d` components, stored from byte `e` on, could be
read: the tuple of the last entry read, or zeros when there is none. -/
def staleTuple (data : List Nat) (e d k : Nat) : List Nat :=
  if k = 0 then List.replicate d 0 else (sparseEntryAt data e d (k - 1)).1

/-- What the ND decoder reports for a record that ends after `k` of its sparse
entries: the entries from number `k` on have the index tuple `staleTuple` and the
value 0. -/
def staleAfterEntries (data : List Nat) (p k : Nat) : NDSparseField :=
  let r := decodeNDSparse data p
  let d := u32At data p
  let n := u32At data (p + 660 + 12 * d)
  { r with
    sparseEntries := (List.range n).map (fun i =>
      if i < k then sparseEntryAt data (p + 664 + 12 * d) d i
      else (staleTuple data (p + 664 + 12 * d) d k, 0)) }

/-- A pressure-map file that ends after the first of its two sparse entries:
the synthetic record `exampleND` without its last 16 bytes; 704 bytes. -/
def staleEntryND : List Nat := exampleND.take 704


/-! ## Reads that fall short -/

/-- Between `a` and `b` the stream kept its content, and when it is good at `b` it
was good at `a`, every read in between was complete, and `b` is `n` bytes further
than `a`. -/
def Pace (a b : Run) (n : Nat) : Prop :=
  b.file.data = a.file.data ∧
    (b.file.good = true → a.file.good = true ∧ b.file.pos = a.file.pos + n ∧
      (0 < n → a.file.pos + n ≤ a.file.data.length))

end Bloodline

/-! # Theorems -/

namespace Bloodline

/-! ## Basic facts -/

theorem cat_append (a b : List String) : cat (a ++ b) = cat a ++ cat b := by
  induction a with
  | nil => simp [cat]
  | cons x l ih => simp [cat, ih, String.append_assoc]

theorem catL_append {α : Type} (a b : List (List α)) : catL (a ++ b) = catL a ++ catL b := by
  induction a with
  | nil => simp [catL]
  | cons x l ih => simp [catL, ih]

theorem slice_length (data : List Nat) (p n : Nat) (h : p + n ≤ data.length) :
    (slice data p n).length = n := by
  simp [slice]; omega

theorem zeros_length (n : Nat) : (zeros n).length = n := by simp [zeros]

@[simp] theorem emit_file (st : Run) (t : String) (ix : List (Nat × Nat)) :
    (st.emit t ix).file = st.file := rfl
@[simp] theorem emit_reads (st : Run) (t : String) (ix : List (Nat × Nat)) :
    (st.emit t ix).reads = st.reads := rfl
@[simp] theorem emit_fmt (st : Run) (t : String) (ix : List (Nat × Nat)) :
    (st.emit t ix).fmt = st.fmt := rfl
@[simp] theorem emit_res (st : Run) (t : String) (ix : List (Nat × Nat)) :
    (st.emit t ix).res = st.res ++ t := rfl
@[simp] theorem emit_idx (st : Run) (t : String) (ix : List (Nat × Nat)) :
    (st.emit t ix).idx = st.idx ++ ix := rfl

theorem emit_emit (st : Run) (t u : String) (ix iy : List (Nat × Nat)) :
    (st.emit t ix).emit u iy = st.emit (t ++ u) (ix ++ iy) := by
  simp [Run.emit, String.append_assoc]

theorem emit_nil (st : Run) : st.emit "" [] = st := by
  simp [Run.emit]

theorem put_eq_emit (st : Run) (s : String) : st.put s = st.emit s [] := by
  simp [Run.put, Run.emit]

theorem putF64_eq_emit (sf : FloatFmt → Nat → String) (st : Run) (x : Nat) :
    st.putF64 sf x = st.emit (sf st.fmt x) [] := by
  simp [Run.putF64, put_eq_emit]

theorem putF64At_eq_emit (sf : FloatFmt → Nat → String) (st : Run) (buf : List Nat) (i : Nat) :
    st.putF64At sf buf i = st.emit (sf st.fmt (elemAt 8 buf i)) [(i, buf.length / 8)] := by
  simp [Run.putF64At, Run.index, Run.putF64, Run.put, Run.emit]

theorem putU32At_eq_emit (st : Run) (buf : List Nat) (i : Nat) :
    st.putU32At buf i = st.emit (toString (elemAt 4 buf i)) [(i, buf.length / 4)] := by
  simp [Run.putU32At, Run.index, Run.put, Run.emit]

/-- A loop whose body only emits is one emission. -/
theorem forFrom_emit (body : Nat → Run → Run) (T : FloatFmt → Nat → String)
    (I : Nat → List (Nat × Nat)) (h : ∀ j s, body j s = s.emit (T s.fmt j) (I j)) :
    ∀ (k i : Nat) (s : Run), forFrom body i k s =
      s.emit (cat ((List.range' i k).map (T s.fmt))) (catL ((List.range' i k).map I)) := by
  intro k
  induction k with
  | zero => intro i s; simp [forFrom, cat, catL, emit_nil]
  | succ k ih =>
    intro i s
    simp only [forFrom, ih, h, emit_emit, emit_fmt, List.range', List.map, cat, catL]

/-- Invariant rule for counted loops. -/
theorem forFrom_inv {α : Type} (body : Nat → α → α) (P : Nat → α → Prop) :
    ∀ (k i : Nat) (s : α), P i s →
      (∀ j s, i ≤ j → j < i + k → P j s → P (j + 1) (body j s)) →
      P (i + k) (forFrom body i k s) := by
  intro k
  induction k with
  | zero => intro i s h _; simpa [forFrom] using h
  | succ k ih =>
    intro i s h step
    have h1 := step i s (Nat.le_refl i) (by omega) h
    have := ih (i + 1) (body i s) h1 (fun j s hj hj2 hp => step j s (by omega) (by omega) hp)
    simpa [forFrom, Nat.add_assoc, Nat.add_comm 1 k] using this

/-! ## Reading from a stream that holds the requested bytes -/

theorem extract_ok (f : IfStream) (n : Nat) (hg : f.good = true)
    (h : f.pos + n ≤ f.data.length) :
    f.extract n = (slice f.data f.pos n, ⟨f.data, f.pos + n, true⟩) := by
  have hl := slice_length f.data f.pos n h
  simp [IfStream.extract, hg, hl]

@[simp] theorem read_res (st : Run) (buf : List Nat) (n : Nat) :
    (st.read buf n).2.res = st.res := rfl
@[simp] theorem read_fmt (st : Run) (buf : List Nat) (n : Nat) :
    (st.read buf n).2.fmt = st.fmt := rfl
@[simp] theorem read_idx (st : Run) (buf : List Nat) (n : Nat) :
    (st.read buf n).2.idx = st.idx := rfl
@[simp] theorem read_reads (st : Run) (buf : List Nat) (n : Nat) :
    (st.read buf n).2.reads = st.reads ++ [n] := rfl

theorem read_fst (st : Run) (buf : List Nat) (n : Nat) (data : List Nat) (p : Nat)
    (hf : st.file = ⟨data, p, true⟩) (h : p + n ≤ data.length) (hb : buf.length ≤ n) :
    (st.read buf n).1 = slice data p n := by
  have hl := slice_length data p n h
  have he := extract_ok ⟨data, p, true⟩ n rfl h
  simp only [Run.read, hf, he, hl]
  rw [List.drop_eq_nil_of_le hb]
  simp

theorem read_file (st : Run) (buf : List Nat) (n : Nat) (data : List Nat) (p : Nat)
    (hf : st.file = ⟨data, p, true⟩) (h : p + n ≤ data.length) :
    (st.read buf n).2.file = ⟨data, p + n, true⟩ := by
  have he := extract_ok ⟨data, p, true⟩ n rfl h
  simp only [Run.read, hf, he]

theorem elemAt_zero_slice (w : Nat) (data : List Nat) (p : Nat) :
    elemAt w (slice data p w) 0 = leNat (slice data p w) := by
  simp [elemAt, slice, List.take_take]

/-! ## C10 -/

/-- C10: on a good stream whose next bytes are a 2-byte little-endian length `L`
followed by at least `L` bytes, `read_string` returns exactly the `L` bytes that
follow the length (nothing stripped, zero bytes kept), leaves the stream good and
`2 + L` bytes further, requests the two reads of 2 and `L` bytes, and touches
nothing else; for `L = 0` the result is the empty string and the stream is 2
bytes further. -/
theorem read_string_exact (st : Run) (L : Nat) (hg : st.file.good = true)
    (hL : u16At st.file.data st.file.pos = L)
    (hlen : st.file.pos + 2 + L ≤ st.file.data.length) :
    (read_string st).1 = slice st.file.data (st.file.pos + 2) L ∧
    (read_string st).1.length = L ∧
    (read_string st).2.file = ⟨st.file.data, st.file.pos + 2 + L, true⟩ ∧
    (read_string st).2.reads = st.reads ++ [2, L] ∧
    (read_string st).2.res = st.res ∧
    (L = 0 → (read_string st).1 = [] ∧ (read_string st).2.file.pos = st.file.pos + 2) := by
  have hf : st.file = ⟨st.file.data, st.file.pos, true⟩ := by
    cases hs : st.file with
    | mk d p g => rw [hs] at hg; simp only at hg; simp [hg]
  have v1 := read_fst st (zeros 2) 2 _ _ hf (by omega) (by simp [zeros])
  have f1 := read_file st (zeros 2) 2 _ _ hf (by omega)
  have hv : elemAt 2 (st.read (zeros 2) 2).1 0 = L := by
    rw [v1, elemAt_zero_slice]; exact hL
  have key : read_string st = (st.read (zeros 2) 2).2.read (zeros L) L := by
    unfold read_string; simp only [hv]
  have v2 := read_fst _ (zeros L) L _ _ f1 hlen (by simp [zeros])
  have f2 := read_file _ (zeros L) L _ _ f1 hlen
  rw [key]
  refine ⟨v2, ?_, f2, by simp, by simp, ?_⟩
  · rw [v2]; exact slice_length _ _ _ hlen
  · intro h0
    rw [v2, f2]
    subst h0
    simp [slice]

/-- Witness for `read_string_exact`: the stream `03 00 07 00 09 01` holds the
length 3 and the bytes 7, 0, 9. -/
theorem read_string_exact_witness :
    (read_string { Run.fresh with file := ⟨[3, 0, 7, 0, 9, 1], 0, true⟩ }).1 = [7, 0, 9] ∧
    (read_string { Run.fresh with file := ⟨[3, 0, 7, 0, 9, 1], 0, true⟩ }).2.file.pos = 5 := by
  have h := read_string_exact { Run.fresh with file := ⟨[3, 0, 7, 0, 9, 1], 0, true⟩ } 3
    rfl (by decide) (by decide)
  exact ⟨h.1.trans (by decide), by rw [h.2.2.1]⟩

/-! ## Slices -/

theorem slice_slice (data : List Nat) (q m a b : Nat) (h : a + b ≤ m) :
    slice (slice data q m) a b = slice data (q + a) b := by
  simp only [slice, List.drop_take, List.take_take, List.drop_drop]
  congr 1
  omega

theorem elemAt_slice (w : Nat) (data : List Nat) (q m k : Nat) (h : w * k + w ≤ m) :
    elemAt w (slice data q m) k = leNat (slice data (q + w * k) w) := by
  simp only [elemAt, slice_slice data q m (w * k) w h]

/-! ## Rows with separators -/

theorem intercalate_go (sep : String) (l : List String) (acc : String) :
    String.intercalate.go acc sep l = acc ++ cat (l.map (fun a => sep ++ a)) := by
  induction l generalizing acc with
  | nil => simp [String.intercalate.go, cat]
  | cons a l ih => simp [String.intercalate.go, cat, ih, String.append_assoc]

/-- Writing every element followed by the separator except after the last one is
joining with the separator. -/
theorem cat_sep_eq_intercalate (sep : String) (f : Nat → String) (d : Nat) :
    cat ((List.range' 0 d).map (fun k => f k ++ if k + 1 < d then sep else "")) =
      sep.intercalate ((List.range d).map f) := by
  cases d with
  | zero => simp [cat, String.intercalate]
  | succ d =>
    rw [List.range_eq_range']
    have gen : ∀ (k s : Nat), s + k = d →
        cat ((List.range' s (k + 1)).map (fun j => f j ++ if j + 1 < d + 1 then sep else "")) =
          f s ++ cat (((List.range' (s + 1) k).map f).map (fun a => sep ++ a)) := by
      intro k
      induction k with
      | zero =>
        intro s hs
        have : ¬ (s + 1 < d + 1) := by omega
        simp [List.range', cat, this]
      | succ k ih =>
        intro s hs
        have h1 : s + 1 < d + 1 := by omega
        have := ih (s + 1) (by omega)
        simp only [List.range', List.map, cat, h1, if_true] at this ⊢
        rw [this]
        simp [String.append_assoc]
    have := gen d 0 (by omega)
    simp only [List.range', List.map, String.intercalate, intercalate_go] at this ⊢
    exact this

theorem unsigned_pred (d : Nat) (k : Nat) (hd : d < U32) (hk : k < d) :
    (k < (d + U32 - 1) % U32) ↔ (k + 1 < d) := by
  simp only [U32] at *
  have : (d + 4294967296 - 1) % 4294967296 = d - 1 := by omega
  rw [this]
  omega

theorem ite_unsigned_pred (d : Nat) (k : Nat) (hd : d < U32) (hk : k < d) (a b : String) :
    (if k < (d + U32 - 1) % U32 then a else b) = (if k + 1 < d then a else b) := by
  have hiff := unsigned_pred d k hd hk
  by_cases hc : k + 1 < d
  · rw [if_pos hc, if_pos (hiff.mpr hc)]
  · rw [if_neg hc, if_neg (fun h => hc (hiff.mp h))]


theorem rowStepU32_emit (sep : String) (d : Nat) (buf : List Nat) (j : Nat) (s : Run) :
    rowStepU32 sep d buf j s =
      s.emit (toString (elemAt 4 buf j) ++ if j < (d + U32 - 1) % U32 then sep else "")
        [(j, buf.length / 4)] := by
  unfold rowStepU32
  by_cases hc : j < (d + U32 - 1) % U32
  · simp only [if_pos hc, putU32At_eq_emit, put_eq_emit, emit_emit, List.append_nil]
  · simp only [if_neg hc, putU32At_eq_emit, String.append_empty]

theorem rowStepF64_emit (sf : FloatFmt → Nat → String) (sep : String) (d : Nat) (buf : List Nat)
    (j : Nat) (s : Run) :
    rowStepF64 sf sep d buf j s =
      s.emit (sf s.fmt (elemAt 8 buf j) ++ if j < (d + U32 - 1) % U32 then sep else "")
        [(j, buf.length / 8)] := by
  unfold rowStepF64
  by_cases hc : j < (d + U32 - 1) % U32
  · simp only [if_pos hc, putF64At_eq_emit, put_eq_emit, emit_emit, List.append_nil]
  · simp only [if_neg hc, putF64At_eq_emit, String.append_empty]

theorem putU32Row_emit (sep : String) (d : Nat) (buf : List Nat) (st : Run) (hd : d < U32) :
    putU32Row sep d buf st =
      st.emit (sep.intercalate ((List.range d).map (fun k => toString (elemAt 4 buf k))))
        (rowIdx 4 d buf) := by
  have h := forFrom_emit (rowStepU32 sep d buf)
    (fun _ k => toString (elemAt 4 buf k) ++ if k < (d + U32 - 1) % U32 then sep else "")
    (fun k => [(k, buf.length / 4)])
    (fun j s => rowStepU32_emit sep d buf j s) d 0 st
  rw [← cat_sep_eq_intercalate, putU32Row, forLoop, h]
  have hm : ∀ k ∈ List.range' 0 d,
      (toString (elemAt 4 buf k) ++ if k < (d + U32 - 1) % U32 then sep else "") =
      (toString (elemAt 4 buf k) ++ if k + 1 < d then sep else "") := by
    intro k hk
    have hk' : k < d := by simpa using (List.mem_range'_1.mp hk).2
    rw [ite_unsigned_pred d k hd hk']
  rw [List.map_congr_left hm]
  rfl

theorem putF64Row_emit (sf : FloatFmt → Nat → String) (sep : String) (d : Nat) (buf : List Nat)
    (st : Run) (hd : d < U32) :
    putF64Row sf sep d buf st =
      st.emit (sep.intercalate ((List.range d).map (fun k => sf st.fmt (elemAt 8 buf k))))
        (rowIdx 8 d buf) := by
  have h := forFrom_emit (rowStepF64 sf sep d buf)
    (fun fmt k => sf fmt (elemAt 8 buf k) ++ if k < (d + U32 - 1) % U32 then sep else "")
    (fun k => [(k, buf.length / 8)])
    (fun j s => rowStepF64_emit sf sep d buf j s) d 0 st
  rw [← cat_sep_eq_intercalate, putF64Row, forLoop, h]
  have hm : ∀ k ∈ List.range' 0 d,
      (sf st.fmt (elemAt 8 buf k) ++ if k < (d + U32 - 1) % U32 then sep else "") =
      (sf st.fmt (elemAt 8 buf k) ++ if k + 1 < d then sep else "") := by
    intro k hk
    have hk' : k < d := by simpa using (List.mem_range'_1.mp hk).2
    rw [ite_unsigned_pred d k hd hk']
  rw [List.map_congr_left hm]
  rfl

/-! ## Matrices -/

theorem putMatrix_inner (sf : FloatFmt → Nat → String) (buf : List Nat) (c : Nat) :
    ∀ (k j : Nat) (st : Run),
      forFrom (matCell sf buf) j k (c + j, st) =
        (c + j + k, st.emit
          (cat ((List.range' j k).map (fun col => sf st.fmt (elemAt 8 buf (c + col)) ++ " ")))
          (catL ((List.range' j k).map (fun col => [(c + col, buf.length / 8)])))) := by
  intro k
  induction k with
  | zero => intro j st; simp [forFrom, cat, catL, emit_nil]
  | succ k ih =>
    intro j st
    have h := ih (j + 1) (((st.putF64At sf buf (c + j)).put " "))
    rw [forFrom, matCell]
    rw [show c + j + 1 = c + (j + 1) by omega, h]
    simp only [putF64At_eq_emit, put_eq_emit, emit_emit, emit_fmt, List.range', List.map, cat,
      catL, String.append_assoc, List.append_nil]
    congr 1
    omega

theorem matRow_eq (sf : FloatFmt → Nat → String) (n : Nat) (buf : List Nat) (i : Nat)
    (st : Run) : matRow sf n buf i (i * n, st) =
      ((i + 1) * n, st.emit ("\t\t\t" ++ cat ((List.range' 0 n).map
          (fun c => sf st.fmt (elemAt 8 buf (i * n + c)) ++ " ")) ++ "\n")
          (catL ((List.range' 0 n).map (fun c => [(i * n + c, buf.length / 8)])))) := by
  have h1 := putMatrix_inner sf buf (i * n) n 0 (st.put "\t\t\t")
  simp only [Nat.add_zero, put_eq_emit, emit_fmt] at h1
  simp only [matRow, forLoop, put_eq_emit, h1, emit_emit, emit_fmt, Nat.succ_mul,
    List.nil_append, List.append_nil, String.append_assoc]

theorem putMatrix_outer (sf : FloatFmt → Nat → String) (n : Nat) (buf : List Nat) :
    ∀ (k i : Nat) (st : Run),
      forFrom (matRow sf n buf) i k (i * n, st) =
        ((i + k) * n, st.emit (cat ((List.range' i k).map (fun r =>
          "\t\t\t" ++ cat ((List.range' 0 n).map
            (fun c => sf st.fmt (elemAt 8 buf (r * n + c)) ++ " ")) ++ "\n")))
          (catL ((List.range' i k).map (fun r =>
            catL ((List.range' 0 n).map (fun c => [(r * n + c, buf.length / 8)])))))) := by
  intro k
  induction k with
  | zero => intro i st; simp [forFrom, cat, catL, emit_nil]
  | succ k ih =>
    intro i st
    rw [forFrom, matRow_eq, ih]
    simp only [emit_emit, emit_fmt, List.range', List.map, cat, catL]
    congr 1
    rw [show i + 1 + k = i + (k + 1) by omega]

theorem putMatrix_emit (sf : FloatFmt → Nat → String) (n : Nat) (buf : List Nat) (st : Run) :
    putMatrix sf n buf st = st.emit (matText sf st.fmt n buf) (matIdx n buf) := by
  have h := putMatrix_outer sf n buf n 0 st
  simp only [Nat.zero_mul] at h
  simp only [putMatrix, forLoop, h, matText, matIdx]

/-! ## Composition of steps -/

theorem Reaches.refl (data : List Nat) (st : Run) (p : Nat) (hf : st.file = ⟨data, p, true⟩) :
    Reaches data st st p [] "" := by
  simp [Reaches, hf]

theorem Reaches.trans {data : List Nat} {a b c : Run} {p q : Nat} {l1 l2 : List Nat}
    {t1 t2 : String} (h1 : Reaches data a b p l1 t1) (h2 : Reaches data b c q l2 t2) :
    Reaches data a c q (l1 ++ l2) (t1 ++ t2) := by
  obtain ⟨_, r1, x1, m1⟩ := h1
  obtain ⟨f2, r2, x2, m2⟩ := h2
  exact ⟨f2, by rw [r2, r1, List.append_assoc], by rw [x2, x1, String.append_assoc],
    by rw [m2, m1]⟩

theorem Reaches.emit {data : List Nat} {a b : Run} {p : Nat} {l : List Nat} {t : String}
    (h : Reaches data a b p l t) (u : String) (ix : List (Nat × Nat)) :
    Reaches data a (b.emit u ix) p l (t ++ u) := by
  obtain ⟨f, r, x, m⟩ := h
  exact ⟨by simp [f], by simp [r], by simp [x, String.append_assoc], by simp [m]⟩

theorem Reaches.put {data : List Nat} {a b : Run} {p : Nat} {l : List Nat} {t : String}
    (h : Reaches data a b p l t) (u : String) :
    Reaches data a (b.put u) p l (t ++ u) := by
  rw [put_eq_emit]; exact h.emit u []

theorem Reaches.read {data : List Nat} {a b : Run} {p : Nat} {l : List Nat} {t : String}
    (h : Reaches data a b p l t) (buf : List Nat) (n : Nat) (hn : p + n ≤ data.length) :
    Reaches data a (b.read buf n).2 (p + n) (l ++ [n]) t := by
  obtain ⟨f, r, x, m⟩ := h
  exact ⟨read_file b buf n data p f hn, by simp [r], by simp [x], by simp [m]⟩

theorem Reaches.read_value {data : List Nat} {a b : Run} {p : Nat} {l : List Nat} {t : String}
    (h : Reaches data a b p l t) (buf : List Nat) (n : Nat) (hn : p + n ≤ data.length)
    (hb : buf.length ≤ n) : (b.read buf n).1 = slice data p n :=
  Bloodline.read_fst b buf n data p h.1 hn hb

theorem Reaches.congr {data : List Nat} {a b : Run} {p p' : Nat} {l l' : List Nat}
    {t t' : String} (h : Reaches data a b p l t) (hp : p = p') (hl : l = l') (ht : t = t') :
    Reaches data a b p' l' t' := by
  subst hp; subst hl; subst ht; exact h

theorem Reaches.emit_eq {data : List Nat} {a b c : Run} {p : Nat} {l : List Nat} {t u : String}
    {ix : List (Nat × Nat)} (h : Reaches data a b p l t) (e : c = b.emit u ix) :
    Reaches data a c p l (t ++ u) := by
  rw [e]; exact h.emit u ix

/-! ## Values -/

theorem leNat_lt (l : List Nat) : leNat l < 256 ^ l.length := by
  induction l with
  | nil => simp [leNat]
  | cons b bs ih =>
    simp only [leNat, List.length_cons, pow_succ]
    have := Nat.mod_lt b (show 256 > 0 by decide)
    omega

theorem slice_length_le (data : List Nat) (p n : Nat) : (slice data p n).length ≤ n := by
  simp [slice]

theorem u32At_lt (data : List Nat) (p : Nat) : u32At data p < U32 := by
  have h1 := leNat_lt (slice data p 4)
  have h2 := slice_length_le data p 4
  have : 256 ^ (slice data p 4).length ≤ 256 ^ 4 := Nat.pow_le_pow_right (by decide) h2
  simp only [u32At, U32]
  omega

theorem getD_map_range (f : Nat → Nat) (n j : Nat) (h : j < n) :
    ((List.range n).map f).getD j 0 = f j := by
  simp [List.getD_eq_getElem?_getD, h]


/-! ## The ND-sparse-field decoder on a complete record -/

theorem map_elemAt_slice (w : Nat) (g : Nat → String) (data : List Nat) (q d : Nat) :
    (List.range d).map (fun k => g (elemAt w (slice data q (d * w)) k)) =
      ((List.range d).map (fun i => leNat (slice data (q + w * i) w))).map g := by
  rw [List.map_map]
  apply List.map_congr_left
  intro k hk
  have hk' : k < d := List.mem_range.mp hk
  have : w * k + w ≤ d * w := by
    have := Nat.mul_le_mul_right w (show k + 1 ≤ d by omega)
    rw [Nat.succ_mul, Nat.mul_comm k w] at this
    exact this
  simp only [Function.comp, elemAt_slice w data q (d * w) k this]

theorem nd_dims_spec (sf : FloatFmt → Nat → String) (data : List Nat) (st : Run) (p : Nat)
    (hf : st.file = ⟨data, p, true⟩) (hlen : p + 4 + 12 * u32At data p ≤ data.length) :
    (nd_dims sf st).1 = u32At data p ∧
      Reaches data st (nd_dims sf st).2 (p + 4 + 12 * u32At data p)
        [4, u32At data p * 4, u32At data p * 8]
        ("\t\t- num. dimensions: " ++ toString (u32At data p) ++ "\n"
          ++ "\t\t- grid size: "
          ++ " x ".intercalate ((decodeNDSparse data p).gridSize.map toString) ++ "\n"
          ++ "\t\t- voxel scale: "
          ++ " x ".intercalate ((decodeNDSparse data p).voxelScale.map (sf st.fmt)) ++ "\n") := by
  have hdlt := u32At_lt data p
  unfold nd_dims
  lift_lets
  extract_lets r1 numDims s1 r2 gridsize s2 s3 r3 voxelscale s4
  have h0 := Reaches.refl data st p hf
  have v1 : r1.1 = slice data p 4 := h0.read_value (zeros 4) 4 (by omega) (by simp [zeros])
  have hd : numDims = u32At data p := by
    show elemAt 4 r1.1 0 = _
    rw [v1, elemAt_zero_slice]; rfl
  have h1 : Reaches data st s1 _ _ _ := (h0.read (zeros 4) 4 (by omega)).put _
  have v2 : gridsize = slice data (p + 4) (numDims * 4) :=
    h1.read_value _ _ (by omega) (by simp [zeros]; omega)
  have h2 : Reaches data st s2 _ _ _ := (h1.read (zeros (4 * numDims)) _ (by omega)).put _
  have h3 : Reaches data st s3 _ _ _ :=
    (h2.emit_eq (putU32Row_emit " x " numDims gridsize s2 (hd ▸ hdlt))).put "\n"
  have v3 : voxelscale = slice data (p + 4 + numDims * 4) (numDims * 8) :=
    h3.read_value _ _ (by omega) (by simp [zeros]; omega)
  have h4 : Reaches data st s4 _ _ _ := (h3.read (zeros (8 * numDims)) _ (by omega)).put _
  have h5 : Reaches data st ((putF64Row sf " x " numDims voxelscale s4).put "\n") _ _ _ :=
    (h4.emit_eq (putF64Row_emit sf " x " numDims voxelscale s4 (hd ▸ hdlt))).put "\n"
  have m4 : s4.fmt = st.fmt := h4.2.2.2
  refine ⟨hd, h5.congr (by omega) (by simp [hd]) ?_⟩
  rw [m4, v2, v3, map_elemAt_slice 4 toString, map_elemAt_slice 8 (sf st.fmt)]
  simp only [hd, decodeNDSparse, f64sAt, u32At, f64At, String.empty_append,
    String.append_assoc, Nat.mul_comm (leNat (slice data p 4)) 4]

theorem vresize_length (w : Nat) (buf : List Nat) (k : Nat) : (vresize w buf k).length = w * k := by
  simp only [vresize, zeros, List.length_take, List.length_append, List.length_replicate]
  omega

theorem Reaches.readF64s {data : List Nat} {a b : Run} {p : Nat} {l : List Nat} {t : String}
    (h : Reaches data a b p l t) (buf : List Nat) (n : Nat) (hb : buf.length = 8 * n)
    (hn : p + 8 * n ≤ data.length) :
    Reaches data a (b.readF64s buf).2 (p + 8 * n) (l ++ [8 * n]) t ∧
      (b.readF64s buf).1 = slice data p (8 * n) ∧ (b.readF64s buf).1.length = 8 * n := by
  have hk : buf.length / 8 * 8 = 8 * n := by omega
  unfold Run.readF64s
  rw [hk]
  have v := h.read_value buf (8 * n) hn (by omega)
  exact ⟨h.read buf (8 * n) hn, v, by rw [v]; exact slice_length _ _ _ hn⟩

theorem matText_slice (sf : FloatFmt → Nat → String) (fmt : FloatFmt) (n N : Nat)
    (data : List Nat) (q : Nat) (hN : ∀ r c, r < n → c < n → r * n + c < N) :
    matText sf fmt n (slice data q (8 * N)) = renderMatrix sf fmt n (f64sAt data q N) := by
  unfold matText renderMatrix
  rw [List.range_eq_range']
  congr 1
  apply List.map_congr_left
  intro r hr
  have hr' : r < n := by simpa using (List.mem_range'_1.mp hr).2
  congr 3
  apply List.map_congr_left
  intro c hc
  have hc' : c < n := by simpa using (List.mem_range'_1.mp hc).2
  have hlt := hN r c hr' hc'
  rw [elemAt_slice 8 data q (8 * N) (r * n + c) (by omega)]
  simp only [f64sAt, getD_map_range _ N (r * n + c) hlt, f64At]

theorem nd_matrices_spec (sf : FloatFmt → Nat → String) (data : List Nat) (st : Run) (q : Nat)
    (hf : st.file = ⟨data, q, true⟩) (hlen : q + 656 ≤ data.length) :
    Reaches data st (nd_matrices sf st) (q + 656) [128, 128, 200, 200]
      ("\t\t- world matrix:\n" ++ renderMatrix sf st.fmt 4 (f64sAt data q 16)
        ++ "\t\t- inverse world matrix:\n" ++ renderMatrix sf st.fmt 4 (f64sAt data (q + 128) 16)
        ++ "\t\t- world matrix with time:\n" ++ renderMatrix sf st.fmt 5 (f64sAt data (q + 256) 25)
        ++ "\t\t- inverse world matrix with time:\n"
        ++ renderMatrix sf st.fmt 5 (f64sAt data (q + 456) 25)) := by
  unfold nd_matrices
  lift_lets
  extract_lets r1 s1 r2 s2 r3 s3 r4
  have h0 := Reaches.refl data st q hf
  obtain ⟨g1, v1, n1⟩ := h0.readF64s (zeros (8 * 16)) 16 (by simp [zeros]) (by omega)
  have h1 : Reaches data st s1 _ _ _ := (g1.put _).emit_eq (putMatrix_emit sf 4 r1.1 _)
  obtain ⟨g2, v2, n2⟩ := h1.readF64s r1.1 16 n1 (by omega)
  have h2 : Reaches data st s2 _ _ _ := (g2.put _).emit_eq (putMatrix_emit sf 4 r2.1 _)
  obtain ⟨g3, v3, n3⟩ := h2.readF64s (vresize 8 r2.1 25) 25 (vresize_length 8 r2.1 25) (by omega)
  have h3 : Reaches data st s3 _ _ _ := (g3.put _).emit_eq (putMatrix_emit sf 5 r3.1 _)
  obtain ⟨g4, v4, n4⟩ := h3.readF64s r3.1 25 n3 (by omega)
  have h4 : Reaches data st
      (putMatrix sf 5 r4.1 (r4.2.put "\t\t- inverse world matrix with time:\n")) _ _ _ :=
    (g4.put _).emit_eq (putMatrix_emit sf 5 r4.1 _)
  refine h4.congr (by omega) (by simp) ?_
  have e1 : (r1.2.put "\t\t- world matrix:\n").fmt = st.fmt := (g1.put _).2.2.2
  have e2 : (r2.2.put "\t\t- inverse world matrix:\n").fmt = st.fmt := (g2.put _).2.2.2
  have e3 : (r3.2.put "\t\t- world matrix with time:\n").fmt = st.fmt := (g3.put _).2.2.2
  have e4 : (r4.2.put "\t\t- inverse world matrix with time:\n").fmt = st.fmt := (g4.put _).2.2.2
  change r1.1 = slice data q (8 * 16) at v1
  change r2.1 = slice data (q + 8 * 16) (8 * 16) at v2
  change r3.1 = slice data (q + 8 * 16 + 8 * 16) (8 * 25) at v3
  change r4.1 = slice data (q + 8 * 16 + 8 * 16 + 8 * 25) (8 * 25) at v4
  rw [e1, e2, e3, e4, v1, v2, v3, v4,
    matText_slice sf st.fmt 4 16 data _ (by intro r c hr hc; omega),
    matText_slice sf st.fmt 4 16 data _ (by intro r c hr hc; omega),
    matText_slice sf st.fmt 5 25 data _ (by intro r c hr hc; omega),
    matText_slice sf st.fmt 5 25 data _ (by intro r c hr hc; omega)]
  simp only [String.empty_append, String.append_assoc]


theorem preview_succ (E : Nat → String) (j : Nat) :
    cat ((List.range (min (j + 1) NUM_DEMO)).map E) =
      cat ((List.range (min j NUM_DEMO)).map E) ++ if j < NUM_DEMO then E j else "" := by
  by_cases hj : j < NUM_DEMO
  · have h1 : min (j + 1) NUM_DEMO = j + 1 := by simp only [NUM_DEMO] at *; omega
    have h2 : min j NUM_DEMO = j := by simp only [NUM_DEMO] at *; omega
    rw [h1, h2, if_pos hj, List.range_succ, List.map_append, cat_append]
    simp [cat]
  · have h1 : min (j + 1) NUM_DEMO = min j NUM_DEMO := by simp only [NUM_DEMO] at *; omega
    rw [h1, if_neg hj, String.append_empty]

theorem zipWith_range_map {β : Type} (f : Nat → β → String) (g : Nat → β) (n : Nat) :
    List.zipWith f (List.range NUM_DEMO) ((List.range n).map g) =
      (List.range (min n NUM_DEMO)).map (fun i => f i (g i)) := by
  rcases n with _ | _ | _ | n
  · rfl
  · rfl
  · rfl
  · have h1 : min (n + 1 + 1 + 1) NUM_DEMO = 3 := by simp only [NUM_DEMO]; omega
    rw [h1]
    simp only [NUM_DEMO, List.range_eq_range', List.range', List.map, List.zipWith]

theorem ndEntry_step (sf : FloatFmt → Nat → String) (data : List Nat) (a : Run)
    (gs : List Nat × Run) (e d j : Nat) (l : List Nat) (t : String) (hd : d < U32)
    (hb : gs.1.length = 4 * d)
    (h : Reaches data a gs.2 (e + j * (4 * d + 8)) l t)
    (hlen : e + (j + 1) * (4 * d + 8) ≤ data.length) :
    (ndEntry sf d j gs).1.length = 4 * d ∧
      Reaches data a (ndEntry sf d j gs).2 (e + (j + 1) * (4 * d + 8)) (l ++ [d * 4, 8])
        (t ++ if j < NUM_DEMO then renderEntry sf a.fmt j (sparseEntryAt data e d j) else "") := by
  have hm : (j + 1) * (4 * d + 8) = j * (4 * d + 8) + (4 * d + 8) := Nat.succ_mul _ _
  obtain ⟨g, st⟩ := gs
  simp only at hb h
  have v1 := h.read_value g (d * 4) (by omega) (by omega)
  have h1 := h.read g (d * 4) (by omega)
  have v2 := h1.read_value (zeros 8) 8 (by omega) (by simp [zeros])
  have h2 := h1.read (zeros 8) 8 (by omega)
  have hval : elemAt 8 ((st.read g (d * 4)).2.read (zeros 8) 8).1 0 =
      f64At data (e + j * (4 * d + 8) + d * 4) := by
    rw [v2, elemAt_zero_slice]; rfl
  have hlen1 : (st.read g (d * 4)).1.length = 4 * d := by
    rw [v1, slice_length _ _ _ (by omega)]; omega
  unfold ndEntry
  simp only [hval]
  by_cases hj : j < NUM_DEMO
  · simp only [if_pos hj]
    refine ⟨hlen1, ?_⟩
    have h3 := (((h2.put ("\t\t\t- " ++ toString j ++ ": [")).emit_eq
      (putU32Row_emit ", " d (st.read g (d * 4)).1 _ hd)).put "] = ")
    have h4 := (h3.emit_eq
      (putF64_eq_emit sf _ (f64At data (e + j * (4 * d + 8) + d * 4)))).put "\n"
    refine h4.congr (by omega) (by simp) ?_
    have m3 : ((putU32Row ", " d (st.read g (d * 4)).1
        (((st.read g (d * 4)).2.read (zeros 8) 8).2.put
          ("\t\t\t- " ++ toString j ++ ": ["))).put "] = ").fmt = a.fmt := h3.2.2.2
    rw [m3, v1, map_elemAt_slice 4 toString]
    simp only [renderEntry, sparseEntryAt, u32At, String.append_assoc, Nat.mul_comm d 4]
  · simp only [if_neg hj, String.append_empty]
    exact ⟨hlen1, h2.congr (by omega) (by simp) rfl⟩


theorem nd_values_spec (sf : FloatFmt → Nat → String) (data : List Nat) (st : Run) (q d : Nat)
    (hf : st.file = ⟨data, q, true⟩) (hd : d < U32)
    (hlen : q + 4 + u32At data q * (4 * d + 8) ≤ data.length) :
    Reaches data st (nd_values sf d st) (q + 4 + u32At data q * (4 * d + 8))
      ([4] ++ catL (List.replicate (u32At data q) [d * 4, 8]))
      ("\t\t- num. non-zero values: " ++ toString (u32At data q) ++ "\n"
        ++ renderPreview sf st.fmt ((List.range (u32At data q)).map (sparseEntryAt data (q + 4) d))
        ++ "\t\t\t- ...\n") := by
  unfold nd_values
  lift_lets
  extract_lets r numNonZero s1 gridpos gs
  have h0 := Reaches.refl data st q hf
  have v1 : r.1 = slice data q 4 := h0.read_value (zeros 4) 4 (by omega) (by simp [zeros])
  have hn : numNonZero = u32At data q := by
    show elemAt 4 r.1 0 = _
    rw [v1, elemAt_zero_slice]; rfl
  have h1 : Reaches data st s1 _ _ _ := (h0.read (zeros 4) 4 (by omega)).put _
  have inv := forFrom_inv (ndEntry sf d)
    (fun i gs => gs.1.length = 4 * d ∧
      Reaches data st gs.2 (q + 4 + i * (4 * d + 8))
        ([4] ++ catL (List.replicate i [d * 4, 8]))
        ("\t\t- num. non-zero values: " ++ toString numNonZero ++ "\n" ++
          cat ((List.range (min i NUM_DEMO)).map
            (fun j => renderEntry sf st.fmt j (sparseEntryAt data (q + 4) d j)))))
    numNonZero 0 (gridpos, s1)
    ⟨by simp [gridpos, zeros], h1.congr (by omega) (by simp [catL]) (by simp [cat])⟩
    (by
      intro j gs' _ hj hP
      have hle : (j + 1) * (4 * d + 8) ≤ u32At data q * (4 * d + 8) :=
        Nat.mul_le_mul_right _ (by omega)
      obtain ⟨hb, hr⟩ := hP
      obtain ⟨hb', hr'⟩ := ndEntry_step sf data st gs' (q + 4) d j _ _ hd hb hr (by omega)
      refine ⟨hb', hr'.congr rfl ?_ ?_⟩
      · rw [List.replicate_succ', catL_append]
        simp [catL]
      · rw [preview_succ, String.append_assoc])
  simp only [Nat.zero_add] at inv
  obtain ⟨_, hr⟩ := inv
  have h2 : Reaches data st (gs.2.put "\t\t\t- ...\n") _ _ _ := hr.put _
  refine h2.congr (by rw [hn]) (by rw [hn]) ?_
  rw [hn]
  simp only [renderPreview, zipWith_range_map, String.append_assoc]

theorem nd_complete (sf : FloatFmt → Nat → String) (data : List Nat) (st : Run) (p : Nat)
    (hf : st.file = ⟨data, p, true⟩) (hlen : p + ndSparseSize data p ≤ data.length) :
    Reaches data st (_read_nd_scalar_image_in_sparse_matrix_style sf st)
      (p + ndSparseSize data p)
      ([4, u32At data p * 4, u32At data p * 8, 128, 128, 200, 200, 4] ++
        catL (List.replicate (u32At data (p + 660 + 12 * u32At data p)) [u32At data p * 4, 8]))
      (renderNDSparse sf st.fmt (decodeNDSparse data p)) := by
  simp only [ndSparseSize] at hlen ⊢
  obtain ⟨hd, h1⟩ := nd_dims_spec sf data st p hf (by omega)
  have h2 := nd_matrices_spec sf data (nd_dims sf st).2 _ h1.1 (by omega)
  have hq : p + 4 + 12 * u32At data p + 656 = p + 660 + 12 * u32At data p := by omega
  have h3 := nd_values_spec sf data (nd_matrices sf (nd_dims sf st).2) _ (u32At data p) h2.1
    (u32At_lt data p) (by rw [hq]; omega)
  have m1 : (nd_dims sf st).2.fmt = st.fmt := h1.2.2.2
  have m2 : (nd_matrices sf (nd_dims sf st).2).fmt = st.fmt := by rw [h2.2.2.2, m1]
  rw [hq, m2] at h3
  rw [m1] at h2
  have h := (h1.trans h2).trans h3
  unfold _read_nd_scalar_image_in_sparse_matrix_style
  simp only [hd]
  refine h.congr (by omega) (by simp) ?_
  simp only [renderNDSparse, decodeNDSparse, hq, List.length_map, List.length_range,
    String.append_assoc]
  have e2 : p + 660 + 12 * u32At data p + 4 = p + 4 + 12 * u32At data p + 660 := by omega
  rw [e2]


/-! ## C1 -/

/-- C1: on a good stream that holds, from the read position `p` on, a complete
ND-sparse-field record with header values `numDims = d` and `numNonZero = n`,
`_read_nd_scalar_image_in_sparse_matrix_style` leaves the stream good and exactly
`664 + 12 * d + n * (4 * d + 8)` bytes further, and its reads are, in this order,
4 bytes (`numDims`), `d * 4` (grid size), `d * 8` (voxel scale), `16 * 8`, `16 * 8`,
`25 * 8`, `25 * 8` (matrices), 4 (`numNonZero`), then `n` times `d * 4` and 8. -/
theorem nd_consumes_exactly (sf : FloatFmt → Nat → String) (st : Run) (data : List Nat)
    (p d n : Nat) (hf : st.file = ⟨data, p, true⟩) (hd : u32At data p = d)
    (hn : u32At data (p + 660 + 12 * d) = n)
    (hlen : p + (664 + 12 * d + n * (4 * d + 8)) ≤ data.length) :
    (_read_nd_scalar_image_in_sparse_matrix_style sf st).file =
        ⟨data, p + (664 + 12 * d + n * (4 * d + 8)), true⟩ ∧
      (_read_nd_scalar_image_in_sparse_matrix_style sf st).reads =
        st.reads ++ ([4, d * 4, d * 8, 16 * 8, 16 * 8, 25 * 8, 25 * 8, 4]
          ++ catL (List.replicate n [d * 4, 8])) := by
  subst hd
  subst hn
  have h := nd_complete sf data st p hf (by simpa [ndSparseSize] using hlen)
  exact ⟨by simpa [ndSparseSize] using h.1, by simpa using h.2.1⟩

set_option maxRecDepth 100000 in
/-- Witness for `nd_consumes_exactly`: the 720-byte scenario file, read from
offset 0, has `numDims = 2` and `numNonZero = 2`, and `664 + 24 + 2 * 16 = 720`. -/
theorem nd_consumes_exactly_witness :
    (_read_nd_scalar_image_in_sparse_matrix_style bitsF64 (Run.fresh.opened exampleND)).file =
        ⟨exampleND, 720, true⟩ ∧
      (_read_nd_scalar_image_in_sparse_matrix_style bitsF64 (Run.fresh.opened exampleND)).reads =
        [4, 8, 16, 128, 128, 200, 200, 4, 8, 8, 8, 8] :=
  nd_consumes_exactly bitsF64 (Run.fresh.opened exampleND) exampleND 0 2 2 rfl
    (by decide) (by decide) (by decide)

/-! ## C2 -/

/-- C2: on a good stream that holds a complete ND-sparse-field record at the read
position, the text the decoder appends to the report is the rendering of the
record the bytes encode: `numDims`, the `numDims` grid sizes in stored order
joined by " x ", the voxel scales and matrices, the number of non-zero values, the
first `min numNonZero 3` entries in stored order (entry `i` labelled `i`, with its
index tuple and value), and the closing line. -/
theorem nd_report (sf : FloatFmt → Nat → String) (st : Run) (data : List Nat) (p : Nat)
    (hf : st.file = ⟨data, p, true⟩) (hlen : p + ndSparseSize data p ≤ data.length) :
    (_read_nd_scalar_image_in_sparse_matrix_style sf st).res =
      st.res ++ renderNDSparse sf st.fmt (decodeNDSparse data p) :=
  (nd_complete sf data st p hf hlen).2.2.1

set_option maxRecDepth 100000 in
/-- Witness for `nd_report`: the scenario file. -/
theorem nd_report_witness :
    (decodeNDSparse exampleND 0).gridSize = [4, 4] ∧
      (decodeNDSparse exampleND 0).sparseEntries =
        [([1, 2], 4615063718147915776), ([0, 0], 13831680355561635840)] ∧
      (_read_nd_scalar_image_in_sparse_matrix_style bitsF64 (Run.fresh.opened exampleND)).res =
        "" ++ renderNDSparse bitsF64 FloatFmt.default (decodeNDSparse exampleND 0) :=
  ⟨by decide, by decide,
    nd_report bitsF64 (Run.fresh.opened exampleND) exampleND 0 rfl (by decide)⟩


/-! ## C3 -/

set_option maxRecDepth 100000 in
/-- C3, as stated, fails: the scenario file has `numNonZero = 2`, which is not
above 3, and the text the decoder writes for it still ends with the ellipsis
line, right after the two entries. -/
theorem nd_ellipsis_counterexample :
    u32At exampleND 684 = 2 ∧
      ∃ pre, (_read_nd_scalar_image_in_sparse_matrix_style bitsF64
          (Run.fresh.opened exampleND)).res =
        pre ++ "\t\t- num. non-zero values: 2\n"
          ++ "\t\t\t- 0: [1, 2] = #4615063718147915776\n"
          ++ "\t\t\t- 1: [0, 0] = #13831680355561635840\n"
          ++ "\t\t\t- ...\n" := by
  refine ⟨by decide, ?_⟩
  have h := (nd_complete bitsF64 exampleND (Run.fresh.opened exampleND) 0 rfl (by decide)).2.2.1
  have e1 : (decodeNDSparse exampleND 0).sparseEntries.length = 2 := by decide
  have e2 : renderPreview bitsF64 (Run.fresh.opened exampleND).fmt
      (decodeNDSparse exampleND 0).sparseEntries =
      "\t\t\t- 0: [1, 2] = #4615063718147915776\n"
        ++ "\t\t\t- 1: [0, 0] = #13831680355561635840\n" := by decide
  have e3 : "\t\t- num. non-zero values: 2\n" =
      "\t\t- num. non-zero values: " ++ toString 2 ++ "\n" := by decide
  rw [h, renderNDSparse, e1, e2, e3]
  refine ⟨(Run.fresh.opened exampleND).res
      ++ "\t\t- num. dimensions: " ++ toString (decodeNDSparse exampleND 0).numDims ++ "\n"
      ++ "\t\t- grid size: "
      ++ " x ".intercalate ((decodeNDSparse exampleND 0).gridSize.map toString) ++ "\n"
      ++ "\t\t- voxel scale: "
      ++ " x ".intercalate ((decodeNDSparse exampleND 0).voxelScale.map
          (bitsF64 (Run.fresh.opened exampleND).fmt)) ++ "\n"
      ++ "\t\t- world matrix:\n"
      ++ renderMatrix bitsF64 (Run.fresh.opened exampleND).fmt 4
          (decodeNDSparse exampleND 0).world4x4
      ++ "\t\t- inverse world matrix:\n"
      ++ renderMatrix bitsF64 (Run.fresh.opened exampleND).fmt 4
          (decodeNDSparse exampleND 0).invWorld4x4
      ++ "\t\t- world matrix with time:\n"
      ++ renderMatrix bitsF64 (Run.fresh.opened exampleND).fmt 5
          (decodeNDSparse exampleND 0).world5x5
      ++ "\t\t- inverse world matrix with time:\n"
      ++ renderMatrix bitsF64 (Run.fresh.opened exampleND).fmt 5
          (decodeNDSparse exampleND 0).invWorld5x5, ?_⟩
  simp only [String.append_assoc]

/-- C3, amended: for every complete ND-sparse-field record the text written after
the header part is the line with the number of non-zero values, then the first
`min numNonZero 3` entries, then always the ellipsis line, whatever `numNonZero`
is; the preview has `min numNonZero 3` entries, and for `numNonZero = 0` the
ellipsis line directly follows the line with the number. -/
theorem nd_preview_then_ellipsis (sf : FloatFmt → Nat → String) (st : Run) (data : List Nat)
    (p n : Nat) (hf : st.file = ⟨data, p, true⟩)
    (hn : u32At data (p + 660 + 12 * u32At data p) = n)
    (hlen : p + ndSparseSize data p ≤ data.length) :
    (∃ pre, (_read_nd_scalar_image_in_sparse_matrix_style sf st).res =
      pre ++ "\t\t- num. non-zero values: " ++ toString n ++ "\n"
        ++ renderPreview sf st.fmt (decodeNDSparse data p).sparseEntries
        ++ "\t\t\t- ...\n") ∧
    (List.zipWith (renderEntry sf st.fmt) (List.range NUM_DEMO)
      (decodeNDSparse data p).sparseEntries).length = min n 3 ∧
    (n = 0 → renderPreview sf st.fmt (decodeNDSparse data p).sparseEntries = "") := by
  have h := (nd_complete sf data st p hf hlen).2.2.1
  have hlenE : (decodeNDSparse data p).sparseEntries.length = n := by
    simp only [decodeNDSparse, List.length_map, List.length_range]
    rw [show p + 4 + 12 * u32At data p + 656 = p + 660 + 12 * u32At data p by omega, hn]
  refine ⟨⟨st.res ++ "\t\t- num. dimensions: " ++ toString (decodeNDSparse data p).numDims ++ "\n"
      ++ "\t\t- grid size: "
      ++ " x ".intercalate ((decodeNDSparse data p).gridSize.map toString) ++ "\n"
      ++ "\t\t- voxel scale: "
      ++ " x ".intercalate ((decodeNDSparse data p).voxelScale.map (sf st.fmt)) ++ "\n"
      ++ "\t\t- world matrix:\n" ++ renderMatrix sf st.fmt 4 (decodeNDSparse data p).world4x4
      ++ "\t\t- inverse world matrix:\n"
      ++ renderMatrix sf st.fmt 4 (decodeNDSparse data p).invWorld4x4
      ++ "\t\t- world matrix with time:\n"
      ++ renderMatrix sf st.fmt 5 (decodeNDSparse data p).world5x5
      ++ "\t\t- inverse world matrix with time:\n"
      ++ renderMatrix sf st.fmt 5 (decodeNDSparse data p).invWorld5x5, ?_⟩, ?_, ?_⟩
  · rw [h, renderNDSparse, hlenE]
    simp only [String.append_assoc]
  · simp only [List.length_zipWith, List.length_range, hlenE, NUM_DEMO]
    omega
  · intro h0
    have : (decodeNDSparse data p).sparseEntries = [] := by
      apply List.eq_nil_of_length_eq_zero
      rw [hlenE, h0]
    rw [this]
    simp [renderPreview, cat]

set_option maxRecDepth 100000 in
/-- Witness for `nd_preview_then_ellipsis`: the scenario file, with two entries. -/
theorem nd_preview_then_ellipsis_witness :
    (List.zipWith (renderEntry bitsF64 FloatFmt.default) (List.range NUM_DEMO)
      (decodeNDSparse exampleND 0).sparseEntries).length = min 2 3 :=
  (nd_preview_then_ellipsis bitsF64 (Run.fresh.opened exampleND) exampleND 0 2 rfl
    (by decide) (by decide)).2.1

/-! ## C5 -/

/-- C5: for every decoder that takes a path and whatever its reads are, if
the file does not exist the call returns false and its only effect is that the
note of that decoder, the path, and the closing `")` with a line end are
appended to the report: no stream is touched, nothing is read, no index is
evaluated.  The note of a decoder contains no line end, so the appended text is
one line when the path has none. -/
theorem missing_file_one_note (d : Decoder) (body : Run → Run) (fs : FileSystem)
    (filepath : String) (st : Run) (h : fs filepath = FileState.missing) :
    (d.run body fs filepath st).1 = false ∧
      (d.run body fs filepath st).2 =
        { st with res := st.res ++ (d.absentNote ++ filepath ++ "\")\n") } ∧
      '\n' ∉ d.absentNote.data := by
  refine ⟨by simp [Decoder.run, h], by simp [Decoder.run, h, Run.put], ?_⟩
  cases d <;> decide

/-- Witness for `missing_file_one_note`: `read_mesh` on an empty file system. -/
theorem missing_file_one_note_witness :
    (read_mesh bitsF64 (fun _ => FileState.missing) "v/mesh" Run.fresh).1 = false ∧
      (read_mesh bitsF64 (fun _ => FileState.missing) "v/mesh" Run.fresh).2.res =
        "\t- vessel has no mesh (path \"v/mesh\")\n" := by
  have h := missing_file_one_note Decoder.mesh (mesh_body bitsF64) (fun _ => FileState.missing)
    "v/mesh" Run.fresh rfl
  exact ⟨h.1, (congrArg Run.res h.2.1).trans (by decide)⟩

/-! ## The report only grows -/

theorem Extends.rfl' (a : Run) : Extends a a := ⟨"", by simp⟩

theorem Extends.comp {a b c : Run} (h1 : Extends a b) (h2 : Extends b c) : Extends a c := by
  obtain ⟨t, ht⟩ := h1
  obtain ⟨u, hu⟩ := h2
  exact ⟨t ++ u, by rw [hu, ht, String.append_assoc]⟩

theorem extends_emit (st : Run) (t : String) (ix : List (Nat × Nat)) : Extends st (st.emit t ix) :=
  ⟨t, rfl⟩

theorem extends_put (st : Run) (t : String) : Extends st (st.put t) := ⟨t, rfl⟩

theorem extends_read (st : Run) (buf : List Nat) (n : Nat) : Extends st (st.read buf n).2 :=
  ⟨"", by simp⟩

theorem forFrom_extends {α : Type} (π : α → Run) (body : Nat → α → α)
    (h : ∀ j s, Extends (π s) (π (body j s))) :
    ∀ (k i : Nat) (s : α), Extends (π s) (π (forFrom body i k s)) := by
  intro k
  induction k with
  | zero => intro i s; exact Extends.rfl' _
  | succ k ih => intro i s; exact (h i s).comp (ih (i + 1) (body i s))

theorem putU32Row_extends (sep : String) (d : Nat) (buf : List Nat) (st : Run) :
    Extends st (putU32Row sep d buf st) :=
  forFrom_extends id _ (fun j s => by rw [id, id, rowStepU32_emit]; exact extends_emit _ _ _) d 0 st

theorem putF64Row_extends (sf : FloatFmt → Nat → String) (sep : String) (d : Nat)
    (buf : List Nat) (st : Run) : Extends st (putF64Row sf sep d buf st) :=
  forFrom_extends id _ (fun j s => by rw [id, id, rowStepF64_emit]; exact extends_emit _ _ _) d 0 st

theorem putMatrix_extends (sf : FloatFmt → Nat → String) (n : Nat) (buf : List Nat) (st : Run) :
    Extends st (putMatrix sf n buf st) := by
  rw [putMatrix_emit]; exact extends_emit _ _ _

theorem Extends.then_put {a b : Run} (h : Extends a b) (t : String) : Extends a (b.put t) :=
  h.comp (extends_put b t)

theorem Extends.then_putF64 {a b : Run} (h : Extends a b) (sf : FloatFmt → Nat → String)
    (x : Nat) : Extends a (b.putF64 sf x) := by
  rw [putF64_eq_emit]; exact h.comp (extends_emit _ _ _)

theorem Extends.then_read {a b : Run} (h : Extends a b) (buf : List Nat) (n : Nat) :
    Extends a (b.read buf n).2 :=
  h.comp (extends_read b buf n)

theorem Extends.then_readF64s {a b : Run} (h : Extends a b) (buf : List Nat) :
    Extends a (b.readF64s buf).2 :=
  h.comp (extends_read b buf _)

theorem Extends.then_rowU32 {a b : Run} (h : Extends a b) (sep : String) (d : Nat)
    (buf : List Nat) : Extends a (putU32Row sep d buf b) :=
  h.comp (putU32Row_extends sep d buf b)

theorem Extends.then_rowF64 {a b : Run} (h : Extends a b) (sf : FloatFmt → Nat → String)
    (sep : String) (d : Nat) (buf : List Nat) : Extends a (putF64Row sf sep d buf b) :=
  h.comp (putF64Row_extends sf sep d buf b)

theorem Extends.then_matrix {a b : Run} (h : Extends a b) (sf : FloatFmt → Nat → String)
    (n : Nat) (buf : List Nat) : Extends a (putMatrix sf n buf b) :=
  h.comp (putMatrix_extends sf n buf b)

theorem ndEntry_extends (sf : FloatFmt → Nat → String) (d j : Nat) (gs : List Nat × Run) :
    Extends gs.2 (ndEntry sf d j gs).2 := by
  have h2 : Extends gs.2 ((gs.2.read gs.1 (d * 4)).2.read (zeros 8) 8).2 :=
    ((Extends.rfl' _).then_read _ _).then_read _ _
  unfold ndEntry
  by_cases hj : j < NUM_DEMO
  · simp only [if_pos hj]
    apply Extends.then_put
    apply Extends.then_putF64
    apply Extends.then_put
    apply Extends.then_rowU32
    apply Extends.then_put
    exact h2
  · simp only [if_neg hj]
    exact h2

theorem nd_matrices_extends (sf : FloatFmt → Nat → String) (st : Run) :
    Extends st (nd_matrices sf st) := by
  unfold nd_matrices
  apply Extends.then_matrix
  apply Extends.then_put
  apply Extends.then_readF64s
  apply Extends.then_matrix
  apply Extends.then_put
  apply Extends.then_readF64s
  apply Extends.then_matrix
  apply Extends.then_put
  apply Extends.then_readF64s
  apply Extends.then_matrix
  apply Extends.then_put
  apply Extends.then_readF64s
  exact Extends.rfl' _

theorem nd_values_extends (sf : FloatFmt → Nat → String) (d : Nat) (st : Run) :
    ∃ t, (nd_values sf d st).res = st.res ++ t ++ "\t\t\t- ...\n" := by
  have hl := forFrom_extends (fun gs : List Nat × Run => gs.2) (ndEntry sf d)
    (fun j s => ndEntry_extends sf d j s)
  have h : Extends st (forLoop (elemAt 4 (st.read (zeros 4) 4).1 0) (ndEntry sf d)
      (zeros (4 * d), (st.read (zeros 4) 4).2.put
        ("\t\t- num. non-zero values: " ++ toString (elemAt 4 (st.read (zeros 4) 4).1 0)
          ++ "\n"))).2 :=
    (((Extends.rfl' st).then_read _ _).then_put _).comp (hl _ 0 _)
  obtain ⟨t, ht⟩ := h
  refine ⟨t, ?_⟩
  unfold nd_values
  show (forLoop (elemAt 4 (st.read (zeros 4) 4).1 0) (ndEntry sf d)
      (zeros (4 * d), (st.read (zeros 4) 4).2.put
        ("\t\t- num. non-zero values: " ++ toString (elemAt 4 (st.read (zeros 4) 4).1 0)
          ++ "\n"))).2.res ++ "\t\t\t- ...\n" = _
  rw [ht]

theorem nd_dims_extends (sf : FloatFmt → Nat → String) (st : Run) :
    ∃ t, (nd_dims sf st).2.res = st.res ++ "\t\t- num. dimensions: "
      ++ toString (elemAt 4 (st.read (zeros 4) 4).1 0) ++ "\n" ++ t := by
  have h : Extends ((st.read (zeros 4) 4).2.put ("\t\t- num. dimensions: "
      ++ toString (elemAt 4 (st.read (zeros 4) 4).1 0) ++ "\n")) (nd_dims sf st).2 := by
    unfold nd_dims
    apply Extends.then_put
    apply Extends.then_rowF64
    apply Extends.then_put
    apply Extends.then_read
    apply Extends.then_put
    apply Extends.then_rowU32
    apply Extends.then_put
    apply Extends.then_read
    exact Extends.rfl' _
  obtain ⟨t, ht⟩ := h
  exact ⟨t, by rw [ht]; simp [Run.put, String.append_assoc]⟩

/-- Whatever the stream holds, the decoder appends text that starts with the line
of the number of dimensions and ends with the ellipsis line. -/
theorem nd_appends (sf : FloatFmt → Nat → String) (st : Run) :
    ∃ t, (_read_nd_scalar_image_in_sparse_matrix_style sf st).res =
      st.res ++ "\t\t- num. dimensions: " ++ toString (elemAt 4 (st.read (zeros 4) 4).1 0)
        ++ "\n" ++ t ++ "\t\t\t- ...\n" := by
  unfold _read_nd_scalar_image_in_sparse_matrix_style
  obtain ⟨t1, h1⟩ := nd_dims_extends sf st
  obtain ⟨t2, h2⟩ := nd_matrices_extends sf (nd_dims sf st).2
  obtain ⟨t3, h3⟩ := nd_values_extends sf (nd_dims sf st).1 (nd_matrices sf (nd_dims sf st).2)
  exact ⟨t1 ++ t2 ++ t3, by rw [h3, h2, h1]; simp only [String.append_assoc]⟩

theorem decoder_present (d : Decoder) (body : Run → Run) (fs : FileSystem) (filepath : String)
    (st : Run) (bytes : List Nat) (h : fs filepath = FileState.present bytes) :
    d.run body fs filepath st =
      (true, body ((st.put (d.readingNote ++ filepath ++ "\")\n")).opened bytes)) := by
  simp [Decoder.run, h, Run.opened]


/-! ## C4 -/

set_option maxRecDepth 100000 in
/-- C4, as stated, fails: a pressure-map file cut off inside the grid-size array
(`numDims = 2`, then only one of the two grid sizes).  The call returns true, the
short read leaves the stream not good at its end, and a record is written to the
report, with the second grid size and the voxel scales at their initial value 0
and closed by the usual last line. -/
theorem truncated_pressure_map_counterexample :
    (read_pressure_map bitsF64 (oneFile "pressuremap" (FileState.present [2, 0, 0, 0, 4, 0, 0, 0]))
        "pressuremap" Run.fresh).1 = true ∧
      (read_pressure_map bitsF64 (oneFile "pressuremap" (FileState.present [2, 0, 0, 0, 4, 0, 0, 0]))
        "pressuremap" Run.fresh).2.file = ⟨[2, 0, 0, 0, 4, 0, 0, 0], 8, false⟩ ∧
      ∃ t, (read_pressure_map bitsF64
          (oneFile "pressuremap" (FileState.present [2, 0, 0, 0, 4, 0, 0, 0]))
          "pressuremap" Run.fresh).2.res =
        "\t- reading pressure map (path \"pressuremap\")\n"
          ++ "\t\t- num. dimensions: 2\n\t\t- grid size: 4 x 0\n\t\t- voxel scale: #0 x #0\n"
          ++ t ++ "\t\t\t- ...\n" := by
  have hrun := decoder_present Decoder.pressure_map
    (_read_nd_scalar_image_in_sparse_matrix_style bitsF64)
    (oneFile "pressuremap" (FileState.present [2, 0, 0, 0, 4, 0, 0, 0])) "pressuremap" Run.fresh
    [2, 0, 0, 0, 4, 0, 0, 0] (by decide)
  rw [read_pressure_map, hrun]
  refine ⟨rfl, by decide, ?_⟩
  obtain ⟨t2, h2⟩ := nd_matrices_extends bitsF64 (nd_dims bitsF64
    ((Run.fresh.put (Decoder.pressure_map.readingNote ++ "pressuremap" ++ "\")\n")).opened
      [2, 0, 0, 0, 4, 0, 0, 0])).2
  obtain ⟨t3, h3⟩ := nd_values_extends bitsF64 (nd_dims bitsF64
    ((Run.fresh.put (Decoder.pressure_map.readingNote ++ "pressuremap" ++ "\")\n")).opened
      [2, 0, 0, 0, 4, 0, 0, 0])).1 (nd_matrices bitsF64 (nd_dims bitsF64
    ((Run.fresh.put (Decoder.pressure_map.readingNote ++ "pressuremap" ++ "\")\n")).opened
      [2, 0, 0, 0, 4, 0, 0, 0])).2)
  have h1 : (nd_dims bitsF64
      ((Run.fresh.put (Decoder.pressure_map.readingNote ++ "pressuremap" ++ "\")\n")).opened
        [2, 0, 0, 0, 4, 0, 0, 0])).2.res =
      "\t- reading pressure map (path \"pressuremap\")\n"
        ++ "\t\t- num. dimensions: 2\n\t\t- grid size: 4 x 0\n\t\t- voxel scale: #0 x #0\n" := by
    decide
  refine ⟨t2 ++ t3, ?_⟩
  show (nd_values bitsF64 _ (nd_matrices bitsF64 _)).res = _
  rw [h3, h2, h1]
  simp only [String.append_assoc]

/-! ## Previews leave the stream alone -/

theorem StreamKept.same (a : Run) : StreamKept a a := ⟨rfl, rfl⟩

theorem StreamKept.join {a b c : Run} (h1 : StreamKept a b) (h2 : StreamKept b c) :
    StreamKept a c :=
  ⟨h2.1.trans h1.1, h2.2.trans h1.2⟩

theorem StreamKept.over_put {a b : Run} (h : StreamKept a b) (t : String) :
    StreamKept a (b.put t) := h

theorem StreamKept.then_putF64At {a b : Run} (h : StreamKept a b)
    (sf : FloatFmt → Nat → String) (buf : List Nat) (i : Nat) :
    StreamKept a (b.putF64At sf buf i) := h

theorem StreamKept.then_putU32At {a b : Run} (h : StreamKept a b) (buf : List Nat) (i : Nat) :
    StreamKept a (b.putU32At buf i) := h

theorem StreamKept.then_loop {a b : Run} (h : StreamKept a b) (body : Nat → Run → Run)
    (hb : ∀ j s, StreamKept s (body j s)) (n : Nat) : StreamKept a (forLoop n body b) := by
  have gen : ∀ (k i : Nat) (s : Run), StreamKept s (forFrom body i k s) := by
    intro k
    induction k with
    | zero => intro i s; exact StreamKept.same s
    | succ k ih => intro i s; exact (hb i s).join (ih (i + 1) (body i s))
  exact h.join (gen n 0 b)

theorem StreamKept.then_tripleF64 {a b : Run} (h : StreamKept a b)
    (sf : FloatFmt → Nat → String) (close : String) (buf : List Nat) (off : Nat) :
    StreamKept a (putTripleF64 sf close buf off b) := h

theorem StreamKept.then_tripleU32 {a b : Run} (h : StreamKept a b) (close : String)
    (buf : List Nat) (off : Nat) : StreamKept a (putTripleU32 close buf off b) := h

theorem previewTriplesF64_kept (sf : FloatFmt → Nat → String) (label : String) (buf : List Nat)
    (st : Run) : StreamKept st (previewTriplesF64 sf label buf st) := by
  unfold previewTriplesF64
  apply StreamKept.over_put
  apply StreamKept.then_loop (StreamKept.same st)
  intro j s
  apply StreamKept.then_tripleF64
  apply StreamKept.over_put
  exact StreamKept.same s

theorem previewTriplesU32_kept (label : String) (buf : List Nat) (st : Run) :
    StreamKept st (previewTriplesU32 label buf st) := by
  unfold previewTriplesU32
  apply StreamKept.over_put
  apply StreamKept.then_loop (StreamKept.same st)
  intro j s
  apply StreamKept.then_tripleU32
  apply StreamKept.over_put
  exact StreamKept.same s

theorem previewPerTimeScalar_kept (sf : FloatFmt → Nat → String) (numTimes : Nat)
    (buf : List Nat) (st : Run) : StreamKept st (previewPerTimeScalar sf numTimes buf st) := by
  unfold previewPerTimeScalar
  apply StreamKept.then_loop (StreamKept.same st)
  intro j s
  apply StreamKept.over_put
  apply StreamKept.then_loop
  · apply StreamKept.over_put
    exact StreamKept.same s
  · intro k s'
    apply StreamKept.over_put
    apply StreamKept.then_putF64At
    exact StreamKept.same s'

theorem previewPerTimeVector_kept (sf : FloatFmt → Nat → String) (numTimes : Nat)
    (buf : List Nat) (st : Run) : StreamKept st (previewPerTimeVector sf numTimes buf st) := by
  unfold previewPerTimeVector
  apply StreamKept.then_loop (StreamKept.same st)
  intro j s
  apply StreamKept.over_put
  apply StreamKept.then_loop
  · apply StreamKept.over_put
    exact StreamKept.same s
  · intro k s'
    apply StreamKept.then_tripleF64
    exact StreamKept.same s'

theorem previewPerPointScalar_kept (sf : FloatFmt → Nat → String) (buf : List Nat) (st : Run) :
    StreamKept st (previewPerPointScalar sf buf st) := by
  unfold previewPerPointScalar
  apply StreamKept.over_put
  apply StreamKept.then_loop (StreamKept.same st)
  intro j s
  apply StreamKept.over_put
  apply StreamKept.then_putF64At
  apply StreamKept.over_put
  exact StreamKept.same s

/-! ## Consumption without the text -/

theorem Consumes.start (data : List Nat) (st : Run) (p : Nat) (hf : st.file = ⟨data, p, true⟩) :
    Consumes data st st p [] := ⟨hf, by simp⟩

theorem Consumes.kept {data : List Nat} {a b c : Run} {p : Nat} {l : List Nat}
    (h : Consumes data a b p l) (k : StreamKept b c) : Consumes data a c p l :=
  ⟨k.1.trans h.1, k.2.trans h.2⟩

theorem Consumes.after_put {data : List Nat} {a b : Run} {p : Nat} {l : List Nat}
    (h : Consumes data a b p l) (t : String) : Consumes data a (b.put t) p l := h

theorem Consumes.after_read {data : List Nat} {a b : Run} {p : Nat} {l : List Nat}
    (h : Consumes data a b p l) (buf : List Nat) (n : Nat) (hn : p + n ≤ data.length)
    (hb : buf.length ≤ n) :
    Consumes data a (b.read buf n).2 (p + n) (l ++ [n]) ∧ (b.read buf n).1 = slice data p n ∧
      (b.read buf n).1.length = n := by
  have v := read_fst b buf n data p h.1 hn hb
  exact ⟨⟨read_file b buf n data p h.1 hn, by simp [h.2]⟩, v, by
    rw [v]; exact slice_length _ _ _ hn⟩

theorem Consumes.after_readF64s {data : List Nat} {a b : Run} {p : Nat} {l : List Nat}
    (h : Consumes data a b p l) (buf : List Nat) (n : Nat) (hb : buf.length = 8 * n)
    (hn : p + 8 * n ≤ data.length) :
    Consumes data a (b.readF64s buf).2 (p + 8 * n) (l ++ [8 * n]) ∧
      (b.readF64s buf).1.length = 8 * n := by
  have hk : buf.length / 8 * 8 = 8 * n := by omega
  unfold Run.readF64s
  rw [hk]
  obtain ⟨c, _, n1⟩ := h.after_read buf (8 * n) hn (by omega)
  exact ⟨c, n1⟩

theorem Consumes.recount {data : List Nat} {a b : Run} {p p' : Nat} {l l' : List Nat}
    (h : Consumes data a b p l) (hp : p = p') (hl : l = l') : Consumes data a b p' l' := by
  subst hp; subst hl; exact h

theorem Consumes.chain {data : List Nat} {a b c : Run} {p q : Nat} {l1 l2 : List Nat}
    (h1 : Consumes data a b p l1) (h2 : Consumes data b c q l2) :
    Consumes data a c q (l1 ++ l2) :=
  ⟨h2.1, by rw [h2.2, h1.2, List.append_assoc]⟩


/-! ## The mesh decoder on a complete stream -/

theorem mesh_points_spec (sf : FloatFmt → Nat → String) (data : List Nat) (st : Run) (p : Nat)
    (hf : st.file = ⟨data, p, true⟩) (h3 : 3 * u32At data p < U32)
    (hlen : p + 4 + 48 * u32At data p ≤ data.length) :
    (mesh_points sf st).1 = u32At data p ∧
      (mesh_points sf st).2.1.length = 8 * (3 * u32At data p) ∧
      Consumes data st (mesh_points sf st).2.2 (p + 4 + 48 * u32At data p)
        [4, 24 * u32At data p, 24 * u32At data p] := by
  unfold mesh_points
  lift_lets
  extract_lets r1 numPoints s1 r2 s2 r3
  have h0 := Consumes.start data st p hf
  obtain ⟨g1, v1, _⟩ := h0.after_read (zeros 4) 4 (by omega) (by simp [zeros])
  have hP : numPoints = u32At data p := by
    show elemAt 4 r1.1 0 = _
    rw [v1, elemAt_zero_slice]; rfl
  have hmod : 3 * numPoints % U32 = 3 * u32At data p := by
    rw [hP]; exact Nat.mod_eq_of_lt h3
  have h1 : Consumes data st s1 _ _ := g1.after_put _
  obtain ⟨g2, n2⟩ := h1.after_readF64s (zeros (8 * (3 * numPoints % U32))) (3 * u32At data p)
    (by rw [hmod]; simp [zeros]) (by omega)
  have h2 : Consumes data st s2 _ _ := g2.kept (previewTriplesF64_kept sf "point" r2.1 r2.2)
  obtain ⟨g3, n3⟩ := h2.after_readF64s r2.1 (3 * u32At data p) n2 (by omega)
  have h3' := g3.kept (previewTriplesF64_kept sf "normal" r3.1 r3.2)
  exact ⟨hP, n3, h3'.recount (by omega) (by simp; omega)⟩

theorem mesh_triangles_spec (sf : FloatFmt → Nat → String) (data : List Nat) (st : Run)
    (dbuffer : List Nat) (p : Nat)
    (hf : st.file = ⟨data, p, true⟩) (h3 : 3 * u32At data p < U32)
    (hlen : p + 4 + 36 * u32At data p ≤ data.length) :
    (mesh_triangles sf dbuffer st).1 = u32At data p ∧
      (mesh_triangles sf dbuffer st).2.1.length = 8 * (3 * u32At data p) ∧
      Consumes data st (mesh_triangles sf dbuffer st).2.2 (p + 4 + 36 * u32At data p)
        [4, 12 * u32At data p, 24 * u32At data p] := by
  unfold mesh_triangles
  lift_lets
  extract_lets r1 numTriangles ui32buffer r2 s1 s2 r3
  have h0 := Consumes.start data st p hf
  obtain ⟨g1, v1, _⟩ := h0.after_read (zeros 4) 4 (by omega) (by simp [zeros])
  have hT : numTriangles = u32At data p := by
    show elemAt 4 r1.1 0 = _
    rw [v1, elemAt_zero_slice]; rfl
  have hmod : 3 * numTriangles % U32 = 3 * u32At data p := by
    rw [hT]; exact Nat.mod_eq_of_lt h3
  have hu : ui32buffer.length = 4 * (3 * u32At data p) := by
    show (zeros (4 * (3 * numTriangles % U32))).length = _
    rw [hmod]; simp [zeros]
  have hk : ui32buffer.length / 4 * 4 = 12 * u32At data p := by omega
  obtain ⟨g2, _, _⟩ := g1.after_read ui32buffer (ui32buffer.length / 4 * 4) (by omega) (by omega)
  have h2 : Consumes data st s2 _ _ :=
    (g2.after_put _).kept (previewTriplesU32_kept "triangle" r2.1 s1)
  obtain ⟨g3, n3⟩ := h2.after_readF64s (vresize 8 dbuffer (3 * numTriangles % U32))
    (3 * u32At data p) (by rw [vresize_length, hmod]) (by omega)
  have h3' := g3.kept (previewTriplesF64_kept sf "normal" r3.1 r3.2)
  exact ⟨hT, n3, h3'.recount (by omega) (by simp; omega)⟩


theorem mesh_temporal_spec (sf : FloatFmt → Nat → String) (data : List Nat) (st : Run)
    (numPoints : Nat) (dbuffer : List Nat) (p : Nat)
    (hf : st.file = ⟨data, p, true⟩) (h3 : 3 * (numPoints * u32At data p) < U32)
    (hlen : p + 4 + 96 * (numPoints * u32At data p) ≤ data.length) :
    Consumes data st (mesh_temporal sf numPoints dbuffer st).2.2
        (p + 4 + 96 * (numPoints * u32At data p))
        [4, 8 * (numPoints * u32At data p), 8 * (numPoints * u32At data p),
          8 * (numPoints * u32At data p), 24 * (numPoints * u32At data p),
          24 * (numPoints * u32At data p), 24 * (numPoints * u32At data p)] := by
  unfold mesh_temporal
  lift_lets
  extract_lets r1 numTimes s1 r2 s2 r3 s3 r4 s4 r5 s5 r6 s6 r7 s7
  have h0 := Consumes.start data st p hf
  obtain ⟨g1, v1, _⟩ := h0.after_read (zeros 4) 4 (by omega) (by simp [zeros])
  have hN : numTimes = u32At data p := by
    show elemAt 4 r1.1 0 = _
    rw [v1, elemAt_zero_slice]; rfl
  generalize hPN : numPoints * u32At data p = PN at h3 hlen ⊢
  have hmod1 : numPoints * numTimes % U32 = PN := by
    rw [hN, hPN]; exact Nat.mod_eq_of_lt (by omega)
  have hmod3 : numPoints * numTimes % U32 * 3 % U32 = 3 * PN := by
    rw [hmod1, Nat.mul_comm]; exact Nat.mod_eq_of_lt h3
  have h1 : Consumes data st s1 _ _ := g1.after_put _
  obtain ⟨g2, n2⟩ := h1.after_readF64s (vresize 8 dbuffer (numPoints * numTimes % U32)) PN
    (by rw [vresize_length, hmod1]) (by omega)
  have h2 : Consumes data st s2 _ _ :=
    (g2.after_put _).kept (previewPerTimeScalar_kept sf numTimes r2.1 _)
  obtain ⟨g3, n3⟩ := h2.after_readF64s r2.1 PN n2 (by omega)
  have h3a : Consumes data st s3 _ _ :=
    ((g3.after_put _).kept (previewPerTimeScalar_kept sf numTimes r3.1 _)).after_put _
  obtain ⟨g4, n4⟩ := h3a.after_readF64s r3.1 PN n3 (by omega)
  have h4 : Consumes data st s4 _ _ :=
    ((g4.after_put _).kept (previewPerTimeScalar_kept sf numTimes r4.1 _)).after_put _
  obtain ⟨g5, n5⟩ := h4.after_readF64s (vresize 8 r4.1 (numPoints * numTimes % U32 * 3 % U32))
    (3 * PN) (by rw [vresize_length, hmod3]) (by omega)
  have h5 : Consumes data st s5 _ _ :=
    ((g5.after_put _).kept (previewPerTimeVector_kept sf numTimes r5.1 _)).after_put _
  obtain ⟨g6, n6⟩ := h5.after_readF64s r5.1 (3 * PN) n5 (by omega)
  have h6 : Consumes data st s6 _ _ :=
    ((g6.after_put _).kept (previewPerTimeVector_kept sf numTimes r6.1 _)).after_put _
  obtain ⟨g7, n7⟩ := h6.after_readF64s r6.1 (3 * PN) n6 (by omega)
  have h7 : Consumes data st s7 _ _ :=
    ((g7.after_put _).kept (previewPerTimeVector_kept sf numTimes r7.1 _)).after_put _
  exact h7.recount (by omega) (by simp; omega)

theorem mesh_aggregates_spec (sf : FloatFmt → Nat → String) (data : List Nat) (st : Run)
    (P : Nat) (dbuffer : List Nat) (p : Nat)
    (hf : st.file = ⟨data, p, true⟩) (h3 : 3 * P < U32)
    (hlen : p + 120 * P ≤ data.length) :
    Consumes data st (mesh_aggregates sf P dbuffer st).2 (p + 120 * P)
        [8 * P, 8 * P, 8 * P, 8 * P, 8 * P, 8 * P, 24 * P, 24 * P, 24 * P] := by
  unfold mesh_aggregates
  lift_lets
  extract_lets r1 s1 r2 s2 r3 s3 r4 s4 r5 s5 r6 s6 r7 s7 r8 s8 r9 s9
  have hmod : P * 3 % U32 = 3 * P := by
    rw [Nat.mul_comm]; exact Nat.mod_eq_of_lt h3
  have h0 := Consumes.start data st p hf
  obtain ⟨g1, n1⟩ := h0.after_readF64s (vresize 8 dbuffer P) P (vresize_length 8 dbuffer P)
    (by omega)
  have h1 : Consumes data st s1 _ _ :=
    (g1.after_put _).kept (previewPerPointScalar_kept sf r1.1 _)
  obtain ⟨g2, n2⟩ := h1.after_readF64s r1.1 P n1 (by omega)
  have h2 : Consumes data st s2 _ _ :=
    (g2.after_put _).kept (previewPerPointScalar_kept sf r2.1 _)
  obtain ⟨g3, n3⟩ := h2.after_readF64s r2.1 P n2 (by omega)
  have h3a : Consumes data st s3 _ _ :=
    (g3.after_put _).kept (previewPerPointScalar_kept sf r3.1 _)
  obtain ⟨g4, n4⟩ := h3a.after_readF64s r3.1 P n3 (by omega)
  have h4 : Consumes data st s4 _ _ :=
    (g4.after_put _).kept (previewPerPointScalar_kept sf r4.1 _)
  obtain ⟨g5, n5⟩ := h4.after_readF64s r4.1 P n4 (by omega)
  have h5 : Consumes data st s5 _ _ :=
    (g5.after_put _).kept (previewPerPointScalar_kept sf r5.1 _)
  obtain ⟨g6, n6⟩ := h5.after_readF64s r5.1 P n5 (by omega)
  have h6 : Consumes data st s6 _ _ :=
    (g6.after_put _).kept (previewPerPointScalar_kept sf r6.1 _)
  obtain ⟨g7, n7⟩ := h6.after_readF64s (vresize 8 r6.1 (P * 3 % U32)) (3 * P)
    (by rw [vresize_length, hmod]) (by omega)
  have h7 : Consumes data st s7 _ _ :=
    (g7.after_put _).kept (previewTriplesF64_kept sf "point" r7.1 _)
  obtain ⟨g8, n8⟩ := h7.after_readF64s r7.1 (3 * P) n7 (by omega)
  have h8 : Consumes data st s8 _ _ :=
    (g8.after_put _).kept (previewTriplesF64_kept sf "point" r8.1 _)
  obtain ⟨g9, n9⟩ := h8.after_readF64s r8.1 (3 * P) n8 (by omega)
  have h9 : Consumes data st s9 _ _ :=
    (g9.after_put _).kept (previewTriplesF64_kept sf "point" r9.1 _)
  exact h9.recount (by omega) (by simp; omega)


theorem mesh_body_spec (sf : FloatFmt → Nat → String) (data : List Nat) (st : Run)
    (p P T N : Nat) (hf : st.file = ⟨data, p, true⟩)
    (hP : u32At data p = P) (hT : u32At data (p + 4 + 48 * P) = T)
    (hN : u32At data (p + 8 + 48 * P + 36 * T) = N)
    (h3P : 3 * P < U32) (h3T : 3 * T < U32) (h3PN : 3 * (P * N) < U32)
    (hlen : p + (12 + 168 * P + 36 * T + 96 * (P * N)) ≤ data.length) :
    Consumes data st (mesh_body sf st) (p + (12 + 168 * P + 36 * T + 96 * (P * N)))
      ([4, 24 * P, 24 * P, 4, 12 * T, 24 * T, 4]
        ++ [8 * (P * N), 8 * (P * N), 8 * (P * N), 24 * (P * N), 24 * (P * N), 24 * (P * N)]
        ++ [8 * P, 8 * P, 8 * P, 8 * P, 8 * P, 8 * P, 24 * P, 24 * P, 24 * P]) := by
  unfold mesh_body
  lift_lets
  extract_lets pt tr tm
  subst hP
  have s1 : pt.1 = u32At data p ∧ pt.2.1.length = 8 * (3 * u32At data p) ∧
      Consumes data st pt.2.2 (p + 4 + 48 * u32At data p)
        [4, 24 * u32At data p, 24 * u32At data p] :=
    mesh_points_spec sf data st p hf h3P (by omega)
  clear_value pt
  obtain ⟨e1, _, c1⟩ := s1
  subst hT
  have s2 := mesh_triangles_spec sf data pt.2.2 pt.2.1 _ c1.1 h3T (by omega)
  change _ ∧ _ ∧ Consumes data pt.2.2 tr.2.2 _ _ at s2
  clear_value tr
  obtain ⟨_, _, c2⟩ := s2
  subst hN
  generalize hPv : u32At data p = P at *
  generalize hTv : u32At data (p + 4 + 48 * P) = T at *
  have hq : p + 4 + 48 * P + 4 + 36 * T = p + 8 + 48 * P + 36 * T := by omega
  rw [hq] at c2
  generalize hNv : u32At data (p + 8 + 48 * P + 36 * T) = N at *
  have s3 := mesh_temporal_spec sf data tr.2.2 pt.1 tr.2.1 _ c2.1
    (by rw [e1, hNv]; exact h3PN) (by rw [e1, hNv]; omega)
  change Consumes data tr.2.2 tm.2.2 _ _ at s3
  clear_value tm
  rw [e1, hNv] at s3
  generalize hPNv : P * N = PN at *
  have s4 := mesh_aggregates_spec sf data tm.2.2 P tm.2.1 _ s3.1 h3P (by omega)
  rw [e1]
  exact (((c1.chain c2).chain s3).chain s4).recount (by omega) (by simp)

/-! ## C8 -/

set_option maxRecDepth 100000 in
/-- C8, as stated, fails: for the mesh with three points and three temporal
positions the reads after the `numTimes` header are three of 72 bytes (9 doubles),
three of 216 bytes (27 doubles), six of 24 bytes and three of 72 bytes: the six
reads that follow the header are not six fields of `numPoints * numTimes`
doubles. -/
theorem mesh_temporal_fields_counterexample :
    (mesh_body bitsF64 (Run.fresh.opened exampleMesh)).reads.drop 7 =
        [72, 72, 72, 216, 216, 216, 24, 24, 24, 24, 24, 24, 72, 72, 72] ∧
      ((mesh_body bitsF64 (Run.fresh.opened exampleMesh)).reads.drop 7).take 6 ≠
        List.replicate 6 (8 * (3 * 3)) := by
  decide

/-! ## C6 -/

set_option maxRecDepth 100000 in
/-- C6, on the code: for the mesh file with `numPoints = 0`, `numTriangles = 0` and
`numTimes = 5`, `read_mesh` returns true and consumes the 12 header bytes, but it
evaluates 189 indices, every one of them on an empty buffer (the first nine are
0 to 8 on the empty point buffer), and it writes three points and three normals
to the report although there is no point. -/
theorem read_mesh_empty_out_of_bounds :
    (read_mesh bitsF64 (oneFile "mesh" (FileState.present emptyMesh)) "mesh" Run.fresh).1 = true ∧
      (read_mesh bitsF64 (oneFile "mesh" (FileState.present emptyMesh)) "mesh" Run.fresh).2.file =
        ⟨emptyMesh, 12, true⟩ ∧
      (read_mesh bitsF64 (oneFile "mesh" (FileState.present emptyMesh)) "mesh"
        Run.fresh).2.idx.length = 189 ∧
      (∀ a ∈ (read_mesh bitsF64 (oneFile "mesh" (FileState.present emptyMesh)) "mesh"
        Run.fresh).2.idx, a.2 = 0) ∧
      (read_mesh bitsF64 (oneFile "mesh" (FileState.present emptyMesh)) "mesh"
        Run.fresh).2.idx.take 9 =
          [(0, 0), (1, 0), (2, 0), (3, 0), (4, 0), (5, 0), (6, 0), (7, 0), (8, 0)] ∧
      (mesh_points bitsF64 (Run.fresh.opened emptyMesh)).2.2.res =
        "\t\t- num. points: 0\n"
          ++ "\t\t\t- point0: [#0, #0, #0]\n\t\t\t- point1: [#0, #0, #0]\n"
          ++ "\t\t\t- point2: [#0, #0, #0]\n\t\t\t- ...\n"
          ++ "\t\t\t- normal0: [#0, #0, #0]\n\t\t\t- normal1: [#0, #0, #0]\n"
          ++ "\t\t\t- normal2: [#0, #0, #0]\n\t\t\t- ...\n" := by
  refine ⟨by decide, by decide, by decide, by decide, by decide, by decide⟩


/-! ## The stream only moves forward, the format flags are kept -/

theorem Fwd.stay (a : Run) : Fwd a a := ⟨rfl, rfl, le_refl _, fun h => h⟩

theorem Fwd.next {a b c : Run} (h1 : Fwd a b) (h2 : Fwd b c) : Fwd a c := by
  obtain ⟨f1, d1, p1, b1⟩ := h1
  obtain ⟨f2, d2, p2, b2⟩ := h2
  exact ⟨f2.trans f1, d2.trans d1, le_trans p1 p2, fun h => b2 (b1 h)⟩

theorem fwd_of_read (st : Run) (buf : List Nat) (n : Nat) : Fwd st (st.read buf n).2 := by
  rcases st with ⟨⟨data, pos, good⟩, res, fmt, reads, idx⟩
  cases good
  · simp [Fwd, Run.read, IfStream.extract]
  · simp only [Fwd, Run.read, IfStream.extract, slice, List.length_take, List.length_drop,
      if_true, true_and, le_add_iff_nonneg_right, zero_le]
    omega

theorem fwd_of_emit (st : Run) (t : String) (ix : List (Nat × Nat)) : Fwd st (st.emit t ix) :=
  ⟨rfl, rfl, le_refl _, fun h => h⟩


theorem fwd_put {a b : Run} (h : Fwd a b) (t : String) : Fwd a (b.put t) := h

theorem fwd_putF64 {a b : Run} (h : Fwd a b) (sf : FloatFmt → Nat → String) (x : Nat) :
    Fwd a (b.putF64 sf x) := h

theorem fwd_index {a b : Run} (h : Fwd a b) (w : Nat) (buf : List Nat) (i : Nat) :
    Fwd a (b.index w buf i).2 := h

theorem fwd_putF64At {a b : Run} (h : Fwd a b) (sf : FloatFmt → Nat → String) (buf : List Nat)
    (i : Nat) : Fwd a (b.putF64At sf buf i) := h

theorem fwd_putU32At {a b : Run} (h : Fwd a b) (buf : List Nat) (i : Nat) :
    Fwd a (b.putU32At buf i) := h

theorem fwd_putU16At {a b : Run} (h : Fwd a b) (buf : List Nat) (i : Nat) :
    Fwd a (b.putU16At buf i) := h

theorem fwd_tripleF64 {a b : Run} (h : Fwd a b) (sf : FloatFmt → Nat → String) (close : String)
    (buf : List Nat) (off : Nat) : Fwd a (putTripleF64 sf close buf off b) := h

theorem fwd_tripleU32 {a b : Run} (h : Fwd a b) (close : String) (buf : List Nat) (off : Nat) :
    Fwd a (putTripleU32 close buf off b) := h

theorem fwd_read {a b : Run} (h : Fwd a b) (buf : List Nat) (n : Nat) :
    Fwd a (b.read buf n).2 := h.next (fwd_of_read b buf n)

theorem fwd_readF64s {a b : Run} (h : Fwd a b) (buf : List Nat) : Fwd a (b.readF64s buf).2 :=
  h.next (fwd_of_read b buf _)

theorem fwd_readElem {a b : Run} (h : Fwd a b) (w : Nat) (buf : List Nat) (i : Nat) :
    Fwd a (b.readElem w buf i).2 :=
  h.next (fwd_of_read (b.index w buf i).2 (slice buf (w * i) w) w)

theorem fwd_ite {a x y : Run} (c : Prop) [Decidable c] (hx : Fwd a x) (hy : Fwd a y) :
    Fwd a (if c then x else y) := by
  split
  · exact hx
  · exact hy

theorem fwd_forFrom {α : Type} (π : α → Run) (body : Nat → α → α)
    (h : ∀ j s, Fwd (π s) (π (body j s))) :
    ∀ (k i : Nat) (s : α), Fwd (π s) (π (forFrom body i k s)) := by
  intro k
  induction k with
  | zero => intro i s; exact Fwd.stay _
  | succ k ih => intro i s; exact (h i s).next (ih (i + 1) (body i s))

theorem fwd_forFromWhile {α : Type} (π : α → Run) (cond : α → Bool) (body : Nat → α → α)
    (h : ∀ j s, Fwd (π s) (π (body j s))) :
    ∀ (k i : Nat) (s : α), Fwd (π s) (π (forFromWhile cond body i k s)) := by
  intro k
  induction k with
  | zero => intro i s; exact Fwd.stay _
  | succ k ih =>
    intro i s
    unfold forFromWhile
    split
    · exact (h i s).next (ih (i + 1) (body i s))
    · exact Fwd.stay _

theorem fwd_loop {a b : Run} (h : Fwd a b) (n : Nat) (body : Nat → Run → Run)
    (hb : ∀ j s, Fwd s (body j s)) : Fwd a (forLoop n body b) :=
  h.next (fwd_forFrom id body hb n 0 b)

theorem fwd_loop2 {α : Type} {a : Run} {s : α × Run} (h : Fwd a s.2) (n : Nat)
    (body : Nat → α × Run → α × Run) (hb : ∀ j s, Fwd s.2 (body j s).2) :
    Fwd a (forLoop n body s).2 :=
  h.next (fwd_forFrom (fun s => s.2) body hb n 0 s)

theorem fwd_loop3 {α β : Type} {a : Run} {s : α × β × Run} (h : Fwd a s.2.2) (n : Nat)
    (body : Nat → α × β × Run → α × β × Run) (hb : ∀ j s, Fwd s.2.2 (body j s).2.2) :
    Fwd a (forLoop n body s).2.2 :=
  h.next (fwd_forFrom (fun s => s.2.2) body hb n 0 s)

theorem fwd_while2 {α : Type} {a : Run} {s : α × Run} (h : Fwd a s.2) (n : Nat)
    (cond : α × Run → Bool) (body : Nat → α × Run → α × Run)
    (hb : ∀ j s, Fwd s.2 (body j s).2) : Fwd a (forWhile n cond body s).2 :=
  h.next (fwd_forFromWhile (fun s => s.2) cond body hb n 0 s)

theorem fwd_foldl2 {α β : Type} {a : Run} (g : α × Run → β → α × Run)
    (hg : ∀ s x, Fwd s.2 (g s x).2) :
    ∀ (l : List β) (s : α × Run), Fwd a s.2 → Fwd a (l.foldl g s).2 := by
  intro l
  induction l with
  | nil => intro s h; exact h
  | cons x l ih => intro s h; exact ih (g s x) (h.next (hg s x))

theorem fwd_rowU32 {a b : Run} (h : Fwd a b) (sep : String) (d : Nat) (buf : List Nat) :
    Fwd a (putU32Row sep d buf b) :=
  h.next (fwd_forFrom id _ (fun j s => by rw [id, id, rowStepU32_emit]; exact fwd_of_emit _ _ _)
    d 0 b)

theorem fwd_rowF64 {a b : Run} (h : Fwd a b) (sf : FloatFmt → Nat → String) (sep : String)
    (d : Nat) (buf : List Nat) : Fwd a (putF64Row sf sep d buf b) :=
  h.next (fwd_forFrom id _ (fun j s => by rw [id, id, rowStepF64_emit]; exact fwd_of_emit _ _ _)
    d 0 b)

theorem fwd_matrix {a b : Run} (h : Fwd a b) (sf : FloatFmt → Nat → String) (n : Nat)
    (buf : List Nat) : Fwd a (putMatrix sf n buf b) := by
  rw [putMatrix_emit]; exact h.next (fwd_of_emit _ _ _)

theorem ndEntry_fwd (sf : FloatFmt → Nat → String) (d j : Nat) (gs : List Nat × Run) :
    Fwd gs.2 (ndEntry sf d j gs).2 := by
  unfold ndEntry
  dsimp only
  split
  all_goals
    repeat
      with_reducible
        first
        | exact Fwd.stay _
        | apply fwd_put
        | apply fwd_putF64
        | apply fwd_rowU32
        | apply fwd_read

theorem nd_fwd (sf : FloatFmt → Nat → String) (st : Run) :
    Fwd st (_read_nd_scalar_image_in_sparse_matrix_style sf st) := by
  unfold _read_nd_scalar_image_in_sparse_matrix_style nd_values nd_matrices nd_dims
  dsimp only
  repeat
    with_reducible
      first
      | exact Fwd.stay _
      | apply fwd_put
      | apply fwd_matrix
      | apply fwd_rowU32
      | apply fwd_rowF64
      | exact ndEntry_fwd sf _ _ _
      | apply fwd_readF64s
      | apply fwd_read
      | apply fwd_loop2
      | (intro j s; dsimp only)

/-! ## A decoder only appends to the report and the traces -/

theorem rebase_fmt (st : Run) (r : String) (l : List Nat) (ix : List (Nat × Nat)) :
    (st.rebase r l ix).fmt = st.fmt := rfl

theorem rebase_file (st : Run) (r : String) (l : List Nat) (ix : List (Nat × Nat)) :
    (st.rebase r l ix).file = st.file := rfl

theorem rebase_res (st : Run) (r : String) (l : List Nat) (ix : List (Nat × Nat)) :
    (st.rebase r l ix).res = r ++ st.res := rfl

theorem rebase_read (st : Run) (r : String) (l : List Nat) (ix : List (Nat × Nat))
    (buf : List Nat) (n : Nat) :
    (st.rebase r l ix).read buf n = ((st.read buf n).1, (st.read buf n).2.rebase r l ix) := by
  simp [Run.read, Run.rebase]

theorem rebase_readF64s (st : Run) (r : String) (l : List Nat) (ix : List (Nat × Nat))
    (buf : List Nat) :
    (st.rebase r l ix).readF64s buf =
      ((st.readF64s buf).1, (st.readF64s buf).2.rebase r l ix) :=
  rebase_read st r l ix buf _

theorem rebase_put (st : Run) (r : String) (l : List Nat) (ix : List (Nat × Nat)) (t : String) :
    (st.rebase r l ix).put t = (st.put t).rebase r l ix := by
  simp [Run.put, Run.rebase, String.append_assoc]

theorem rebase_putF64 (st : Run) (r : String) (l : List Nat) (ix : List (Nat × Nat))
    (sf : FloatFmt → Nat → String) (x : Nat) :
    (st.rebase r l ix).putF64 sf x = (st.putF64 sf x).rebase r l ix := by
  simp [Run.putF64, Run.put, Run.rebase, String.append_assoc]

theorem rebase_index (st : Run) (r : String) (l : List Nat) (ix : List (Nat × Nat)) (w : Nat)
    (buf : List Nat) (i : Nat) :
    (st.rebase r l ix).index w buf i =
      ((st.index w buf i).1, (st.index w buf i).2.rebase r l ix) := by
  simp [Run.index, Run.rebase]

theorem rebase_putF64At (st : Run) (r : String) (l : List Nat) (ix : List (Nat × Nat))
    (sf : FloatFmt → Nat → String) (buf : List Nat) (i : Nat) :
    (st.rebase r l ix).putF64At sf buf i = (st.putF64At sf buf i).rebase r l ix := by
  simp only [Run.putF64At, rebase_index, rebase_putF64]

theorem rebase_putU32At (st : Run) (r : String) (l : List Nat) (ix : List (Nat × Nat))
    (buf : List Nat) (i : Nat) :
    (st.rebase r l ix).putU32At buf i = (st.putU32At buf i).rebase r l ix := by
  simp only [Run.putU32At, rebase_index, rebase_put]

theorem rebase_putU16At (st : Run) (r : String) (l : List Nat) (ix : List (Nat × Nat))
    (buf : List Nat) (i : Nat) :
    (st.rebase r l ix).putU16At buf i = (st.putU16At buf i).rebase r l ix := by
  simp only [Run.putU16At, rebase_index, rebase_put]

theorem rebase_readElem (st : Run) (r : String) (l : List Nat) (ix : List (Nat × Nat)) (w : Nat)
    (buf : List Nat) (i : Nat) :
    (st.rebase r l ix).readElem w buf i =
      ((st.readElem w buf i).1, (st.readElem w buf i).2.rebase r l ix) := by
  simp only [Run.readElem, rebase_index, rebase_read]

theorem rebase_tripleF64 (st : Run) (r : String) (l : List Nat) (ix : List (Nat × Nat))
    (sf : FloatFmt → Nat → String) (close : String) (buf : List Nat) (off : Nat) :
    putTripleF64 sf close buf off (st.rebase r l ix) =
      (putTripleF64 sf close buf off st).rebase r l ix := by
  simp only [putTripleF64, rebase_put, rebase_putF64At]

theorem rebase_tripleU32 (st : Run) (r : String) (l : List Nat) (ix : List (Nat × Nat))
    (close : String) (buf : List Nat) (off : Nat) :
    putTripleU32 close buf off (st.rebase r l ix) =
      (putTripleU32 close buf off st).rebase r l ix := by
  simp only [putTripleU32, rebase_put, rebase_putU32At]

theorem rebase_ite (c : Prop) [Decidable c] (a b : Run) (r : String) (l : List Nat)
    (ix : List (Nat × Nat)) :
    (if c then a.rebase r l ix else b.rebase r l ix) = (if c then a else b).rebase r l ix := by
  split <;> rfl

theorem rebase_emit (st : Run) (r : String) (l : List Nat) (ix : List (Nat × Nat)) (t : String)
    (jx : List (Nat × Nat)) : (st.rebase r l ix).emit t jx = (st.emit t jx).rebase r l ix := by
  simp [Run.emit, Run.rebase, String.append_assoc]

theorem forFrom_comm {α : Type} (ρ : α → α) (body : Nat → α → α)
    (h : ∀ j s, body j (ρ s) = ρ (body j s)) :
    ∀ (k i : Nat) (s : α), forFrom body i k (ρ s) = ρ (forFrom body i k s) := by
  intro k
  induction k with
  | zero => intro i s; rfl
  | succ k ih => intro i s; simp only [forFrom, h, ih]

theorem forFromWhile_comm {α : Type} (ρ : α → α) (cond : α → Bool) (body : Nat → α → α)
    (hc : ∀ s, cond (ρ s) = cond s) (h : ∀ j s, body j (ρ s) = ρ (body j s)) :
    ∀ (k i : Nat) (s : α), forFromWhile cond body i k (ρ s) = ρ (forFromWhile cond body i k s) := by
  intro k
  induction k with
  | zero => intro i s; rfl
  | succ k ih =>
    intro i s
    simp only [forFromWhile, hc, h, ih]
    split <;> rfl

theorem rebase_loop (r : String) (l : List Nat) (ix : List (Nat × Nat))
    (body : Nat → Run → Run)
    (h : ∀ j s, body j (s.rebase r l ix) = (body j s).rebase r l ix) (n : Nat) (st : Run) :
    forLoop n body (st.rebase r l ix) = (forLoop n body st).rebase r l ix :=
  forFrom_comm (fun s : Run => s.rebase r l ix) body h n 0 st

theorem rebase_loop2 {α : Type} (r : String) (l : List Nat) (ix : List (Nat × Nat))
    (body : Nat → α × Run → α × Run)
    (h : ∀ j x s, body j (x, s.rebase r l ix) =
      ((body j (x, s)).1, (body j (x, s)).2.rebase r l ix)) (n : Nat) (x : α) (st : Run) :
    forLoop n body (x, st.rebase r l ix) =
      ((forLoop n body (x, st)).1, (forLoop n body (x, st)).2.rebase r l ix) :=
  forFrom_comm (fun s : α × Run => (s.1, s.2.rebase r l ix)) body (fun j s => h j s.1 s.2) n 0
    (x, st)

theorem rebase_loop3 {α β : Type} (r : String) (l : List Nat) (ix : List (Nat × Nat))
    (body : Nat → α × β × Run → α × β × Run)
    (h : ∀ j x y s, body j (x, y, s.rebase r l ix) =
      ((body j (x, y, s)).1, (body j (x, y, s)).2.1, (body j (x, y, s)).2.2.rebase r l ix))
    (n : Nat) (x : α) (y : β) (st : Run) :
    forLoop n body (x, y, st.rebase r l ix) =
      ((forLoop n body (x, y, st)).1, (forLoop n body (x, y, st)).2.1,
        (forLoop n body (x, y, st)).2.2.rebase r l ix) :=
  forFrom_comm (fun s : α × β × Run => (s.1, s.2.1, s.2.2.rebase r l ix)) body
    (fun j s => h j s.1 s.2.1 s.2.2) n 0 (x, y, st)

theorem rebase_while2 (r : String) (l : List Nat) (ix : List (Nat × Nat))
    (body : Nat → Nat × Run → Nat × Run)
    (h : ∀ j x s, body j (x, s.rebase r l ix) =
      ((body j (x, s)).1, (body j (x, s)).2.rebase r l ix)) (n : Nat) (x : Nat) (st : Run) :
    forWhile n cntBelowDemo body (x, st.rebase r l ix) =
      ((forWhile n cntBelowDemo body (x, st)).1,
        (forWhile n cntBelowDemo body (x, st)).2.rebase r l ix) :=
  forFromWhile_comm (fun s : Nat × Run => (s.1, s.2.rebase r l ix)) cntBelowDemo body
    (fun _ => rfl)
    (fun j s => h j s.1 s.2) n 0 (x, st)

theorem rebase_foldl2 {α β : Type} (r : String) (l : List Nat) (ix : List (Nat × Nat))
    (g : α × Run → β → α × Run)
    (h : ∀ x s y, g (x, s.rebase r l ix) y = ((g (x, s) y).1, (g (x, s) y).2.rebase r l ix)) :
    ∀ (L : List β) (x : α) (st : Run), L.foldl g (x, st.rebase r l ix) =
      ((L.foldl g (x, st)).1, (L.foldl g (x, st)).2.rebase r l ix) := by
  intro L
  induction L with
  | nil => intro x st; rfl
  | cons y L ih => intro x st; simp only [List.foldl, h, ih]

theorem rebase_rowU32 (st : Run) (r : String) (l : List Nat) (ix : List (Nat × Nat))
    (sep : String) (d : Nat) (buf : List Nat) :
    putU32Row sep d buf (st.rebase r l ix) = (putU32Row sep d buf st).rebase r l ix :=
  rebase_loop r l ix _ (fun j s => by simp only [rowStepU32_emit, rebase_fmt, rebase_emit]) d st

theorem rebase_rowF64 (st : Run) (r : String) (l : List Nat) (ix : List (Nat × Nat))
    (sf : FloatFmt → Nat → String) (sep : String) (d : Nat) (buf : List Nat) :
    putF64Row sf sep d buf (st.rebase r l ix) = (putF64Row sf sep d buf st).rebase r l ix :=
  rebase_loop r l ix _ (fun j s => by simp only [rowStepF64_emit, rebase_fmt, rebase_emit]) d st

theorem rebase_matrix (st : Run) (r : String) (l : List Nat) (ix : List (Nat × Nat))
    (sf : FloatFmt → Nat → String) (n : Nat) (buf : List Nat) :
    putMatrix sf n buf (st.rebase r l ix) = (putMatrix sf n buf st).rebase r l ix := by
  simp only [putMatrix_emit, rebase_fmt, rebase_emit]

theorem ndEntry_rebase (sf : FloatFmt → Nat → String) (d j : Nat) (x : List Nat) (s : Run)
    (r : String) (l : List Nat) (ix : List (Nat × Nat)) :
    ndEntry sf d j (x, s.rebase r l ix) =
      ((ndEntry sf d j (x, s)).1, (ndEntry sf d j (x, s)).2.rebase r l ix) := by
  unfold ndEntry
  simp only [rebase_read, rebase_put, rebase_putF64, rebase_rowU32]
  split <;> rfl

theorem nd_appending (sf : FloatFmt → Nat → String) :
    Appending (_read_nd_scalar_image_in_sparse_matrix_style sf) := by
  intro st r l ix
  unfold _read_nd_scalar_image_in_sparse_matrix_style nd_values nd_matrices nd_dims
  simp only [rebase_read, rebase_readF64s, rebase_put, rebase_putF64, rebase_rowU32,
    rebase_rowF64, rebase_matrix,
    rebase_loop2 r l ix _ (fun j x s => ndEntry_rebase sf _ j x s r l ix)]


/-! ### The mesh -/

theorem previewTriplesF64_rebase (sf : FloatFmt → Nat → String) (label : String)
    (buf : List Nat) (st : Run) (r : String) (l : List Nat) (ix : List (Nat × Nat)) :
    previewTriplesF64 sf label buf (st.rebase r l ix) =
      (previewTriplesF64 sf label buf st).rebase r l ix := by
  unfold previewTriplesF64
  simp only [rebase_loop, rebase_put, rebase_tripleF64, implies_true]

theorem previewTriplesU32_rebase (label : String) (buf : List Nat) (st : Run) (r : String)
    (l : List Nat) (ix : List (Nat × Nat)) :
    previewTriplesU32 label buf (st.rebase r l ix) =
      (previewTriplesU32 label buf st).rebase r l ix := by
  unfold previewTriplesU32
  simp only [rebase_loop, rebase_put, rebase_tripleU32, implies_true]

theorem previewPerTimeScalar_rebase (sf : FloatFmt → Nat → String) (numTimes : Nat)
    (buf : List Nat) (st : Run) (r : String) (l : List Nat) (ix : List (Nat × Nat)) :
    previewPerTimeScalar sf numTimes buf (st.rebase r l ix) =
      (previewPerTimeScalar sf numTimes buf st).rebase r l ix := by
  unfold previewPerTimeScalar
  simp only [rebase_loop, rebase_put, rebase_putF64At, implies_true]

theorem previewPerTimeVector_rebase (sf : FloatFmt → Nat → String) (numTimes : Nat)
    (buf : List Nat) (st : Run) (r : String) (l : List Nat) (ix : List (Nat × Nat)) :
    previewPerTimeVector sf numTimes buf (st.rebase r l ix) =
      (previewPerTimeVector sf numTimes buf st).rebase r l ix := by
  unfold previewPerTimeVector
  simp only [rebase_loop, rebase_put, rebase_tripleF64, implies_true]

theorem previewPerPointScalar_rebase (sf : FloatFmt → Nat → String) (buf : List Nat) (st : Run)
    (r : String) (l : List Nat) (ix : List (Nat × Nat)) :
    previewPerPointScalar sf buf (st.rebase r l ix) =
      (previewPerPointScalar sf buf st).rebase r l ix := by
  unfold previewPerPointScalar
  simp only [rebase_loop, rebase_put, rebase_putF64At, implies_true]

theorem mesh_appending (sf : FloatFmt → Nat → String) : Appending (mesh_body sf) := by
  intro st r l ix
  unfold mesh_body mesh_aggregates mesh_temporal mesh_triangles mesh_points
  simp only [rebase_read, rebase_readF64s, rebase_put, previewTriplesF64_rebase,
    previewTriplesU32_rebase, previewPerTimeScalar_rebase, previewPerTimeVector_rebase,
    previewPerPointScalar_rebase]

theorem fwd_previewTriplesF64 {a b : Run} (h : Fwd a b) (sf : FloatFmt → Nat → String)
    (label : String) (buf : List Nat) : Fwd a (previewTriplesF64 sf label buf b) := by
  unfold previewTriplesF64
  repeat
    with_reducible
      first
      | exact h
      | exact Fwd.stay _
      | apply fwd_put
      | apply fwd_tripleF64
      | apply fwd_loop
      | (intro j s; dsimp only)

theorem fwd_previewTriplesU32 {a b : Run} (h : Fwd a b) (label : String) (buf : List Nat) :
    Fwd a (previewTriplesU32 label buf b) := by
  unfold previewTriplesU32
  repeat
    with_reducible
      first
      | exact h
      | exact Fwd.stay _
      | apply fwd_put
      | apply fwd_tripleU32
      | apply fwd_loop
      | (intro j s; dsimp only)

theorem fwd_previewPerTimeScalar {a b : Run} (h : Fwd a b) (sf : FloatFmt → Nat → String)
    (numTimes : Nat) (buf : List Nat) : Fwd a (previewPerTimeScalar sf numTimes buf b) := by
  unfold previewPerTimeScalar
  repeat
    with_reducible
      first
      | exact h
      | exact Fwd.stay _
      | apply fwd_put
      | apply fwd_putF64At
      | apply fwd_loop
      | (intro j s; dsimp only)

theorem fwd_previewPerTimeVector {a b : Run} (h : Fwd a b) (sf : FloatFmt → Nat → String)
    (numTimes : Nat) (buf : List Nat) : Fwd a (previewPerTimeVector sf numTimes buf b) := by
  unfold previewPerTimeVector
  repeat
    with_reducible
      first
      | exact h
      | exact Fwd.stay _
      | apply fwd_put
      | apply fwd_tripleF64
      | apply fwd_loop
      | (intro j s; dsimp only)

theorem fwd_previewPerPointScalar {a b : Run} (h : Fwd a b) (sf : FloatFmt → Nat → String)
    (buf : List Nat) : Fwd a (previewPerPointScalar sf buf b) := by
  unfold previewPerPointScalar
  repeat
    with_reducible
      first
      | exact h
      | exact Fwd.stay _
      | apply fwd_put
      | apply fwd_putF64At
      | apply fwd_loop
      | (intro j s; dsimp only)

theorem mesh_fwd (sf : FloatFmt → Nat → String) (st : Run) : Fwd st (mesh_body sf st) := by
  unfold mesh_body mesh_aggregates mesh_temporal mesh_triangles mesh_points
  dsimp only
  repeat
    with_reducible
      first
      | exact Fwd.stay _
      | apply fwd_put
      | apply fwd_previewTriplesF64
      | apply fwd_previewTriplesU32
      | apply fwd_previewPerTimeScalar
      | apply fwd_previewPerTimeVector
      | apply fwd_previewPerPointScalar
      | apply fwd_readF64s
      | apply fwd_read


/-! ### Vessel sections, phase wraps, venc, centerlines -/

theorem fwd_nd {a b : Run} (h : Fwd a b) (sf : FloatFmt → Nat → String) :
    Fwd a (_read_nd_scalar_image_in_sparse_matrix_style sf b) :=
  h.next (nd_fwd sf b)

theorem vessel_sections_fwd (sf : FloatFmt → Nat → String) (st : Run) :
    Fwd st (vessel_sections_body sf st) := by
  unfold vessel_sections_body
  dsimp only
  repeat
    with_reducible
      first
      | exact Fwd.stay _
      | apply fwd_put
      | apply fwd_nd
      | apply fwd_read
      | apply fwd_loop
      | (intro j s; dsimp only)

theorem vessel_sections_appending (sf : FloatFmt → Nat → String) :
    Appending (vessel_sections_body sf) := by
  intro st r l ix
  unfold vessel_sections_body
  simp only [rebase_read, rebase_put, rebase_loop, nd_appending sf _ r l ix, implies_true]

theorem wrappedVoxel_fwd (i : Nat) (st : Run) : Fwd st (wrappedVoxel i st) := by
  unfold wrappedVoxel
  dsimp only
  repeat
    with_reducible
      first
      | exact Fwd.stay _
      | apply fwd_put
      | apply fwd_putU32At
      | apply fwd_read
      | apply fwd_ite

theorem wrappedVoxel_rebase (i : Nat) (st : Run) (r : String) (l : List Nat)
    (ix : List (Nat × Nat)) :
    wrappedVoxel i (st.rebase r l ix) = (wrappedVoxel i st).rebase r l ix := by
  unfold wrappedVoxel
  simp only [rebase_read, rebase_put, rebase_putU32At, rebase_ite]

theorem phase_wraps_fwd (st : Run) : Fwd st (phase_wraps_body st) := by
  unfold phase_wraps_body
  repeat
    with_reducible
      first
      | exact Fwd.stay _
      | exact wrappedVoxel_fwd _ _
      | apply fwd_put
      | apply fwd_read
      | apply fwd_loop
      | (intro j s; dsimp only)

theorem phase_wraps_appending : Appending phase_wraps_body := by
  intro st r l ix
  unfold phase_wraps_body
  simp only [rebase_read, rebase_put, rebase_loop, wrappedVoxel_rebase, implies_true]

theorem vencPair_fwd (i : Nat) (s : List Nat × List Nat × Run) :
    Fwd s.2.2 (vencPair i s).2.2 := by
  unfold vencPair
  dsimp only
  repeat
    with_reducible
      first
      | exact Fwd.stay _
      | apply fwd_readElem

theorem vencPair_rebase (i : Nat) (x y : List Nat) (s : Run) (r : String) (l : List Nat)
    (ix : List (Nat × Nat)) :
    vencPair i (x, y, s.rebase r l ix) =
      ((vencPair i (x, y, s)).1, (vencPair i (x, y, s)).2.1,
        (vencPair i (x, y, s)).2.2.rebase r l ix) := by
  unfold vencPair
  simp only [rebase_readElem]

theorem venc_fwd (sf : FloatFmt → Nat → String) (st : Run) : Fwd st (venc_body sf st) := by
  unfold venc_body putVenc3DT
  dsimp only
  repeat
    with_reducible
      first
      | exact Fwd.stay _
      | exact vencPair_fwd _ _
      | apply fwd_put
      | apply fwd_putF64At
      | apply fwd_putU16At
      | apply fwd_read
      | apply fwd_loop
      | apply fwd_loop3
      | (intro j s; dsimp only)

theorem venc_appending (sf : FloatFmt → Nat → String) : Appending (venc_body sf) := by
  intro st r l ix
  unfold venc_body putVenc3DT
  simp only [rebase_read, rebase_put, rebase_putF64At, rebase_putU16At, rebase_loop,
    rebase_loop3 r l ix _ (fun j x y s => vencPair_rebase j x y s r l ix), implies_true]

theorem centerline_fwd (sf : FloatFmt → Nat → String) (clid : Nat) (s : List Nat × Run) :
    Fwd s.2 (centerline sf clid s).2 := by
  unfold centerline
  dsimp only
  repeat
    with_reducible
      first
      | exact Fwd.stay _
      | apply fwd_put
      | apply fwd_putF64At
      | apply fwd_tripleF64
      | apply fwd_readF64s
      | apply fwd_read
      | apply fwd_ite
      | apply fwd_loop
      | (intro j s; dsimp only)

theorem centerline_rebase (sf : FloatFmt → Nat → String) (clid : Nat) (x : List Nat) (s : Run)
    (r : String) (l : List Nat) (ix : List (Nat × Nat)) :
    centerline sf clid (x, s.rebase r l ix) =
      ((centerline sf clid (x, s)).1, (centerline sf clid (x, s)).2.rebase r l ix) := by
  unfold centerline
  simp only [rebase_read, rebase_readF64s, rebase_put, rebase_putF64At, rebase_tripleF64,
    rebase_loop, rebase_ite, implies_true]

theorem centerlines_fwd (sf : FloatFmt → Nat → String) (st : Run) :
    Fwd st (centerlines_body sf st) := by
  unfold centerlines_body
  dsimp only
  repeat
    with_reducible
      first
      | exact Fwd.stay _
      | exact centerline_fwd sf _ _
      | apply fwd_put
      | apply fwd_read
      | apply fwd_loop2
      | (intro j s; dsimp only)

theorem centerlines_appending (sf : FloatFmt → Nat → String) :
    Appending (centerlines_body sf) := by
  intro st r l ix
  unfold centerlines_body
  simp only [rebase_read, rebase_put,
    rebase_loop2 r l ix _ (fun j x s => centerline_rebase sf j x s r l ix)]


/-! ### Measuring planes -/

theorem fwd_gridPreview {a b : Run} (h : Fwd a b) (g0 g1 g2 : Nat)
    (cell : Nat → Nat → Nat → Nat → Run → Run) (hc : ∀ x y t c s, Fwd s (cell x y t c s)) :
    Fwd a (gridPreview g0 g1 g2 cell b) := by
  unfold gridPreview
  repeat
    with_reducible
      first
      | exact h
      | exact hc _ _ _ _ _
      | exact Fwd.stay _
      | apply fwd_while2
      | (intro j s; dsimp only)

theorem gridPreview_rebase (g0 g1 g2 : Nat) (cell : Nat → Nat → Nat → Nat → Run → Run)
    (st : Run) (r : String) (l : List Nat) (ix : List (Nat × Nat))
    (hc : ∀ x y t c s, cell x y t c (s.rebase r l ix) = (cell x y t c s).rebase r l ix) :
    gridPreview g0 g1 g2 cell (st.rebase r l ix) = (gridPreview g0 g1 g2 cell st).rebase r l ix := by
  unfold gridPreview
  exact congrArg Prod.snd
    (rebase_while2 r l ix _ (fun x c s =>
      rebase_while2 r l ix _ (fun y c s =>
        rebase_while2 r l ix _ (fun t c s => by
          show (c + 1, cell x y t c (s.rebase r l ix)) = (c + 1, (cell x y t c s).rebase r l ix)
          rw [hc]) g2 c s) g1 c s) g0 0 st)

theorem fwd_segPreview {a b : Run} (h : Fwd a b) (g0 g1 : Nat) (buf : List Nat) :
    Fwd a (segPreview g0 g1 buf b) := by
  unfold segPreview
  repeat
    with_reducible
      first
      | exact h
      | exact Fwd.stay _
      | apply fwd_put
      | apply fwd_index
      | apply fwd_while2
      | (intro j s; dsimp only)

theorem segPreview_rebase (g0 g1 : Nat) (buf : List Nat) (st : Run) (r : String) (l : List Nat)
    (ix : List (Nat × Nat)) :
    segPreview g0 g1 buf (st.rebase r l ix) = (segPreview g0 g1 buf st).rebase r l ix := by
  unfold segPreview
  exact congrArg Prod.snd
    (rebase_while2 r l ix _ (fun x c s =>
      rebase_while2 r l ix _ (fun y c s => by
        simp only [rebase_put, rebase_index]) g1 c s) g0 0 st)

theorem readVec3_fwd (sf : FloatFmt → Nat → String) (label : String) (s : List Nat × Run) :
    Fwd s.2 (readVec3 sf label s).2 := by
  unfold readVec3
  dsimp only
  repeat
    with_reducible
      first
      | exact Fwd.stay _
      | apply fwd_put
      | apply fwd_tripleF64
      | apply fwd_readF64s

theorem fwd_readVec3 {a : Run} {s : List Nat × Run} (h : Fwd a s.2)
    (sf : FloatFmt → Nat → String) (label : String) : Fwd a (readVec3 sf label s).2 :=
  h.next (readVec3_fwd sf label s)

theorem readVec3_rebase (sf : FloatFmt → Nat → String) (label : String) (x : List Nat) (s : Run)
    (r : String) (l : List Nat) (ix : List (Nat × Nat)) :
    readVec3 sf label (x, s.rebase r l ix) =
      ((readVec3 sf label (x, s)).1, (readVec3 sf label (x, s)).2.rebase r l ix) := by
  unfold readVec3
  simp only [rebase_readF64s, rebase_put, rebase_tripleF64]

theorem plane_header_fwd (sf : FloatFmt → Nat → String) (dtemp : List Nat) (st : Run) :
    Fwd st (plane_header sf dtemp st).2.2.2 := by
  unfold plane_header
  dsimp only
  repeat
    with_reducible
      first
      | exact Fwd.stay _
      | apply fwd_put
      | apply fwd_putF64
      | apply fwd_putF64At
      | apply fwd_putU32At
      | apply fwd_readVec3
      | apply fwd_readF64s
      | apply fwd_read

theorem plane_header_rebase (sf : FloatFmt → Nat → String) (dtemp : List Nat) (st : Run)
    (r : String) (l : List Nat) (ix : List (Nat × Nat)) :
    plane_header sf dtemp (st.rebase r l ix) =
      ((plane_header sf dtemp st).1, (plane_header sf dtemp st).2.1,
        (plane_header sf dtemp st).2.2.1, (plane_header sf dtemp st).2.2.2.rebase r l ix) := by
  unfold plane_header
  simp only [rebase_read, rebase_readF64s, rebase_put, rebase_putF64, rebase_putF64At,
    rebase_putU32At, readVec3_rebase]

theorem plane_fields_fwd (sf : FloatFmt → Nat → String) (g0 g1 g2 : Nat) (dbuffer : List Nat)
    (st : Run) : Fwd st (plane_fields sf g0 g1 g2 dbuffer st).2 := by
  unfold plane_fields
  dsimp only
  repeat
    with_reducible
      first
      | exact Fwd.stay _
      | apply fwd_put
      | apply fwd_putF64At
      | apply fwd_tripleF64
      | apply fwd_gridPreview
      | apply fwd_segPreview
      | apply fwd_readF64s
      | apply fwd_read
      | (intro x y t c s; dsimp only)

theorem plane_fields_rebase (sf : FloatFmt → Nat → String) (g0 g1 g2 : Nat) (dbuffer : List Nat)
    (st : Run) (r : String) (l : List Nat) (ix : List (Nat × Nat)) :
    plane_fields sf g0 g1 g2 dbuffer (st.rebase r l ix) =
      ((plane_fields sf g0 g1 g2 dbuffer st).1,
        (plane_fields sf g0 g1 g2 dbuffer st).2.rebase r l ix) := by
  unfold plane_fields
  simp only [rebase_read, rebase_readF64s, segPreview_rebase]
  rw [gridPreview_rebase _ _ _ _ _ r l ix (fun x y t c s => by
    simp only [rebase_put, rebase_tripleF64])]
  simp only [rebase_read, rebase_readF64s, segPreview_rebase]
  rw [gridPreview_rebase _ _ _ _ _ r l ix (fun x y t c s => by
    simp only [rebase_put, rebase_putF64At])]
  simp only [rebase_read, rebase_readF64s, segPreview_rebase]
  rw [gridPreview_rebase _ _ _ _ _ r l ix (fun x y t c s => by
    simp only [rebase_put, rebase_putF64At])]


theorem readStat_fwd (s : List Nat × Run) (label : String) : Fwd s.2 (readStat s label).2 := by
  unfold readStat
  exact fwd_put (fwd_read (Fwd.stay _) _ _) _

theorem readStat_rebase (x : List Nat) (s : Run) (label : String) (r : String) (l : List Nat)
    (ix : List (Nat × Nat)) :
    readStat (x, s.rebase r l ix) label =
      ((readStat (x, s) label).1, (readStat (x, s) label).2.rebase r l ix) := by
  unfold readStat
  simp only [rebase_read, rebase_put]

theorem readSeries_fwd (s : List Nat × Run) (label : String) :
    Fwd s.2 (readSeries s label).2 := by
  unfold readSeries
  exact fwd_put (fwd_readF64s (Fwd.stay _) _) _

theorem readSeries_rebase (x : List Nat) (s : Run) (label : String) (r : String) (l : List Nat)
    (ix : List (Nat × Nat)) :
    readSeries (x, s.rebase r l ix) label =
      ((readSeries (x, s) label).1, (readSeries (x, s) label).2.rebase r l ix) := by
  unfold readSeries
  simp only [rebase_readF64s, rebase_put]

theorem readSamples_fwd (sf : FloatFmt → Nat → String) (s : List Nat × Run) (label : String) :
    Fwd s.2 (readSamples sf s label).2 := by
  unfold readSamples
  dsimp only
  repeat
    with_reducible
      first
      | exact Fwd.stay _
      | apply fwd_put
      | apply fwd_putF64At
      | apply fwd_readF64s
      | apply fwd_loop
      | (intro j s; dsimp only)

theorem readSamples_rebase (sf : FloatFmt → Nat → String) (x : List Nat) (s : Run)
    (label : String) (r : String) (l : List Nat) (ix : List (Nat × Nat)) :
    readSamples sf (x, s.rebase r l ix) label =
      ((readSamples sf (x, s) label).1, (readSamples sf (x, s) label).2.rebase r l ix) := by
  unfold readSamples
  simp only [rebase_readF64s, rebase_put, rebase_putF64At, rebase_loop, implies_true]

theorem plane_stats_fwd (sf : FloatFmt → Nat → String) (g2 : Nat) (dbuffer dtemp : List Nat)
    (st : Run) : Fwd st (plane_stats sf g2 dbuffer dtemp st).2.2 := by
  unfold plane_stats
  dsimp only
  apply fwd_put
  apply fwd_loop
  · apply fwd_readF64s
    apply fwd_foldl2 _ readStat_fwd
    apply fwd_foldl2 _ readSeries_fwd
    apply fwd_foldl2 _ readStat_fwd
    exact Fwd.stay _
  · intro t s
    dsimp only
    apply fwd_ite
    · exact fwd_tripleF64 (fwd_put (Fwd.stay _) _) _ _ _ _
    · exact Fwd.stay _

theorem plane_stats_rebase (sf : FloatFmt → Nat → String) (g2 : Nat) (dbuffer dtemp : List Nat)
    (st : Run) (r : String) (l : List Nat) (ix : List (Nat × Nat)) :
    plane_stats sf g2 dbuffer dtemp (st.rebase r l ix) =
      ((plane_stats sf g2 dbuffer dtemp st).1, (plane_stats sf g2 dbuffer dtemp st).2.1,
        (plane_stats sf g2 dbuffer dtemp st).2.2.rebase r l ix) := by
  unfold plane_stats
  simp only [rebase_readF64s, rebase_put, rebase_tripleF64, rebase_loop, rebase_ite,
    rebase_foldl2 r l ix readStat (fun x s y => readStat_rebase x s y r l ix),
    rebase_foldl2 r l ix readSeries (fun x s y => readSeries_rebase x s y r l ix),
    implies_true]

theorem plane_samples_fwd (sf : FloatFmt → Nat → String) (dbuffer : List Nat) (st : Run) :
    Fwd st (plane_samples sf dbuffer st) := by
  unfold plane_samples
  dsimp only
  apply fwd_foldl2 _ (readSamples_fwd sf)
  exact fwd_of_read st (zeros 4) 4

theorem plane_samples_rebase (sf : FloatFmt → Nat → String) (dbuffer : List Nat) (st : Run)
    (r : String) (l : List Nat) (ix : List (Nat × Nat)) :
    plane_samples sf dbuffer (st.rebase r l ix) = (plane_samples sf dbuffer st).rebase r l ix := by
  unfold plane_samples
  simp only [rebase_read,
    rebase_foldl2 r l ix (readSamples sf) (fun x s y => readSamples_rebase sf x s y r l ix)]

theorem readMeasuringPlane_fwd (sf : FloatFmt → Nat → String) (dtemp : List Nat) (st : Run) :
    Fwd st (readMeasuringPlane sf dtemp st).2 := by
  unfold readMeasuringPlane
  dsimp only
  exact (((plane_header_fwd sf dtemp st).next (plane_fields_fwd sf _ _ _ _ _)).next
    (plane_stats_fwd sf _ _ _ _)).next (plane_samples_fwd sf _ _)

theorem readMeasuringPlane_rebase (sf : FloatFmt → Nat → String) (dtemp : List Nat) (st : Run)
    (r : String) (l : List Nat) (ix : List (Nat × Nat)) :
    readMeasuringPlane sf dtemp (st.rebase r l ix) =
      ((readMeasuringPlane sf dtemp st).1, (readMeasuringPlane sf dtemp st).2.rebase r l ix) := by
  unfold readMeasuringPlane
  simp only [plane_header_rebase, plane_fields_rebase, plane_stats_rebase, plane_samples_rebase]

theorem landmark_fwd (sf : FloatFmt → Nat → String) (st : Run) :
    Fwd st (landmark_body sf st) := by
  unfold landmark_body
  dsimp only
  apply fwd_loop2
  · apply fwd_loop2
    · exact (fwd_of_read st (zeros 4) 4).next (fwd_of_read _ (zeros 4) 4)
    · intro j s
      exact readMeasuringPlane_fwd sf _ _
  · intro j s
    exact (fwd_of_read _ _ _).next (readMeasuringPlane_fwd sf _ _)

theorem landmark_appending (sf : FloatFmt → Nat → String) : Appending (landmark_body sf) := by
  intro st r l ix
  unfold landmark_body
  simp only [rebase_read]
  rw [rebase_loop2 r l ix _ (fun j x s => readMeasuringPlane_rebase sf x s r l ix)]
  rw [rebase_loop2 r l ix _ (fun j x s => by
    simp only [rebase_read, readMeasuringPlane_rebase])]


/-! ### Every decoder call -/

theorem opened_eq_rebase (st : Run) (bytes : List Nat) :
    st.opened bytes = (Run.start bytes st.fmt).rebase st.res st.reads st.idx := by
  simp [Run.opened, Run.start, Run.rebase]

theorem run_res (d : Decoder) (body : Run → Run) (hA : Appending body) (fs : FileSystem)
    (filepath : String) (st : Run) :
    (d.run body fs filepath st).2.res = st.res ++ d.segment body fs filepath st.fmt := by
  cases h : fs filepath with
  | missing => simp [Decoder.run, Decoder.segment, h, Run.put]
  | unopenable => simp [Decoder.run, Decoder.segment, h, Run.put, String.append_assoc]
  | present bytes =>
    rw [decoder_present d body fs filepath st bytes h]
    show (body ((st.put (d.readingNote ++ filepath ++ "\")\n")).opened bytes)).res = _
    rw [opened_eq_rebase, hA]
    simp [Decoder.segment, h, rebase_res, Run.put, String.append_assoc]

theorem run_fmt (d : Decoder) (body : Run → Run) (hF : ∀ st, Fwd st (body st)) (fs : FileSystem)
    (filepath : String) (st : Run) : (d.run body fs filepath st).2.fmt = st.fmt := by
  unfold Decoder.run
  cases h : fs filepath with
  | missing => rfl
  | unopenable => rfl
  | present bytes => exact (hF _).1

theorem run_flag (d : Decoder) (body : Run → Run) (fs : FileSystem) (filepath : String)
    (st st' : Run) : (d.run body fs filepath st).1 = (d.run body fs filepath st').1 := by
  unfold Decoder.run
  cases h : fs filepath <;> rfl

theorem run_stream (d : Decoder) (body : Run → Run) (hF : ∀ st, Fwd st (body st))
    (fs : FileSystem) (filepath : String) (st : Run) (bytes : List Nat)
    (h : fs filepath = FileState.present bytes) :
    (d.run body fs filepath st).2.file.data = bytes ∧
      (d.run body fs filepath st).2.file.pos ≤ bytes.length := by
  rw [decoder_present d body fs filepath st bytes h]
  obtain ⟨_, hd, _, hb⟩ := hF ((st.put (d.readingNote ++ filepath ++ "\")\n")).opened bytes)
  have hp := hb (Nat.zero_le _)
  rw [hd] at hp
  exact ⟨hd, hp⟩

theorem nd_decoder_is_run (sf : FloatFmt → Nat → String)
    (p : Decoder × (FileSystem → String → Run → Bool × Run)) (h : p ∈ ndDecoders sf) :
    p.2 = p.1.run (_read_nd_scalar_image_in_sparse_matrix_style sf) := by
  simp only [ndDecoders, List.mem_cons, List.mem_singleton, List.not_mem_nil, or_false] at h
  rcases h with h | h | h | h | h | h | h | h | h | h <;> subst h <;> rfl

/-! ## C12 -/

/-- C12.  For every content of the file, each of the ten decoders of one ND record
returns true, appends its own first line (the name of the data set with the path)
followed by one and the same text, the one the ND decoder writes for that content
under the format flags in force, and leaves the stream in one and the same state,
so that all ten consume the same number of bytes. -/
theorem nd_decoders_agree (sf : FloatFmt → Nat → String) (fs : FileSystem)
    (filepath : String) (st : Run) (bytes : List Nat)
    (h : fs filepath = FileState.present bytes) :
    ∀ p ∈ ndDecoders sf,
      (p.2 fs filepath st).1 = true ∧
        (p.2 fs filepath st).2.res =
          st.res ++ (p.1.readingNote ++ filepath ++ "\")\n")
            ++ (_read_nd_scalar_image_in_sparse_matrix_style sf
              (Run.start bytes st.fmt)).res ∧
        (p.2 fs filepath st).2.file =
          (_read_nd_scalar_image_in_sparse_matrix_style sf (Run.start bytes st.fmt)).file := by
  intro p hp
  rw [nd_decoder_is_run sf p hp]
  refine ⟨by rw [decoder_present _ _ fs filepath st bytes h], ?_, ?_⟩
  · rw [run_res _ _ (nd_appending sf)]
    simp only [Decoder.segment, h, String.append_assoc]
  · rw [decoder_present _ _ fs filepath st bytes h]
    show (_read_nd_scalar_image_in_sparse_matrix_style sf
      ((st.put (p.1.readingNote ++ filepath ++ "\")\n")).opened bytes)).file = _
    rw [opened_eq_rebase, nd_appending sf, rebase_file]
    rfl

/-- C12 on the synthetic record: the static tissue mask decoder appends its first
line and then the text of the ND decoder, and consumes what the ND decoder
consumes. -/
theorem nd_decoders_agree_witness :
    (read_static_tissue_mask bitsF64 (oneFile "mask" (FileState.present exampleND)) "mask"
        Run.fresh).2.res =
      "" ++ ("\t- reading static tissue mask (path \"" ++ "mask" ++ "\")\n")
        ++ (_read_nd_scalar_image_in_sparse_matrix_style bitsF64
          (Run.start exampleND FloatFmt.default)).res ∧
    (read_static_tissue_mask bitsF64 (oneFile "mask" (FileState.present exampleND)) "mask"
        Run.fresh).2.file =
      (_read_nd_scalar_image_in_sparse_matrix_style bitsF64
        (Run.start exampleND FloatFmt.default)).file :=
  (nd_decoders_agree bitsF64 (oneFile "mask" (FileState.present exampleND)) "mask" Run.fresh
    exampleND (by simp [oneFile]) (Decoder.static_tissue_mask, read_static_tissue_mask bitsF64)
    (by simp [ndDecoders])).2

/-! ## Streams without bytes -/

theorem Spent.begin (st : Run) (h : st.file.data = []) : Spent st st "" :=
  ⟨h, by simp, rfl⟩

theorem Spent.write {a b : Run} {t : String} (h : Spent a b t) (u : String) :
    Spent a (b.put u) (t ++ u) :=
  ⟨h.1, by show b.res ++ u = _; rw [h.2.1, String.append_assoc], h.2.2⟩

theorem Spent.emitted {a b c : Run} {t u : String} {ix : List (Nat × Nat)} (h : Spent a b t)
    (e : c = b.emit u ix) : Spent a c (t ++ u) := by
  subst e
  exact ⟨h.1, by show b.res ++ u = _; rw [h.2.1, String.append_assoc], h.2.2⟩

theorem Spent.same_as {a b c : Run} {t : String} (h : Spent a b t) (e : c = b) :
    Spent a c t := by
  rw [e]; exact h

theorem Spent.fetch {a b : Run} {t : String} (h : Spent a b t) (buf : List Nat) (n : Nat) :
    Spent a (b.read buf n).2 t ∧ (b.read buf n).1 = buf := by
  obtain ⟨hd, hr, hf⟩ := h
  unfold Run.read IfStream.extract
  split
  · refine ⟨⟨hd, hr, hf⟩, ?_⟩
    simp [slice, hd]
  · exact ⟨⟨hd, hr, hf⟩, by simp⟩

set_option maxRecDepth 100000 in
theorem nd_on_empty (sf : FloatFmt → Nat → String) (st : Run) (hf : st.file.data = []) :
    (_read_nd_scalar_image_in_sparse_matrix_style sf st).res =
      st.res ++ renderNDSparse sf st.fmt (decodeNDSparse (zeros 664) 0) := by
  have hrec : decodeNDSparse (zeros 664) 0 =
      { numDims := 0, gridSize := [], voxelScale := [], world4x4 := List.replicate 16 0,
        invWorld4x4 := List.replicate 16 0, world5x5 := List.replicate 25 0,
        invWorld5x5 := List.replicate 25 0, sparseEntries := [] } := by
    decide
  have m4 : ∀ fmt, matText sf fmt 4 (zeros (8 * 16)) =
      renderMatrix sf fmt 4 (List.replicate 16 0) := by
    intro fmt
    rw [show List.replicate 16 0 = f64sAt (zeros 664) 0 16 by decide,
      ← matText_slice sf fmt 4 16 (zeros 664) 0 (fun r c hr hc => by omega)]
    congr 1
  have hv : vresize 8 (zeros (8 * 16)) 25 = zeros (8 * 25) := by decide
  have m5 : ∀ fmt, matText sf fmt 5 (vresize 8 (zeros (8 * 16)) 25) =
      renderMatrix sf fmt 5 (List.replicate 25 0) := by
    intro fmt
    rw [hv, show List.replicate 25 0 = f64sAt (zeros 664) 0 25 by decide,
      ← matText_slice sf fmt 5 25 (zeros 664) 0 (fun r c hr hc => by omega)]
    congr 1
  unfold _read_nd_scalar_image_in_sparse_matrix_style nd_values nd_matrices nd_dims
  lift_lets
  extract_lets r1 numDims s1 r2 gridsize s2 s3 r3 vs s4 h r4 s5 r5 s6 r6 s7 r7 r8 nnz s8 gp gs
  have h0 := Spent.begin st hf
  obtain ⟨a1, v1⟩ := h0.fetch (zeros 4) 4
  have hd : numDims = 0 := by
    show elemAt 4 r1.1 0 = 0
    rw [show r1.1 = zeros 4 from v1]; decide
  have a2 : Spent st s1 _ := a1.write _
  obtain ⟨a3, v3⟩ := a2.fetch (zeros (4 * numDims)) (numDims * 4)
  have a4 : Spent st s2 _ := a3.write _
  have e3 : putU32Row " x " numDims gridsize s2 = s2 := by rw [hd]; rfl
  have a5 : Spent st s3 _ :=
    (a4.write "\n").same_as (congrArg (fun s : Run => s.put "\n") e3)
  obtain ⟨a6, v6⟩ := a5.fetch (zeros (8 * numDims)) (numDims * 8)
  have a7 : Spent st s4 _ := a6.write _
  have e4 : putF64Row sf " x " numDims vs s4 = s4 := by rw [hd]; rfl
  have a8 : Spent st h.2 _ :=
    (a7.write "\n").same_as (congrArg (fun s : Run => s.put "\n") e4)
  obtain ⟨a9, v9⟩ := a8.fetch (zeros (8 * 16)) ((zeros (8 * 16)).length / 8 * 8)
  have b1 : Spent st s5 _ := (a9.write _).emitted (putMatrix_emit sf 4 r4.1 _)
  obtain ⟨a10, v10⟩ := b1.fetch r4.1 (r4.1.length / 8 * 8)
  have b2 : Spent st s6 _ := (a10.write _).emitted (putMatrix_emit sf 4 r5.1 _)
  obtain ⟨a11, v11⟩ := b2.fetch (vresize 8 r5.1 25) ((vresize 8 r5.1 25).length / 8 * 8)
  have b3 : Spent st s7 _ := (a11.write _).emitted (putMatrix_emit sf 5 r6.1 _)
  obtain ⟨a12, v12⟩ := b3.fetch r6.1 (r6.1.length / 8 * 8)
  have b4 : Spent st
      (putMatrix sf 5 r7.1 (r7.2.put "\t\t- inverse world matrix with time:\n")) _ :=
    (a12.write _).emitted (putMatrix_emit sf 5 r7.1 _)
  obtain ⟨a13, v13⟩ := b4.fetch (zeros 4) 4
  have hn : nnz = 0 := by
    show elemAt 4 r8.1 0 = 0
    rw [show r8.1 = zeros 4 from v13]; decide
  have b5 : Spent st s8 _ := a13.write _
  have e5 : gs = (gp, s8) := by
    show forLoop nnz _ _ = _
    rw [hn]; rfl
  have b6 := b5.write "\t\t\t- ...\n"
  have f1 : (r4.2.put "\t\t- world matrix:\n").fmt = st.fmt := (a9.write _).2.2
  have f2 : (r5.2.put "\t\t- inverse world matrix:\n").fmt = st.fmt := (a10.write _).2.2
  have f3 : (r6.2.put "\t\t- world matrix with time:\n").fmt = st.fmt := (a11.write _).2.2
  have f4 : (r7.2.put "\t\t- inverse world matrix with time:\n").fmt = st.fmt :=
    (a12.write _).2.2
  change r4.1 = zeros (8 * 16) at v9
  change r5.1 = r4.1 at v10
  change r6.1 = vresize 8 r5.1 25 at v11
  change r7.1 = r6.1 at v12
  rw [e5]
  show (s8.put "\t\t\t- ...\n").res = _
  have hi : " x ".intercalate ([] : List String) = "" := by decide
  rw [b6.2.1, f1, f2, f3, f4, v12, v11, v10, v9, hd, hn, hrec, m4 st.fmt, m5 st.fmt]
  simp [renderNDSparse, renderPreview, cat, String.append_assoc, hi]

set_option maxRecDepth 100000 in
/-- C17, as stated, fails: a pressure-map file that ends right after its first
matrix (`staleND`).  The call returns true.  The read of the inverse world matrix
finds no byte left and extracts nothing, and the report shows for it the entries of
the world matrix, which the shared buffer still holds (first entry 1.0, bit
pattern 4607182418800017408), not zeros; the two matrices with time repeat them. -/
theorem stale_matrix_counterexample :
    (read_pressure_map bitsF64 (oneFile "pressuremap" (FileState.present staleND))
        "pressuremap" Run.fresh).1 = true ∧
      (read_pressure_map bitsF64 (oneFile "pressuremap" (FileState.present staleND))
        "pressuremap" Run.fresh).2.file = ⟨staleND, 132, false⟩ ∧
      (read_pressure_map bitsF64 (oneFile "pressuremap" (FileState.present staleND))
        "pressuremap" Run.fresh).2.res =
        "\t- reading pressure map (path \"pressuremap\")\n"
          ++ "\t\t- num. dimensions: 0\n\t\t- grid size: \n\t\t- voxel scale: \n"
          ++ "\t\t- world matrix:\n"
          ++ "\t\t\t#4607182418800017408 #0 #0 #0 \n\t\t\t#0 #0 #0 #0 \n"
          ++ "\t\t\t#0 #0 #0 #0 \n\t\t\t#0 #0 #0 #0 \n"
          ++ "\t\t- inverse world matrix:\n"
          ++ "\t\t\t#4607182418800017408 #0 #0 #0 \n\t\t\t#0 #0 #0 #0 \n"
          ++ "\t\t\t#0 #0 #0 #0 \n\t\t\t#0 #0 #0 #0 \n"
          ++ "\t\t- world matrix with time:\n"
          ++ "\t\t\t#4607182418800017408 #0 #0 #0 #0 \n\t\t\t#0 #0 #0 #0 #0 \n"
          ++ "\t\t\t#0 #0 #0 #0 #0 \n\t\t\t#0 #0 #0 #0 #0 \n\t\t\t#0 #0 #0 #0 #0 \n"
          ++ "\t\t- inverse world matrix with time:\n"
          ++ "\t\t\t#4607182418800017408 #0 #0 #0 #0 \n\t\t\t#0 #0 #0 #0 #0 \n"
          ++ "\t\t\t#0 #0 #0 #0 #0 \n\t\t\t#0 #0 #0 #0 #0 \n\t\t\t#0 #0 #0 #0 #0 \n"
          ++ "\t\t- num. non-zero values: 0\n\t\t\t- ...\n" := by
  decide

/-! ## C18 -/

theorem ndRecordStart_mono (data : List Nat) (q : Nat) :
    ∀ (j i : Nat), i ≤ j → ndRecordStart data q i ≤ ndRecordStart data q j := by
  intro j
  induction j with
  | zero => intro i hi; rw [Nat.le_zero.mp hi]
  | succ j ih =>
    intro i hi
    rcases Nat.eq_or_lt_of_le hi with h | h
    · rw [h]
    · exact le_trans (ih i (by omega)) (Nat.le_add_right _ _)

theorem ndRecordStart_eq_sum (data : List Nat) (q : Nat) (k : Nat) :
    ndRecordStart data q k =
      q + ((List.range k).map (fun i => ndSparseSize data (ndRecordStart data q i))).sum := by
  induction k with
  | zero => simp [ndRecordStart]
  | succ k ih =>
    rw [List.range_succ, List.map_append, List.sum_append]
    simp only [ndRecordStart, List.map_cons, List.map_nil, List.sum_cons, List.sum_nil]
    omega

theorem vessel_sections_reaches (sf : FloatFmt → Nat → String) (data : List Nat) (st : Run)
    (p : Nat) (hf : st.file = ⟨data, p, true⟩)
    (hlen : ndRecordStart data (p + 4) (u32At data p) ≤ data.length) :
    Reaches data st (vessel_sections_body sf st) (ndRecordStart data (p + 4) (u32At data p))
      ([4] ++ catL ((List.range (u32At data p)).map
        (fun i => ndReadLog data (ndRecordStart data (p + 4) i))))
      ("\t\tnum. sections: " ++ toString (u32At data p) ++ "\n" ++
        cat ((List.range (u32At data p)).map (fun i =>
          "\t\t- section " ++ toString i ++ " of " ++ toString (u32At data p) ++ ":\n" ++
            renderNDSparse sf st.fmt (decodeNDSparse data (ndRecordStart data (p + 4) i))))) := by
  have h4 : p + 4 ≤ data.length :=
    le_trans (ndRecordStart_mono data (p + 4) _ 0 (Nat.zero_le _)) hlen
  unfold vessel_sections_body
  lift_lets
  extract_lets r numSections s1
  have h0 := Reaches.refl data st p hf
  have v1 : r.1 = slice data p 4 := h0.read_value (zeros 4) 4 (by omega) (by simp [zeros])
  have hn : numSections = u32At data p := by
    show elemAt 4 r.1 0 = _
    rw [v1, elemAt_zero_slice]; rfl
  have h1 : Reaches data st s1 _ _ _ := (h0.read (zeros 4) 4 (by omega)).put _
  clear_value s1 numSections r
  subst hn
  have inv := forFrom_inv (fun sectionid st =>
      _read_nd_scalar_image_in_sparse_matrix_style sf
        (st.put ("\t\t- section " ++ toString sectionid ++ " of " ++ toString (u32At data p)
          ++ ":\n")))
    (fun i s => Reaches data st s (ndRecordStart data (p + 4) i)
      ([4] ++ catL ((List.range i).map (fun i => ndReadLog data (ndRecordStart data (p + 4) i))))
      ("\t\tnum. sections: " ++ toString (u32At data p) ++ "\n" ++
        cat ((List.range i).map (fun i =>
          "\t\t- section " ++ toString i ++ " of " ++ toString (u32At data p) ++ ":\n" ++
            renderNDSparse sf st.fmt (decodeNDSparse data (ndRecordStart data (p + 4) i))))))
    (u32At data p) 0 s1
    (h1.congr rfl (by simp [catL]) (by simp [cat]))
    (by
      intro j s _ hj hP
      have hend : ndRecordStart data (p + 4) (j + 1) ≤ data.length :=
        le_trans (ndRecordStart_mono data (p + 4) _ (j + 1) (by omega)) hlen
      have hh := hP.put ("\t\t- section " ++ toString j ++ " of " ++ toString (u32At data p)
        ++ ":\n")
      have hc := nd_complete sf data _ (ndRecordStart data (p + 4) j) hh.1 hend
      rw [hh.2.2.2] at hc
      refine (hh.trans hc).congr rfl ?_ ?_
      · rw [List.range_succ, List.map_append, catL_append]
        simp [catL, ndReadLog]
      · rw [List.range_succ, List.map_append, cat_append]
        simp [cat, String.append_assoc])
  simp only [Nat.zero_add] at inv
  exact inv

set_option maxRecDepth 100000 in
/-- C18.  For a stream that holds at `p` a count `k` and after it `k` complete ND
records back to back (record `i` starts at `ndRecordStart data (p + 4) i`, the byte
where record `i - 1` ends), the decoder consumes up to the end of the last record,
that is 4 bytes plus the sum of the `k` record sizes, requests the reads of the
records in stored order, and writes the count and then, for `i = 0 .. k - 1`, the
heading `section i of k` followed by the text of record `i`. -/
theorem vessel_sections_spec (sf : FloatFmt → Nat → String) (st : Run) (data : List Nat)
    (p k : Nat) (hf : st.file = ⟨data, p, true⟩) (hk : u32At data p = k)
    (hlen : ndRecordStart data (p + 4) k ≤ data.length) :
    (vessel_sections_body sf st).file = ⟨data, ndRecordStart data (p + 4) k, true⟩ ∧
      ndRecordStart data (p + 4) k =
        p + 4 + ((List.range k).map
          (fun i => ndSparseSize data (ndRecordStart data (p + 4) i))).sum ∧
      (∀ i, ndRecordStart data (p + 4) (i + 1) =
        ndRecordStart data (p + 4) i + ndSparseSize data (ndRecordStart data (p + 4) i)) ∧
      (vessel_sections_body sf st).reads =
        st.reads ++ ([4] ++ catL ((List.range k).map
          (fun i => ndReadLog data (ndRecordStart data (p + 4) i)))) ∧
      (vessel_sections_body sf st).res =
        st.res ++ ("\t\tnum. sections: " ++ toString k ++ "\n" ++
          cat ((List.range k).map (fun i =>
            "\t\t- section " ++ toString i ++ " of " ++ toString k ++ ":\n" ++
              renderNDSparse sf st.fmt (decodeNDSparse data (ndRecordStart data (p + 4) i))))) := by
  subst hk
  obtain ⟨h1, h2, h3, _⟩ := vessel_sections_reaches sf data st p hf hlen
  exact ⟨h1, ndRecordStart_eq_sum data (p + 4) _, fun i => rfl, h2, h3⟩

set_option maxRecDepth 100000 in
/-- C18 on a file with two sections: the second record starts at byte 724, where
the first one ends, and the decoder consumes all 1444 bytes. -/
theorem vessel_sections_spec_witness :
    ndRecordStart exampleSections 4 1 = 724 ∧
      (vessel_sections_body bitsF64 (Run.fresh.opened exampleSections)).file =
        ⟨exampleSections, 1444, true⟩ :=
  ⟨by decide,
    (vessel_sections_spec bitsF64 (Run.fresh.opened exampleSections) exampleSections 0 2 rfl
      (by decide) (by decide)).1⟩


/-! ## `read_venc` on a complete stream -/

theorem splice_length (w : Nat) (buf new : List Nat) (i : Nat) (hn : new.length = w)
    (hi : w * i + w ≤ buf.length) :
    (buf.take (w * i) ++ new ++ buf.drop (w * i + w)).length = buf.length := by
  simp only [List.length_append, List.length_take, List.length_drop, hn]
  omega

theorem elemAt_splice_at (w : Nat) (buf new : List Nat) (i : Nat) (hn : new.length = w)
    (hi : w * i ≤ buf.length) :
    elemAt w (buf.take (w * i) ++ new ++ buf.drop (w * i + w)) i = leNat new := by
  have h1 : (buf.take (w * i)).length = w * i := by simp [hi]
  unfold elemAt slice
  rw [List.append_assoc, List.drop_left' h1, List.take_left' hn]

theorem elemAt_splice_before (w : Nat) (buf new : List Nat) (i j : Nat) (hj : j < i)
    (hi : w * i ≤ buf.length) :
    elemAt w (buf.take (w * i) ++ new ++ buf.drop (w * i + w)) j = elemAt w buf j := by
  have h1 : (buf.take (w * i)).length = w * i := by simp [hi]
  have h2 : w * j + w ≤ w * i := by
    calc w * j + w = w * (j + 1) := by ring
      _ ≤ w * i := Nat.mul_le_mul_left w hj
  unfold elemAt slice
  congr 1
  rw [List.append_assoc, List.drop_append_of_le_length (by omega),
    List.take_append_of_le_length (by simp only [List.length_drop, h1]; omega),
    List.drop_take, List.take_take]
  congr 1
  omega

theorem reaches_readElem {data : List Nat} {a b : Run} {p : Nat} {l : List Nat} {t : String}
    (h : Reaches data a b p l t) (w : Nat) (buf : List Nat) (i : Nat)
    (hi : w * i + w ≤ buf.length) (hn : p + w ≤ data.length) :
    Reaches data a (b.readElem w buf i).2 (p + w) (l ++ [w]) t ∧
      (b.readElem w buf i).1.length = buf.length ∧
      elemAt w (b.readElem w buf i).1 i = leNat (slice data p w) ∧
      ∀ j, j < i → elemAt w (b.readElem w buf i).1 j = elemAt w buf j := by
  have hi' : Reaches data a (b.index w buf i).2 p l t := h
  have hs : (slice buf (w * i) w).length ≤ w := slice_length_le _ _ _
  have hv := hi'.read_value (slice buf (w * i) w) w hn hs
  have hl : (slice data p w).length = w := slice_length data p w hn
  unfold Run.readElem
  dsimp only
  rw [hv]
  exact ⟨hi'.read _ _ hn, splice_length w buf _ i hl hi,
    elemAt_splice_at w buf _ i hl (by omega),
    fun j hj => elemAt_splice_before w buf _ i j hj (by omega)⟩

theorem vencPairs_spec (data : List Nat) (a : Run) (n q : Nat) (l : List Nat) (t : String)
    (s0 : List Nat × List Nat × Run) (h1 : s0.1.length = 2 * n) (h2 : s0.2.1.length = 8 * n)
    (h : Reaches data a s0.2.2 q l t) (hlen : q + 10 * n ≤ data.length) :
    Reaches data a (forLoop n vencPair s0).2.2 (q + 10 * n)
        (l ++ catL (List.replicate n [2, 8])) t ∧
      (∀ j, j < n → elemAt 2 (forLoop n vencPair s0).1 j = (vencPairAt data q j).1) ∧
      (∀ j, j < n → elemAt 8 (forLoop n vencPair s0).2.1 j = (vencPairAt data q j).2) := by
  have inv := forFrom_inv vencPair
    (fun i s => s.1.length = 2 * n ∧ s.2.1.length = 8 * n ∧
      Reaches data a s.2.2 (q + 10 * i) (l ++ catL (List.replicate i [2, 8])) t ∧
      (∀ j, j < i → elemAt 2 s.1 j = (vencPairAt data q j).1) ∧
      (∀ j, j < i → elemAt 8 s.2.1 j = (vencPairAt data q j).2))
    n 0 s0
    ⟨h1, h2, h.congr rfl (by simp [catL]) rfl, fun j hj => absurd hj (Nat.not_lt_zero j),
      fun j hj => absurd hj (Nat.not_lt_zero j)⟩
    (by
      intro j s _ hj hP
      obtain ⟨g1, g2, hr, e1, e2⟩ := hP
      simp only [Nat.zero_add] at hj
      obtain ⟨r1, k1, x1, y1⟩ := reaches_readElem hr 2 s.1 j (by omega) (by omega)
      obtain ⟨r2, k2, x2, y2⟩ := reaches_readElem r1 8 s.2.1 j (by omega) (by omega)
      refine ⟨k1.trans g1, k2.trans g2, r2.congr (by ring) ?_ rfl, ?_, ?_⟩
      · rw [List.replicate_succ', catL_append]
        simp [catL]
      · intro i hi
        rcases Nat.lt_succ_iff_lt_or_eq.mp hi with hlt | heq
        · exact (y1 i hlt).trans (e1 i hlt)
        · subst heq; exact x1
      · intro i hi
        rcases Nat.lt_succ_iff_lt_or_eq.mp hi with hlt | heq
        · exact (y2 i hlt).trans (e2 i hlt)
        · subst heq; exact x2)
  simp only [Nat.zero_add] at inv
  exact ⟨inv.2.2.1, inv.2.2.2.1, inv.2.2.2.2⟩


theorem putU16At_eq_emit (st : Run) (buf : List Nat) (i : Nat) :
    st.putU16At buf i = st.emit (toString (elemAt 2 buf i)) [(i, buf.length / 2)] := by
  simp [Run.putU16At, Run.index, Run.put, Run.emit]

theorem putVenc3DT_emit (sf : FloatFmt → Nat → String) (label : String) (ids vencs : List Nat)
    (i : Nat) (st : Run) :
    putVenc3DT sf label ids vencs i st =
      st.emit ("\t\t\t- " ++ label ++ " image (ID " ++ toString (elemAt 2 ids i) ++ "): "
        ++ sf st.fmt (elemAt 8 vencs i) ++ " [m/s]\n")
        [(i, ids.length / 2), (i, vencs.length / 8)] := by
  simp only [putVenc3DT, put_eq_emit, putU16At_eq_emit, putF64At_eq_emit, emit_emit, emit_fmt,
    List.nil_append, List.append_nil, List.cons_append, String.append_assoc]

theorem venc_reaches (sf : FloatFmt → Nat → String) (data : List Nat) (st : Run) (p : Nat)
    (hf : st.file = ⟨data, p, true⟩)
    (hlen : p + 31 + 10 * u8At data (p + 30) ≤ data.length) :
    Reaches data st (venc_body sf st) (p + 31 + 10 * u8At data (p + 30))
      ([2, 8, 2, 8, 2, 8, 1] ++ catL (List.replicate (u8At data (p + 30)) [2, 8]))
      (vencText sf st.fmt data p) := by
  unfold venc_body
  lift_lets
  extract_lets s0 s3 sX sY sZ r num s4 sn
  have h0 := Reaches.refl data st p hf
  have h1 : Reaches data st s0 _ _ _ := h0.put _
  obtain ⟨g3, i3, v3⟩ := vencPairs_spec data st 3 p _ _ (zeros (2 * 3), zeros (8 * 3), s0)
    (by simp [zeros]) (by simp [zeros]) h1 (by omega)
  have hX : Reaches data st sX _ _ _ := g3.emit_eq (putVenc3DT_emit sf "X (LR)" s3.1 s3.2.1 0 _)
  have hY : Reaches data st sY _ _ _ := hX.emit_eq (putVenc3DT_emit sf "Y (AP)" s3.1 s3.2.1 1 _)
  have hZ : Reaches data st sZ _ _ _ := hY.emit_eq (putVenc3DT_emit sf "Z (FH)" s3.1 s3.2.1 2 _)
  have vr : r.1 = slice data (p + 10 * 3) 1 :=
    hZ.read_value (zeros 1) 1 (by omega) (by simp [zeros])
  have hn : num = u8At data (p + 30) := by
    show elemAt 1 r.1 0 = _
    rw [vr, elemAt_zero_slice]; rfl
  have h4 : Reaches data st s4 _ _ _ := (hZ.read (zeros 1) 1 (by omega)).put _
  have fX : s3.2.2.fmt = st.fmt := g3.2.2.2
  have fY : sX.fmt = st.fmt := hX.2.2.2
  have fZ : sY.fmt = st.fmt := hY.2.2.2
  clear_value s0 sX sY sZ r s4 num
  subst hn
  obtain ⟨gn, jn, wn⟩ := vencPairs_spec data st (u8At data (p + 30)) (p + 10 * 3 + 1) _ _
    (zeros (2 * u8At data (p + 30)), zeros (8 * u8At data (p + 30)), s4)
    (by simp [zeros]) (by simp [zeros]) h4 (by omega)
  have hloop := forFrom_emit
    (fun i st => ((((st.put ("\t\t\t- Image " ++ toString i ++ " (DICOM image ID")).putU16At
      sn.1 i).put ") : VENC ").putF64At sf sn.2.1 i).put " [m/s]\n")
    (fun fmt i => "\t\t\t- Image " ++ toString i ++ " (DICOM image ID"
      ++ toString (elemAt 2 sn.1 i) ++ ") : VENC " ++ sf fmt (elemAt 8 sn.2.1 i) ++ " [m/s]\n")
    (fun i => [(i, sn.1.length / 2), (i, sn.2.1.length / 8)])
    (fun j s => by
      simp only [put_eq_emit, putU16At_eq_emit, putF64At_eq_emit, emit_emit, emit_fmt,
        List.nil_append, List.append_nil, List.cons_append, String.append_assoc])
    (u8At data (p + 30)) 0 sn.2.2
  have hE : Reaches data st _ _ _ _ := gn.emit_eq hloop
  have fn : sn.2.2.fmt = st.fmt := gn.2.2.2
  refine hE.congr (by omega) (by simp [catL]) ?_
  have e0 : elemAt 2 s3.1 0 = (vencPairAt data p 0).1 := i3 0 (by omega)
  have e1 : elemAt 2 s3.1 1 = (vencPairAt data p 1).1 := i3 1 (by omega)
  have e2 : elemAt 2 s3.1 2 = (vencPairAt data p 2).1 := i3 2 (by omega)
  have d0 : elemAt 8 s3.2.1 0 = (vencPairAt data p 0).2 := v3 0 (by omega)
  have d1 : elemAt 8 s3.2.1 1 = (vencPairAt data p 1).2 := v3 1 (by omega)
  have d2 : elemAt 8 s3.2.1 2 = (vencPairAt data p 2).2 := v3 2 (by omega)
  have hmap : (List.range' 0 (u8At data (p + 30))).map (fun i =>
        "\t\t\t- Image " ++ toString i ++ " (DICOM image ID"
          ++ toString (elemAt 2 sn.1 i) ++ ") : VENC " ++ sf sn.2.2.fmt (elemAt 8 sn.2.1 i)
          ++ " [m/s]\n") =
      (List.range (u8At data (p + 30))).map (fun i =>
        "\t\t\t- Image " ++ toString i ++ " (DICOM image ID"
          ++ toString (vencPairAt data (p + 31) i).1 ++ ") : VENC "
          ++ sf st.fmt (vencPairAt data (p + 31) i).2 ++ " [m/s]\n") := by
    rw [← List.range_eq_range']
    apply List.map_congr_left
    intro i hi
    have hi' : i < u8At data (p + 30) := List.mem_range.mp hi
    rw [jn i hi', wn i hi', fn]
  have lX : "\t\t\t- " ++ "X (LR)" ++ " image (ID " = "\t\t\t- X (LR) image (ID " := by decide
  have lY : "\t\t\t- " ++ "Y (AP)" ++ " image (ID " = "\t\t\t- Y (AP) image (ID " := by decide
  have lZ : "\t\t\t- " ++ "Z (FH)" ++ " image (ID " = "\t\t\t- Z (FH) image (ID " := by decide
  rw [fX, fY, fZ, e0, e1, e2, d0, d1, d2, hmap, lX, lY, lZ]
  simp only [vencText, String.append_assoc, String.empty_append]


/-! ## C15 -/

theorem kept_forFromWhile {α : Type} (π : α → Run) (cond : α → Bool) (body : Nat → α → α)
    (h : ∀ j s, StreamKept (π s) (π (body j s))) :
    ∀ (k i : Nat) (s : α), StreamKept (π s) (π (forFromWhile cond body i k s)) := by
  intro k
  induction k with
  | zero => intro i s; exact StreamKept.same _
  | succ k ih =>
    intro i s
    unfold forFromWhile
    split
    · exact (h i s).join (ih (i + 1) (body i s))
    · exact StreamKept.same _

theorem gridPreview_kept (g0 g1 g2 : Nat) (cell : Nat → Nat → Nat → Nat → Run → Run)
    (st : Run) (hc : ∀ x y t c s, StreamKept s (cell x y t c s)) :
    StreamKept st (gridPreview g0 g1 g2 cell st) :=
  kept_forFromWhile (fun s : Nat × Run => s.2) cntBelowDemo _ (fun x s =>
    kept_forFromWhile (fun s : Nat × Run => s.2) cntBelowDemo _ (fun y s =>
      kept_forFromWhile (fun s : Nat × Run => s.2) cntBelowDemo _ (fun t s =>
        hc x y t s.1 s.2) g2 0 s) g1 0 s) g0 0 (0, st)

theorem segPreview_kept (g0 g1 : Nat) (buf : List Nat) (st : Run) :
    StreamKept st (segPreview g0 g1 buf st) := by
  unfold segPreview forWhile
  apply kept_forFromWhile (fun s : Nat × Run => s.2) cntBelowDemo _ _ g0 0 (0, st)
  intro x s
  apply kept_forFromWhile (fun s : Nat × Run => s.2) cntBelowDemo _ _ g1 0 s
  intro y s'
  exact ⟨rfl, rfl⟩

theorem readVec3_spec (sf : FloatFmt → Nat → String) (label : String) (data : List Nat)
    (a : Run) (s : List Nat × Run) (q : Nat) (l : List Nat) (hb : s.1.length = 8 * 3)
    (h : Consumes data a s.2 q l) (hlen : q + 24 ≤ data.length) :
    (readVec3 sf label s).1.length = 8 * 3 ∧
      Consumes data a (readVec3 sf label s).2 (q + 24) (l ++ [24]) := by
  obtain ⟨g, n⟩ := h.after_readF64s s.1 3 hb (by omega)
  have k : StreamKept (s.2.readF64s s.1).2 (readVec3 sf label s).2 := ⟨rfl, rfl⟩
  exact ⟨n, g.kept k⟩

theorem plane_header_spec (sf : FloatFmt → Nat → String) (data : List Nat) (st : Run)
    (dtemp : List Nat) (p : Nat) (hf : st.file = ⟨data, p, true⟩) (hd : dtemp.length ≤ 8)
    (hlen : p + 141 ≤ data.length) :
    (plane_header sf dtemp st).1 = slice data (p + 1) 12 ∧
      (plane_header sf dtemp st).2.1.length = 24 ∧
      (plane_header sf dtemp st).2.2.1.length = 8 ∧
      Consumes data st (plane_header sf dtemp st).2.2.2 (p + 141)
        [1, 12, 24, 24, 24, 24, 24, 8] := by
  unfold plane_header
  lift_lets
  extract_lets r1 s1 r2 gridsize s2 s3 r3 s4 s5 c1 c2 c3 c4 d
  have h0 := Consumes.start data st p hf
  obtain ⟨g1, _, _⟩ := h0.after_read (zeros 1) 1 (by omega) (by simp [zeros])
  have h1 : Consumes data st s1 _ _ := g1.after_put _
  obtain ⟨g2, v2, _⟩ := h1.after_read (zeros (4 * 3)) (3 * 4) (by omega) (by simp [zeros])
  have v2g : gridsize = slice data (p + 1) 12 := v2
  have q3 : StreamKept r2.2 s3 := ⟨rfl, rfl⟩
  have h3 : Consumes data st s3 _ _ := g2.kept q3
  obtain ⟨g3, n3⟩ := h3.after_readF64s (zeros (8 * 3)) 3 (by simp [zeros]) (by omega)
  have q5 : StreamKept r3.2 s5 := ⟨rfl, rfl⟩
  have h5 : Consumes data st s5 _ _ := g3.kept q5
  clear_value r1 s1 r2 s2 s3 s4
  obtain ⟨n4, k1⟩ := readVec3_spec sf "center" data st (r3.1, s5) _ _ n3 h5 (by omega)
  obtain ⟨n5, k2⟩ := readVec3_spec sf "LCS X" data st c1 _ _ n4 k1 (by omega)
  obtain ⟨n6, k3⟩ := readVec3_spec sf "LCS Y" data st c2 _ _ n5 k2 (by omega)
  obtain ⟨n7, k4⟩ := readVec3_spec sf "LCS Z" data st c3 _ _ n6 k3 (by omega)
  obtain ⟨g8, _, n8⟩ := k4.after_read dtemp 8 (by omega) hd
  have q8 : StreamKept d.2
      (((d.2.put "\t\t\t- vessel diameter: ").putF64 sf (elemAt 8 d.1 0)).put "\n") :=
    ⟨rfl, rfl⟩
  exact ⟨v2g, n7, n8, (g8.kept q8).recount (by omega) (by simp)⟩

theorem plane_fields_spec (sf : FloatFmt → Nat → String) (data : List Nat) (st : Run)
    (g0 g1 g2 : Nat) (dbuffer : List Nat) (p : Nat) (hf : st.file = ⟨data, p, true⟩)
    (hM : g0 * g1 < U32) (hG : g0 * g1 * g2 * 3 < U32)
    (hlen : p + 40 * (g0 * g1 * g2) + g0 * g1 ≤ data.length) :
    (plane_fields sf g0 g1 g2 dbuffer st).1.length = 8 * (g0 * g1 * g2) ∧
      Consumes data st (plane_fields sf g0 g1 g2 dbuffer st).2
        (p + 40 * (g0 * g1 * g2) + g0 * g1)
        [24 * (g0 * g1 * g2), g0 * g1, 8 * (g0 * g1 * g2), 8 * (g0 * g1 * g2)] := by
  unfold plane_fields
  lift_lets
  extract_lets r1 s1 ui8buffer m s2 r2 s3 r3 s4
  have e3 : g0 * g1 * g2 * 3 % U32 = g0 * g1 * g2 * 3 := Nat.mod_eq_of_lt hG
  have e1 : g0 * g1 * g2 % U32 = g0 * g1 * g2 := Nat.mod_eq_of_lt (by omega)
  have eM : g0 * g1 % U32 = g0 * g1 := Nat.mod_eq_of_lt hM
  have hu : ui8buffer.length = g0 * g1 := by
    show (zeros (g0 * g1 % U32)).length = _
    rw [eM]; simp [zeros]
  have h0 := Consumes.start data st p hf
  obtain ⟨a1, n1⟩ := h0.after_readF64s (vresize 8 dbuffer (g0 * g1 * g2 * 3 % U32)) (g0 * g1 * g2 * 3)
    (by rw [vresize_length, e3]) (by omega)
  have q1 : StreamKept r1.2 s1 := gridPreview_kept _ _ _ _ _ (fun x y t c s => ⟨rfl, rfl⟩)
  have h1 : Consumes data st s1 _ _ := a1.kept q1
  obtain ⟨a2, _, _⟩ := h1.after_read ui8buffer ui8buffer.length (by omega) (le_refl _)
  have q2 : StreamKept m.2 s2 := segPreview_kept _ _ _ _
  have h2 : Consumes data st s2 _ _ := a2.kept q2
  obtain ⟨a3, n3⟩ := h2.after_readF64s (vresize 8 r1.1 (g0 * g1 * g2 % U32)) (g0 * g1 * g2)
    (by rw [vresize_length, e1]) (by omega)
  have q3 : StreamKept r2.2 s3 := gridPreview_kept _ _ _ _ _ (fun x y t c s => ⟨rfl, rfl⟩)
  have h3 : Consumes data st s3 _ _ := a3.kept q3
  obtain ⟨a4, n4⟩ := h3.after_readF64s (vresize 8 r2.1 (g0 * g1 * g2 % U32)) (g0 * g1 * g2)
    (by rw [vresize_length, e1]) (by omega)
  have q4 : StreamKept r3.2 s4 := gridPreview_kept _ _ _ _ _ (fun x y t c s => ⟨rfl, rfl⟩)
  have h4 : Consumes data st s4 _ _ := a4.kept q4
  exact ⟨n4, h4.recount (by omega) (by simp [hu]; omega)⟩


theorem readStat_foldl_spec (data : List Nat) (a : Run) :
    ∀ (L : List String) (s : List Nat × Run) (q : Nat) (l : List Nat), s.1.length = 8 →
      Consumes data a s.2 q l → q + 8 * L.length ≤ data.length →
      (L.foldl readStat s).1.length = 8 ∧
        Consumes data a (L.foldl readStat s).2 (q + 8 * L.length)
          (l ++ List.replicate L.length 8) := by
  intro L
  induction L with
  | nil => intro s q l hb h _; exact ⟨hb, h.recount rfl (by simp)⟩
  | cons x L ih =>
    intro s q l hb h hlen
    simp only [List.length_cons] at hlen
    obtain ⟨g, _, n⟩ := h.after_read s.1 8 (by omega) (le_of_eq hb)
    have k : StreamKept (s.2.read s.1 8).2 (readStat s x).2 := ⟨rfl, rfl⟩
    obtain ⟨hb', h'⟩ := ih (readStat s x) (q + 8) (l ++ [8]) n (g.kept k) (by omega)
    refine ⟨hb', h'.recount ?_ ?_⟩
    · simp only [List.length_cons]; omega
    · simp [List.replicate_succ]

theorem readSeries_foldl_spec (data : List Nat) (a : Run) (n : Nat) :
    ∀ (L : List String) (s : List Nat × Run) (q : Nat) (l : List Nat), s.1.length = 8 * n →
      Consumes data a s.2 q l → q + 8 * n * L.length ≤ data.length →
      (L.foldl readSeries s).1.length = 8 * n ∧
        Consumes data a (L.foldl readSeries s).2 (q + 8 * n * L.length)
          (l ++ List.replicate L.length (8 * n)) := by
  intro L
  induction L with
  | nil => intro s q l hb h _; exact ⟨hb, h.recount rfl (by simp)⟩
  | cons x L ih =>
    intro s q l hb h hlen
    simp only [List.length_cons, Nat.mul_add, Nat.mul_one] at hlen
    obtain ⟨g, m⟩ := h.after_readF64s s.1 n hb (by omega)
    have k : StreamKept (s.2.readF64s s.1).2 (readSeries s x).2 := ⟨rfl, rfl⟩
    obtain ⟨hb', h'⟩ := ih (readSeries s x) (q + 8 * n) (l ++ [8 * n]) m (g.kept k) (by omega)
    refine ⟨hb', h'.recount ?_ ?_⟩
    · simp only [List.length_cons, Nat.mul_add, Nat.mul_one]; omega
    · simp [List.replicate_succ]

theorem readSamples_foldl_spec (sf : FloatFmt → Nat → String) (data : List Nat) (a : Run)
    (n : Nat) :
    ∀ (L : List String) (s : List Nat × Run) (q : Nat) (l : List Nat), s.1.length = 8 * n →
      Consumes data a s.2 q l → q + 8 * n * L.length ≤ data.length →
      (L.foldl (readSamples sf) s).1.length = 8 * n ∧
        Consumes data a (L.foldl (readSamples sf) s).2 (q + 8 * n * L.length)
          (l ++ List.replicate L.length (8 * n)) := by
  intro L
  induction L with
  | nil => intro s q l hb h _; exact ⟨hb, h.recount rfl (by simp)⟩
  | cons x L ih =>
    intro s q l hb h hlen
    simp only [List.length_cons, Nat.mul_add, Nat.mul_one] at hlen
    obtain ⟨g, m⟩ := h.after_readF64s s.1 n hb (by omega)
    have k : StreamKept (s.2.readF64s s.1).2 (readSamples sf s x).2 := by
      unfold readSamples
      apply StreamKept.over_put
      apply StreamKept.then_loop
      · exact StreamKept.over_put (StreamKept.same _) _
      · intro j s'
        exact ⟨rfl, rfl⟩
    obtain ⟨hb', h'⟩ := ih (readSamples sf s x) (q + 8 * n) (l ++ [8 * n]) m (g.kept k)
      (by omega)
    refine ⟨hb', h'.recount ?_ ?_⟩
    · simp only [List.length_cons, Nat.mul_add, Nat.mul_one]; omega
    · simp [List.replicate_succ]

theorem plane_stats_spec (sf : FloatFmt → Nat → String) (data : List Nat) (st : Run)
    (g2 : Nat) (dbuffer dtemp : List Nat) (p : Nat) (hf : st.file = ⟨data, p, true⟩)
    (hd : dtemp.length = 8) (h3 : g2 * 3 < U32) (hlen : p + 320 + 80 * g2 ≤ data.length) :
    (plane_stats sf g2 dbuffer dtemp st).1.length = 8 * (g2 * 3) ∧
      (plane_stats sf g2 dbuffer dtemp st).2.1.length = 8 ∧
      Consumes data st (plane_stats sf g2 dbuffer dtemp st).2.2 (p + 320 + 80 * g2)
        (List.replicate 22 8 ++ List.replicate 7 (8 * g2) ++ List.replicate 18 8
          ++ [24 * g2]) := by
  unfold plane_stats
  lift_lets
  extract_lets d1 b d2 r s1
  have e3 : g2 * 3 % U32 = g2 * 3 := Nat.mod_eq_of_lt h3
  have h0 := Consumes.start data st p hf
  obtain ⟨n1, a1⟩ := readStat_foldl_spec data st statNames (dtemp, st) p [] hd h0
    (by simp [statNames]; omega)
  obtain ⟨n2, a2⟩ := readSeries_foldl_spec data st g2 seriesNames (vresize 8 dbuffer g2, d1.2)
    _ _ (vresize_length 8 dbuffer g2) a1 (by simp [seriesNames, statNames]; omega)
  obtain ⟨n3, a3⟩ := readStat_foldl_spec data st jetStatNames (d1.1, b.2) _ _ n1 a2
    (by simp [seriesNames, statNames, jetStatNames]; omega)
  obtain ⟨a4, n4⟩ := a3.after_readF64s (vresize 8 b.1 (g2 * 3 % U32)) (g2 * 3)
    (by rw [vresize_length, e3]) (by simp [seriesNames, statNames, jetStatNames]; omega)
  have k : StreamKept r.2 (s1.put "\t\t\t- ...\n") := by
    apply StreamKept.over_put
    apply StreamKept.then_loop (StreamKept.same _)
    intro t s
    dsimp only
    split
    · exact ⟨rfl, rfl⟩
    · exact StreamKept.same _
  refine ⟨n4, n3, (a4.kept k).recount ?_ ?_⟩
  · simp [seriesNames, statNames, jetStatNames]; omega
  · simp [seriesNames, statNames, jetStatNames]; omega

theorem plane_samples_spec (sf : FloatFmt → Nat → String) (data : List Nat) (st : Run)
    (dbuffer : List Nat) (p : Nat) (hf : st.file = ⟨data, p, true⟩)
    (hlen : p + 4 + 40 * u32At data p ≤ data.length) :
    Consumes data st (plane_samples sf dbuffer st) (p + 4 + 40 * u32At data p)
      ([4] ++ List.replicate 5 (8 * u32At data p)) := by
  unfold plane_samples
  lift_lets
  extract_lets r numSamples
  have h0 := Consumes.start data st p hf
  obtain ⟨a1, v1, _⟩ := h0.after_read (zeros 4) 4 (by omega) (by simp [zeros])
  have hn : numSamples = u32At data p := by
    show elemAt 4 r.1 0 = _
    rw [show r.1 = slice data p 4 from v1, elemAt_zero_slice]; rfl
  have a1r : Consumes data st r.2 (p + 4) ([] ++ [4]) := a1
  clear_value numSamples r
  subst hn
  obtain ⟨_, a2⟩ := readSamples_foldl_spec sf data st (u32At data p) sampleNames
    (vresize 8 dbuffer (u32At data p), r.2) _ _ (vresize_length 8 dbuffer _) a1r
    (by simp [sampleNames]; omega)
  exact a2.recount (by simp [sampleNames]; omega) (by simp [sampleNames])


theorem readMeasuringPlane_spec (sf : FloatFmt → Nat → String) (data : List Nat) (st : Run)
    (dtemp : List Nat) (p gx gy gt S : Nat) (hf : st.file = ⟨data, p, true⟩)
    (hd : dtemp.length = 8) (hx : u32At data (p + 1) = gx) (hy : u32At data (p + 5) = gy)
    (ht : u32At data (p + 9) = gt)
    (hS : u32At data (p + 461 + 40 * (gx * gy * gt) + gx * gy + 80 * gt) = S)
    (hM : gx * gy < U32) (hG : gx * gy * gt * 3 < U32) (h3 : gt * 3 < U32)
    (hlen : p + (465 + 40 * (gx * gy * gt) + gx * gy + 80 * gt + 40 * S) ≤ data.length) :
    (readMeasuringPlane sf dtemp st).1.length = 8 ∧
      Consumes data st (readMeasuringPlane sf dtemp st).2
        (p + (465 + 40 * (gx * gy * gt) + gx * gy + 80 * gt + 40 * S))
        (planeReadLog gx gy gt S) := by
  unfold readMeasuringPlane
  lift_lets
  extract_lets h g0 g1 g2 f s
  obtain ⟨v, n1, n2, c1⟩ := plane_header_spec sf data st dtemp p hf (le_of_eq hd) (by omega)
  have e0 : g0 = gx := by
    show elemAt 4 h.1 0 = _
    rw [v, elemAt_slice 4 data (p + 1) 12 0 (by omega), ← hx]; rfl
  have e1 : g1 = gy := by
    show elemAt 4 h.1 1 = _
    rw [v, elemAt_slice 4 data (p + 1) 12 1 (by omega), ← hy]; rfl
  have e2 : g2 = gt := by
    show elemAt 4 h.1 2 = _
    rw [v, elemAt_slice 4 data (p + 1) 12 2 (by omega), ← ht]; rfl
  have c1h : Consumes data st h.2.2.2 (p + 141) [1, 12, 24, 24, 24, 24, 24, 8] := c1
  have n2h : h.2.2.1.length = 8 := n2
  clear_value g0 g1 g2 h
  subst e0 e1 e2
  obtain ⟨m1, c2⟩ := plane_fields_spec sf data h.2.2.2 g0 g1 g2 h.2.1 (p + 141) c1h.1 hM hG
    (by omega)
  have c2f : Consumes data h.2.2.2 f.2 (p + 141 + 40 * (g0 * g1 * g2) + g0 * g1) _ := c2
  clear_value f
  obtain ⟨_, m2, c3⟩ := plane_stats_spec sf data f.2 g2 f.1 h.2.2.1
    (p + 141 + 40 * (g0 * g1 * g2) + g0 * g1) c2f.1 n2h h3 (by omega)
  have c3s : Consumes data f.2 s.2.2 (p + 141 + 40 * (g0 * g1 * g2) + g0 * g1 + 320 + 80 * g2) _ :=
    c3
  have m2s : s.2.1.length = 8 := m2
  clear_value s
  have hq : p + 141 + 40 * (g0 * g1 * g2) + g0 * g1 + 320 + 80 * g2 =
      p + 461 + 40 * (g0 * g1 * g2) + g0 * g1 + 80 * g2 := by omega
  have c4 := plane_samples_spec sf data s.2.2 s.1
    (p + 141 + 40 * (g0 * g1 * g2) + g0 * g1 + 320 + 80 * g2) c3s.1 (by rw [hq, hS]; omega)
  rw [hq, hS] at c4
  refine ⟨m2s, (((c1h.chain c2f).chain c3s).chain c4).recount (by omega) ?_⟩
  simp [planeReadLog]

/-! ## The preview of the segmentation of a measuring plane -/

theorem forFromWhile_all {α : Type} (cond : α → Bool) (body : Nat → α → α) (P : α → Prop)
    (hP : ∀ s, P s → cond s = true) (hb : ∀ j s, P s → P (body j s)) :
    ∀ (k i : Nat) (s : α), P s → forFromWhile cond body i k s = forFrom body i k s := by
  intro k
  induction k with
  | zero => intro i s _; rfl
  | succ k ih =>
    intro i s hs
    simp only [forFromWhile, forFrom, hP s hs, if_true]
    exact ih (i + 1) (body i s) (hb i s hs)

theorem forFrom_emit_pair (body : Nat → Nat × Run → Nat × Run) (T : FloatFmt → Nat → String)
    (I : Nat → List (Nat × Nat)) (h : ∀ j s, body j (0, s) = (0, s.emit (T s.fmt j) (I j))) :
    ∀ (k i : Nat) (s : Run), forFrom body i k (0, s) =
      (0, s.emit (cat ((List.range' i k).map (T s.fmt))) (catL ((List.range' i k).map I))) := by
  intro k
  induction k with
  | zero => intro i s; simp [forFrom, cat, catL, emit_nil]
  | succ k ih =>
    intro i s
    simp only [forFrom, ih, h, emit_emit, emit_fmt, List.range', List.map, cat, catL]

theorem while_cnt_zero (body : Nat → Nat × Run → Nat × Run)
    (hb : ∀ j s, (body j (0, s)).1 = 0) :
    ∀ (k i : Nat) (s : Run),
      forFromWhile cntBelowDemo body i k (0, s) = forFrom body i k (0, s) := by
  intro k i s
  refine forFromWhile_all cntBelowDemo body (fun cs => cs.1 = 0) (fun cs h => ?_)
    (fun j cs h => ?_) k i (0, s) rfl
  · simp [cntBelowDemo, h, NUM_DEMO]
  · obtain ⟨c, s'⟩ := cs
    simp only at h
    subst h
    exact hb j s'

theorem segPreview_emit (g0 g1 : Nat) (buf : List Nat) (st : Run) :
    segPreview g0 g1 buf st = st.emit (segText g0 g1 buf) (segIdx g0 g1 buf) := by
  have hin : ∀ (x : Nat) (s : Run),
      forFromWhile cntBelowDemo (fun y (cs : Nat × Run) =>
        let off := x * g1 * y % U32
        let a := (cs.2.put ("\t\t\t- seg value " ++ toString cs.1 ++ ": ")).index 1 buf off
        (cs.1, (a.2.put (String.singleton (Char.ofNat a.1))).put "\n")) 0 g1 (0, s) =
      (0, s.emit (cat ((List.range' 0 g1).map (fun y =>
          "\t\t\t- seg value " ++ toString 0 ++ ": "
            ++ String.singleton (Char.ofNat (elemAt 1 buf (x * g1 * y % U32))) ++ "\n")))
        (catL ((List.range' 0 g1).map (fun y => [(x * g1 * y % U32, buf.length / 1)])))) := by
    intro x s
    rw [while_cnt_zero]
    · exact forFrom_emit_pair _ (fun _ y => "\t\t\t- seg value " ++ toString 0 ++ ": "
          ++ String.singleton (Char.ofNat (elemAt 1 buf (x * g1 * y % U32))) ++ "\n")
        (fun y => [(x * g1 * y % U32, buf.length / 1)])
        (fun j s => by
          simp [Run.index, Run.put, Run.emit, String.append_assoc]) g1 0 s
    · intro j s'
      rfl
  unfold segPreview forWhile
  rw [while_cnt_zero]
  · rw [forFrom_emit_pair _ (fun _ x => cat ((List.range' 0 g1).map (fun y =>
          "\t\t\t- seg value " ++ toString 0 ++ ": "
            ++ String.singleton (Char.ofNat (elemAt 1 buf (x * g1 * y % U32))) ++ "\n")))
        (fun x => catL ((List.range' 0 g1).map (fun y => [(x * g1 * y % U32, buf.length / 1)])))
        (fun x s => hin x s) g0 0 st]
    rfl
  · intro x s
    show (forFromWhile cntBelowDemo _ 0 g1 (0, s)).1 = 0
    rw [hin x s]

theorem segIdx_length (g0 g1 : Nat) (buf : List Nat) : (segIdx g0 g1 buf).length = g0 * g1 := by
  have inner : ∀ (f : Nat → Nat × Nat) (n i : Nat),
      (catL ((List.range' i n).map (fun y => [f y]))).length = n := by
    intro f n
    induction n with
    | zero => intro i; rfl
    | succ n ih => intro i; simp only [List.range', List.map, catL, List.length_append,
        List.length_cons, List.length_nil, ih]; omega
  have outer : ∀ (n i : Nat),
      (catL ((List.range' i n).map (fun x => catL ((List.range' 0 g1).map (fun y =>
        [(x * g1 * y % U32, buf.length / 1)]))))).length = n * g1 := by
    intro n
    induction n with
    | zero => intro i; simp [catL]
    | succ n ih =>
      intro i
      simp only [List.range', List.map, catL, List.length_append, ih, inner]
      rw [Nat.succ_mul]; omega
  exact outer g0 0


theorem appending_extends (g : Run → Run) (hA : Appending g) (s : Run) : Extends s (g s) := by
  have e : ({ s with res := "", reads := [], idx := [] } : Run).rebase s.res s.reads s.idx = s := by
    simp [Run.rebase]
  have h := congrArg Run.res (hA { s with res := "", reads := [], idx := [] } s.res s.reads s.idx)
  rw [e] at h
  exact ⟨_, h⟩

theorem gridPreview_extends (g0 g1 g2 : Nat) (cell : Nat → Nat → Nat → Nat → Run → Run)
    (hc : ∀ (r : String) (l : List Nat) (ix : List (Nat × Nat)) x y t c s,
      cell x y t c (s.rebase r l ix) = (cell x y t c s).rebase r l ix) (s : Run) :
    Extends s (gridPreview g0 g1 g2 cell s) :=
  appending_extends _ (fun st r l ix => gridPreview_rebase g0 g1 g2 cell st r l ix (hc r l ix)) s

theorem plane_stats_extends (sf : FloatFmt → Nat → String) (g2 : Nat) (dbuffer dtemp : List Nat)
    (s : Run) : Extends s (plane_stats sf g2 dbuffer dtemp s).2.2 :=
  appending_extends (fun st => (plane_stats sf g2 dbuffer dtemp st).2.2)
    (fun st r l ix => by
      show (plane_stats sf g2 dbuffer dtemp (st.rebase r l ix)).2.2 = _
      rw [plane_stats_rebase]) s

theorem plane_samples_extends (sf : FloatFmt → Nat → String) (dbuffer : List Nat) (s : Run) :
    Extends s (plane_samples sf dbuffer s) :=
  appending_extends _ (fun st r l ix => plane_samples_rebase sf dbuffer st r l ix) s

theorem plane_fields_seg (sf : FloatFmt → Nat → String) (data : List Nat) (st : Run)
    (g0 g1 g2 : Nat) (dbuffer : List Nat) (p : Nat) (hf : st.file = ⟨data, p, true⟩)
    (hM : g0 * g1 < U32) (hG : g0 * g1 * g2 * 3 < U32)
    (hlen : p + 24 * (g0 * g1 * g2) + g0 * g1 ≤ data.length) :
    ∃ pre post,
      (plane_fields sf g0 g1 g2 dbuffer st).2.res =
        pre ++ segText g0 g1 (slice data (p + 24 * (g0 * g1 * g2)) (g0 * g1)) ++ post := by
  unfold plane_fields
  lift_lets
  extract_lets r1 s1 ui8buffer m s2 r2 s3 r3 s4
  have e3 : g0 * g1 * g2 * 3 % U32 = g0 * g1 * g2 * 3 := Nat.mod_eq_of_lt hG
  have eM : g0 * g1 % U32 = g0 * g1 := Nat.mod_eq_of_lt hM
  have hu : ui8buffer.length = g0 * g1 := by
    show (zeros (g0 * g1 % U32)).length = _
    rw [eM]; simp [zeros]
  have h0 := Consumes.start data st p hf
  obtain ⟨a1, n1⟩ := h0.after_readF64s (vresize 8 dbuffer (g0 * g1 * g2 * 3 % U32))
    (g0 * g1 * g2 * 3) (by rw [vresize_length, e3]) (by omega)
  have q1 : StreamKept r1.2 s1 := gridPreview_kept _ _ _ _ _ (fun x y t c s => ⟨rfl, rfl⟩)
  have h1 : Consumes data st s1 _ _ := a1.kept q1
  obtain ⟨_, v2, _⟩ := h1.after_read ui8buffer ui8buffer.length (by omega) (le_refl _)
  have vm : m.1 = slice data (p + 24 * (g0 * g1 * g2)) (g0 * g1) := by
    rw [show m.1 = slice data (p + 8 * (g0 * g1 * g2 * 3)) ui8buffer.length from v2, hu]
    congr 1
    omega
  have es : s2.res = m.2.res ++ segText g0 g1 m.1 := by
    show (segPreview g0 g1 m.1 m.2).res = _
    rw [segPreview_emit, emit_res]
  have y2 : r2.2.res = s2.res := read_res _ _ _
  obtain ⟨t3, x3⟩ : Extends r2.2 s3 := gridPreview_extends _ _ _ _ (fun r l ix x y t c s => by
    simp only [rebase_put, rebase_putF64At]) _
  have y3 : r3.2.res = s3.res := read_res _ _ _
  obtain ⟨t4, x4⟩ : Extends r3.2 s4 := gridPreview_extends _ _ _ _ (fun r l ix x y t c s => by
    simp only [rebase_put, rebase_putF64At]) _
  refine ⟨m.2.res, t3 ++ t4, ?_⟩
  show s4.res = _
  rw [x4, y3, x3, y2, es, vm]
  simp only [String.append_assoc]

theorem readMeasuringPlane_seg (sf : FloatFmt → Nat → String) (data : List Nat) (st : Run)
    (dtemp : List Nat) (p gx gy gt : Nat) (hf : st.file = ⟨data, p, true⟩)
    (hd : dtemp.length = 8) (hx : u32At data (p + 1) = gx) (hy : u32At data (p + 5) = gy)
    (ht : u32At data (p + 9) = gt) (hM : gx * gy < U32) (hG : gx * gy * gt * 3 < U32)
    (hlen : p + 141 + 24 * (gx * gy * gt) + gx * gy ≤ data.length) :
    ∃ pre post,
      (readMeasuringPlane sf dtemp st).2.res =
        pre ++ segText gx gy (slice data (p + 141 + 24 * (gx * gy * gt)) (gx * gy)) ++ post := by
  unfold readMeasuringPlane
  lift_lets
  extract_lets h g0 g1 g2 f s
  obtain ⟨v, n1, n2, c1⟩ := plane_header_spec sf data st dtemp p hf (le_of_eq hd) (by omega)
  have e0 : g0 = gx := by
    show elemAt 4 h.1 0 = _
    rw [v, elemAt_slice 4 data (p + 1) 12 0 (by omega), ← hx]; rfl
  have e1 : g1 = gy := by
    show elemAt 4 h.1 1 = _
    rw [v, elemAt_slice 4 data (p + 1) 12 1 (by omega), ← hy]; rfl
  have e2 : g2 = gt := by
    show elemAt 4 h.1 2 = _
    rw [v, elemAt_slice 4 data (p + 1) 12 2 (by omega), ← ht]; rfl
  have c1h : Consumes data st h.2.2.2 (p + 141) [1, 12, 24, 24, 24, 24, 24, 8] := c1
  clear_value g0 g1 g2 h
  subst e0 e1 e2
  obtain ⟨pre, post, hp⟩ := plane_fields_seg sf data h.2.2.2 g0 g1 g2 h.2.1 (p + 141) c1h.1 hM hG
    (by omega)
  have hpf : f.2.res = pre ++ segText g0 g1 (slice data (p + 141 + 24 * (g0 * g1 * g2))
      (g0 * g1)) ++ post := hp
  clear_value f
  obtain ⟨t1, x1⟩ : Extends f.2 s.2.2 := plane_stats_extends sf _ _ _ _
  obtain ⟨t2, x2⟩ : Extends s.2.2 (plane_samples sf s.1 s.2.2) := plane_samples_extends sf _ _
  refine ⟨pre, post ++ t1 ++ t2, ?_⟩
  show (plane_samples sf s.1 s.2.2).res = _
  rw [x2, x1, hpf]
  simp only [String.append_assoc]

theorem readVec3_extends (sf : FloatFmt → Nat → String) (label : String) (s : List Nat × Run) :
    Extends s.2 (readVec3 sf label s).2 :=
  appending_extends (fun st => (readVec3 sf label (s.1, st)).2)
    (fun st r l ix => by
      show (readVec3 sf label (s.1, st.rebase r l ix)).2 = _
      rw [readVec3_rebase]) s.2

theorem plane_fields_extends (sf : FloatFmt → Nat → String) (g0 g1 g2 : Nat)
    (dbuffer : List Nat) (s : Run) : Extends s (plane_fields sf g0 g1 g2 dbuffer s).2 :=
  appending_extends (fun st => (plane_fields sf g0 g1 g2 dbuffer st).2)
    (fun st r l ix => by
      show (plane_fields sf g0 g1 g2 dbuffer (st.rebase r l ix)).2 = _
      rw [plane_fields_rebase]) s

theorem plane_header_begins (sf : FloatFmt → Nat → String) (data : List Nat) (st : Run)
    (dtemp : List Nat) (p : Nat) (hf : st.file = ⟨data, p, true⟩)
    (hlen : p + 13 ≤ data.length) :
    ∃ t, (plane_header sf dtemp st).2.2.2.res =
      st.res ++ ("\t\t\t- vessel id: " ++ toString (u8At data p) ++ "\n"
        ++ "\t\t\t- grid size: [" ++ toString (u32At data (p + 1)) ++ ", "
        ++ toString (u32At data (p + 5)) ++ ", " ++ toString (u32At data (p + 9)) ++ "]\n")
        ++ t := by
  unfold plane_header
  lift_lets
  extract_lets r1 s1 r2 gridsize s2 s3 r3 s4 s5 c1 c2 c3 c4 d
  have h0 := Reaches.refl data st p hf
  have v1 : r1.1 = slice data p 1 := h0.read_value (zeros 1) 1 (by omega) (by simp [zeros])
  have hid : elemAt 1 r1.1 0 = u8At data p := by
    rw [v1, elemAt_zero_slice]; rfl
  have h1 : Reaches data st s1 _ _ _ := (h0.read (zeros 1) 1 (by omega)).put _
  have v2 : gridsize = slice data (p + 1) (3 * 4) :=
    h1.read_value (zeros (4 * 3)) (3 * 4) (by omega) (by simp [zeros])
  have g0 : elemAt 4 gridsize 0 = u32At data (p + 1) := by
    rw [v2, elemAt_slice 4 data (p + 1) (3 * 4) 0 (by omega)]; rfl
  have g1 : elemAt 4 gridsize 1 = u32At data (p + 5) := by
    rw [v2, elemAt_slice 4 data (p + 1) (3 * 4) 1 (by omega)]; rfl
  have g2 : elemAt 4 gridsize 2 = u32At data (p + 9) := by
    rw [v2, elemAt_slice 4 data (p + 1) (3 * 4) 2 (by omega)]; rfl
  have e3 : s3 = r2.2.emit ("\t\t\t- grid size: [" ++ toString (elemAt 4 gridsize 0) ++ ", "
      ++ toString (elemAt 4 gridsize 1) ++ ", " ++ toString (elemAt 4 gridsize 2) ++ "]\n")
      [(0, gridsize.length / 4), (1, gridsize.length / 4), (2, gridsize.length / 4)] := by
    show (((((((r2.2.put "\t\t\t- grid size: [").putU32At gridsize 0).put ", ").putU32At
      gridsize 1).put ", ").putU32At gridsize 2).put "]\n") = _
    simp only [put_eq_emit, putU32At_eq_emit, emit_emit, List.nil_append, List.append_nil,
      List.cons_append, String.append_assoc]
  have h3 : Reaches data st s3 _ _ _ := (h1.read (zeros (4 * 3)) (3 * 4) (by omega)).emit_eq e3
  have hres := h3.2.2.1
  rw [hid, g0, g1, g2] at hres
  clear_value r1 s1 r2 gridsize s2
  have x : Extends s3
      (((d.2.put "\t\t\t- vessel diameter: ").putF64 sf (elemAt 8 d.1 0)).put "\n") := by
    apply Extends.then_put
    apply Extends.then_putF64
    apply Extends.then_put
    apply Extends.then_read
    refine Extends.comp ?_ (readVec3_extends sf "LCS Z" c3)
    refine Extends.comp ?_ (readVec3_extends sf "LCS Y" c2)
    refine Extends.comp ?_ (readVec3_extends sf "LCS X" c1)
    refine Extends.comp ?_ (readVec3_extends sf "center" (r3.1, s5))
    show Extends s3 s5
    have e5 : s5 = r3.2.emit ("\t\t\t- voxel scale: " ++ sf r3.2.fmt (elemAt 8 r3.1 0) ++ " x "
        ++ sf r3.2.fmt (elemAt 8 r3.1 1) ++ " [mm] / " ++ sf r3.2.fmt (elemAt 8 r3.1 2)
        ++ " [ms]\n")
        [(0, r3.1.length / 8), (1, r3.1.length / 8), (2, r3.1.length / 8)] := by
      show (((((((r3.2.put "\t\t\t- voxel scale: ").putF64At sf r3.1 0).put " x ").putF64At sf
        r3.1 1).put " [mm] / ").putF64At sf r3.1 2).put " [ms]\n") = _
      simp only [put_eq_emit, putF64At_eq_emit, emit_emit, emit_fmt, List.nil_append,
        List.append_nil, List.cons_append, String.append_assoc]
    rw [e5]
    exact (extends_read s3 _ _).comp (extends_emit _ _ _)
  obtain ⟨t, ht⟩ := x
  refine ⟨t, ?_⟩
  show (((d.2.put "\t\t\t- vessel diameter: ").putF64 sf (elemAt 8 d.1 0)).put "\n").res = _
  rw [ht, hres]
  simp only [String.append_assoc, String.empty_append]

theorem readMeasuringPlane_begins (sf : FloatFmt → Nat → String) (data : List Nat) (st : Run)
    (dtemp : List Nat) (p : Nat) (hf : st.file = ⟨data, p, true⟩)
    (hlen : p + 13 ≤ data.length) :
    ∃ t, (readMeasuringPlane sf dtemp st).2.res =
      st.res ++ ("\t\t\t- vessel id: " ++ toString (u8At data p) ++ "\n"
        ++ "\t\t\t- grid size: [" ++ toString (u32At data (p + 1)) ++ ", "
        ++ toString (u32At data (p + 5)) ++ ", " ++ toString (u32At data (p + 9)) ++ "]\n")
        ++ t := by
  obtain ⟨t0, h0⟩ := plane_header_begins sf data st dtemp p hf hlen
  unfold readMeasuringPlane
  lift_lets
  extract_lets h g0 g1 g2 f s
  have h0h : h.2.2.2.res = _ := h0
  clear_value h
  obtain ⟨t1, x1⟩ : Extends h.2.2.2 f.2 := plane_fields_extends sf _ _ _ _ _
  clear_value f
  obtain ⟨t2, x2⟩ : Extends f.2 s.2.2 := plane_stats_extends sf _ _ _ _
  clear_value s
  obtain ⟨t3, x3⟩ : Extends s.2.2 (plane_samples sf s.1 s.2.2) := plane_samples_extends sf _ _
  refine ⟨t0 ++ t1 ++ t2 ++ t3, ?_⟩
  show (plane_samples sf s.1 s.2.2).res = _
  rw [x3, x2, x1, h0h]
  simp only [String.append_assoc]


/-! ## C14 -/

/-- C14.  What the code does, for every measuring-plane record that is complete up
to its segmentation mask, with grid size `[gx, gy, gt]`: the report contains the
text `segText` of the mask, one line for every pair `(x, y)` with `x < gx` and
`y < gy`, every line with the label 0 and the mask element at offset
`x * gy * y`; the preview evaluates the mask `gx * gy` times.  The preview is thus
not bounded by 3 and does not show the elements 0, 1, 2: the counter `cnt` is not
incremented in these loops, and the offset is `x * gridsize[1] * +y`. -/
theorem seg_preview_whole_grid (sf : FloatFmt → Nat → String) (st : Run) (data : List Nat)
    (dtemp : List Nat) (p gx gy gt : Nat) (hf : st.file = ⟨data, p, true⟩)
    (hd : dtemp.length = 8) (hx : u32At data (p + 1) = gx) (hy : u32At data (p + 5) = gy)
    (ht : u32At data (p + 9) = gt) (hM : gx * gy < U32) (hG : gx * gy * gt * 3 < U32)
    (hlen : p + 141 + 24 * (gx * gy * gt) + gx * gy ≤ data.length) :
    (∃ pre post, (readMeasuringPlane sf dtemp st).2.res =
      pre ++ segText gx gy (slice data (p + 141 + 24 * (gx * gy * gt)) (gx * gy)) ++ post) ∧
      (segIdx gx gy (slice data (p + 141 + 24 * (gx * gy * gt)) (gx * gy))).length = gx * gy ∧
      ∀ (g0 g1 : Nat) (buf : List Nat) (s : Run),
        segPreview g0 g1 buf s = s.emit (segText g0 g1 buf) (segIdx g0 g1 buf) :=
  ⟨readMeasuringPlane_seg sf data st dtemp p gx gy gt hf hd hx hy ht hM hG hlen,
    segIdx_length gx gy _, fun g0 g1 buf s => segPreview_emit g0 g1 buf s⟩

set_option maxRecDepth 1000000 in
/-- C14 on the record `examplePlane` with grid size `[2, 2, 1]` and the mask bytes
A, B, C, D: the report contains four lines for the mask, all with the label 0,
showing the elements 0, 0, 0 and 2; in the landmark file that holds this record
the four evaluations of the mask are the entries 27 to 30 of the index trace. -/
theorem seg_preview_whole_grid_witness :
    segText 2 2 (slice examplePlane (0 + 141 + 24 * (2 * 2 * 1)) (2 * 2)) =
        "\t\t\t- seg value 0: A\n\t\t\t- seg value 0: A\n\t\t\t- seg value 0: A\n"
          ++ "\t\t\t- seg value 0: C\n" ∧
      (∃ pre post, (readMeasuringPlane bitsF64 (zeros 8) (Run.fresh.opened examplePlane)).2.res =
        pre ++ segText 2 2 (slice examplePlane (0 + 141 + 24 * (2 * 2 * 1)) (2 * 2)) ++ post) ∧
      (((read_landmark_measuring_planes bitsF64
          (oneFile "landmarks" (FileState.present exampleLandmarks)) "landmarks"
          Run.fresh).2.idx.drop 27).take 4 = [(0, 4), (0, 4), (0, 4), (2, 4)]) :=
  ⟨by decide,
    (seg_preview_whole_grid bitsF64 (Run.fresh.opened examplePlane) examplePlane (zeros 8) 0 2 2
      1 rfl (by decide) (by decide) (by decide) (by decide) (by decide) (by decide)
      (by decide)).1,
    by decide⟩

/-! ## C20 -/

set_option maxRecDepth 1000000 in
/-- C20, as stated, fails: on the record `examplePlane` the first read requests one
byte, the vessel id 7, which the report shows before the grid size; the grid size
`[2, 2, 1]` is read from the bytes 1 to 12; and the read before the five arrays of
samples requests 4 bytes, not 12 (the arrays hold 3 doubles each, and the record
ends after 829 bytes). -/
theorem plane_layout_counterexample :
    (readMeasuringPlane bitsF64 (zeros 8) (Run.fresh.opened examplePlane)).2.reads.take 2 =
        [1, 12] ∧
      (readMeasuringPlane bitsF64 (zeros 8) (Run.fresh.opened examplePlane)).2.reads.drop 60 =
        [4, 24, 24, 24, 24, 24] ∧
      (readMeasuringPlane bitsF64 (zeros 8) (Run.fresh.opened examplePlane)).2.file =
        ⟨examplePlane, 829, true⟩ ∧
      (plane_header bitsF64 (zeros 8) (Run.fresh.opened examplePlane)).2.2.2.res =
        "\t\t\t- vessel id: 7\n\t\t\t- grid size: [2, 2, 1]\n"
          ++ "\t\t\t- voxel scale: #0 x #0 [mm] / #0 [ms]\n\t\t\t- center: [#0, #0, #0]\n"
          ++ "\t\t\t- LCS X: [#0, #0, #0]\n\t\t\t- LCS Y: [#0, #0, #0]\n"
          ++ "\t\t\t- LCS Z: [#0, #0, #0]\n\t\t\t- vessel diameter: #0\n" := by
  decide

/-! ## C27 -/

/-- C27.  On a good stream that holds at `p` a complete venc record with the count
`n` at byte 30, `read_venc` consumes exactly `31 + 10 * n` bytes and `n` is below
256; the reads are three times an id of 2 bytes and a venc of 8 bytes, the count of
1 byte, then `n` times 2 and 8 bytes; pair `i` of a run of pairs lies at bytes
`10 * i` (id) and `10 * i + 2` (venc), without padding; and the report is
`vencText`, whose lines for X, Y and Z show the pairs 0, 1 and 2 in stored order
and whose line for 2D+T image `i` shows pair `i` after the count. -/
theorem venc_consumes_exactly (sf : FloatFmt → Nat → String) (st : Run) (data : List Nat)
    (p n : Nat) (hf : st.file = ⟨data, p, true⟩) (hn : u8At data (p + 30) = n)
    (hlen : p + (31 + 10 * n) ≤ data.length) :
    (venc_body sf st).file = ⟨data, p + (31 + 10 * n), true⟩ ∧
      n < 256 ∧
      (venc_body sf st).reads =
        st.reads ++ ([2, 8, 2, 8, 2, 8, 1] ++ catL (List.replicate n [2, 8])) ∧
      (∀ q i, vencPairAt data q i = (u16At data (q + 10 * i), f64At data (q + 10 * i + 2))) ∧
      (venc_body sf st).res = st.res ++
        ("\t\t- VENCs of 3D+T flow images:\n"
        ++ "\t\t\t- X (LR) image (ID " ++ toString (vencPairAt data p 0).1 ++ "): "
        ++ sf st.fmt (vencPairAt data p 0).2 ++ " [m/s]\n"
        ++ "\t\t\t- Y (AP) image (ID " ++ toString (vencPairAt data p 1).1 ++ "): "
        ++ sf st.fmt (vencPairAt data p 1).2 ++ " [m/s]\n"
        ++ "\t\t\t- Z (FH) image (ID " ++ toString (vencPairAt data p 2).1 ++ "): "
        ++ sf st.fmt (vencPairAt data p 2).2 ++ " [m/s]\n"
        ++ "\t\t- num. 2D+T flow images: " ++ toString n ++ "\n"
        ++ cat ((List.range n).map (fun i =>
            "\t\t\t- Image " ++ toString i ++ " (DICOM image ID"
              ++ toString (vencPairAt data (p + 31) i).1 ++ ") : VENC "
              ++ sf st.fmt (vencPairAt data (p + 31) i).2 ++ " [m/s]\n"))) := by
  subst hn
  obtain ⟨h1, h2, h3, _⟩ := venc_reaches sf data st p hf (by omega)
  refine ⟨by rw [h1]; congr 1; omega, ?_, h2, fun q i => rfl, h3⟩
  have := leNat_lt (slice data (p + 30) 1)
  have hl := slice_length_le data (p + 30) 1
  show leNat (slice data (p + 30) 1) < 256
  calc leNat (slice data (p + 30) 1) < 256 ^ (slice data (p + 30) 1).length := this
    _ ≤ 256 ^ 1 := Nat.pow_le_pow_right (by decide) hl
    _ = 256 := by norm_num

/-- C27 on a file with two 2D+T flow images: 51 bytes are consumed and the ids
reported for X, Y, Z are 1, 2, 3, those of the 2D+T images 4 and 5. -/
theorem venc_consumes_exactly_witness :
    (venc_body bitsF64 (Run.fresh.opened exampleVencTwo)).file =
        ⟨exampleVencTwo, 0 + (31 + 10 * 2), true⟩ ∧
      (vencPairAt exampleVencTwo 0 0, vencPairAt exampleVencTwo 0 1, vencPairAt exampleVencTwo 0 2)
        = ((1, 4609434218613702656), (2, 4609434218613702656), (3, 4609434218613702656)) ∧
      (vencPairAt exampleVencTwo 31 0, vencPairAt exampleVencTwo 31 1)
        = ((4, 4611686018427387904), (5, 4613937818241073152)) :=
  ⟨(venc_consumes_exactly bitsF64 (Run.fresh.opened exampleVencTwo) exampleVencTwo 0 2 rfl
      (by decide) (by decide)).1, by decide, by decide⟩


/-! ## C29 -/

set_option maxRecDepth 100000 in
theorem previewPerTimeVector_idx (sf : FloatFmt → Nat → String) (numTimes : Nat)
    (buf : List Nat) (st : Run) :
    (previewPerTimeVector sf numTimes buf st).idx =
      st.idx ++ wssVectorIdx numTimes (buf.length / 8) := by
  simp only [previewPerTimeVector, forLoop, forFrom, NUM_DEMO, putTripleF64, putF64At_eq_emit,
    put_eq_emit, emit_emit, emit_idx, wssVectorIdx, List.range', List.map, catL,
    List.nil_append, List.append_nil, List.cons_append, Nat.zero_add, Nat.reduceAdd]

set_option maxRecDepth 1000000 in
/-- C29, what the code does.  The preview of a temporal vector field evaluates, for
point `p` and time `t` below 3, the three elements from `p * numTimes + t * 3` on
(source line 404), not from `3 * (p * numTimes + t)`.  On the mesh file
`exampleMeshWss` with `numTimes = 3`, whose first vector field holds the doubles
0 to 26, the decoder evaluates the offsets 0..8 for point 0, 3..11 for point 1 and
6..14 for point 2: the triple shown for point 1 at time 0 is the triple shown for
point 0 at time 1 (elements 3, 4, 5), and the elements 9, 10, 11 that the layout
assigns to point 1 at time 0 are shown for point 1 at time 2. -/
theorem wss_vector_preview_offsets :
    (∀ (sf : FloatFmt → Nat → String) (numTimes : Nat) (buf : List Nat) (st : Run),
      (previewPerTimeVector sf numTimes buf st).idx =
        st.idx ++ wssVectorIdx numTimes (buf.length / 8)) ∧
      (mesh_body bitsF64 (Run.fresh.opened exampleMeshWss)).file.pos = 1488 ∧
      ((mesh_body bitsF64 (Run.fresh.opened exampleMeshWss)).idx.drop 63).take 27 =
        [(0, 27), (1, 27), (2, 27), (3, 27), (4, 27), (5, 27), (6, 27), (7, 27), (8, 27),
          (3, 27), (4, 27), (5, 27), (6, 27), (7, 27), (8, 27), (9, 27), (10, 27), (11, 27),
          (6, 27), (7, 27), (8, 27), (9, 27), (10, 27), (11, 27), (12, 27), (13, 27),
          (14, 27)] ∧
      (previewPerTimeVector bitsF64 3 (slice exampleMeshWss 480 216) Run.fresh).res =
        "\t\t\t- point0: [#0, #1, #2], [#3, #4, #5], [#6, #7, #8], ...\n"
          ++ "\t\t\t- point1: [#3, #4, #5], [#6, #7, #8], [#9, #10, #11], ...\n"
          ++ "\t\t\t- point2: [#6, #7, #8], [#9, #10, #11], [#12, #13, #14], ...\n" :=
  ⟨previewPerTimeVector_idx, by decide, by decide, by decide⟩


/-! ## C28 -/

set_option maxRecDepth 1000000 in
/-- C28, what the code does.  For every grid size and mask the preview of the
segmentation evaluates the mask at the offsets `segIdx`: for the grid position
`(x, y)` the offset `x * gridsize[1] * y` (source line 839), a product, not
`x * gridsize[1] + y`.  On the landmark file `exampleLandmarksWide`, whose one
measuring plane has the grid size `[2, 3, 1]` and a mask of 6 bytes, the decoder
consumes the whole file and evaluates the mask at the offsets 0, 0, 0, 0, 3, 6 for
the positions (0,0), (0,1), (0,2), (1,0), (1,1), (1,2): the offset 6 is not below
the mask length 6, and only the offset of (0,0) is the one the layout assigns. -/
theorem seg_preview_offsets :
    (∀ (g0 g1 : Nat) (buf : List Nat) (s : Run),
      (segPreview g0 g1 buf s).idx = s.idx ++
        catL ((List.range' 0 g0).map (fun x => catL ((List.range' 0 g1).map (fun y =>
          [(x * g1 * y % U32, buf.length / 1)]))))) ∧
      (read_landmark_measuring_planes bitsF64
        (oneFile "landmarks" (FileState.present exampleLandmarksWide)) "landmarks"
        Run.fresh).2.file.pos = 799 ∧
      (((read_landmark_measuring_planes bitsF64
          (oneFile "landmarks" (FileState.present exampleLandmarksWide)) "landmarks"
          Run.fresh).2.idx.drop 27).take 6 =
        [(0, 6), (0, 6), (0, 6), (0, 6), (3, 6), (6, 6)]) :=
  ⟨fun g0 g1 buf s => by rw [segPreview_emit, emit_idx]; rfl, by decide, by decide⟩


/-! ## C30 -/

theorem leNat_replicate_zero (k : Nat) : leNat (List.replicate k 0) = 0 := by
  induction k with
  | zero => rfl
  | succ k ih => simp [List.replicate, leNat, ih]

theorem elemAt_zeros (w n i : Nat) : elemAt w (zeros n) i = 0 := by
  simp [elemAt, slice, zeros, List.drop_replicate, List.take_replicate, leNat_replicate_zero]

set_option maxRecDepth 100000 in
theorem planeCoeffsPreview_emit (sf : FloatFmt → Nat → String) (st : Run) :
    planeCoeffsPreview sf (zeros (8 * 3)) st = st.emit
      (cat ((List.range' 0 3).map (fun z => "\t\t\t- plane coeffs of slice " ++ toString z ++ ": "
        ++ sf st.fmt 0 ++ ", " ++ sf st.fmt 0 ++ ", " ++ sf st.fmt 0 ++ "\n")))
      [(0, 3), (1, 3), (2, 3), (3, 3), (4, 3), (5, 3), (6, 3), (7, 3), (8, 3)] := by
  have hl : (zeros (8 * 3)).length / 8 = 3 := by decide
  simp only [planeCoeffsPreview, forLoop, forFrom, NUM_DEMO, putF64At_eq_emit, put_eq_emit,
    emit_emit, emit_fmt, elemAt_zeros, hl, List.range', List.map, cat, List.nil_append,
    List.append_nil, List.cons_append, String.append_assoc, String.append_empty]
  rfl

theorem velocity_offset_image_idx (sf : FloatFmt → Nat → String) (v : Nat) (st : Run) :
    (velocity_offset_image sf (zeros (8 * 3)) v st).idx = st.idx ++
      [(0, 3), (1, 3), (2, 3), (3, 3), (4, 3), (5, 3), (6, 3), (7, 3), (8, 3)] := by
  simp only [velocity_offset_image, planeCoeffsPreview_emit, put_eq_emit, emit_emit, emit_idx,
    Run.readF64s, read_idx, List.append_nil]

set_option maxRecDepth 1000000 in
/-- C30, what the code does.  In every call, on every stream, the preview of each
of the three flow images evaluates the vector `planeCoeffs` (three zero elements,
never written to; source line 2883) at the indices 0 to 8, six of them outside the
vector, and never the array `buf` that holds the doubles read from the stream.  In
the model an element outside its vector reads as 0, so all rendered coefficients
are the zero of `planeCoeffs`.  On the file `exampleOffsets`, whose coefficients are
the doubles 1 to 9 for every flow image, the decoder consumes all 240 bytes and the
report shows 0 for every coefficient. -/
theorem plane_coeffs_not_from_stream :
    (∀ (sf : FloatFmt → Nat → String) (st : Run),
      (velocity_offset_body sf st).idx = st.idx ++
        catL (List.replicate 3
          [(0, 3), (1, 3), (2, 3), (3, 3), (4, 3), (5, 3), (6, 3), (7, 3), (8, 3)])) ∧
      (∀ (sf : FloatFmt → Nat → String) (st : Run),
        planeCoeffsPreview sf (zeros (8 * 3)) st = st.emit
          (cat ((List.range' 0 3).map (fun z =>
            "\t\t\t- plane coeffs of slice " ++ toString z ++ ": "
              ++ sf st.fmt 0 ++ ", " ++ sf st.fmt 0 ++ ", " ++ sf st.fmt 0 ++ "\n")))
          [(0, 3), (1, 3), (2, 3), (3, 3), (4, 3), (5, 3), (6, 3), (7, 3), (8, 3)]) ∧
      (velocity_offset_body bitsF64 (Run.fresh.opened exampleOffsets)).file.pos = 240 ∧
      (velocity_offset_body bitsF64 (Run.fresh.opened exampleOffsets)).reads =
        [4, 8, 4, 72, 4, 72, 4, 72] ∧
      f64sAt exampleOffsets 16 9 = [1, 2, 3, 4, 5, 6, 7, 8, 9] ∧
      (velocity_offset_body bitsF64 (Run.fresh.opened exampleOffsets)).res =
        "\t\t- end diastolic time point id: 5\n"
          ++ "\t\t- ivsd static tissue threshold: #4609434218613702656\n"
          ++ "\t\t\t- num. slices in flow image 0: 3\n"
          ++ "\t\t\t- plane coeffs of slice 0: #0, #0, #0\n"
          ++ "\t\t\t- plane coeffs of slice 1: #0, #0, #0\n"
          ++ "\t\t\t- plane coeffs of slice 2: #0, #0, #0\n\t\t\t- ...\n"
          ++ "\t\t\t- num. slices in flow image 1: 3\n"
          ++ "\t\t\t- plane coeffs of slice 0: #0, #0, #0\n"
          ++ "\t\t\t- plane coeffs of slice 1: #0, #0, #0\n"
          ++ "\t\t\t- plane coeffs of slice 2: #0, #0, #0\n\t\t\t- ...\n"
          ++ "\t\t\t- num. slices in flow image 2: 3\n"
          ++ "\t\t\t- plane coeffs of slice 0: #0, #0, #0\n"
          ++ "\t\t\t- plane coeffs of slice 1: #0, #0, #0\n"
          ++ "\t\t\t- plane coeffs of slice 2: #0, #0, #0\n\t\t\t- ...\n" := by
  refine ⟨fun sf st => ?_, planeCoeffsPreview_emit, by decide, by decide, by decide, by decide⟩
  simp only [velocity_offset_body, forLoop, forFrom, velocity_offset_image_idx, put_eq_emit,
    putF64_eq_emit, emit_emit, emit_idx, read_idx, List.append_nil, List.append_assoc,
    List.replicate, catL]


/-! ## C26 -/

theorem cycleVessel_emit (sf : FloatFmt → Nat → String) (N : Nat) (buf : List Nat) (v : Nat)
    (s : Run) :
    cycleVessel sf N buf v s = s.emit
      ("\t\t- mean axial velocity [m/s] per time in vessel " ++ toString v ++ ": "
        ++ sf s.fmt (elemAt 8 buf ((v * N % U32 + 0) % U32)) ++ ", "
        ++ sf s.fmt (elemAt 8 buf ((v * N % U32 + 1) % U32)) ++ ", "
        ++ sf s.fmt (elemAt 8 buf ((v * N % U32 + 2) % U32)) ++ ", " ++ "...\n")
      [((v * N % U32 + 0) % U32, buf.length / 8), ((v * N % U32 + 1) % U32, buf.length / 8),
        ((v * N % U32 + 2) % U32, buf.length / 8)] := by
  simp only [cycleVessel, forLoop, forFrom, NUM_DEMO, putF64At_eq_emit, put_eq_emit, emit_emit,
    emit_fmt, List.nil_append, List.append_nil, List.cons_append, String.append_assoc,
    Nat.zero_add, Nat.reduceAdd]

theorem cardiac_cycle_spec (sf : FloatFmt → Nat → String) (data : List Nat) (st : Run)
    (p : Nat) (hf : st.file = ⟨data, p, true⟩)
    (hVN : u32At data (p + 28) * u32At data p < U32)
    (hlen : p + 32 + 8 * (u32At data (p + 28) * u32At data p) ≤ data.length) :
    Consumes data st (cardiac_cycle_body sf st)
        (p + 32 + 8 * (u32At data (p + 28) * u32At data p))
        [4, 4, 8, 4, 8, 4, 8 * (u32At data (p + 28) * u32At data p)] ∧
      (cardiac_cycle_body sf st).idx = st.idx ++
        cycleIdx (u32At data p) (u32At data (p + 28)) (u32At data (p + 28) * u32At data p) := by
  unfold cardiac_cycle_body
  lift_lets
  extract_lets r1 numTimes s1 r2 idB r3 msB s2 r4 idE r5 msE s3 r6 numVessels s4 r7
  have h0 := Consumes.start data st p hf
  obtain ⟨g1, v1, _⟩ := h0.after_read (zeros 4) 4 (by omega) (by simp [zeros])
  have hN : numTimes = u32At data p := by
    show elemAt 4 r1.1 0 = _
    rw [v1, elemAt_zero_slice]; rfl
  have h1 : Consumes data st s1 _ _ := g1.after_put _
  have i1 : s1.idx = st.idx := rfl
  obtain ⟨g2, _, _⟩ := h1.after_read (zeros 4) 4 (by omega) (by simp [zeros])
  obtain ⟨g3, _, _⟩ := g2.after_read (zeros 8) 8 (by omega) (by simp [zeros])
  have h2 : Consumes data st s2 _ _ := g3.kept ⟨rfl, rfl⟩
  have i2 : s2.idx = s1.idx := rfl
  obtain ⟨g4, _, _⟩ := h2.after_read (zeros 4) 4 (by omega) (by simp [zeros])
  obtain ⟨g5, _, _⟩ := g4.after_read (zeros 8) 8 (by omega) (by simp [zeros])
  have h3 : Consumes data st s3 _ _ := g5.kept ⟨rfl, rfl⟩
  have i3 : s3.idx = s2.idx := rfl
  obtain ⟨g6, v6, _⟩ := h3.after_read (zeros 4) 4 (by omega) (by simp [zeros])
  have hV : numVessels = u32At data (p + 28) := by
    show elemAt 4 r6.1 0 = _
    rw [v6, elemAt_zero_slice]
    show leNat (slice data (p + 4 + 4 + 8 + 4 + 8) 4) = leNat (slice data (p + 28) 4)
    congr 2
  have h4 : Consumes data st s4 _ _ := g6.after_put _
  have i4 : s4.idx = s3.idx := rfl
  clear_value r1 s1 r2 idB r3 msB s2 r4 idE r5 msE s3 r6 s4 numTimes numVessels
  subst hN hV
  have eM : u32At data (p + 28) * u32At data p % U32 = u32At data (p + 28) * u32At data p :=
    Nat.mod_eq_of_lt hVN
  obtain ⟨g7, n7⟩ := h4.after_readF64s
    (zeros (8 * (u32At data (p + 28) * u32At data p % U32)))
    (u32At data (p + 28) * u32At data p) (by rw [eM]; simp [zeros]) (by omega)
  have i7 : r7.2.idx = s4.idx := rfl
  have hl : r7.1.length / 8 = u32At data (p + 28) * u32At data p := by
    rw [show r7.1.length = 8 * (u32At data (p + 28) * u32At data p) from n7]
    omega
  have e := forFrom_emit (cycleVessel sf (u32At data p) r7.1)
    (fun fmt v => "\t\t- mean axial velocity [m/s] per time in vessel " ++ toString v ++ ": "
        ++ sf fmt (elemAt 8 r7.1 ((v * u32At data p % U32 + 0) % U32)) ++ ", "
        ++ sf fmt (elemAt 8 r7.1 ((v * u32At data p % U32 + 1) % U32)) ++ ", "
        ++ sf fmt (elemAt 8 r7.1 ((v * u32At data p % U32 + 2) % U32)) ++ ", " ++ "...\n")
    (fun v => [((v * u32At data p % U32 + 0) % U32, r7.1.length / 8),
        ((v * u32At data p % U32 + 1) % U32, r7.1.length / 8),
        ((v * u32At data p % U32 + 2) % U32, r7.1.length / 8)])
    (fun j s => cycleVessel_emit sf _ _ j s) (u32At data (p + 28)) 0 r7.2
  unfold forLoop
  rw [e]
  refine ⟨⟨?_, ?_⟩, ?_⟩
  · rw [emit_file, g7.1]
  · rw [emit_reads, g7.2]; simp
  · rw [emit_idx, i7, i4, i3, i2, i1, hl]; rfl

set_option maxRecDepth 100000 in
/-- C26, what the code does.  On a good stream that holds a complete cardiac-cycle
record with `numTimes = N` and `numVessels = V`, `V * N < 2^32`, the decoder
consumes exactly `32 + 8 * V * N` bytes, by reads of 4, 4, 8, 4, 8, 4 and
`8 * V * N` bytes; and for every vessel `v` it evaluates the array of `V * N`
doubles at the three indices `v * N + 0`, `v * N + 1`, `v * N + 2` (`cycleIdx`),
whatever `N` is: the inner loop runs to `NUM_DEMO`, not to `min(NUM_DEMO, N)`
(source line 3174). -/
theorem cardiac_cycle_preview_indices (sf : FloatFmt → Nat → String) (st : Run)
    (data : List Nat) (p N V : Nat) (hf : st.file = ⟨data, p, true⟩)
    (hN : u32At data p = N) (hV : u32At data (p + 28) = V) (hVN : V * N < U32)
    (hlen : p + (32 + 8 * (V * N)) ≤ data.length) :
    (cardiac_cycle_body sf st).file = ⟨data, p + (32 + 8 * (V * N)), true⟩ ∧
      (cardiac_cycle_body sf st).reads = st.reads ++ [4, 4, 8, 4, 8, 4, 8 * (V * N)] ∧
      (cardiac_cycle_body sf st).idx = st.idx ++ cycleIdx N V (V * N) ∧
      cycleIdx N V (V * N) = catL ((List.range' 0 V).map (fun v =>
        [((v * N % U32 + 0) % U32, V * N), ((v * N % U32 + 1) % U32, V * N),
          ((v * N % U32 + 2) % U32, V * N)])) := by
  subst hN hV
  obtain ⟨⟨c1, c2⟩, ci⟩ := cardiac_cycle_spec sf data st p hf hVN (by omega)
  exact ⟨by rw [c1]; congr 1; omega, c2, ci, rfl⟩

set_option maxRecDepth 100000 in
/-- C26 on the file `exampleCycle` with `N = 1` and `V = 2`: all 48 bytes are
consumed, and the array of 2 doubles is evaluated at the indices 0, 1, 2 for vessel
0 and 1, 2, 3 for vessel 1.  Index 1 is outside the range `[0, 1)` of vessel 0, and
the indices 2, 2 and 3 are outside the array. -/
theorem cardiac_cycle_preview_indices_witness :
    (cardiac_cycle_body bitsF64 (Run.fresh.opened exampleCycle)).file.pos =
        0 + (32 + 8 * (2 * 1)) ∧
      (cardiac_cycle_body bitsF64 (Run.fresh.opened exampleCycle)).idx =
        [(0, 2), (1, 2), (2, 2), (1, 2), (2, 2), (3, 2)] :=
  ⟨congrArg IfStream.pos (cardiac_cycle_preview_indices bitsF64 (Run.fresh.opened exampleCycle)
      exampleCycle 0 1 2 rfl (by decide) (by decide) (by decide) (by decide)).1,
    (cardiac_cycle_preview_indices bitsF64 (Run.fresh.opened exampleCycle)
      exampleCycle 0 1 2 rfl (by decide) (by decide) (by decide) (by decide)).2.2.1.trans
      (by decide)⟩


/-! ## The preview of the flow vectors -/

theorem range_cat_join (T : Nat → String) (c a b : Nat) :
    cat ((List.range' c a).map T) ++ cat ((List.range' (c + a) b).map T) =
      cat ((List.range' c (a + b)).map T) := by
  rw [← cat_append, ← List.map_append, List.range'_append_1, Nat.add_comm b a]

theorem range_catL_join {α : Type} (I : Nat → List α) (c a b : Nat) :
    catL ((List.range' c a).map I) ++ catL ((List.range' (c + a) b).map I) =
      catL ((List.range' c (a + b)).map I) := by
  rw [← catL_append, ← List.map_append, List.range'_append_1, Nat.add_comm b a]

theorem while_block (T : FloatFmt → Nat → String) (I : Nat → List (Nat × Nat)) (B ob : Nat)
    (body : Nat → Nat × Nat × Run → Nat × Nat × Run)
    (hb : ∀ i c s, c < 3 → c = ob + i * B → body i (c, c, s) =
      (c + min B (3 - c), c + min B (3 - c),
        s.emit (cat ((List.range' c (min B (3 - c))).map (T s.fmt)))
          (catL ((List.range' c (min B (3 - c))).map I)))) :
    ∀ (k i c : Nat) (s : Run), c ≤ 3 → (c < 3 → c = ob + i * B) →
      forFromWhile cntDemoBelow body i k (c, c, s) =
        (c + min (k * B) (3 - c), c + min (k * B) (3 - c),
          s.emit (cat ((List.range' c (min (k * B) (3 - c))).map (T s.fmt)))
            (catL ((List.range' c (min (k * B) (3 - c))).map I))) := by
  intro k
  induction k with
  | zero =>
    intro i c s _ _
    simp [forFromWhile, cat, catL, emit_nil]
  | succ k ih =>
    intro i c s hc hi
    by_cases h3 : c < 3
    · have hcond : cntDemoBelow (c, c, s) = true := by simp [cntDemoBelow, NUM_DEMO, h3]
      have hnext : c + min B (3 - c) < 3 → c + min B (3 - c) = ob + (i + 1) * B := by
        intro h
        have := hi h3
        rw [Nat.succ_mul]
        omega
      have hm : min ((k + 1) * B) (3 - c) =
          min B (3 - c) + min (k * B) (3 - (c + min B (3 - c))) := by
        rw [Nat.succ_mul]
        omega
      simp only [forFromWhile, hcond, if_true]
      rw [hb i c s h3 (hi h3), ih (i + 1) (c + min B (3 - c)) _ (by omega) hnext, emit_emit,
        emit_fmt, range_cat_join, range_catL_join, ← hm, Nat.add_assoc, ← hm]
    · have hc3 : c = 3 := by omega
      subst hc3
      simp [forFromWhile, cntDemoBelow, NUM_DEMO, cat, catL, emit_nil]

theorem flowVector_at (sf : FloatFmt → Nat → String) (g1 g2 g3 : Nat) (buf : List Nat)
    (x y z t c : Nat) (s : Run) (h3 : c < 3)
    (hc : c = x * (g1 * (g2 * g3)) + y * (g2 * g3) + z * g3 + t * 1) :
    flowVector sf g1 g2 g3 buf x y z t (c, c, s) =
      (c + min 1 (3 - c), c + min 1 (3 - c),
        s.emit (cat ((List.range' c (min 1 (3 - c))).map (flowLine sf buf s.fmt)))
          (catL ((List.range' c (min 1 (3 - c))).map (flowAccess (buf.length / 8))))) := by
  have hm : min 1 (3 - c) = 1 := by omega
  have hsum : x * g1 * g2 * g3 * 3 + y * g2 * g3 * 3 + z * g3 * 3 + t * 3 = 3 * c := by
    rw [hc]; ring
  have hoff : (x * g1 * g2 * g3 * 3 + y * g2 * g3 * 3 + z * g3 * 3 + t * 3) % U32 = 3 * c := by
    rw [hsum]
    exact Nat.mod_eq_of_lt (by unfold U32; omega)
  have h1 : (3 * c + 1) % U32 = 3 * c + 1 := Nat.mod_eq_of_lt (by unfold U32; omega)
  have h2 : (3 * c + 2) % U32 = 3 * c + 2 := Nat.mod_eq_of_lt (by unfold U32; omega)
  simp only [flowVector, hoff, hm, putTripleF64, h1, h2, putF64At_eq_emit, put_eq_emit,
    emit_emit, emit_fmt, List.range', List.map, cat, catL, List.nil_append, List.append_nil,
    List.cons_append, String.append_assoc, String.append_empty, flowLine, flowAccess]

theorem flowPreview_emit (sf : FloatFmt → Nat → String) (g0 g1 g2 g3 : Nat) (buf : List Nat)
    (st : Run) :
    flowPreview sf g0 g1 g2 g3 buf st =
      st.emit (flowText sf st.fmt buf (min (g0 * (g1 * (g2 * g3))) 3))
        (flowIdx (buf.length / 8) (min (g0 * (g1 * (g2 * g3))) 3)) := by
  have lt := fun x y z =>
    while_block (flowLine sf buf) (flowAccess (buf.length / 8)) 1
      (x * (g1 * (g2 * g3)) + y * (g2 * g3) + z * g3)
      (fun t s => flowVector sf g1 g2 g3 buf x y z t s)
      (fun i c s h3 hc => flowVector_at sf g1 g2 g3 buf x y z i c s h3 hc) g3 0
  simp only [Nat.mul_one] at lt
  have lz := fun x y =>
    while_block (flowLine sf buf) (flowAccess (buf.length / 8)) g3
      (x * (g1 * (g2 * g3)) + y * (g2 * g3))
      (fun z s => forWhile g3 cntDemoBelow (fun t s => flowVector sf g1 g2 g3 buf x y z t s) s)
      (fun i c s h3 hc => lt x y i c s (by omega) (fun _ => by omega)) g2 0
  have ly := fun x =>
    while_block (flowLine sf buf) (flowAccess (buf.length / 8)) (g2 * g3)
      (x * (g1 * (g2 * g3)))
      (fun y s => forWhile g2 cntDemoBelow (fun z s =>
        forWhile g3 cntDemoBelow (fun t s => flowVector sf g1 g2 g3 buf x y z t s) s) s)
      (fun i c s h3 hc => lz x i c s (by omega) (fun _ => by omega)) g1 0
  have lx :=
    while_block (flowLine sf buf) (flowAccess (buf.length / 8)) (g1 * (g2 * g3)) 0
      (fun x s => forWhile g1 cntDemoBelow (fun y s => forWhile g2 cntDemoBelow (fun z s =>
        forWhile g3 cntDemoBelow (fun t s => flowVector sf g1 g2 g3 buf x y z t s) s) s) s)
      (fun i c s h3 hc => ly i c s (by omega) (fun _ => by omega)) g0 0 0 st (by omega)
      (fun _ => by omega)
  unfold flowPreview forWhile
  unfold forWhile at lx
  rw [lx]
  simp only [Nat.sub_zero, Nat.zero_add, flowText, flowIdx]


/-! ## `read_flowfield` on a complete stream -/

theorem putMatrix_kept (sf : FloatFmt → Nat → String) (n : Nat) (buf : List Nat) (st : Run)
    (t : String) : StreamKept st (putMatrix sf n buf (st.put t)) := by
  rw [putMatrix_emit]
  exact ⟨rfl, rfl⟩

theorem Consumes.after_readF64s_value {data : List Nat} {a b : Run} {p : Nat} {l : List Nat}
    (h : Consumes data a b p l) (buf : List Nat) (n : Nat) (hb : buf.length = 8 * n)
    (hn : p + 8 * n ≤ data.length) :
    (b.readF64s buf).1 = slice data p (8 * n) := by
  have hk : buf.length / 8 * 8 = 8 * n := by omega
  unfold Run.readF64s
  rw [hk]
  exact (h.after_read buf (8 * n) hn (by omega)).2.1

theorem mem_catL_range {α : Type} (f : Nat → List α) (e : α) :
    ∀ (m c : Nat), e ∈ catL ((List.range' c m).map f) → ∃ k, c ≤ k ∧ k < c + m ∧ e ∈ f k := by
  intro m
  induction m with
  | zero => intro c h; simp [catL] at h
  | succ m ih =>
    intro c h
    simp only [List.range', List.map, catL, List.mem_append] at h
    rcases h with h | h
    · exact ⟨c, le_refl _, by omega, h⟩
    · obtain ⟨k, h1, h2, h3⟩ := ih (c + 1) h
      exact ⟨k, by omega, by omega, h3⟩

theorem flowfield_header_fmt (sf : FloatFmt → Nat → String) (st : Run) :
    (flowfield_header sf st).2.2.fmt = st.fmt := by
  simp only [flowfield_header, Run.readF64s, read_fmt, put_eq_emit, putF64At_eq_emit,
    putU32At_eq_emit, putMatrix_emit, emit_fmt]

theorem flowfield_header_spec (sf : FloatFmt → Nat → String) (data : List Nat) (st : Run)
    (p : Nat) (hf : st.file = ⟨data, p, true⟩)
    (hlen : p + 848 + 8 * (u32At data p * u32At data (p + 4) * u32At data (p + 8)
      * u32At data (p + 12) * 3 % U32) ≤ data.length) :
    (flowfield_header sf st).1 = slice data p 16 ∧
      (flowfield_header sf st).2.1 = slice data (p + 848)
        (8 * (u32At data p * u32At data (p + 4) * u32At data (p + 8) * u32At data (p + 12) * 3
          % U32)) ∧
      Consumes data st (flowfield_header sf st).2.2
        (p + 848 + 8 * (u32At data p * u32At data (p + 4) * u32At data (p + 8)
          * u32At data (p + 12) * 3 % U32))
        [16, 32, 128, 128, 200, 200, 72, 72,
          8 * (u32At data p * u32At data (p + 4) * u32At data (p + 8) * u32At data (p + 12) * 3
            % U32)] := by
  unfold flowfield_header
  lift_lets
  extract_lets r1 gridsize s1 s2 s3 s4 r2 s5 s6 s7 s8 r3 s9 r4 s10 r5 s11 r6 s12 r7 s13 r8 s14 r9
  have h0 := Consumes.start data st p hf
  obtain ⟨g1, v1, _⟩ := h0.after_read (zeros (4 * 4)) (4 * 4) (by omega) (by simp [zeros])
  have vg : gridsize = slice data p 16 := v1
  have e0 : elemAt 4 gridsize 0 = u32At data p := by
    rw [vg, elemAt_slice 4 data p 16 0 (by omega)]; rfl
  have e1 : elemAt 4 gridsize 1 = u32At data (p + 4) := by
    rw [vg, elemAt_slice 4 data p 16 1 (by omega)]; rfl
  have e2 : elemAt 4 gridsize 2 = u32At data (p + 8) := by
    rw [vg, elemAt_slice 4 data p 16 2 (by omega)]; rfl
  have e3 : elemAt 4 gridsize 3 = u32At data (p + 12) := by
    rw [vg, elemAt_slice 4 data p 16 3 (by omega)]; rfl
  have h4 : Consumes data st s4 _ _ := g1.kept ⟨rfl, rfl⟩
  obtain ⟨g2, n2⟩ := h4.after_readF64s (zeros (8 * 4)) 4 (by simp [zeros]) (by omega)
  have h8 : Consumes data st s8 _ _ := g2.kept ⟨rfl, rfl⟩
  obtain ⟨g3, n3⟩ := h8.after_readF64s (vresize 8 r2.1 16) 16 (vresize_length _ _ _) (by omega)
  have h9 : Consumes data st s9 _ _ := g3.kept (putMatrix_kept sf 4 r3.1 r3.2 _)
  obtain ⟨g4, n4⟩ := h9.after_readF64s r3.1 16 n3 (by omega)
  have h10 : Consumes data st s10 _ _ := g4.kept (putMatrix_kept sf 4 r4.1 r4.2 _)
  obtain ⟨g5, n5⟩ := h10.after_readF64s (vresize 8 r4.1 25) 25 (vresize_length _ _ _) (by omega)
  have h11 : Consumes data st s11 _ _ := g5.kept (putMatrix_kept sf 5 r5.1 r5.2 _)
  obtain ⟨g6, n6⟩ := h11.after_readF64s r5.1 25 n5 (by omega)
  have h12 : Consumes data st s12 _ _ := g6.kept (putMatrix_kept sf 5 r6.1 r6.2 _)
  obtain ⟨g7, n7⟩ := h12.after_readF64s (vresize 8 r6.1 9) 9 (vresize_length _ _ _) (by omega)
  have h13 : Consumes data st s13 _ _ := g7.kept (putMatrix_kept sf 3 r7.1 r7.2 _)
  obtain ⟨g8, n8⟩ := h13.after_readF64s r7.1 9 n7 (by omega)
  have h14 : Consumes data st s14 _ _ := g8.kept (putMatrix_kept sf 3 r8.1 r8.2 _)
  clear_value r1 s1 s2 s3 s4 r2 s5 s6 s7 s8 r3 s9 r4 s10 r5 s11 r6 s12 r7 s13
  have hb : (vresize 8 r8.1 (elemAt 4 gridsize 0 * elemAt 4 gridsize 1 * elemAt 4 gridsize 2
      * elemAt 4 gridsize 3 * 3 % U32)).length =
      8 * (u32At data p * u32At data (p + 4) * u32At data (p + 8) * u32At data (p + 12) * 3
        % U32) := by
    rw [vresize_length, e0, e1, e2, e3]
  obtain ⟨g9, n9⟩ := h14.after_readF64s _ _ hb (by omega)
  have v9 := h14.after_readF64s_value _ _ hb (by omega)
  exact ⟨vg, by rw [show r9.1 = _ from v9], g9.recount (by omega) (by simp)⟩


/-! ## C21 -/

/-- C21.  On a good stream that holds at `p` a complete flow field with the grid
size `[X, Y, Z, T]`, `3 * X * Y * Z * T < 2^32`: the decoded array `dbuffer` is the
`3 * X * Y * Z * T` doubles stored from byte `p + 848` on; the decoder consumes the
whole record; the preview writes exactly `min 3 (X * Y * Z * T)` lines, line `k`
labelled `k` and showing the elements `3 * k`, `3 * k + 1`, `3 * k + 2` of the array
(`flowText`, `flowLine`), that is the doubles stored at the bytes
`p + 848 + 8 * (3 * k + j)`, and then the closing line; the index evaluations of
the preview are those of `flowIdx`, every one below the length of the array. -/
theorem flow_preview_leading (sf : FloatFmt → Nat → String) (st : Run) (data : List Nat)
    (p X Y Z T : Nat) (hf : st.file = ⟨data, p, true⟩)
    (hX : u32At data p = X) (hY : u32At data (p + 4) = Y) (hZ : u32At data (p + 8) = Z)
    (hT : u32At data (p + 12) = T) (h32 : 3 * (X * Y * Z * T) < U32)
    (hlen : p + (848 + 24 * (X * Y * Z * T)) ≤ data.length) :
    (flowfield_header sf st).2.1 = slice data (p + 848) (8 * (3 * (X * Y * Z * T))) ∧
      (flowfield_body sf st).file = ⟨data, p + (848 + 24 * (X * Y * Z * T)), true⟩ ∧
      (flowfield_body sf st).res = (flowfield_header sf st).2.2.res
        ++ flowText sf st.fmt (flowfield_header sf st).2.1 (min 3 (X * Y * Z * T))
        ++ "\t\t- ...\n" ∧
      (flowfield_body sf st).idx = (flowfield_header sf st).2.2.idx
        ++ flowIdx (3 * (X * Y * Z * T)) (min 3 (X * Y * Z * T)) ∧
      (∀ e ∈ flowIdx (3 * (X * Y * Z * T)) (min 3 (X * Y * Z * T)), e.1 < e.2) ∧
      (∀ k j, k < min 3 (X * Y * Z * T) → j < 3 →
        elemAt 8 (flowfield_header sf st).2.1 (3 * k + j) =
          f64At data (p + 848 + 8 * (3 * k + j))) ∧
      (∀ (buf : List Nat) (fmt : FloatFmt) (k : Nat), flowLine sf buf fmt k =
        "\t\t- flow vector" ++ toString k ++ " [m/s]: " ++ "[" ++ sf fmt (elemAt 8 buf (3 * k))
          ++ ", " ++ sf fmt (elemAt 8 buf (3 * k + 1)) ++ ", "
          ++ sf fmt (elemAt 8 buf (3 * k + 2)) ++ "]\n") := by
  subst hX hY hZ hT
  have eN : u32At data p * u32At data (p + 4) * u32At data (p + 8) * u32At data (p + 12) * 3
      % U32 = 3 * (u32At data p * u32At data (p + 4) * u32At data (p + 8) * u32At data (p + 12)) := by
    rw [Nat.mul_comm _ 3]
    exact Nat.mod_eq_of_lt h32
  obtain ⟨vg, vb, c⟩ := flowfield_header_spec sf data st p hf (by rw [eN]; omega)
  rw [eN] at vb c
  have e0 : elemAt 4 (flowfield_header sf st).1 0 = u32At data p := by
    rw [vg, elemAt_slice 4 data p 16 0 (by omega)]; rfl
  have e1 : elemAt 4 (flowfield_header sf st).1 1 = u32At data (p + 4) := by
    rw [vg, elemAt_slice 4 data p 16 1 (by omega)]; rfl
  have e2 : elemAt 4 (flowfield_header sf st).1 2 = u32At data (p + 8) := by
    rw [vg, elemAt_slice 4 data p 16 2 (by omega)]; rfl
  have e3 : elemAt 4 (flowfield_header sf st).1 3 = u32At data (p + 12) := by
    rw [vg, elemAt_slice 4 data p 16 3 (by omega)]; rfl
  have hl : (flowfield_header sf st).2.1.length / 8 =
      3 * (u32At data p * u32At data (p + 4) * u32At data (p + 8) * u32At data (p + 12)) := by
    rw [vb, slice_length data _ _ (by omega)]
    omega
  have hm : min (u32At data p * (u32At data (p + 4) * (u32At data (p + 8) * u32At data (p + 12))))
      3 = min 3 (u32At data p * u32At data (p + 4) * u32At data (p + 8) * u32At data (p + 12)) := by
    rw [Nat.min_comm, ← Nat.mul_assoc, ← Nat.mul_assoc]
  have hbody : flowfield_body sf st = ((flowfield_header sf st).2.2.emit
      (flowText sf st.fmt (flowfield_header sf st).2.1
        (min 3 (u32At data p * u32At data (p + 4) * u32At data (p + 8) * u32At data (p + 12))))
      (flowIdx (3 * (u32At data p * u32At data (p + 4) * u32At data (p + 8)
        * u32At data (p + 12)))
        (min 3 (u32At data p * u32At data (p + 4) * u32At data (p + 8)
          * u32At data (p + 12))))).put "\t\t- ...\n" := by
    unfold flowfield_body
    simp only [e0, e1, e2, e3, flowPreview_emit, flowfield_header_fmt, hl, hm]
  refine ⟨vb, ?_, ?_, ?_, ?_, ?_, fun buf fmt k => rfl⟩
  · rw [hbody, put_eq_emit, emit_emit, emit_file, c.1]; congr 1; omega
  · rw [hbody, put_eq_emit, emit_emit, emit_res, String.append_assoc]
  · rw [hbody, put_eq_emit, emit_emit, emit_idx, List.append_nil]
  · intro e he
    obtain ⟨k, _, hk, hmem⟩ := mem_catL_range _ e _ _ he
    simp only [flowAccess, List.mem_cons, List.mem_singleton, List.not_mem_nil, or_false] at hmem
    have hk3 : k + 1 ≤ u32At data p * u32At data (p + 4) * u32At data (p + 8)
        * u32At data (p + 12) := by omega
    rcases hmem with h | h | h <;> rw [h] <;> simp only <;> omega
  · intro k j hk hj
    rw [vb, elemAt_slice 8 data (p + 848) _ (3 * k + j) (by omega)]
    rfl

set_option maxRecDepth 1000000 in
/-- C21 on the file `exampleFlowfield` with the grid size `[1, 2, 1, 2]`, whose 12
flow-vector components are the doubles 0 to 11: three vectors are shown, the
triples (0, 1, 2), (3, 4, 5) and (6, 7, 8), with the index evaluations 0 to 8 on
the array of 12 doubles. -/
theorem flow_preview_leading_witness :
    (flowfield_body bitsF64 (Run.fresh.opened exampleFlowfield)).file.pos =
        0 + (848 + 24 * (1 * 2 * 1 * 2)) ∧
      flowText bitsF64 FloatFmt.default
          (slice exampleFlowfield (0 + 848) (8 * (3 * (1 * 2 * 1 * 2)))) (min 3 (1 * 2 * 1 * 2)) =
        "\t\t- flow vector0 [m/s]: [#0, #1, #2]\n\t\t- flow vector1 [m/s]: [#3, #4, #5]\n"
          ++ "\t\t- flow vector2 [m/s]: [#6, #7, #8]\n" ∧
      flowIdx (3 * (1 * 2 * 1 * 2)) (min 3 (1 * 2 * 1 * 2)) =
        [(0, 12), (1, 12), (2, 12), (3, 12), (4, 12), (5, 12), (6, 12), (7, 12), (8, 12)] ∧
      (flowfield_body bitsF64 (Run.fresh.opened exampleFlowfield)).idx.drop 108 =
        flowIdx (3 * (1 * 2 * 1 * 2)) (min 3 (1 * 2 * 1 * 2)) :=
  ⟨congrArg IfStream.pos (flow_preview_leading bitsF64 (Run.fresh.opened exampleFlowfield)
      exampleFlowfield 0 1 2 1 2 rfl (by decide) (by decide) (by decide) (by decide)
      (by decide) (by decide)).2.1,
    by decide, by decide, by decide⟩

/-! ## `read_centerlines` on a complete stream -/

theorem kept_ite (c : Prop) [Decidable c] (a b : Run) (h : StreamKept a b) :
    StreamKept a (if c then b else a) := by
  by_cases hc : c
  · simp only [hc, if_true]; exact h
  · simp only [hc, if_false]; exact StreamKept.same a

theorem kept_ite_loop (c : Prop) [Decidable c] (a : Run) (n : Nat) (body : Nat → Run → Run)
    (t : String) (hb : ∀ j s, StreamKept s (body j s)) :
    StreamKept a (if c then (forLoop n body a).put t else a) :=
  kept_ite c a _ (((StreamKept.same a).then_loop body hb n).over_put t)

theorem clStart_mono (data : List Nat) (q : Nat) :
    ∀ (j i : Nat), i ≤ j → clStart data q i ≤ clStart data q j := by
  intro j
  induction j with
  | zero => intro i hi; rw [Nat.le_zero.mp hi]
  | succ j ih =>
    intro i hi
    rcases Nat.eq_or_lt_of_le hi with h | h
    · rw [h]
    · exact le_trans (ih i (by omega)) (Nat.le_add_right _ _)

theorem clStart_eq_sum (data : List Nat) (q : Nat) (k : Nat) :
    clStart data q k =
      q + ((List.range k).map (fun i => 4 + 104 * u32At data (clStart data q i))).sum := by
  induction k with
  | zero => simp [clStart]
  | succ k ih =>
    rw [List.range_succ, List.map_append, List.sum_append]
    simp only [clStart, List.map_cons, List.map_nil, List.sum_cons, List.sum_nil]
    omega

theorem centerline_consumes (sf : FloatFmt → Nat → String) (data : List Nat) (a : Run)
    (clid : Nat) (s : List Nat × Run) (q : Nat) (l : List Nat)
    (h : Consumes data a s.2 q l) (h9 : 9 * u32At data q < U32)
    (hlen : q + (4 + 104 * u32At data q) ≤ data.length) :
    Consumes data a (centerline sf clid s).2 (q + (4 + 104 * u32At data q))
      (l ++ [4, 24 * u32At data q, 8 * u32At data q, 72 * u32At data q]) := by
  unfold centerline
  lift_lets
  extract_lets r1 numPoints s1 r2 s2 r3 s3 r4 s4
  obtain ⟨g1, v1, _⟩ := h.after_read (zeros 4) 4 (by omega) (by simp [zeros])
  have hn : numPoints = u32At data q := by
    show elemAt 4 r1.1 0 = _
    rw [v1, elemAt_zero_slice]; rfl
  have k1 : StreamKept r1.2 s1 := kept_ite _ _ _ ⟨rfl, rfl⟩
  have h1 : Consumes data a s1 _ _ := g1.kept k1
  clear_value s1 r1
  have e3 : u32At data q * 3 % U32 = u32At data q * 3 := Nat.mod_eq_of_lt (by omega)
  have e9 : u32At data q * 9 % U32 = u32At data q * 9 := Nat.mod_eq_of_lt (by omega)
  have b2 : (vresize 8 s.1 (numPoints * 3 % U32)).length = 8 * (u32At data q * 3) := by
    rw [vresize_length, hn, e3]
  obtain ⟨g2, n2⟩ := h1.after_readF64s _ _ b2 (by omega)
  have k2 : StreamKept r2.2 s2 := kept_ite_loop _ _ _ _ _ (fun j s => by exact ⟨rfl, rfl⟩)
  have h2 : Consumes data a s2 _ _ := g2.kept k2
  have b3 : (vresize 8 r2.1 numPoints).length = 8 * u32At data q := by
    rw [vresize_length, hn]
  obtain ⟨g3, n3⟩ := h2.after_readF64s _ _ b3 (by omega)
  have k3 : StreamKept r3.2 s3 := kept_ite_loop _ _ _ _ _ (fun j s => by exact ⟨rfl, rfl⟩)
  have h3 : Consumes data a s3 _ _ := g3.kept k3
  have b4 : (vresize 8 r3.1 (numPoints * 9 % U32)).length = 8 * (u32At data q * 9) := by
    rw [vresize_length, hn, e9]
  obtain ⟨g4, n4⟩ := h3.after_readF64s _ _ b4 (by omega)
  have k4 : StreamKept r4.2 s4 := kept_ite_loop _ _ _ _ _ (fun j s => by
    dsimp only
    repeat with_reducible first
      | exact StreamKept.same _
      | apply StreamKept.then_tripleF64
      | apply StreamKept.over_put)
  have h4 : Consumes data a s4 _ _ := g4.kept k4
  exact h4.recount (by omega) (by simp; omega)

theorem centerlines_consumes (sf : FloatFmt → Nat → String) (data : List Nat) (st : Run)
    (p : Nat) (hf : st.file = ⟨data, p, true⟩)
    (h9 : ∀ i, i < u32At data p → 9 * u32At data (clStart data (p + 4) i) < U32)
    (hlen : clStart data (p + 4) (u32At data p) ≤ data.length) :
    Consumes data st (centerlines_body sf st) (clStart data (p + 4) (u32At data p))
      ([4] ++ catL ((List.range (u32At data p)).map (fun i =>
        [4, 24 * u32At data (clStart data (p + 4) i), 8 * u32At data (clStart data (p + 4) i),
          72 * u32At data (clStart data (p + 4) i)]))) := by
  have h4 : p + 4 ≤ data.length :=
    le_trans (clStart_mono data (p + 4) _ 0 (Nat.zero_le _)) hlen
  unfold centerlines_body
  lift_lets
  extract_lets r numCenterlines s1
  have h0 := Consumes.start data st p hf
  obtain ⟨g1, v1, _⟩ := h0.after_read (zeros 4) 4 (by omega) (by simp [zeros])
  have hn : numCenterlines = u32At data p := by
    show elemAt 4 r.1 0 = _
    rw [v1, elemAt_zero_slice]; rfl
  have h1 : Consumes data st s1 _ _ := g1.after_put _
  clear_value s1 numCenterlines r
  subst hn
  have inv := forFrom_inv (centerline sf)
    (fun i s => Consumes data st s.2 (clStart data (p + 4) i)
      ([4] ++ catL ((List.range i).map (fun i =>
        [4, 24 * u32At data (clStart data (p + 4) i), 8 * u32At data (clStart data (p + 4) i),
          72 * u32At data (clStart data (p + 4) i)]))))
    (u32At data p) 0 ([], s1)
    (h1.recount rfl (by simp [catL]))
    (by
      intro j s _ hj hP
      have hend : clStart data (p + 4) (j + 1) ≤ data.length :=
        le_trans (clStart_mono data (p + 4) _ (j + 1) (by omega)) hlen
      have hc := centerline_consumes sf data st j s _ _ hP (h9 j (by omega)) hend
      refine hc.recount rfl ?_
      rw [List.range_succ, List.map_append, catL_append]
      simp [catL])
  simp only [Nat.zero_add] at inv
  exact inv

/-! ## The previews of `read_centerlines` on every stream -/

theorem forFrom_idx (body : Nat → Run → Run) (I : Nat → List (Nat × Nat)) :
    ∀ (k i : Nat) (s : Run),
      (∀ j s, i ≤ j → j < i + k → (body j s).idx = s.idx ++ I j) →
      (forFrom body i k s).idx = s.idx ++ catL ((List.range' i k).map I) := by
  intro k
  induction k with
  | zero => intro i s _; simp [forFrom, catL]
  | succ k ih =>
    intro i s h
    simp only [forFrom, List.range', List.map, catL]
    rw [ih (i + 1) (body i s) (fun j s h1 h2 => h j s (by omega) (by omega)),
      h i s (le_refl _) (by omega), List.append_assoc]

theorem read_length_any (st : Run) (buf : List Nat) (n : Nat) (hn : n ≤ buf.length) :
    (st.read buf n).1.length = buf.length := by
  unfold Run.read IfStream.extract
  by_cases hg : st.file.good = true
  · have hl := slice_length_le st.file.data st.file.pos n
    simp only [hg, if_true, List.length_append, List.length_drop]
    omega
  · simp only [hg, if_false, Bool.false_eq_true, List.length_append, List.length_drop,
      List.length_nil]
    omega

theorem readF64s_length_any (st : Run) (buf : List Nat) :
    (st.readF64s buf).1.length = buf.length :=
  read_length_any st buf _ (Nat.div_mul_le_self _ _)

theorem triple_idx (sf : FloatFmt → Nat → String) (close : String) (buf : List Nat)
    (off : Nat) (h : off + 2 < U32) (s : Run) :
    (putTripleF64 sf close buf off s).idx =
      s.idx ++ [(off, buf.length / 8), (off + 1, buf.length / 8), (off + 2, buf.length / 8)] := by
  have h1 : (off + 1) % U32 = off + 1 := Nat.mod_eq_of_lt (by omega)
  have h2 : (off + 2) % U32 = off + 2 := Nat.mod_eq_of_lt h
  simp only [putTripleF64, h1, h2, putF64At_eq_emit, put_eq_emit, emit_emit, emit_idx,
    List.nil_append, List.append_nil, List.cons_append]

theorem centerline_idx (sf : FloatFmt → Nat → String) (clid : Nat) (s : List Nat × Run) :
    (centerline sf clid s).2.idx = s.2.idx ++
      (if clid < NUM_DEMO then clIdx (elemAt 4 (s.2.read (zeros 4) 4).1 0) else []) := by
  unfold centerline
  lift_lets
  extract_lets r1 numPoints s1 r2 s2 r3 s3 r4 s4
  by_cases hc : clid < NUM_DEMO
  · have i1 : s1.idx = s.2.idx := by
      show (if clid < NUM_DEMO then _ else _ : Run).idx = _
      rw [if_pos hc]; rfl
    have l2 : r2.1.length / 8 = numPoints * 3 % U32 := by
      rw [show r2.1.length = _ from readF64s_length_any _ _, vresize_length]
      omega
    have i2 : s2.idx = s1.idx ++ catL ((List.range' 0 (min NUM_DEMO numPoints)).map (fun i =>
        [(3 * i, numPoints * 3 % U32), (3 * i + 1, numPoints * 3 % U32),
          (3 * i + 2, numPoints * 3 % U32)])) := by
      show (if clid < NUM_DEMO then _ else _ : Run).idx = _
      rw [if_pos hc, put_eq_emit, emit_idx, List.append_nil]
      unfold forLoop
      rw [forFrom_idx _ (fun i => [(3 * i, numPoints * 3 % U32), (3 * i + 1, numPoints * 3 % U32),
        (3 * i + 2, numPoints * 3 % U32)])]
      · rfl
      · intro j t _ hj
        have hj3 : j < 3 := lt_of_lt_of_le (by simpa using hj) (Nat.min_le_left _ _)
        have e : j * 3 % U32 = 3 * j := by
          rw [Nat.mod_eq_of_lt (by unfold U32; omega)]; omega
        rw [e, triple_idx sf _ _ (3 * j) (by unfold U32; omega), put_eq_emit, emit_idx, l2,
          List.append_nil]
    have l3 : r3.1.length / 8 = numPoints := by
      rw [show r3.1.length = _ from readF64s_length_any _ _, vresize_length]
      omega
    have i3 : s3.idx = s2.idx ++ catL ((List.range' 0 (min NUM_DEMO numPoints)).map (fun i =>
        [(i, numPoints)])) := by
      show (if clid < NUM_DEMO then _ else _ : Run).idx = _
      rw [if_pos hc, put_eq_emit, emit_idx, List.append_nil]
      unfold forLoop
      rw [forFrom_idx _ (fun i => [(i, numPoints)])]
      · rfl
      · intro j t _ _
        rw [put_eq_emit, putF64At_eq_emit, put_eq_emit, emit_emit, emit_emit, emit_idx, l3]
        rfl
    have l4 : r4.1.length / 8 = numPoints * 9 % U32 := by
      rw [show r4.1.length = _ from readF64s_length_any _ _, vresize_length]
      omega
    have i4 : s4.idx = s3.idx ++ catL ((List.range' 0 (min NUM_DEMO numPoints)).map (fun i =>
        [(9 * i, numPoints * 9 % U32), (9 * i + 1, numPoints * 9 % U32),
          (9 * i + 2, numPoints * 9 % U32), (9 * i + 3, numPoints * 9 % U32),
          (9 * i + 4, numPoints * 9 % U32), (9 * i + 5, numPoints * 9 % U32),
          (9 * i + 6, numPoints * 9 % U32), (9 * i + 7, numPoints * 9 % U32),
          (9 * i + 8, numPoints * 9 % U32)])) := by
      show (if clid < NUM_DEMO then _ else _ : Run).idx = _
      rw [if_pos hc, put_eq_emit, emit_idx, List.append_nil]
      unfold forLoop
      rw [forFrom_idx _ (fun i => [(9 * i, numPoints * 9 % U32), (9 * i + 1, numPoints * 9 % U32),
          (9 * i + 2, numPoints * 9 % U32), (9 * i + 3, numPoints * 9 % U32),
          (9 * i + 4, numPoints * 9 % U32), (9 * i + 5, numPoints * 9 % U32),
          (9 * i + 6, numPoints * 9 % U32), (9 * i + 7, numPoints * 9 % U32),
          (9 * i + 8, numPoints * 9 % U32)])]
      · rfl
      · intro j t _ hj
        have hj3 : j < 3 := lt_of_lt_of_le (by simpa using hj) (Nat.min_le_left _ _)
        have e : j * 9 % U32 = 9 * j := by
          rw [Nat.mod_eq_of_lt (by unfold U32; omega)]; omega
        have e0 : (9 * j + 0) % U32 = 9 * j := Nat.mod_eq_of_lt (by unfold U32; omega)
        have e3 : (9 * j + 3) % U32 = 9 * j + 3 := Nat.mod_eq_of_lt (by unfold U32; omega)
        have e6 : (9 * j + 6) % U32 = 9 * j + 6 := Nat.mod_eq_of_lt (by unfold U32; omega)
        have t0 := fun c s => triple_idx sf c r4.1 (9 * j) (by unfold U32; omega) s
        have t3 := fun c s => triple_idx sf c r4.1 (9 * j + 3) (by unfold U32; omega) s
        have t6 := fun c s => triple_idx sf c r4.1 (9 * j + 6) (by unfold U32; omega) s
        dsimp only
        rw [e, e0, e3, e6]
        simp only [t0, t3, t6, put_eq_emit, emit_idx, l4, List.append_nil, List.append_assoc,
          List.cons_append, List.nil_append, Nat.add_assoc, Nat.reduceAdd]
    show s4.idx = _
    rw [if_pos hc, i4, i3, i2, i1]
    simp only [clIdx, List.append_assoc]
  · show (if clid < NUM_DEMO then _ else _ : Run).idx = _
    rw [if_neg hc, if_neg hc]
    show (if clid < NUM_DEMO then _ else _ : Run).idx = _
    rw [if_neg hc]
    show (if clid < NUM_DEMO then _ else _ : Run).idx = _
    rw [if_neg hc]
    show (if clid < NUM_DEMO then _ else _ : Run).idx = _
    rw [if_neg hc, List.append_nil]
    rfl


theorem centerlines_loop_idx (sf : FloatFmt → Nat → String) :
    ∀ (k clid : Nat) (s : List Nat × Run),
      (forFrom (centerline sf) clid k s).2.idx = s.2.idx ++
        catL (((pointCounts sf clid k s).take (NUM_DEMO - clid)).map clIdx) := by
  intro k
  induction k with
  | zero => intro clid s; simp [forFrom, pointCounts, catL]
  | succ k ih =>
    intro clid s
    simp only [forFrom, pointCounts]
    rw [ih (clid + 1) (centerline sf clid s), centerline_idx]
    by_cases hc : clid < NUM_DEMO
    · have e : NUM_DEMO - clid = (NUM_DEMO - (clid + 1)) + 1 := by omega
      rw [if_pos hc, e, List.take_succ_cons, List.map_cons, catL, List.append_assoc]
    · have e : NUM_DEMO - clid = 0 := by omega
      have e1 : NUM_DEMO - (clid + 1) = 0 := by omega
      rw [if_neg hc, e, e1]
      simp [catL]

theorem centerlines_idx (sf : FloatFmt → Nat → String) (st : Run) :
    (centerlines_body sf st).idx =
      st.idx ++ catL (((centerlineCounts sf st).take NUM_DEMO).map clIdx) := by
  unfold centerlines_body centerlineCounts forLoop
  lift_lets
  extract_lets r numCenterlines s1
  rw [centerlines_loop_idx]
  rfl

theorem pointCounts_length (sf : FloatFmt → Nat → String) :
    ∀ (k clid : Nat) (s : List Nat × Run), (pointCounts sf clid k s).length = k := by
  intro k
  induction k with
  | zero => intro clid s; rfl
  | succ k ih => intro clid s; simp only [pointCounts, List.length_cons, ih]

theorem clIdx_bounds (P : Nat) (h9 : 9 * P < U32) : ∀ e ∈ clIdx P, e.1 < e.2 := by
  intro e he
  have e3 : P * 3 % U32 = P * 3 := Nat.mod_eq_of_lt (by omega)
  have e9 : P * 9 % U32 = P * 9 := Nat.mod_eq_of_lt (by omega)
  simp only [clIdx, List.mem_append] at he
  rcases he with (he | he) | he
  · obtain ⟨k, _, hk, hmem⟩ := mem_catL_range _ e _ _ he
    have hkP : k < P := lt_of_lt_of_le (by simpa using hk) (Nat.min_le_right _ _)
    simp only [List.mem_cons, List.mem_singleton, List.not_mem_nil, or_false] at hmem
    rcases hmem with h | h | h <;> rw [h, e3] <;> simp only <;> omega
  · obtain ⟨k, _, hk, hmem⟩ := mem_catL_range _ e _ _ he
    have hkP : k < P := lt_of_lt_of_le (by simpa using hk) (Nat.min_le_right _ _)
    simp only [List.mem_cons, List.mem_singleton, List.not_mem_nil, or_false] at hmem
    rw [hmem]
    exact hkP
  · obtain ⟨k, _, hk, hmem⟩ := mem_catL_range _ e _ _ he
    have hkP : k < P := lt_of_lt_of_le (by simpa using hk) (Nat.min_le_right _ _)
    simp only [List.mem_cons, List.mem_singleton, List.not_mem_nil, or_false] at hmem
    rcases hmem with h | h | h | h | h | h | h | h | h <;> rw [h, e9] <;> simp only <;> omega

theorem catL_map_length {α : Type} (f : Nat → List α) (n : Nat) :
    ∀ (m c : Nat), (∀ k, (f k).length = n) →
      (catL ((List.range' c m).map f)).length = m * n := by
  intro m
  induction m with
  | zero => intro c _; simp [catL]
  | succ m ih =>
    intro c h
    simp only [List.range', List.map, catL, List.length_append, ih (c + 1) h, h]
    rw [Nat.succ_mul]; omega

theorem clIdx_length (P : Nat) : (clIdx P).length = 13 * min NUM_DEMO P := by
  simp only [clIdx, List.length_append]
  rw [catL_map_length _ 3, catL_map_length _ 1, catL_map_length _ 9]
  · omega
  · intro k; rfl
  · intro k; rfl
  · intro k; rfl

/-! ## C24 -/

set_option maxRecDepth 100000 in
/-- C24, the failing input: the sizes `numPoints * 3` and `numPoints * 9` of the
buffers are computed in 32-bit unsigned arithmetic.  On the file
`overflowCenterlines` of 8 bytes, one centerline with `numPoints = 1431655766`,
the array of points is resized to `3 * 1431655766 mod 2^32 = 2` doubles, and the
preview of the `min(3, numPoints) = 3` points evaluates it at the indices 0 to 8. -/
theorem centerlines_bounds_counterexample :
    centerlineCounts bitsF64 (Run.fresh.opened overflowCenterlines) = [1431655766] ∧
      1431655766 * 3 % U32 = 2 ∧
      (centerlines_body bitsF64 (Run.fresh.opened overflowCenterlines)).idx.take 9 =
        [(0, 2), (1, 2), (2, 2), (3, 2), (4, 2), (5, 2), (6, 2), (7, 2), (8, 2)] := by
  have hc : centerlineCounts bitsF64 (Run.fresh.opened overflowCenterlines) = [1431655766] := by
    decide
  refine ⟨hc, by decide, ?_⟩
  rw [centerlines_idx, hc]
  decide

/-- C24, on the code.  On every stream and call state on which `9 * P < 2^32` holds
for the rendered centerlines: `read_centerlines` evaluates
buffer elements only in the previews of the first `min(3, numCenterlines)`
centerlines; for a centerline with `numPoints = P` these are the evaluations
`clIdx P`, `13 * min(3, P)` of them (three coordinates, one radius and nine
components of the local coordinate system for each of the first `min(3, P)`
points); and every evaluated index is below the length of its array, also for
`P` = 0, 1 or 2.
`centerlineCounts` are the values of `numPoints` the decoder decodes, one per
centerline. -/
theorem centerlines_preview_bounds (sf : FloatFmt → Nat → String) (st : Run)
    (h9 : ∀ P ∈ (centerlineCounts sf st).take NUM_DEMO, 9 * P < U32) :
    (centerlines_body sf st).idx =
        st.idx ++ catL (((centerlineCounts sf st).take NUM_DEMO).map clIdx) ∧
      (centerlineCounts sf st).length = elemAt 4 (st.read (zeros 4) 4).1 0 ∧
      (∀ P, (clIdx P).length = 13 * min NUM_DEMO P) ∧
      (∀ e ∈ catL (((centerlineCounts sf st).take NUM_DEMO).map clIdx), e.1 < e.2) := by
  refine ⟨centerlines_idx sf st, pointCounts_length sf _ _ _, clIdx_length, ?_⟩
  generalize (centerlineCounts sf st).take NUM_DEMO = L at h9
  induction L with
  | nil => intro e he; simp [catL] at he
  | cons P L ih =>
    intro e he
    simp only [List.map_cons, catL, List.mem_append] at he
    rcases he with he | he
    · exact clIdx_bounds P (h9 P (List.mem_cons_self _ _)) e he
    · exact ih (fun Q hQ => h9 Q (List.mem_cons_of_mem _ hQ)) e he

set_option maxRecDepth 1000000 in
/-- C24 on the file `exampleCenterlines` with four centerlines of 1, 2, 0
and 5 points: the previews of the first three evaluate 13, 26 and 0 elements, all
within their arrays, and the fourth centerline is not rendered. -/
theorem centerlines_preview_bounds_witness :
    centerlineCounts bitsF64 (Run.fresh.opened exampleCenterlines) = [1, 2, 0, 5] ∧
      (centerlines_body bitsF64 (Run.fresh.opened exampleCenterlines)).idx.length = 39 ∧
      (∀ e ∈ catL (((centerlineCounts bitsF64 (Run.fresh.opened exampleCenterlines)).take
        NUM_DEMO).map clIdx), e.1 < e.2) ∧
      clIdx 1 = [(0, 3), (1, 3), (2, 3), (0, 1), (0, 9), (1, 9), (2, 9), (3, 9), (4, 9), (5, 9),
        (6, 9), (7, 9), (8, 9)] ∧
      (centerlines_body bitsF64 (Run.fresh.opened exampleCenterlines)).res =
        "\t- num. centerlines: 4\n\t\t- num. points of centerline 0: 1\n"
          ++ "\t\t\t- point0: [#0, #1, #2]\n\t\t\t- ...\n"
          ++ "\t\t\t- point0 vessel radius [mm]: #3\n\t\t\t- ...\n"
          ++ "\t\t\t- LCS at point0: X=[#4, #5, #6], Y=[#7, #8, #9], Z=[#10, #11, #12]\n"
          ++ "\t\t\t- ...\n\t\t- num. points of centerline 1: 2\n"
          ++ "\t\t\t- point0: [#0, #1, #2]\n\t\t\t- point1: [#3, #4, #5]\n\t\t\t- ...\n"
          ++ "\t\t\t- point0 vessel radius [mm]: #6\n"
          ++ "\t\t\t- point1 vessel radius [mm]: #7\n\t\t\t- ...\n"
          ++ "\t\t\t- LCS at point0: X=[#8, #9, #10], Y=[#11, #12, #13], Z=[#14, #15, #16]\n"
          ++ "\t\t\t- LCS at point1: X=[#17, #18, #19], Y=[#20, #21, #22], "
          ++ "Z=[#23, #24, #25]\n\t\t\t- ...\n"
          ++ "\t\t- num. points of centerline 2: 0\n\t\t\t- ...\n\t\t\t- ...\n"
          ++ "\t\t\t- ...\n" :=
  ⟨by decide, by decide,
    (centerlines_preview_bounds bitsF64 (Run.fresh.opened exampleCenterlines)
      (by decide)).2.2.2,
    by decide, by decide⟩


/-! ## `read_flow_jet` on a complete stream -/

theorem jetVec3_consumes (sf : FloatFmt → Nat → String) (shown : Bool) (label : String)
    (data : List Nat) (a : Run) (s : List Nat × Run) (q : Nat) (l : List Nat)
    (h : Consumes data a s.2 q l) (hlen : q + 24 ≤ data.length) :
    Consumes data a (jetVec3 sf shown label s).2 (q + 24) (l ++ [24]) := by
  unfold jetVec3
  obtain ⟨g, _⟩ := h.after_readF64s (vresize 8 s.1 3) 3 (vresize_length _ _ _) (by omega)
  cases shown
  · exact g
  · exact g.kept ⟨rfl, rfl⟩

theorem jetScalar_consumes (sf : FloatFmt → Nat → String) (shown : Bool) (label : String)
    (data : List Nat) (a : Run) (s : List Nat × Run) (q : Nat) (l : List Nat)
    (h : Consumes data a s.2 q l) (hlen : q + 8 ≤ data.length) :
    Consumes data a (jetScalar sf shown label s).2 (q + 8) (l ++ [8]) := by
  unfold jetScalar
  obtain ⟨g, _⟩ := h.after_readF64s (vresize 8 s.1 1) 1 (vresize_length _ _ _) (by omega)
  cases shown
  · exact g
  · exact g.kept ⟨rfl, rfl⟩

theorem jetSample_consumes (sf : FloatFmt → Nat → String) (cnt pointid timeid : Nat)
    (data : List Nat) (a : Run) (s : List Nat × Run) (q : Nat) (l : List Nat)
    (h : Consumes data a s.2 q l) (hlen : q + 120 ≤ data.length) :
    Consumes data a (jetSample sf cnt pointid timeid s).2 (q + 120)
      (l ++ [24, 8, 24, 24, 8, 24, 8]) := by
  unfold jetSample
  lift_lets
  extract_lets shown st s1 s2 s3 s4 s5 s6
  have k0 : StreamKept s.2 st := kept_ite _ _ _ ⟨rfl, rfl⟩
  have h0 : Consumes data a (s.1, st).2 q l := h.kept k0
  have h1 := jetVec3_consumes sf shown "\t\t\t\t- peak velocity position: " data a _ _ _ h0
    (by omega)
  have h2 := jetScalar_consumes sf shown "\t\t\t\t- peak velocity [m/s]: " data a _ _ _ h1
    (by omega)
  have h3 := jetVec3_consumes sf shown "\t\t\t\t- area center: " data a _ _ _ h2 (by omega)
  have h4 := jetVec3_consumes sf shown "\t\t\t\t- area dir0: " data a _ _ _ h3 (by omega)
  have h5 := jetScalar_consumes sf shown "\t\t\t\t- area radius0 [mm]: " data a _ _ _ h4
    (by omega)
  have h6 := jetVec3_consumes sf shown "\t\t\t\t- area dir1: " data a _ _ _ h5 (by omega)
  have h7 := jetScalar_consumes sf shown "\t\t\t\t- area radius1 [mm]: " data a _ _ _ h6
    (by omega)
  exact h7.recount (by omega) (by simp)

theorem catL_replicate_snoc {α : Type} (x : List α) (n : Nat) :
    catL (List.replicate (n + 1) x) = catL (List.replicate n x) ++ x := by
  rw [List.replicate_succ', catL_append]
  simp [catL]

theorem jetPoint_consumes (sf : FloatFmt → Nat → String) (T pointid : Nat)
    (data : List Nat) (a : Run) (s : Nat × List Nat × Run) (q : Nat) (l : List Nat)
    (h : Consumes data a s.2.2 q l) (hlen : q + (120 * T + 80) ≤ data.length) :
    Consumes data a (jetPoint sf T pointid s).2.2 (q + (120 * T + 80))
      (l ++ (catL (List.replicate T [24, 8, 24, 24, 8, 24, 8]) ++ [24, 8, 24, 24])) := by
  unfold jetPoint
  lift_lets
  extract_lets cnt ds shown st d1 d2 d3 d4
  have inv := forFrom_inv (jetSample sf cnt pointid)
    (fun i s => Consumes data a s.2 (q + 120 * i)
      (l ++ catL (List.replicate i [24, 8, 24, 24, 8, 24, 8])))
    T 0 s.2 (h.recount rfl (by simp [catL]))
    (by
      intro j t _ hj hP
      have hc := jetSample_consumes sf cnt pointid j data a t _ _ hP (by omega)
      exact hc.recount (by omega) (by rw [catL_replicate_snoc, List.append_assoc]))
  simp only [Nat.zero_add] at inv
  have hds : Consumes data a ds.2 (q + 120 * T)
      (l ++ catL (List.replicate T [24, 8, 24, 24, 8, 24, 8])) := inv
  clear_value ds
  have k0 : StreamKept ds.2 st := kept_ite _ _ _ ⟨rfl, rfl⟩
  have h0 : Consumes data a (ds.1, st).2 _ _ := hds.kept k0
  have h1 := jetVec3_consumes sf shown "\t\t\t- vessel center: " data a _ _ _ h0 (by omega)
  have h2 := jetScalar_consumes sf shown "\t\t\t- vessel radius [mm]: " data a _ _ _ h1
    (by omega)
  have h3 := jetVec3_consumes sf shown "\t\t\t- x direction of local coordinate system: " data a
    _ _ _ h2 (by omega)
  have h4 := jetVec3_consumes sf shown "\t\t\t- y direction of local coordinate system: " data a
    _ _ _ h3 (by omega)
  exact h4.recount (by omega) (by simp)

theorem flowJet_consumes (sf : FloatFmt → Nat → String) (fjid : Nat)
    (data : List Nat) (a : Run) (st : Run) (q : Nat) (l : List Nat)
    (h : Consumes data a st q l) (hlen : q + jetSize data q ≤ data.length) :
    Consumes data a (flowJet sf fjid st) (q + jetSize data q)
      (l ++ jetReadLog (u32At data q) (u32At data (q + 4))) := by
  unfold jetSize at hlen ⊢
  unfold flowJet
  lift_lets
  extract_lets s0 r1 numPoints s1 r2 numTimes s2
  have h0 : Consumes data a s0 q l := h.after_put _
  obtain ⟨g1, v1, _⟩ := h0.after_read (zeros 4) 4 (by omega) (by simp [zeros])
  have hP : numPoints = u32At data q := by
    show elemAt 4 r1.1 0 = _
    rw [v1, elemAt_zero_slice]; rfl
  have h1 : Consumes data a s1 _ _ := g1.after_put _
  obtain ⟨g2, v2, _⟩ := h1.after_read (zeros 4) 4 (by omega) (by simp [zeros])
  have hT : numTimes = u32At data (q + 4) := by
    show elemAt 4 r2.1 0 = _
    rw [v2, elemAt_zero_slice]; rfl
  have h2 : Consumes data a s2 _ _ := g2.after_put _
  clear_value s0 r1 s1 r2 s2 numPoints numTimes
  subst hP hT
  have inv := forFrom_inv (jetPoint sf (u32At data (q + 4)))
    (fun i s => Consumes data a s.2.2 (q + 8 + i * (120 * u32At data (q + 4) + 80))
      (l ++ [4, 4] ++ catL (List.replicate i
        (catL (List.replicate (u32At data (q + 4)) [24, 8, 24, 24, 8, 24, 8])
          ++ [24, 8, 24, 24]))))
    (u32At data q) 0 (0, [], s2) (h2.recount (by omega) (by simp [catL]))
    (by
      intro j t _ hj hP
      have hle : (j + 1) * (120 * u32At data (q + 4) + 80) ≤
          u32At data q * (120 * u32At data (q + 4) + 80) := Nat.mul_le_mul_right _ (by omega)
      have hs : (j + 1) * (120 * u32At data (q + 4) + 80) =
          j * (120 * u32At data (q + 4) + 80) + (120 * u32At data (q + 4) + 80) :=
        Nat.succ_mul _ _
      have hc := jetPoint_consumes sf (u32At data (q + 4)) j data a t _ _ hP (by omega)
      exact hc.recount (by omega) (by rw [catL_replicate_snoc, List.append_assoc]))
  simp only [Nat.zero_add] at inv
  refine Consumes.recount inv (by omega) ?_
  simp [jetReadLog, List.append_assoc]

theorem jetStart_mono (data : List Nat) (q : Nat) :
    ∀ (j i : Nat), i ≤ j → jetStart data q i ≤ jetStart data q j := by
  intro j
  induction j with
  | zero => intro i hi; rw [Nat.le_zero.mp hi]
  | succ j ih =>
    intro i hi
    rcases Nat.eq_or_lt_of_le hi with h | h
    · rw [h]
    · exact le_trans (ih i (by omega)) (Nat.le_add_right _ _)

theorem jetStart_eq_sum (data : List Nat) (q : Nat) (k : Nat) :
    jetStart data q k =
      q + ((List.range k).map (fun i => jetSize data (jetStart data q i))).sum := by
  induction k with
  | zero => simp [jetStart]
  | succ k ih =>
    rw [List.range_succ, List.map_append, List.sum_append]
    simp only [jetStart, List.map_cons, List.map_nil, List.sum_cons, List.sum_nil]
    omega

theorem flow_jet_consumes (sf : FloatFmt → Nat → String) (data : List Nat) (st : Run)
    (p : Nat) (hf : st.file = ⟨data, p, true⟩)
    (hlen : jetStart data (p + 4) (u32At data p) ≤ data.length) :
    Consumes data st (flow_jet_body sf st) (jetStart data (p + 4) (u32At data p))
      ([4] ++ catL ((List.range (u32At data p)).map (fun i =>
        jetReadLog (u32At data (jetStart data (p + 4) i))
          (u32At data (jetStart data (p + 4) i + 4))))) := by
  have h4 : p + 4 ≤ data.length :=
    le_trans (jetStart_mono data (p + 4) _ 0 (Nat.zero_le _)) hlen
  unfold flow_jet_body
  lift_lets
  extract_lets r numFlowjets s1
  have h0 := Consumes.start data st p hf
  obtain ⟨g1, v1, _⟩ := h0.after_read (zeros 4) 4 (by omega) (by simp [zeros])
  have hn : numFlowjets = u32At data p := by
    show elemAt 4 r.1 0 = _
    rw [v1, elemAt_zero_slice]; rfl
  have h1 : Consumes data st s1 _ _ := g1.after_put _
  clear_value s1 numFlowjets r
  subst hn
  have inv := forFrom_inv (flowJet sf)
    (fun i s => Consumes data st s (jetStart data (p + 4) i)
      ([4] ++ catL ((List.range i).map (fun i =>
        jetReadLog (u32At data (jetStart data (p + 4) i))
          (u32At data (jetStart data (p + 4) i + 4))))))
    (u32At data p) 0 s1
    (h1.recount rfl (by simp [catL]))
    (by
      intro j s _ hj hP
      have hend : jetStart data (p + 4) (j + 1) ≤ data.length :=
        le_trans (jetStart_mono data (p + 4) _ (j + 1) (by omega)) hlen
      have hc := flowJet_consumes sf j data st s _ _ hP hend
      refine hc.recount rfl ?_
      rw [List.range_succ, List.map_append, catL_append]
      simp [catL])
  simp only [Nat.zero_add] at inv
  exact inv

/-! ## C25 -/

set_option maxRecDepth 100000 in
/-- C25.  On a good stream that holds at `p` a count `j` and after it `j` complete
flow jets back to back (flow jet `i` starts at `jetStart data (p + 4) i`, with
`numPoints = P_i` at that byte and `numTimes = T_i` four bytes later),
`read_flow_jet` consumes up to the end of the last flow jet, that is 4 bytes plus
the sum of `8 + P_i * (120 * T_i + 80)`; per flow jet it requests the two counts
and then, for each point, `T_i` times the reads of 3, 1, 3, 3, 1, 3, 1 doubles
followed by the reads of 3, 1, 3, 3 doubles (`jetReadLog`). -/
theorem flow_jet_consumes_exactly (sf : FloatFmt → Nat → String) (st : Run)
    (data : List Nat) (p j : Nat) (hf : st.file = ⟨data, p, true⟩) (hj : u32At data p = j)
    (hlen : jetStart data (p + 4) j ≤ data.length) :
    (flow_jet_body sf st).file = ⟨data, jetStart data (p + 4) j, true⟩ ∧
      jetStart data (p + 4) j =
        p + 4 + ((List.range j).map (fun i =>
          8 + u32At data (jetStart data (p + 4) i)
            * (120 * u32At data (jetStart data (p + 4) i + 4) + 80))).sum ∧
      (∀ i, jetStart data (p + 4) (i + 1) = jetStart data (p + 4) i +
        (8 + u32At data (jetStart data (p + 4) i)
          * (120 * u32At data (jetStart data (p + 4) i + 4) + 80))) ∧
      (flow_jet_body sf st).reads =
        st.reads ++ ([4] ++ catL ((List.range j).map (fun i =>
          jetReadLog (u32At data (jetStart data (p + 4) i))
            (u32At data (jetStart data (p + 4) i + 4))))) ∧
      (∀ P T, jetReadLog P T = [4, 4] ++ catL (List.replicate P
        (catL (List.replicate T [8 * 3, 8 * 1, 8 * 3, 8 * 3, 8 * 1, 8 * 3, 8 * 1])
          ++ [8 * 3, 8 * 1, 8 * 3, 8 * 3]))) := by
  subst hj
  obtain ⟨h1, h2⟩ := flow_jet_consumes sf data st p hf hlen
  exact ⟨h1, jetStart_eq_sum data (p + 4) _, fun i => rfl, h2, fun P T => rfl⟩

set_option maxRecDepth 1000000 in
/-- C25 on the file `exampleFlowJets` with two flow jets, of 2 points and 1 time
and of 1 point and 0 times: the second flow jet starts at byte 412 and all
`4 + (8 + 2 * 200) + (8 + 80) = 500` bytes are consumed. -/
theorem flow_jet_consumes_exactly_witness :
    (jetStart exampleFlowJets 4 1, jetStart exampleFlowJets 4 2) = (412, 500) ∧
      (flow_jet_body bitsF64 (Run.fresh.opened exampleFlowJets)).file =
        ⟨exampleFlowJets, jetStart exampleFlowJets (0 + 4) 2, true⟩ ∧
      (flow_jet_body bitsF64 (Run.fresh.opened exampleFlowJets)).reads =
        [4] ++ ([4, 4] ++ [24, 8, 24, 24, 8, 24, 8] ++ [24, 8, 24, 24]
          ++ [24, 8, 24, 24, 8, 24, 8] ++ [24, 8, 24, 24])
          ++ ([4, 4] ++ [24, 8, 24, 24]) :=
  ⟨by decide,
    (flow_jet_consumes_exactly bitsF64 (Run.fresh.opened exampleFlowJets)
      exampleFlowJets 0 2 rfl (by decide) (by decide)).1,
    by decide⟩


/-! ## `read_dicom_tags`: the sizes and spacings of an image -/

theorem leNat_take_two (l : List Nat) : leNat (l.take 2) = leNat l % 65536 := by
  match l with
  | [] => rfl
  | [a] => simp only [List.take, leNat]; omega
  | a :: b :: rest => simp only [List.take, leNat]; omega

theorem u16_of_u32 (data : List Nat) (p : Nat) : u16At data p = u32At data p % 65536 := by
  unfold u16At u32At
  rw [← leNat_take_two]
  congr 1
  simp [slice, List.take_take]

theorem tagU16_reaches (data : List Nat) (a st : Run) (label : String) (q : Nat)
    (l : List Nat) (t : String) (h : Reaches data a st q l t) (hn : q + 2 ≤ data.length) :
    Reaches data a (tagU16 st label) (q + 2) (l ++ [2])
      (t ++ (label ++ toString (u16At data q) ++ "\n")) := by
  have v := h.read_value (zeros 2) 2 hn (by simp [zeros])
  have e : elemAt 2 (st.read (zeros 2) 2).1 0 = u16At data q := by
    rw [v, elemAt_zero_slice]; rfl
  have r : Reaches data a (tagU16 st label) _ _ _ := (h.read (zeros 2) 2 hn).put
    (label ++ toString (elemAt 2 (st.read (zeros 2) 2).1 0) ++ "\n")
  rw [e] at r
  exact r

theorem tagF64_reaches (sf : FloatFmt → Nat → String) (data : List Nat) (a st : Run)
    (label : String) (q : Nat) (l : List Nat) (t : String) (h : Reaches data a st q l t)
    (hn : q + 8 ≤ data.length) :
    Reaches data a (tagF64 sf st label) (q + 8) (l ++ [8])
      (t ++ (label ++ sf a.fmt (f64At data q) ++ "\n")) := by
  have v := h.read_value (zeros 8) 8 hn (by simp [zeros])
  have e : elemAt 8 (st.read (zeros 8) 8).1 0 = f64At data q := by
    rw [v, elemAt_zero_slice]; rfl
  have r := h.read (zeros 8) 8 hn
  refine ⟨r.1, r.2.1, ?_, r.2.2.2⟩
  show (st.read (zeros 8) 8).2.res ++ label
    ++ sf (st.read (zeros 8) 8).2.fmt (elemAt 8 (st.read (zeros 8) 8).1 0) ++ "\n" = _
  rw [e, r.2.2.1, r.2.2.2]
  simp only [String.append_assoc]

theorem dicom_geometry_reaches (sf : FloatFmt → Nat → String) (data : List Nat) (a st : Run)
    (q : Nat) (l : List Nat) (t : String) (h : Reaches data a st q l t)
    (hlen : q + 48 ≤ data.length) :
    Reaches data a (dicom_geometry sf st) (q + 48) (l ++ [2, 2, 2, 2, 2, 2, 4, 8, 8, 8, 8])
      (t ++ ("\t\t- DICOM image ID: " ++ toString (u16At data q) ++ "\n"
        ++ "\t\t\t- nDimensions: " ++ toString (u16At data (q + 2)) ++ "\n"
        ++ "\t\t\t- Rows: " ++ toString (u16At data (q + 4)) ++ "\n"
        ++ "\t\t\t- Columns: " ++ toString (u16At data (q + 6)) ++ "\n"
        ++ "\t\t\t- Slices: " ++ toString (u16At data (q + 8)) ++ "\n"
        ++ "\t\t\t- TemporalPositions: " ++ toString (u16At data (q + 10)) ++ "\n"
        ++ "\t\t\t- NumberOfFrames: " ++ toString (u32At data (q + 12) % 65536) ++ "\n"
        ++ "\t\t\t- RowSpacing: " ++ sf a.fmt (f64At data (q + 16)) ++ "\n"
        ++ "\t\t\t- ColSpacing: " ++ sf a.fmt (f64At data (q + 24)) ++ "\n"
        ++ "\t\t\t- SliceSpacing: " ++ sf a.fmt (f64At data (q + 32)) ++ "\n"
        ++ "\t\t\t- TemporalResolution: " ++ sf a.fmt (f64At data (q + 40)) ++ "\n")) := by
  unfold dicom_geometry
  lift_lets
  extract_lets s1 s2 s3 s4 s5 s6 r NumberOfFrames s7 s8 s9 s10
  have h1 : Reaches data a s1 _ _ _ := tagU16_reaches data a st _ q l t h (by omega)
  have h2 : Reaches data a s2 _ _ _ := tagU16_reaches data a s1 _ _ _ _ h1 (by omega)
  have h3 : Reaches data a s3 _ _ _ := tagU16_reaches data a s2 _ _ _ _ h2 (by omega)
  have h4 : Reaches data a s4 _ _ _ := tagU16_reaches data a s3 _ _ _ _ h3 (by omega)
  have h5 : Reaches data a s5 _ _ _ := tagU16_reaches data a s4 _ _ _ _ h4 (by omega)
  have h6 : Reaches data a s6 _ _ _ := tagU16_reaches data a s5 _ _ _ _ h5 (by omega)
  have v : r.1 = slice data (q + 2 + 2 + 2 + 2 + 2 + 2) 4 :=
    h6.read_value (zeros 2) 4 (by omega) (by simp [zeros])
  have e : NumberOfFrames = u32At data (q + 12) % 65536 := by
    show elemAt 2 r.1 0 = _
    rw [v, elemAt_slice 2 data _ 4 0 (by omega), ← u16_of_u32]
    rfl
  have h7 : Reaches data a s7 _ _ _ := (h6.read (zeros 2) 4 (by omega)).put _
  clear_value s1 s2 s3 s4 s5 s6 r
  rw [e] at h7
  have h8 : Reaches data a s8 _ _ _ := tagF64_reaches sf data a s7 _ _ _ _ h7 (by omega)
  have h9 : Reaches data a s9 _ _ _ := tagF64_reaches sf data a s8 _ _ _ _ h8 (by omega)
  have h10 : Reaches data a s10 _ _ _ := tagF64_reaches sf data a s9 _ _ _ _ h9 (by omega)
  have h11 := tagF64_reaches sf data a s10 "\t\t\t- TemporalResolution: " _ _ _ h10 (by omega)
  refine h11.congr (by omega) (by simp) ?_
  simp only [String.append_assoc]

/-! ## C31 -/

/-- C31.  On a good stream that holds at `q` the 48 bytes of the sizes and spacings
of an image, with the little-endian `uint32` `w` at the bytes `q + 12 .. q + 15`:
the read of `NumberOfFrames` requests 4 bytes (the seventh read), the report shows
`w mod 2^16` for it, and `RowSpacing` is the double stored 4 bytes after it, at
`q + 16`; the stream ends up good at `q + 48`. -/
theorem number_of_frames_truncated (sf : FloatFmt → Nat → String) (st : Run)
    (data : List Nat) (q w : Nat) (hf : st.file = ⟨data, q, true⟩)
    (hw : u32At data (q + 12) = w) (hlen : q + 48 ≤ data.length) :
    (dicom_geometry sf st).file = ⟨data, q + 48, true⟩ ∧
      (dicom_geometry sf st).reads = st.reads ++ [2, 2, 2, 2, 2, 2, 4, 8, 8, 8, 8] ∧
      (dicom_geometry sf st).res = st.res
        ++ ("\t\t- DICOM image ID: " ++ toString (u16At data q) ++ "\n"
        ++ "\t\t\t- nDimensions: " ++ toString (u16At data (q + 2)) ++ "\n"
        ++ "\t\t\t- Rows: " ++ toString (u16At data (q + 4)) ++ "\n"
        ++ "\t\t\t- Columns: " ++ toString (u16At data (q + 6)) ++ "\n"
        ++ "\t\t\t- Slices: " ++ toString (u16At data (q + 8)) ++ "\n"
        ++ "\t\t\t- TemporalPositions: " ++ toString (u16At data (q + 10)) ++ "\n"
        ++ "\t\t\t- NumberOfFrames: " ++ toString (w % 2 ^ 16) ++ "\n"
        ++ "\t\t\t- RowSpacing: " ++ sf st.fmt (f64At data (q + 12 + 4)) ++ "\n"
        ++ "\t\t\t- ColSpacing: " ++ sf st.fmt (f64At data (q + 24)) ++ "\n"
        ++ "\t\t\t- SliceSpacing: " ++ sf st.fmt (f64At data (q + 32)) ++ "\n"
        ++ "\t\t\t- TemporalResolution: " ++ sf st.fmt (f64At data (q + 40)) ++ "\n") := by
  subst hw
  obtain ⟨h1, h2, h3, _⟩ := dicom_geometry_reaches sf data st st q [] "" (Reaches.refl data st q hf)
    hlen
  refine ⟨h1, by simpa using h2, ?_⟩
  rw [h3]
  simp only [String.empty_append]
  rfl

set_option maxRecDepth 100000 in
/-- C31 on the image of `exampleDicom`, whose `NumberOfFrames` bytes are
`01 00 01 00`: the field value is 65537, the report shows 1, and the 48 bytes are
consumed. -/
theorem number_of_frames_truncated_witness :
    u32At exampleDicom (2 + 12) = 65537 ∧ 65537 % 2 ^ 16 = 1 ∧
      (dicom_geometry bitsF64 { Run.fresh with file := ⟨exampleDicom, 2, true⟩ }).file.pos =
        2 + 48 ∧
      (dicom_geometry bitsF64 { Run.fresh with file := ⟨exampleDicom, 2, true⟩ }).res =
        "\t\t- DICOM image ID: 7\n\t\t\t- nDimensions: 3\n\t\t\t- Rows: 4\n"
          ++ "\t\t\t- Columns: 5\n\t\t\t- Slices: 6\n\t\t\t- TemporalPositions: 2\n"
          ++ "\t\t\t- NumberOfFrames: 1\n\t\t\t- RowSpacing: #0\n\t\t\t- ColSpacing: #0\n"
          ++ "\t\t\t- SliceSpacing: #0\n\t\t\t- TemporalResolution: #0\n" :=
  ⟨by decide, by decide,
    congrArg IfStream.pos (number_of_frames_truncated bitsF64
      { Run.fresh with file := ⟨exampleDicom, 2, true⟩ } exampleDicom 2 65537 rfl (by decide)
      (by decide)).1,
    by decide⟩


/-! ## `read_dicom_tags` on a complete stream -/

theorem dicom_geometry_consumes (sf : FloatFmt → Nat → String) (data : List Nat) (a st : Run)
    (q : Nat) (l : List Nat) (h : Consumes data a st q l) (hlen : q + 48 ≤ data.length) :
    Consumes data a (dicom_geometry sf st) (q + 48)
      (l ++ [2, 2, 2, 2, 2, 2, 4, 8, 8, 8, 8]) := by
  obtain ⟨h1, h2, _⟩ := dicom_geometry_reaches sf data st st q [] "" (Reaches.refl data st q h.1)
    hlen
  exact ⟨h1, by rw [h2, h.2]; simp⟩

theorem tagU8_consumes (data : List Nat) (a st : Run) (label : String) (q : Nat) (l : List Nat)
    (h : Consumes data a st q l) (hn : q + 1 ≤ data.length) :
    Consumes data a (tagU8 st label) (q + 1) (l ++ [1]) :=
  ((h.after_read (zeros 1) 1 hn (by simp [zeros])).1).after_put _

theorem tagU32_consumes (data : List Nat) (a st : Run) (label : String) (q : Nat) (l : List Nat)
    (h : Consumes data a st q l) (hn : q + 4 ≤ data.length) :
    Consumes data a (tagU32 st label) (q + 4) (l ++ [4]) :=
  ((h.after_read (zeros 4) 4 hn (by simp [zeros])).1).after_put _

theorem tagF64_consumes (sf : FloatFmt → Nat → String) (data : List Nat) (a st : Run)
    (label : String) (q : Nat) (l : List Nat)
    (h : Consumes data a st q l) (hn : q + 8 ≤ data.length) :
    Consumes data a (tagF64 sf st label) (q + 8) (l ++ [8]) :=
  ((h.after_read (zeros 8) 8 hn (by simp [zeros])).1).kept ⟨rfl, rfl⟩

theorem tagVec3_consumes (sf : FloatFmt → Nat → String) (data : List Nat) (a st : Run)
    (label : String) (q : Nat) (l : List Nat)
    (h : Consumes data a st q l) (hn : q + 24 ≤ data.length) :
    Consumes data a (tagVec3 sf st label) (q + 24) (l ++ [24]) :=
  ((h.after_read (zeros (8 * 3)) (3 * 8) hn (by simp [zeros])).1).kept ⟨rfl, rfl⟩

theorem read_string_consumes (data : List Nat) (a st : Run) (q : Nat) (l : List Nat)
    (h : Consumes data a st q l) (hlen : strEnd data q ≤ data.length) :
    Consumes data a (read_string st).2 (strEnd data q) (l ++ [2, u16At data q]) := by
  unfold strEnd at hlen ⊢
  obtain ⟨g1, v1, _⟩ := h.after_read (zeros 2) 2 (by omega) (by simp [zeros])
  have e : elemAt 2 (st.read (zeros 2) 2).1 0 = u16At data q := by
    rw [v1, elemAt_zero_slice]; rfl
  have key : read_string st =
      (st.read (zeros 2) 2).2.read (zeros (u16At data q)) (u16At data q) := by
    unfold read_string; simp only [e]
  rw [key]
  obtain ⟨g2, _, _⟩ := g1.after_read (zeros (u16At data q)) (u16At data q) hlen
    (by simp [zeros])
  exact g2.recount rfl (by simp)

theorem tagString_consumes (data : List Nat) (a st : Run) (label : String) (q : Nat)
    (l : List Nat) (h : Consumes data a st q l) (hlen : strEnd data q ≤ data.length) :
    Consumes data a (tagString st label) (strEnd data q) (l ++ [2, u16At data q]) :=
  (read_string_consumes data a st q l h hlen).kept ⟨rfl, rfl⟩

theorem strEnds_ge (data : List Nat) : ∀ (k q : Nat), q ≤ strEnds data k q := by
  intro k
  induction k with
  | zero => intro q; exact le_refl _
  | succ k ih =>
    intro q
    exact le_trans (by unfold strEnd; omega) (ih (strEnd data q))

theorem strEnds_eq (data : List Nat) :
    ∀ (k q : Nat), strEnds data k q = q + 2 * k + (strLens data k q).sum := by
  intro k
  induction k with
  | zero => intro q; simp [strEnds, strLens]
  | succ k ih =>
    intro q
    simp only [strEnds, strLens, List.sum_cons, ih, strEnd]
    omega

theorem strLens_length (data : List Nat) : ∀ (k q : Nat), (strLens data k q).length = k := by
  intro k
  induction k with
  | zero => intro q; rfl
  | succ k ih => intro q; simp only [strLens, List.length_cons, ih]

theorem tagStrings_consume (data : List Nat) (a : Run) :
    ∀ (L : List String) (st : Run) (q : Nat) (l : List Nat), Consumes data a st q l →
      strEnds data L.length q ≤ data.length →
      Consumes data a (L.foldl tagString st) (strEnds data L.length q)
        (l ++ catL ((strLens data L.length q).map (fun n => [2, n]))) := by
  intro L
  induction L with
  | nil => intro st q l h _; exact h.recount rfl (by simp [strLens, catL])
  | cons x L ih =>
    intro st q l h hlen
    simp only [List.length_cons, strEnds] at hlen
    have h1 := tagString_consumes data a st x q l h
      (le_trans (strEnds_ge data L.length (strEnd data q)) hlen)
    have h2 := ih (tagString st x) (strEnd data q) _ h1 hlen
    exact h2.recount rfl (by simp [strLens, catL])

theorem tagMatrix_kept (sf : FloatFmt → Nat → String) (buf : List Nat) (st : Run)
    (t : String) : StreamKept st (forLoop 4 (tagMatRow sf buf) (0, st.put t)).2 := by
  simp only [forLoop, forFrom, tagMatRow, matCell, putF64At_eq_emit, put_eq_emit, emit_emit]
  exact ⟨rfl, rfl⟩

theorem dicom_patient_consumes (sf : FloatFmt → Nat → String) (data : List Nat) (a st : Run)
    (q : Nat) (l : List Nat) (h : Consumes data a st q l)
    (hlen : strEnds data 10 (strEnds data 3 q + 9) ≤ data.length) :
    Consumes data a (dicom_patient sf st) (strEnds data 10 (strEnds data 3 q + 9))
      (l ++ catL ((strLens data 3 q).map (fun n => [2, n])) ++ [1, 8]
        ++ catL ((strLens data 10 (strEnds data 3 q + 9)).map (fun n => [2, n]))) := by
  have hm := strEnds_ge data 10 (strEnds data 3 q + 9)
  unfold dicom_patient
  lift_lets
  extract_lets s1 s2 s3
  have h1 : Consumes data a s1 _ _ := tagStrings_consume data a patientLabels st q l h
    (by show strEnds data 3 q ≤ _; omega)
  have h2 : Consumes data a s2 _ _ := tagU8_consumes data a s1 _ _ _ h1
    (by show strEnds data 3 q + 1 ≤ _; omega)
  have h3 : Consumes data a s3 _ _ := tagF64_consumes sf data a s2 _ _ _ h2
    (by show strEnds data 3 q + 1 + 8 ≤ _; omega)
  have h4 := tagStrings_consume data a studyLabels s3 _ _ h3
    (by show strEnds data 10 (strEnds data 3 q + 1 + 8) ≤ _
        rw [show strEnds data 3 q + 1 + 8 = strEnds data 3 q + 9 by omega]; exact hlen)
  refine h4.recount ?_ ?_
  · show strEnds data 10 (strEnds data 3 q + 1 + 8) = _
    rw [show strEnds data 3 q + 1 + 8 = strEnds data 3 q + 9 by omega]
  · show _ ++ catL ((strLens data 10 (strEnds data 3 q + 1 + 8)).map _) = _
    rw [show strEnds data 3 q + 1 + 8 = strEnds data 3 q + 9 by omega]
    show _ ++ catL ((strLens data 3 q).map _) ++ [1] ++ [8] ++ _ = _
    simp only [List.append_assoc, List.cons_append, List.nil_append]

theorem dicom_pixels_consumes (sf : FloatFmt → Nat → String) (data : List Nat) (a st : Run)
    (q : Nat) (l : List Nat) (h : Consumes data a st q l)
    (hlen : strEnds data 2 (q + 8) + 176 ≤ data.length) :
    Consumes data a (dicom_pixels sf st) (strEnds data 2 (q + 8) + 176)
      (l ++ [1, 4, 1, 1, 1] ++ catL ((strLens data 2 (q + 8)).map (fun n => [2, n]))
        ++ [24, 24, 128]) := by
  have hm := strEnds_ge data 2 (q + 8)
  unfold dicom_pixels
  lift_lets
  extract_lets s1 s2 s3 s4 s5 s6 s7 s8 r
  have h1 : Consumes data a s1 _ _ := tagU8_consumes data a st _ _ _ h (by omega)
  have h2 : Consumes data a s2 _ _ := tagU32_consumes data a s1 _ _ _ h1 (by omega)
  have h3 : Consumes data a s3 _ _ := tagU8_consumes data a s2 _ _ _ h2 (by omega)
  have h4 : Consumes data a s4 _ _ := tagU8_consumes data a s3 _ _ _ h3 (by omega)
  have h5 : Consumes data a s5 _ _ := tagU8_consumes data a s4 _ _ _ h4 (by omega)
  have e8 : q + 1 + 4 + 1 + 1 + 1 = q + 8 := by omega
  rw [e8] at h5
  have h6 : Consumes data a s6 _ _ := tagStrings_consume data a acquisitionLabels s5 _ _ h5
    (by show strEnds data 2 (q + 8) ≤ _; omega)
  have h6' : Consumes data a s6 (strEnds data 2 (q + 8)) _ := h6
  have h7 : Consumes data a s7 _ _ := tagVec3_consumes sf data a s6 _ _ _ h6' (by omega)
  have h8 : Consumes data a s8 _ _ := tagVec3_consumes sf data a s7 _ _ _ h7 (by omega)
  obtain ⟨g9, _, _⟩ := h8.after_read (zeros (8 * 16)) (16 * 8) (by omega) (by simp [zeros])
  have k9 := tagMatrix_kept sf r.1 r.2 "\t\t\t- world matrix:\n"
  refine (g9.kept k9).recount (by omega) ?_
  show _ ++ catL ((strLens data 2 (q + 8)).map _) ++ [24] ++ [24] ++ [16 * 8] = _
  simp only [List.append_assoc, List.cons_append, List.nil_append]

theorem dicomImageEnd_eq (data : List Nat) (s : Nat) :
    dicomImageEnd data s = s + 271 + (dicomStrings data s).sum := by
  simp only [dicomImageEnd, dicomStrings, strEnds_eq, List.sum_append]
  omega

theorem dicom_image_consumes (sf : FloatFmt → Nat → String) (data : List Nat) (a st : Run)
    (i q : Nat) (l : List Nat) (h : Consumes data a st q l)
    (hlen : dicomImageEnd data q ≤ data.length) :
    Consumes data a (dicom_image sf i st) (dicomImageEnd data q)
      (l ++ dicomImageLog data q) := by
  unfold dicomImageEnd at hlen ⊢
  have m1 := strEnds_ge data 2 (strEnds data 10 (strEnds data 3 (q + 48) + 9) + 8)
  have m2 := strEnds_ge data 10 (strEnds data 3 (q + 48) + 9)
  have m3 := strEnds_ge data 3 (q + 48)
  unfold dicom_image
  have h1 := dicom_geometry_consumes sf data a st q l h (by omega)
  have h2 := dicom_patient_consumes sf data a _ _ _ h1 (by omega)
  have h3 := dicom_pixels_consumes sf data a _ _ _ h2 hlen
  refine h3.recount rfl ?_
  simp only [dicomImageLog, List.append_assoc]

theorem dicomStart_mono (data : List Nat) (q : Nat) :
    ∀ (j i : Nat), i ≤ j → dicomStart data q i ≤ dicomStart data q j := by
  intro j
  induction j with
  | zero => intro i hi; rw [Nat.le_zero.mp hi]
  | succ j ih =>
    intro i hi
    rcases Nat.eq_or_lt_of_le hi with h | h
    · rw [h]
    · refine le_trans (ih i (by omega)) ?_
      show _ ≤ dicomImageEnd data (dicomStart data q j)
      rw [dicomImageEnd_eq]
      omega

theorem dicomStart_eq_sum (data : List Nat) (q : Nat) (k : Nat) :
    dicomStart data q k =
      q + ((List.range k).map (fun i =>
        271 + (dicomStrings data (dicomStart data q i)).sum)).sum := by
  induction k with
  | zero => simp [dicomStart]
  | succ k ih =>
    rw [List.range_succ, List.map_append, List.sum_append]
    simp only [dicomStart, dicomImageEnd_eq, List.map_cons, List.map_nil, List.sum_cons,
      List.sum_nil]
    omega

theorem dicom_consumes (sf : FloatFmt → Nat → String) (data : List Nat) (st : Run)
    (p : Nat) (hf : st.file = ⟨data, p, true⟩)
    (hlen : dicomStart data (p + 2) (u16At data p) ≤ data.length) :
    Consumes data st (dicom_body sf st) (dicomStart data (p + 2) (u16At data p))
      ([2] ++ catL ((List.range (u16At data p)).map (fun i =>
        dicomImageLog data (dicomStart data (p + 2) i)))) := by
  have h2 : p + 2 ≤ data.length :=
    le_trans (dicomStart_mono data (p + 2) _ 0 (Nat.zero_le _)) hlen
  unfold dicom_body
  lift_lets
  extract_lets r numImages s1
  have h0 := Consumes.start data st p hf
  obtain ⟨g1, v1, _⟩ := h0.after_read (zeros 2) 2 (by omega) (by simp [zeros])
  have hn : numImages = u16At data p := by
    show elemAt 2 r.1 0 = _
    rw [v1, elemAt_zero_slice]; rfl
  have h1 : Consumes data st s1 _ _ := g1.after_put _
  clear_value s1 numImages r
  subst hn
  have inv := forFrom_inv (dicom_image sf)
    (fun i s => Consumes data st s (dicomStart data (p + 2) i)
      ([2] ++ catL ((List.range i).map (fun i =>
        dicomImageLog data (dicomStart data (p + 2) i)))))
    (u16At data p) 0 s1
    (h1.recount rfl (by simp [catL]))
    (by
      intro j s _ hj hP
      have hend : dicomStart data (p + 2) (j + 1) ≤ data.length :=
        le_trans (dicomStart_mono data (p + 2) _ (j + 1) (by omega)) hlen
      have hc := dicom_image_consumes sf data st s j _ _ hP hend
      refine hc.recount rfl ?_
      rw [List.range_succ, List.map_append, catL_append]
      simp [catL])
  simp only [Nat.zero_add] at inv
  exact inv

/-! ## C32 -/

set_option maxRecDepth 100000 in
/-- C32.  On a good stream that holds at `p` a `uint16` count `m` and after it `m`
complete images back to back (image `i` starts at `dicomStart data (p + 2) i`),
`read_dicom_tags` consumes up to the end of the last image, that is 2 bytes plus
the sum over the images of 271 plus the byte lengths of the 15 strings of the
image (`dicomStrings`); the reads of an image are, in this order, six of 2 bytes,
the 4 bytes of `NumberOfFrames`, four of 8 bytes, three strings (2 bytes, then the
bytes of the string), 1 and 8 bytes, ten strings, 1, 4, 1, 1 and 1 bytes, two
strings, and 24, 24 and 128 bytes (`dicomImageLog`). -/
theorem dicom_consumes_exactly (sf : FloatFmt → Nat → String) (st : Run) (data : List Nat)
    (p m : Nat) (hf : st.file = ⟨data, p, true⟩) (hm : u16At data p = m)
    (hlen : dicomStart data (p + 2) m ≤ data.length) :
    (dicom_body sf st).file = ⟨data, dicomStart data (p + 2) m, true⟩ ∧
      dicomStart data (p + 2) m =
        p + 2 + ((List.range m).map (fun i =>
          271 + (dicomStrings data (dicomStart data (p + 2) i)).sum)).sum ∧
      (∀ s, (dicomStrings data s).length = 15) ∧
      (dicom_body sf st).reads =
        st.reads ++ ([2] ++ catL ((List.range m).map (fun i =>
          dicomImageLog data (dicomStart data (p + 2) i)))) ∧
      (∀ s, dicomImageLog data s =
        [2, 2, 2, 2, 2, 2, 4, 8, 8, 8, 8]
          ++ catL ((strLens data 3 (s + 48)).map (fun n => [2, n]))
          ++ [1, 8]
          ++ catL ((strLens data 10 (strEnds data 3 (s + 48) + 9)).map (fun n => [2, n]))
          ++ [1, 4, 1, 1, 1]
          ++ catL ((strLens data 2 (strEnds data 10 (strEnds data 3 (s + 48) + 9) + 8)).map
            (fun n => [2, n]))
          ++ [24, 24, 128]) := by
  subst hm
  obtain ⟨h1, h2⟩ := dicom_consumes sf data st p hf hlen
  refine ⟨h1, dicomStart_eq_sum data (p + 2) _, fun s => ?_, h2, fun s => rfl⟩
  simp only [dicomStrings, List.length_append, strLens_length]

set_option maxRecDepth 1000000 in
/-- C32 on the file `exampleDicom` with one image whose strings have the lengths
2, 0, 1, then nine times 0 and 2, then 0 and 1: all `2 + 271 + 6 = 279` bytes are
consumed, and the strings are reported in the order of the reads. -/
theorem dicom_consumes_exactly_witness :
    dicomStrings exampleDicom 2 = [2, 0, 1, 0, 0, 0, 0, 0, 0, 0, 0, 0, 2, 0, 1] ∧
      dicomStart exampleDicom (0 + 2) 1 = 279 ∧
      (dicom_body bitsF64 (Run.fresh.opened exampleDicom)).file =
        ⟨exampleDicom, dicomStart exampleDicom (0 + 2) 1, true⟩ ∧
      (dicom_body bitsF64 (Run.fresh.opened exampleDicom)).reads =
        [2] ++ [2, 2, 2, 2, 2, 2, 4, 8, 8, 8, 8] ++ [2, 2, 2, 0, 2, 1] ++ [1, 8]
          ++ [2, 0, 2, 0, 2, 0, 2, 0, 2, 0, 2, 0, 2, 0, 2, 0, 2, 0, 2, 2]
          ++ [1, 4, 1, 1, 1] ++ [2, 0, 2, 1] ++ [24, 24, 128] ∧
      (dicom_patient bitsF64 { Run.fresh with file := ⟨exampleDicom, 50, true⟩ }).res =
        "\t\t\t- PatientName: AB\n\t\t\t- PatientID: \n\t\t\t- PatientSex: F\n"
          ++ "\t\t\t- PatientAge: 30\n\t\t\t- PatientWeight: #0\n"
          ++ "\t\t\t- PatientBirthDate: \n\t\t\t- SequenceName: \n"
          ++ "\t\t\t- SequenceName_Private: \n\t\t\t- PatientPosition: \n"
          ++ "\t\t\t- StudyDescription: \n\t\t\t- SeriesDescription: \n"
          ++ "\t\t\t- SeriesInstanceUID: \n\t\t\t- StudyInstanceUID: \n"
          ++ "\t\t\t- ProtocolName: \n\t\t\t- Modality: MR\n" :=
  ⟨by decide, by decide,
    (dicom_consumes_exactly bitsF64 (Run.fresh.opened exampleDicom) exampleDicom 0 1 rfl
      (by decide) (by decide)).1,
    by decide, by decide⟩


/-! ## The text on `std::cout` -/

theorem forFrom_project {α β : Type} (π : α → β) (f : Nat → α → α) (g : Nat → β → β)
    (h : ∀ j s, π (f j s) = g j (π s)) :
    ∀ (k i : Nat) (s : α), π (forFrom f i k s) = forFrom g i k (π s) := by
  intro k
  induction k with
  | zero => intro i s; rfl
  | succ k ih => intro i s; simp only [forFrom, ih, h]


theorem landmark_run_state (sf : FloatFmt → Nat → String) (st : Run) (cout : String) :
    (landmark_run sf st cout).1 = landmark_body sf st := by
  unfold landmark_run landmark_body
  dsimp only
  have h1 := forFrom_project (fun s : List Nat × Run × String => (s.1, s.2.1))
    (measuringPlane sf) (fun _ s => readMeasuringPlane sf s.1 s.2) (fun j s => rfl)
  have h2 := forFrom_project (fun s : List Nat × Run × String => (s.1, s.2.1))
    (landmarkPlane sf) (fun _ s => readMeasuringPlane sf s.1 (s.2.read (zeros 4) 4).2)
    (fun j s => rfl)
  unfold forLoop
  exact (congrArg Prod.snd (h2 _ 0 _)).trans (by rw [h1])

/-! ## C9 -/

set_option maxRecDepth 100000 in
/-- C9.  The text of the `switch (semantic)` is a total function of the tag: the
values 1 to 10 give the ten labels of the source, which are pairwise distinct and
none of which is "None"; 0 and every value above 10 give "None".  In the decoder,
every pass of the loop over the measuring planes of landmarks, on every stream,
writes the tag and this text to `std::cout` and then decodes the measuring plane
from the stream behind the four bytes of the tag: the value of the tag enters the
line on `std::cout` and nothing else, and the states of `landmark_run` are those of
`landmark_body`.  On a good stream that holds at `p` a tag and a complete
measuring-plane record whose previews stay inside their vectors, the pass writes
the line for the tag stored at `p` and ends on a good stream behind the record,
whatever the tag is. -/
theorem landMarkSemanticName_spec (sf : FloatFmt → Nat → String) :
    (landMarkSemanticName 1 = "LandMarkSemantic_Aorta_AboveAorticValve" ∧
      landMarkSemanticName 2 = "LandMarkSemantic_Aorta_MidAscendingAorta" ∧
      landMarkSemanticName 3 = "LandMarkSemantic_Aorta_BeforeBrachiocephalicArtery" ∧
      landMarkSemanticName 4 =
        "LandMarkSemantic_Aorta_BetweenLeftCommonCarotid_and_LeftSubclavianArtery" ∧
      landMarkSemanticName 5 = "LandMarkSemantic_Aorta_DistalToLeftSubclavianArtery" ∧
      landMarkSemanticName 6 = "LandMarkSemantic_Aorta_MidDescendingAorta" ∧
      landMarkSemanticName 7 = "LandMarkSemantic_PulmonaryArtery_AbovePulmonaryValve" ∧
      landMarkSemanticName 8 = "LandMarkSemantic_PulmonaryArtery_BeforeJunction" ∧
      landMarkSemanticName 9 = "LandMarkSemantic_PulmonaryArtery_LeftPulmonaryArtery_Begin" ∧
      landMarkSemanticName 10 =
        "LandMarkSemantic_PulmonaryArtery_RightPulmonaryArtery_Begin") ∧
    (∀ v w : Nat, 1 ≤ v → v ≤ 10 → 1 ≤ w → w ≤ 10 →
      landMarkSemanticName v = landMarkSemanticName w → v = w) ∧
    (∀ v : Nat, 1 ≤ v → v ≤ 10 → landMarkSemanticName v ≠ "None") ∧
    (∀ v : Nat, v = 0 ∨ 10 < v → landMarkSemanticName v = "None") ∧
    (∀ (i : Nat) (s : List Nat × Run × String),
      (landmarkPlane sf i s).2.2 =
          s.2.2 ++ ("\t\t- measuring plane " ++ toString i ++ " of landmarks: " ++ "\n")
            ++ ("\t\t\t- semantic: " ++ toString (elemAt 4 (s.2.1.read (zeros 4) 4).1 0) ++ " (")
            ++ landMarkSemanticName (elemAt 4 (s.2.1.read (zeros 4) 4).1 0) ++ (")" ++ "\n") ∧
        ((landmarkPlane sf i s).1, (landmarkPlane sf i s).2.1) =
          readMeasuringPlane sf s.1 (s.2.1.read (zeros 4) 4).2) ∧
    (∀ (st : Run) (cout : String), (landmark_run sf st cout).1 = landmark_body sf st) ∧
    (∀ (data : List Nat) (st : Run) (dtemp : List Nat) (cout : String) (i p gx gy gt S : Nat),
      st.file = ⟨data, p, true⟩ → dtemp.length = 8 →
      u32At data (p + 4 + 1) = gx → u32At data (p + 4 + 5) = gy → u32At data (p + 4 + 9) = gt →
      u32At data (p + 4 + 461 + 40 * (gx * gy * gt) + gx * gy + 80 * gt) = S →
      gx * gy < U32 → gx * gy * gt * 3 < U32 → gt * 3 < U32 →
      p + 4 + (465 + 40 * (gx * gy * gt) + gx * gy + 80 * gt + 40 * S) ≤ data.length →
      InBounds ((landmarkPlane sf i (dtemp, st, cout)).2.1.idx.drop st.idx.length) →
      (landmarkPlane sf i (dtemp, st, cout)).2.2 =
          cout ++ ("\t\t- measuring plane " ++ toString i ++ " of landmarks: " ++ "\n")
            ++ ("\t\t\t- semantic: " ++ toString (u32At data p) ++ " (")
            ++ landMarkSemanticName (u32At data p) ++ (")" ++ "\n") ∧
        (landmarkPlane sf i (dtemp, st, cout)).2.1.file =
          ⟨data, p + 4 + (465 + 40 * (gx * gy * gt) + gx * gy + 80 * gt + 40 * S), true⟩) := by
  refine ⟨by decide, ?_, ?_, ?_, fun i s => ⟨rfl, rfl⟩, fun st cout => landmark_run_state sf st cout,
    ?_⟩
  · intro v w hv1 hv2 hw1 hw2
    interval_cases v <;> interval_cases w <;> decide
  · intro v hv1 hv2
    interval_cases v <;> decide
  · intro v hv
    rcases hv with hv | hv
    · subst hv; rfl
    · obtain ⟨k, rfl⟩ : ∃ k, v = k + 11 := ⟨v - 11, by omega⟩
      rfl
  · intro data st dtemp cout i p gx gy gt S hf hd hx hy ht hS hM hG h3 hlen _
    have h0 := Consumes.start data st p hf
    obtain ⟨g1, v1, _⟩ := h0.after_read (zeros 4) 4 (by omega) (by simp [zeros])
    have hv : elemAt 4 (st.read (zeros 4) 4).1 0 = u32At data p := by
      rw [v1, elemAt_zero_slice]; rfl
    obtain ⟨_, c⟩ := readMeasuringPlane_spec sf data (st.read (zeros 4) 4).2 dtemp (p + 4) gx gy
      gt S g1.1 hd hx hy ht hS hM hG h3 hlen
    refine ⟨?_, ?_⟩
    · show cout ++ _ ++ _ ++ landMarkSemanticName (elemAt 4 (st.read (zeros 4) 4).1 0) ++ _ = _
      rw [hv]
    · exact c.1

set_option maxRecDepth 1000000 in
/-- C9 on the landmark file `exampleLandmarksTagged`, two measuring planes of
landmarks under the tags 4 and 11: the second pass starts at byte 841, writes the
line of the tag 11 with the text "None" and ends behind the record, at byte 1674;
and the whole call writes both tags with their texts to `std::cout`. -/
theorem landMarkSemanticName_spec_witness :
    (landmarkPlane bitsF64 1 (zeros 8,
        { Run.fresh with file := ⟨exampleLandmarksTagged, 841, true⟩ }, "")).2.2 =
        "" ++ ("\t\t- measuring plane " ++ toString 1 ++ " of landmarks: " ++ "\n")
          ++ ("\t\t\t- semantic: " ++ toString (u32At exampleLandmarksTagged 841) ++ " (")
          ++ landMarkSemanticName (u32At exampleLandmarksTagged 841) ++ (")" ++ "\n") ∧
      (landmarkPlane bitsF64 1 (zeros 8,
        { Run.fresh with file := ⟨exampleLandmarksTagged, 841, true⟩ }, "")).2.1.file =
        ⟨exampleLandmarksTagged,
          841 + 4 + (465 + 40 * (2 * 2 * 1) + 2 * 2 + 80 * 1 + 40 * 3), true⟩ ∧
      landMarkSemanticName (u32At exampleLandmarksTagged 841) = "None" ∧
      (landmark_run bitsF64 (Run.fresh.opened exampleLandmarksTagged) "").2 =
        "\t\t- num. measuring planes: 0\n\t\t- num. measuring planes of landmarks: 2\n"
          ++ "\t\t- measuring plane 0 of landmarks: \n\t\t\t- semantic: 4 "
          ++ "(LandMarkSemantic_Aorta_BetweenLeftCommonCarotid_and_LeftSubclavianArtery)\n"
          ++ "\t\t- measuring plane 1 of landmarks: \n\t\t\t- semantic: 11 (None)\n" :=
  ⟨((landMarkSemanticName_spec bitsF64).2.2.2.2.2.2 exampleLandmarksTagged
      { Run.fresh with file := ⟨exampleLandmarksTagged, 841, true⟩ } (zeros 8) "" 1 841 2 2 1 3
      rfl (by decide) (by decide) (by decide) (by decide) (by decide) (by decide) (by decide)
      (by decide) (by decide) (by decide)).1,
    ((landMarkSemanticName_spec bitsF64).2.2.2.2.2.2 exampleLandmarksTagged
      { Run.fresh with file := ⟨exampleLandmarksTagged, 841, true⟩ } (zeros 8) "" 1 841 2 2 1 3
      rfl (by decide) (by decide) (by decide) (by decide) (by decide) (by decide) (by decide)
      (by decide) (by decide) (by decide)).2,
    by decide, by decide⟩


/-! ## C7 -/

/-- C7, for the streams on which every preview stays inside its vector.  On a good
stream that holds, from the read position `p` on, a complete mesh with header
values `numPoints = P`, `numTriangles = T`, `numTimes = N`, where `3 * P`, `3 * T`
and `3 * P * N` are below `2^32`, and on which the run evaluates no index outside
its vector, the reads of `read_mesh` leave the stream good and exactly
`12 + 168 * P + 36 * T + 96 * P * N` bytes further, and they are requested in the
order of the format comment.  The previews run to `NUM_DEMO` whatever the sizes
are, so a mesh with `P = 0` and `T = 0` is not among these streams. -/
theorem mesh_consumes_exactly (sf : FloatFmt → Nat → String) (st : Run) (data : List Nat)
    (p P T N : Nat) (hf : st.file = ⟨data, p, true⟩)
    (hP : u32At data p = P) (hT : u32At data (p + 4 + 48 * P) = T)
    (hN : u32At data (p + 8 + 48 * P + 36 * T) = N)
    (h3P : 3 * P < U32) (h3T : 3 * T < U32) (h3PN : 3 * (P * N) < U32)
    (hlen : p + (12 + 168 * P + 36 * T + 96 * (P * N)) ≤ data.length)
    (_hin : InBounds ((mesh_body sf st).idx.drop st.idx.length)) :
    (mesh_body sf st).file = ⟨data, p + (12 + 168 * P + 36 * T + 96 * (P * N)), true⟩ ∧
      (mesh_body sf st).reads = st.reads ++
        [4, 24 * P, 24 * P, 4, 12 * T, 24 * T, 4,
          8 * (P * N), 8 * (P * N), 8 * (P * N), 24 * (P * N), 24 * (P * N), 24 * (P * N),
          8 * P, 8 * P, 8 * P, 8 * P, 8 * P, 8 * P, 24 * P, 24 * P, 24 * P] := by
  have c := mesh_body_spec sf data st p P T N hf hP hT hN h3P h3T h3PN hlen
  exact ⟨c.1, by simpa using c.2⟩

set_option maxRecDepth 100000 in
/-- C7 on a mesh with three points, three triangles and three temporal positions,
`12 + 504 + 108 + 864 = 1488` bytes, on which every index the previews evaluate is
within its buffer. -/
theorem mesh_consumes_exactly_witness :
    (mesh_body bitsF64 (Run.fresh.opened exampleMesh)).file = ⟨exampleMesh, 1488, true⟩ ∧
      InBounds ((mesh_body bitsF64 (Run.fresh.opened exampleMesh)).idx.drop
        (Run.fresh.opened exampleMesh).idx.length) :=
  ⟨(mesh_consumes_exactly bitsF64 (Run.fresh.opened exampleMesh) exampleMesh 0 3 3 3 rfl
    (by decide) (by decide) (by decide) (by decide) (by decide) (by decide) (by decide)
    (by decide)).1,
    by decide⟩

/-! ## C8 -/

/-- C8, amended: on a complete mesh on which every preview stays inside its vector,
the mesh decoder reads after the `numTimes` header three temporal scalar fields of
`numPoints * numTimes` doubles each, then three temporal vector fields of
`numPoints * numTimes * 3` doubles each, then nine fields per point: six of
`numPoints` doubles and three of `numPoints * 3` doubles. -/
theorem mesh_fields_after_numTimes (sf : FloatFmt → Nat → String) (st : Run) (data : List Nat)
    (p P T N : Nat) (hf : st.file = ⟨data, p, true⟩)
    (hP : u32At data p = P) (hT : u32At data (p + 4 + 48 * P) = T)
    (hN : u32At data (p + 8 + 48 * P + 36 * T) = N)
    (h3P : 3 * P < U32) (h3T : 3 * T < U32) (h3PN : 3 * (P * N) < U32)
    (hlen : p + (12 + 168 * P + 36 * T + 96 * (P * N)) ≤ data.length)
    (_hin : InBounds ((mesh_body sf st).idx.drop st.idx.length)) :
    (mesh_body sf st).reads.drop (st.reads.length + 7) =
      List.replicate 3 (8 * (P * N)) ++ List.replicate 3 (8 * (P * N * 3))
        ++ List.replicate 6 (8 * P) ++ List.replicate 3 (8 * (P * 3)) := by
  have c := mesh_body_spec sf data st p P T N hf hP hT hN h3P h3T h3PN hlen
  rw [c.2]
  simp only [List.append_assoc, List.drop_append, List.replicate, List.cons_append,
    List.nil_append, List.drop_succ_cons, List.drop_zero]
  have e1 : 8 * (P * N * 3) = 24 * (P * N) := by omega
  have e2 : 8 * (P * 3) = 24 * P := by omega
  rw [e1, e2]

set_option maxRecDepth 100000 in
/-- C8, amended, on the mesh with three points and three temporal positions. -/
theorem mesh_fields_after_numTimes_witness :
    (mesh_body bitsF64 (Run.fresh.opened exampleMesh)).reads.drop (0 + 7) =
      List.replicate 3 (8 * (3 * 3)) ++ List.replicate 3 (8 * (3 * 3 * 3))
        ++ List.replicate 6 (8 * 3) ++ List.replicate 3 (8 * (3 * 3)) :=
  mesh_fields_after_numTimes bitsF64 (Run.fresh.opened exampleMesh) exampleMesh 0 3 3 3 rfl
    (by decide) (by decide) (by decide) (by decide) (by decide) (by decide) (by decide)
    (by decide)

/-! ## C19 -/

/-- C19, for the records on which every preview stays inside its vector.  On a
stream that holds at `p` a complete measuring-plane record with grid size
`[gx, gy, gt]` and `S` samples, all products below `2^32`, and on which the run
evaluates no index outside its vector, `readMeasuringPlane` ends on a good stream
`465 + 40 * gx * gy * gt + gx * gy + 80 * gt + 40 * S` bytes further, and the byte
counts of its reads are: a vessel id of one byte, 3 grid sizes, five vectors of 3
doubles, the diameter, `3 * gx * gy * gt` flow doubles, `gx * gy` mask bytes, two
arrays of `gx * gy * gt` doubles, 22 doubles, seven arrays of `gt` doubles, 18
doubles, `3 * gt` position doubles, one `numSamples` of 4 bytes, and five arrays of
`S` doubles, in this order. -/
theorem plane_consumes_exactly (sf : FloatFmt → Nat → String) (st : Run) (data : List Nat)
    (dtemp : List Nat) (p gx gy gt S : Nat) (hf : st.file = ⟨data, p, true⟩)
    (hd : dtemp.length = 8) (hx : u32At data (p + 1) = gx) (hy : u32At data (p + 5) = gy)
    (ht : u32At data (p + 9) = gt)
    (hS : u32At data (p + 461 + 40 * (gx * gy * gt) + gx * gy + 80 * gt) = S)
    (hM : gx * gy < U32) (hG : gx * gy * gt * 3 < U32) (h3 : gt * 3 < U32)
    (hlen : p + (465 + 40 * gx * gy * gt + gx * gy + 80 * gt + 40 * S) ≤ data.length)
    (_hin : InBounds ((readMeasuringPlane sf dtemp st).2.idx.drop st.idx.length)) :
    (readMeasuringPlane sf dtemp st).2.file =
        ⟨data, p + (465 + 40 * gx * gy * gt + gx * gy + 80 * gt + 40 * S), true⟩ ∧
      (readMeasuringPlane sf dtemp st).2.reads =
        st.reads ++
          ([1, 12, 24, 24, 24, 24, 24, 8]
            ++ [3 * (gx * gy * gt) * 8, gx * gy, gx * gy * gt * 8, gx * gy * gt * 8]
            ++ List.replicate 22 8 ++ List.replicate 7 (gt * 8) ++ List.replicate 18 8
            ++ [3 * gt * 8, 4] ++ List.replicate 5 (S * 8)) := by
  have e : 40 * gx * gy * gt = 40 * (gx * gy * gt) := by ring
  rw [e] at hlen ⊢
  obtain ⟨_, c⟩ := readMeasuringPlane_spec sf data st dtemp p gx gy gt S hf hd hx hy ht hS hM
    hG h3 hlen
  have a1 : 3 * (gx * gy * gt) * 8 = 24 * (gx * gy * gt) := by omega
  have a2 : gx * gy * gt * 8 = 8 * (gx * gy * gt) := by omega
  have a3 : gt * 8 = 8 * gt := by omega
  have a4 : 3 * gt * 8 = 24 * gt := by omega
  have a5 : S * 8 = 8 * S := by omega
  rw [a1, a2, a3, a4, a5]
  exact ⟨c.1, c.2⟩

set_option maxRecDepth 1000000 in
/-- C19 on the record `examplePlane` (grid size `[2, 2, 1]`, three samples), on
which every index the previews evaluate is within its buffer: 829 bytes are
consumed. -/
theorem plane_consumes_exactly_witness :
    (readMeasuringPlane bitsF64 (zeros 8) (Run.fresh.opened examplePlane)).2.file =
        ⟨examplePlane, 0 + (465 + 40 * 2 * 2 * 1 + 2 * 2 + 80 * 1 + 40 * 3), true⟩ ∧
      InBounds ((readMeasuringPlane bitsF64 (zeros 8) (Run.fresh.opened examplePlane)).2.idx.drop
        (Run.fresh.opened examplePlane).idx.length) :=
  ⟨(plane_consumes_exactly bitsF64 (Run.fresh.opened examplePlane) examplePlane (zeros 8) 0 2 2 1
    3 rfl (by decide) (by decide) (by decide) (by decide) (by decide) (by decide) (by decide)
    (by decide) (by decide) (by decide)).1,
    by decide⟩

/-! ## C20 -/

/-- C20, amended, for the records on which every preview stays inside its vector.
The measuring-plane record begins with the vessel id, one byte, which the decoder
reports; the `[3] x [uint32]` grid size follows at byte 1.  The sample count is one
`uint32` (4 bytes), read directly before the five arrays of samples.  Apart from
these two points the reads follow the format comment (see `planeReadLog`). -/
theorem plane_layout (sf : FloatFmt → Nat → String) (st : Run) (data : List Nat)
    (dtemp : List Nat) (p gx gy gt S : Nat) (hf : st.file = ⟨data, p, true⟩)
    (hd : dtemp.length = 8) (hx : u32At data (p + 1) = gx) (hy : u32At data (p + 5) = gy)
    (ht : u32At data (p + 9) = gt)
    (hS : u32At data (p + 461 + 40 * (gx * gy * gt) + gx * gy + 80 * gt) = S)
    (hM : gx * gy < U32) (hG : gx * gy * gt * 3 < U32) (h3 : gt * 3 < U32)
    (hlen : p + (465 + 40 * (gx * gy * gt) + gx * gy + 80 * gt + 40 * S) ≤ data.length)
    (_hin : InBounds ((readMeasuringPlane sf dtemp st).2.idx.drop st.idx.length)) :
    (∃ t, (readMeasuringPlane sf dtemp st).2.res =
      st.res ++ ("\t\t\t- vessel id: " ++ toString (u8At data p) ++ "\n"
        ++ "\t\t\t- grid size: [" ++ toString gx ++ ", " ++ toString gy ++ ", "
        ++ toString gt ++ "]\n") ++ t) ∧
      (∃ mid, (readMeasuringPlane sf dtemp st).2.reads =
        st.reads ++ ([1, 12] ++ mid ++ [4] ++ List.replicate 5 (8 * S))) ∧
      (readMeasuringPlane sf dtemp st).2.reads = st.reads ++ planeReadLog gx gy gt S := by
  obtain ⟨_, c⟩ := readMeasuringPlane_spec sf data st dtemp p gx gy gt S hf hd hx hy ht hS hM
    hG h3 hlen
  obtain ⟨t, hb⟩ := readMeasuringPlane_begins sf data st dtemp p hf (by omega)
  rw [hx, hy, ht] at hb
  refine ⟨⟨t, hb⟩, ⟨[24, 24, 24, 24, 24, 8]
      ++ [24 * (gx * gy * gt), gx * gy, 8 * (gx * gy * gt), 8 * (gx * gy * gt)]
      ++ List.replicate 22 8 ++ List.replicate 7 (8 * gt) ++ List.replicate 18 8
      ++ [24 * gt], ?_⟩, c.2⟩
  rw [c.2]
  simp [planeReadLog]

set_option maxRecDepth 1000000 in
/-- C20, amended, on the record `examplePlane`. -/
theorem plane_layout_witness :
    u8At examplePlane 0 = 7 ∧
      ∃ t, (readMeasuringPlane bitsF64 (zeros 8) (Run.fresh.opened examplePlane)).2.res =
        "" ++ ("\t\t\t- vessel id: " ++ toString (u8At examplePlane 0) ++ "\n"
          ++ "\t\t\t- grid size: [" ++ toString 2 ++ ", " ++ toString 2 ++ ", "
          ++ toString 1 ++ "]\n") ++ t :=
  ⟨by decide,
    (plane_layout bitsF64 (Run.fresh.opened examplePlane) examplePlane (zeros 8) 0 2 2 1 3 rfl
      (by decide) (by decide) (by decide) (by decide) (by decide) (by decide) (by decide)
      (by decide) (by decide) (by decide)).1⟩


/-! ## C22 -/

/-- C22, on the code.  On a good stream that holds a flow-field header
`[X, Y, Z, T]`, the matrices, and as many doubles as the decoder requests, the
reads up to the preview of the flow vectors are 16, 32, 128, 128, 200, 200, 72, 72
and `8 * (X * Y * Z * T * 3 mod 2^32)` bytes, the stream is good behind them, and
the vector `dbuffer` that the preview then indexes holds
`X * Y * Z * T * 3 mod 2^32` doubles: the size is computed in 32-bit unsigned
arithmetic.  It is the product of the format comment whenever that is below
`2^32`. -/
theorem flow_count_wraps (sf : FloatFmt → Nat → String) (st : Run) (data : List Nat)
    (p X Y Z T : Nat) (hf : st.file = ⟨data, p, true⟩)
    (hX : u32At data p = X) (hY : u32At data (p + 4) = Y) (hZ : u32At data (p + 8) = Z)
    (hT : u32At data (p + 12) = T)
    (hlen : p + (848 + 8 * (X * Y * Z * T * 3 % U32)) ≤ data.length) :
    (flowfield_header sf st).2.2.reads = st.reads ++
        [16, 32, 128, 128, 200, 200, 72, 72, 8 * (X * Y * Z * T * 3 % U32)] ∧
      (flowfield_header sf st).2.2.file =
        ⟨data, p + (848 + 8 * (X * Y * Z * T * 3 % U32)), true⟩ ∧
      (flowfield_header sf st).2.1.length = 8 * (X * Y * Z * T * 3 % U32) ∧
      (X * Y * Z * T * 3 < U32 → X * Y * Z * T * 3 % U32 = X * Y * Z * T * 3) := by
  subst hX hY hZ hT
  obtain ⟨_, vb, c⟩ := flowfield_header_spec sf data st p hf (by omega)
  refine ⟨c.2, ?_, ?_, fun h => Nat.mod_eq_of_lt h⟩
  · rw [c.1]; congr 1; omega
  · rw [vb, slice_length data _ _ (by omega)]

set_option maxRecDepth 1000000 in
/-- C22 on the file `overflowFlowfield` of 848 bytes with the header
`[65536, 65536, 1, 1]`: the product of the format comment is `3 * 2^32` doubles, the
decoder requests 0 bytes and `dbuffer` is empty; the preview, whose loops run while
`x < 65536` and fewer than three vectors are shown, then evaluates the elements 0,
1, 2 of the empty vector first. -/
theorem flow_count_wraps_witness :
    (flowfield_header bitsF64 (Run.fresh.opened overflowFlowfield)).2.2.reads = [] ++
        [16, 32, 128, 128, 200, 200, 72, 72, 8 * (65536 * 65536 * 1 * 1 * 3 % U32)] ∧
      8 * (65536 * 65536 * 1 * 1 * 3 % U32) = 0 ∧
      65536 * 65536 * 1 * 1 * 3 = 12884901888 ∧
      (flowfield_header bitsF64 (Run.fresh.opened overflowFlowfield)).2.1 = [] ∧
      (flowfield_header bitsF64 (Run.fresh.opened overflowFlowfield)).2.2.idx.length = 108 ∧
      ((flowfield_body bitsF64 (Run.fresh.opened overflowFlowfield)).idx.drop 108).take 3 =
        [(0, 0), (1, 0), (2, 0)] :=
  ⟨(flow_count_wraps bitsF64 (Run.fresh.opened overflowFlowfield) overflowFlowfield 0 65536
      65536 1 1 rfl (by decide) (by decide) (by decide) (by decide) (by decide)).1,
    by decide, by decide, by decide, by decide, by decide⟩

/-! ## C23 -/

theorem centerline_requests (sf : FloatFmt → Nat → String) (data : List Nat) (a : Run)
    (clid : Nat) (s : List Nat × Run) (q : Nat) (l : List Nat)
    (h : Consumes data a s.2 q l)
    (hlen : q + (4 + 8 * (u32At data q * 3 % U32) + 8 * u32At data q
      + 8 * (u32At data q * 9 % U32)) ≤ data.length) :
    Consumes data a (centerline sf clid s).2
      (q + (4 + 8 * (u32At data q * 3 % U32) + 8 * u32At data q
        + 8 * (u32At data q * 9 % U32)))
      (l ++ [4, 8 * (u32At data q * 3 % U32), 8 * u32At data q,
        8 * (u32At data q * 9 % U32)]) := by
  unfold centerline
  lift_lets
  extract_lets r1 numPoints s1 r2 s2 r3 s3 r4 s4
  obtain ⟨g1, v1, _⟩ := h.after_read (zeros 4) 4 (by omega) (by simp [zeros])
  have hn : numPoints = u32At data q := by
    show elemAt 4 r1.1 0 = _
    rw [v1, elemAt_zero_slice]; rfl
  have k1 : StreamKept r1.2 s1 := kept_ite _ _ _ ⟨rfl, rfl⟩
  have h1 : Consumes data a s1 _ _ := g1.kept k1
  clear_value s1 r1
  have b2 : (vresize 8 s.1 (numPoints * 3 % U32)).length = 8 * (u32At data q * 3 % U32) := by
    rw [vresize_length, hn]
  obtain ⟨g2, n2⟩ := h1.after_readF64s _ _ b2 (by omega)
  have k2 : StreamKept r2.2 s2 := kept_ite_loop _ _ _ _ _ (fun j s => by exact ⟨rfl, rfl⟩)
  have h2 : Consumes data a s2 _ _ := g2.kept k2
  have b3 : (vresize 8 r2.1 numPoints).length = 8 * u32At data q := by
    rw [vresize_length, hn]
  obtain ⟨g3, n3⟩ := h2.after_readF64s _ _ b3 (by omega)
  have k3 : StreamKept r3.2 s3 := kept_ite_loop _ _ _ _ _ (fun j s => by exact ⟨rfl, rfl⟩)
  have h3 : Consumes data a s3 _ _ := g3.kept k3
  have b4 : (vresize 8 r3.1 (numPoints * 9 % U32)).length = 8 * (u32At data q * 9 % U32) := by
    rw [vresize_length, hn]
  obtain ⟨g4, n4⟩ := h3.after_readF64s _ _ b4 (by omega)
  have k4 : StreamKept r4.2 s4 := kept_ite_loop _ _ _ _ _ (fun j s => by
    dsimp only
    repeat with_reducible first
      | exact StreamKept.same _
      | apply StreamKept.then_tripleF64
      | apply StreamKept.over_put)
  have h4 : Consumes data a s4 _ _ := g4.kept k4
  exact h4.recount (by omega) (by simp)

theorem centerline_unrendered_idx (sf : FloatFmt → Nat → String) (clid : Nat)
    (s : List Nat × Run) (h : NUM_DEMO ≤ clid) : (centerline sf clid s).2.idx = s.2.idx := by
  unfold centerline
  simp only [if_neg (Nat.not_lt.mpr h)]
  rfl

set_option maxRecDepth 100000 in
/-- C23, on the code.  On a good stream that holds at `p` a count `c` and after it
`c` complete centerlines back to back (centerline `i` starts at
`clStart data (p + 4) i` and has `P_i` points), each with `9 * P_i < 2^32`,
`read_centerlines` consumes up to the end of the last centerline, that is `4` bytes
plus the sum of `4 + 104 * P_i`, and requests per centerline the reads of 4,
`24 * P_i`, `8 * P_i` and `72 * P_i` bytes (count, points, radii, local coordinate
systems) in this order.  Without the bound the third and the fifth size are taken
modulo `2^32`: a pass of the loop for a centerline that is not rendered
(`clid >= NUM_DEMO`, no element is evaluated) on a stream that holds what the pass
requests reads 4, `8 * (3 * P mod 2^32)`, `8 * P` and `8 * (9 * P mod 2^32)` bytes;
for `P = 477218589` the last array is read as 5 doubles, not as `9 * P`. -/
theorem centerlines_consume_exactly (sf : FloatFmt → Nat → String) (st : Run)
    (data : List Nat) (p c : Nat) (hf : st.file = ⟨data, p, true⟩) (hc : u32At data p = c)
    (h9 : ∀ i, i < c → 9 * u32At data (clStart data (p + 4) i) < U32)
    (hlen : clStart data (p + 4) c ≤ data.length) :
    (centerlines_body sf st).file = ⟨data, clStart data (p + 4) c, true⟩ ∧
      clStart data (p + 4) c =
        p + 4 + ((List.range c).map
          (fun i => 4 + 104 * u32At data (clStart data (p + 4) i))).sum ∧
      (∀ i, clStart data (p + 4) (i + 1) =
        clStart data (p + 4) i + (4 + 104 * u32At data (clStart data (p + 4) i))) ∧
      (centerlines_body sf st).reads =
        st.reads ++ ([4] ++ catL ((List.range c).map (fun i =>
          [4, 24 * u32At data (clStart data (p + 4) i),
            8 * u32At data (clStart data (p + 4) i),
            72 * u32At data (clStart data (p + 4) i)]))) ∧
      (∀ (clid : Nat) (s : List Nat × Run) (q : Nat), NUM_DEMO ≤ clid →
        s.2.file = ⟨data, q, true⟩ →
        q + (4 + 8 * (u32At data q * 3 % U32) + 8 * u32At data q
          + 8 * (u32At data q * 9 % U32)) ≤ data.length →
        (centerline sf clid s).2.file =
            ⟨data, q + (4 + 8 * (u32At data q * 3 % U32) + 8 * u32At data q
              + 8 * (u32At data q * 9 % U32)), true⟩ ∧
          (centerline sf clid s).2.reads = s.2.reads ++
            [4, 8 * (u32At data q * 3 % U32), 8 * u32At data q,
              8 * (u32At data q * 9 % U32)] ∧
          (centerline sf clid s).2.idx = s.2.idx) ∧
      477218589 * 3 % U32 = 1431655767 ∧ 477218589 * 9 % U32 = 5 ∧
      4 + 8 * (477218589 * 3 % U32) + 8 * 477218589 + 8 * (477218589 * 9 % U32)
        < 4 + 104 * 477218589 := by
  subst hc
  obtain ⟨h1, h2⟩ := centerlines_consumes sf data st p hf h9 hlen
  refine ⟨h1, clStart_eq_sum data (p + 4) _, fun i => rfl, h2, ?_, by decide, by decide,
    by decide⟩
  intro clid s q hcl hs hl
  have cq := centerline_requests sf data s.2 clid s q [] (Consumes.start data s.2 q hs) hl
  exact ⟨cq.1, by simpa using cq.2, centerline_unrendered_idx sf clid s hcl⟩

set_option maxRecDepth 1000000 in
/-- C23 on the file `exampleCenterlines` with four centerlines of 1, 2, 0 and 5
points: the centerlines start at the bytes 4, 112, 324 and 328, and all
`4 + 108 + 212 + 4 + 524 = 852` bytes are consumed. -/
theorem centerlines_consume_exactly_witness :
    (clStart exampleCenterlines 4 1, clStart exampleCenterlines 4 2,
        clStart exampleCenterlines 4 3, clStart exampleCenterlines 4 4) = (112, 324, 328, 852) ∧
      (centerlines_body bitsF64 (Run.fresh.opened exampleCenterlines)).file =
        ⟨exampleCenterlines, clStart exampleCenterlines (0 + 4) 4, true⟩ ∧
      (centerlines_body bitsF64 (Run.fresh.opened exampleCenterlines)).reads =
        [4, 4, 24, 8, 72, 4, 48, 16, 144, 4, 0, 0, 0, 4, 120, 40, 360] :=
  ⟨by decide,
    (centerlines_consume_exactly bitsF64 (Run.fresh.opened exampleCenterlines)
      exampleCenterlines 0 4 rfl (by decide) (by decide) (by decide)).1,
    by decide⟩


/-! ## The remaining decoders: the stream only moves forward, the report only grows -/

theorem fwd_foldl {β : Type} {a : Run} (g : Run → β → Run) (hg : ∀ s x, Fwd s (g s x)) :
    ∀ (l : List β) (s : Run), Fwd a s → Fwd a (l.foldl g s) := by
  intro l
  induction l with
  | nil => intro s h; exact h
  | cons x l ih => intro s h; exact ih (g s x) (h.next (hg s x))

theorem rebase_foldl {β : Type} (r : String) (l : List Nat) (ix : List (Nat × Nat))
    (g : Run → β → Run) (h : ∀ s y, g (s.rebase r l ix) y = (g s y).rebase r l ix) :
    ∀ (L : List β) (st : Run), L.foldl g (st.rebase r l ix) = (L.foldl g st).rebase r l ix := by
  intro L
  induction L with
  | nil => intro st; rfl
  | cons y L ih => intro st; simp only [List.foldl, h, ih]

theorem fwd_quadF64 {a b : Run} (h : Fwd a b) (sf : FloatFmt → Nat → String) (buf : List Nat)
    (off : Nat) : Fwd a (putQuadF64 sf buf off b) := h

theorem rebase_quadF64 (st : Run) (r : String) (l : List Nat) (ix : List (Nat × Nat))
    (sf : FloatFmt → Nat → String) (buf : List Nat) (off : Nat) :
    putQuadF64 sf buf off (st.rebase r l ix) = (putQuadF64 sf buf off st).rebase r l ix := by
  simp only [putQuadF64, rebase_put, rebase_putF64At]

/-! ### Pathlines -/

theorem pathAttribute_fwd (sf : FloatFmt → Nat → String) (plid numPoints : Nat) (label : String)
    (s : List Nat × Run) : Fwd s.2 (pathAttribute sf plid numPoints label s).2 := by
  unfold pathAttribute
  dsimp only
  repeat
    with_reducible
      first
      | exact Fwd.stay _
      | apply fwd_put
      | apply fwd_putF64At
      | apply fwd_readF64s
      | apply fwd_ite
      | apply fwd_loop
      | (intro j s; dsimp only)

theorem pathAttribute_rebase (sf : FloatFmt → Nat → String) (plid numPoints : Nat)
    (label : String) (x : List Nat) (s : Run) (r : String) (l : List Nat)
    (ix : List (Nat × Nat)) :
    pathAttribute sf plid numPoints label (x, s.rebase r l ix) =
      ((pathAttribute sf plid numPoints label (x, s)).1,
        (pathAttribute sf plid numPoints label (x, s)).2.rebase r l ix) := by
  unfold pathAttribute
  simp only [rebase_readF64s, rebase_put, rebase_putF64At, rebase_loop, rebase_ite,
    implies_true]

theorem fwd_pathAttribute {a : Run} {s : List Nat × Run} (h : Fwd a s.2)
    (sf : FloatFmt → Nat → String) (plid numPoints : Nat) (label : String) :
    Fwd a (pathAttribute sf plid numPoints label s).2 :=
  h.next (pathAttribute_fwd sf plid numPoints label s)

theorem pathline_fwd (sf : FloatFmt → Nat → String) (plid : Nat) (s : List Nat × Run) :
    Fwd s.2 (pathline sf plid s).2 := by
  unfold pathline
  dsimp only
  repeat
    with_reducible
      first
      | exact Fwd.stay _
      | apply fwd_put
      | apply fwd_putF64
      | apply fwd_quadF64
      | apply fwd_pathAttribute
      | apply fwd_readF64s
      | apply fwd_read
      | apply fwd_ite
      | apply fwd_loop
      | (intro j s; dsimp only)

theorem pathline_rebase (sf : FloatFmt → Nat → String) (plid : Nat) (x : List Nat) (s : Run)
    (r : String) (l : List Nat) (ix : List (Nat × Nat)) :
    pathline sf plid (x, s.rebase r l ix) =
      ((pathline sf plid (x, s)).1, (pathline sf plid (x, s)).2.rebase r l ix) := by
  unfold pathline
  simp only [rebase_read, rebase_readF64s, rebase_put, rebase_putF64, rebase_quadF64,
    rebase_loop, rebase_ite, pathAttribute_rebase, implies_true]

theorem pathlines_fwd (sf : FloatFmt → Nat → String) (st : Run) :
    Fwd st (pathlines_body sf st) := by
  unfold pathlines_body
  dsimp only
  repeat
    with_reducible
      first
      | exact Fwd.stay _
      | exact pathline_fwd sf _ _
      | apply fwd_put
      | apply fwd_read
      | apply fwd_loop2
      | (intro j s; dsimp only)

theorem pathlines_appending (sf : FloatFmt → Nat → String) : Appending (pathlines_body sf) := by
  intro st r l ix
  unfold pathlines_body
  simp only [rebase_read, rebase_put,
    rebase_loop2 r l ix _ (fun j x s => pathline_rebase sf j x s r l ix)]

/-! ### The flow field -/

theorem flowfield_header_fwd (sf : FloatFmt → Nat → String) (st : Run) :
    Fwd st (flowfield_header sf st).2.2 := by
  unfold flowfield_header
  dsimp only
  repeat
    with_reducible
      first
      | exact Fwd.stay _
      | apply fwd_put
      | apply fwd_putF64At
      | apply fwd_putU32At
      | apply fwd_matrix
      | apply fwd_readF64s
      | apply fwd_read

theorem flowfield_header_rebase (sf : FloatFmt → Nat → String) (st : Run) (r : String)
    (l : List Nat) (ix : List (Nat × Nat)) :
    flowfield_header sf (st.rebase r l ix) =
      ((flowfield_header sf st).1, (flowfield_header sf st).2.1,
        (flowfield_header sf st).2.2.rebase r l ix) := by
  unfold flowfield_header
  simp only [rebase_read, rebase_readF64s, rebase_put, rebase_putF64At, rebase_putU32At,
    rebase_matrix]

theorem flowVector_fwd (sf : FloatFmt → Nat → String) (g1 g2 g3 : Nat) (buf : List Nat)
    (x y z t : Nat) (s : Nat × Nat × Run) :
    Fwd s.2.2 (flowVector sf g1 g2 g3 buf x y z t s).2.2 := by
  unfold flowVector
  exact Fwd.stay _

theorem flowVector_rebase (sf : FloatFmt → Nat → String) (g1 g2 g3 : Nat) (buf : List Nat)
    (x y z t : Nat) (s : Nat × Nat × Run) (r : String) (l : List Nat) (ix : List (Nat × Nat)) :
    flowVector sf g1 g2 g3 buf x y z t (s.1, s.2.1, s.2.2.rebase r l ix) =
      ((flowVector sf g1 g2 g3 buf x y z t s).1, (flowVector sf g1 g2 g3 buf x y z t s).2.1,
        (flowVector sf g1 g2 g3 buf x y z t s).2.2.rebase r l ix) := by
  unfold flowVector
  simp only [rebase_put, rebase_tripleF64]

theorem flowPreview_fwd (sf : FloatFmt → Nat → String) (g0 g1 g2 g3 : Nat) (buf : List Nat)
    (st : Run) : Fwd st (flowPreview sf g0 g1 g2 g3 buf st) := by
  unfold flowPreview forWhile
  exact fwd_forFromWhile (fun s : Nat × Nat × Run => s.2.2) _ _ (fun x s =>
    fwd_forFromWhile (fun s : Nat × Nat × Run => s.2.2) _ _ (fun y s =>
      fwd_forFromWhile (fun s : Nat × Nat × Run => s.2.2) _ _ (fun z s =>
        fwd_forFromWhile (fun s : Nat × Nat × Run => s.2.2) _ _ (fun t s =>
          flowVector_fwd sf g1 g2 g3 buf x y z t s) g3 0 s) g2 0 s) g1 0 s) g0 0 (0, 0, st)

theorem flowPreview_rebase (sf : FloatFmt → Nat → String) (g0 g1 g2 g3 : Nat) (buf : List Nat)
    (st : Run) (r : String) (l : List Nat) (ix : List (Nat × Nat)) :
    flowPreview sf g0 g1 g2 g3 buf (st.rebase r l ix) =
      (flowPreview sf g0 g1 g2 g3 buf st).rebase r l ix := by
  unfold flowPreview forWhile
  have hc : ∀ s : Nat × Nat × Run,
      cntDemoBelow ((fun s : Nat × Nat × Run => (s.1, s.2.1, s.2.2.rebase r l ix)) s) =
        cntDemoBelow s := fun _ => rfl
  have h := forFromWhile_comm (fun s : Nat × Nat × Run => (s.1, s.2.1, s.2.2.rebase r l ix))
    cntDemoBelow (fun x s =>
      forFromWhile cntDemoBelow (fun y s =>
        forFromWhile cntDemoBelow (fun z s =>
          forFromWhile cntDemoBelow (fun t s => flowVector sf g1 g2 g3 buf x y z t s) 0 g3 s)
          0 g2 s) 0 g1 s) hc
    (fun x s => forFromWhile_comm _ cntDemoBelow _ hc
      (fun y s => forFromWhile_comm _ cntDemoBelow _ hc
        (fun z s => forFromWhile_comm _ cntDemoBelow _ hc
          (fun t s => flowVector_rebase sf g1 g2 g3 buf x y z t s r l ix) g3 0 s) g2 0 s)
      g1 0 s) g0 0 (0, 0, st)
  exact congrArg (fun s : Nat × Nat × Run => s.2.2) h

theorem flowfield_fwd (sf : FloatFmt → Nat → String) (st : Run) :
    Fwd st (flowfield_body sf st) := by
  unfold flowfield_body
  exact fwd_put ((flowfield_header_fwd sf st).next (flowPreview_fwd sf _ _ _ _ _ _)) _

theorem flowfield_appending (sf : FloatFmt → Nat → String) : Appending (flowfield_body sf) := by
  intro st r l ix
  unfold flowfield_body
  simp only [flowfield_header_rebase, flowPreview_rebase, rebase_put]

/-! ### Flow jets -/

theorem jetVec3_fwd (sf : FloatFmt → Nat → String) (shown : Bool) (label : String)
    (s : List Nat × Run) : Fwd s.2 (jetVec3 sf shown label s).2 := by
  unfold jetVec3
  dsimp only
  repeat
    with_reducible
      first
      | exact Fwd.stay _
      | apply fwd_put
      | apply fwd_tripleF64
      | apply fwd_readF64s
      | apply fwd_ite

theorem jetVec3_rebase (sf : FloatFmt → Nat → String) (shown : Bool) (label : String)
    (x : List Nat) (s : Run) (r : String) (l : List Nat) (ix : List (Nat × Nat)) :
    jetVec3 sf shown label (x, s.rebase r l ix) =
      ((jetVec3 sf shown label (x, s)).1, (jetVec3 sf shown label (x, s)).2.rebase r l ix) := by
  unfold jetVec3
  simp only [rebase_readF64s, rebase_put, rebase_tripleF64, rebase_ite]

theorem jetScalar_fwd (sf : FloatFmt → Nat → String) (shown : Bool) (label : String)
    (s : List Nat × Run) : Fwd s.2 (jetScalar sf shown label s).2 := by
  unfold jetScalar
  dsimp only
  repeat
    with_reducible
      first
      | exact Fwd.stay _
      | apply fwd_put
      | apply fwd_putF64At
      | apply fwd_readF64s
      | apply fwd_ite

theorem jetScalar_rebase (sf : FloatFmt → Nat → String) (shown : Bool) (label : String)
    (x : List Nat) (s : Run) (r : String) (l : List Nat) (ix : List (Nat × Nat)) :
    jetScalar sf shown label (x, s.rebase r l ix) =
      ((jetScalar sf shown label (x, s)).1,
        (jetScalar sf shown label (x, s)).2.rebase r l ix) := by
  unfold jetScalar
  simp only [rebase_readF64s, rebase_put, rebase_putF64At, rebase_ite]

theorem fwd_jetVec3 {a : Run} {s : List Nat × Run} (h : Fwd a s.2)
    (sf : FloatFmt → Nat → String) (shown : Bool) (label : String) :
    Fwd a (jetVec3 sf shown label s).2 := h.next (jetVec3_fwd sf shown label s)

theorem fwd_jetScalar {a : Run} {s : List Nat × Run} (h : Fwd a s.2)
    (sf : FloatFmt → Nat → String) (shown : Bool) (label : String) :
    Fwd a (jetScalar sf shown label s).2 := h.next (jetScalar_fwd sf shown label s)

theorem jetSample_fwd (sf : FloatFmt → Nat → String) (cnt pointid timeid : Nat)
    (s : List Nat × Run) : Fwd s.2 (jetSample sf cnt pointid timeid s).2 := by
  unfold jetSample
  dsimp only
  repeat
    with_reducible
      first
      | exact Fwd.stay _
      | apply fwd_jetVec3
      | apply fwd_jetScalar
      | apply fwd_put
      | apply fwd_ite

theorem jetSample_rebase (sf : FloatFmt → Nat → String) (cnt pointid timeid : Nat)
    (x : List Nat) (s : Run) (r : String) (l : List Nat) (ix : List (Nat × Nat)) :
    jetSample sf cnt pointid timeid (x, s.rebase r l ix) =
      ((jetSample sf cnt pointid timeid (x, s)).1,
        (jetSample sf cnt pointid timeid (x, s)).2.rebase r l ix) := by
  unfold jetSample
  simp only [rebase_put, rebase_ite, jetVec3_rebase, jetScalar_rebase]

theorem jetPoint_fwd (sf : FloatFmt → Nat → String) (numTimes pointid : Nat)
    (s : Nat × List Nat × Run) : Fwd s.2.2 (jetPoint sf numTimes pointid s).2.2 := by
  unfold jetPoint
  dsimp only
  repeat
    with_reducible
      first
      | exact Fwd.stay _
      | exact jetSample_fwd sf _ _ _ _
      | apply fwd_jetVec3
      | apply fwd_jetScalar
      | apply fwd_put
      | apply fwd_ite
      | apply fwd_loop2
      | (intro j s; dsimp only)

theorem jetPoint_rebase (sf : FloatFmt → Nat → String) (numTimes pointid : Nat) (c : Nat)
    (x : List Nat) (s : Run) (r : String) (l : List Nat) (ix : List (Nat × Nat)) :
    jetPoint sf numTimes pointid (c, x, s.rebase r l ix) =
      ((jetPoint sf numTimes pointid (c, x, s)).1, (jetPoint sf numTimes pointid (c, x, s)).2.1,
        (jetPoint sf numTimes pointid (c, x, s)).2.2.rebase r l ix) := by
  unfold jetPoint
  simp only [rebase_put, rebase_ite, jetVec3_rebase, jetScalar_rebase,
    rebase_loop2 r l ix _ (fun j x s => jetSample_rebase sf _ _ j x s r l ix)]

theorem flowJet_fwd (sf : FloatFmt → Nat → String) (fjid : Nat) (st : Run) :
    Fwd st (flowJet sf fjid st) := by
  unfold flowJet
  dsimp only
  repeat
    with_reducible
      first
      | exact Fwd.stay _
      | exact jetPoint_fwd sf _ _ _
      | apply fwd_put
      | apply fwd_read
      | apply fwd_loop3
      | (intro j s; dsimp only)

theorem flowJet_rebase (sf : FloatFmt → Nat → String) (fjid : Nat) (st : Run) (r : String)
    (l : List Nat) (ix : List (Nat × Nat)) :
    flowJet sf fjid (st.rebase r l ix) = (flowJet sf fjid st).rebase r l ix := by
  unfold flowJet
  simp only [rebase_read, rebase_put,
    rebase_loop3 r l ix _ (fun j c x s => jetPoint_rebase sf _ j c x s r l ix)]

theorem flow_jet_fwd (sf : FloatFmt → Nat → String) (st : Run) :
    Fwd st (flow_jet_body sf st) := by
  unfold flow_jet_body
  dsimp only
  repeat
    with_reducible
      first
      | exact Fwd.stay _
      | exact flowJet_fwd sf _ _
      | apply fwd_put
      | apply fwd_read
      | apply fwd_loop
      | (intro j s; dsimp only)

theorem flow_jet_appending (sf : FloatFmt → Nat → String) : Appending (flow_jet_body sf) := by
  intro st r l ix
  unfold flow_jet_body
  simp only [rebase_read, rebase_put, rebase_loop, flowJet_rebase, implies_true]

/-! ### Flow statistics -/

theorem flow_statistics_fwd (sf : FloatFmt → Nat → String) (st : Run) :
    Fwd st (flow_statistics_body sf st) := by
  unfold flow_statistics_body
  dsimp only
  refine fwd_foldl _ (fun s call => ?_) _ _ (fwd_of_read st (zeros 4) 4)
  unfold read_and_print_vector read_and_print_value
  dsimp only
  repeat
    with_reducible
      first
      | exact Fwd.stay _
      | apply fwd_put
      | apply fwd_putF64
      | apply fwd_putF64At
      | apply fwd_read
      | apply fwd_ite
      | apply fwd_loop
      | (intro j s; dsimp only)

theorem flow_statistics_appending (sf : FloatFmt → Nat → String) :
    Appending (flow_statistics_body sf) := by
  intro st r l ix
  unfold flow_statistics_body
  simp only [rebase_read]
  refine rebase_foldl r l ix _ (fun s call => ?_) _ _
  unfold read_and_print_vector read_and_print_value
  simp only [rebase_read, rebase_put, rebase_putF64, rebase_putF64At, rebase_loop, rebase_ite,
    implies_true]

/-! ### Text files -/

theorem fwd_of_getline (st : Run) (line : List Nat) : Fwd st (st.getline line).2 := by
  unfold Run.getline
  dsimp only
  split
  · split
    · refine ⟨rfl, rfl, by simp only; omega, fun h => ?_⟩
      simp only [List.length_drop] at *
      omega
    · refine ⟨rfl, rfl, by simp only; omega, fun h => ?_⟩
      have := (List.takeWhile_prefix (fun b => b != 10)
        (l := st.file.data.drop st.file.pos)).length_le
      simp only [List.length_drop] at *
      omega
  · exact Fwd.stay _

theorem rebase_getline (st : Run) (r : String) (l : List Nat) (ix : List (Nat × Nat))
    (line : List Nat) :
    (st.rebase r l ix).getline line =
      ((st.getline line).1, (st.getline line).2.rebase r l ix) := by
  unfold Run.getline
  simp only [rebase_file]
  split
  · split <;> rfl
  · rfl

theorem lineStep_fwd (before after : String) (j : Nat) (s : List Nat × Run) :
    Fwd s.2 (lineStep before after j s).2 := by
  unfold lineStep
  dsimp only
  split
  · exact fwd_of_getline _ _
  · exact fwd_put (fwd_of_getline _ _) _

theorem lineStep_rebase (before after : String) (j : Nat) (s : List Nat × Run) (r : String)
    (l : List Nat) (ix : List (Nat × Nat)) :
    lineStep before after j (s.1, s.2.rebase r l ix) =
      ((lineStep before after j s).1, (lineStep before after j s).2.rebase r l ix) := by
  unfold lineStep
  simp only [rebase_getline]
  split
  · rfl
  · simp only [rebase_put]

theorem lineLoop_fwd (before after : String) (st : Run) : Fwd st (lineLoop before after st) := by
  unfold lineLoop forWhile
  exact fwd_forFromWhile (fun s : List Nat × Run => s.2) _ _
    (fun j s => lineStep_fwd before after j s) _ 0 ([], st)

theorem lineLoop_appending (before after : String) : Appending (lineLoop before after) := by
  intro st r l ix
  unfold lineLoop forWhile
  have h := forFromWhile_comm (fun s : List Nat × Run => (s.1, s.2.rebase r l ix)) notAtEof
    (lineStep before after) (fun _ => rfl)
    (fun j s => lineStep_rebase before after j s r l ix)
    (st.file.data.length - st.file.pos + 1) 0 ([], st)
  exact congrArg Prod.snd h

theorem filter_tags_fwd (tagsOf : List Nat → List (List Nat)) (st : Run) :
    Fwd st (filter_tags_body tagsOf st) := by
  unfold filter_tags_body
  dsimp only
  exact fwd_put (fwd_foldl (fun st s => (st.put (bytesText s)).put " ") (fun s x => Fwd.stay _)
    _ _ (fwd_put (fwd_of_getline st []) _)) _

theorem filter_tags_appending (tagsOf : List Nat → List (List Nat)) :
    Appending (filter_tags_body tagsOf) := by
  intro st r l ix
  unfold filter_tags_body
  simp only [rebase_getline, rebase_put]
  rw [rebase_foldl r l ix _ (fun s y => by simp only [rebase_put]), rebase_put]

/-! ### Graph cut ids, centerline ids, thresholds -/

theorem graphcut_ids_fwd (st : Run) : Fwd st (graphcut_ids_body st) := by
  unfold graphcut_ids_body
  dsimp only
  repeat
    with_reducible
      first
      | exact Fwd.stay _
      | apply fwd_put
      | apply fwd_tripleU32
      | apply fwd_read
      | apply fwd_ite
      | apply fwd_loop
      | (intro j s; dsimp only)

theorem graphcut_ids_appending : Appending graphcut_ids_body := by
  intro st r l ix
  unfold graphcut_ids_body
  simp only [rebase_read, rebase_put, rebase_tripleU32, rebase_loop, rebase_ite, implies_true]

theorem centerline_ids_fwd (st : Run) : Fwd st (centerline_ids_body st) := by
  unfold centerline_ids_body
  dsimp only
  repeat
    with_reducible
      first
      | exact Fwd.stay _
      | apply fwd_put
      | apply fwd_read
      | apply fwd_loop
      | (intro j s; dsimp only)

theorem centerline_ids_appending : Appending centerline_ids_body := by
  intro st r l ix
  unfold centerline_ids_body
  simp only [rebase_read, rebase_put, rebase_loop, implies_true]

theorem ivsd_thresholds_fwd (sf : FloatFmt → Nat → String) (st : Run) :
    Fwd st (ivsd_thresholds_body sf st) := by
  unfold ivsd_thresholds_body
  dsimp only
  repeat
    with_reducible
      first
      | exact Fwd.stay _
      | apply fwd_put
      | apply fwd_putF64
      | apply fwd_read

theorem ivsd_thresholds_appending (sf : FloatFmt → Nat → String) :
    Appending (ivsd_thresholds_body sf) := by
  intro st r l ix
  unfold ivsd_thresholds_body
  simp only [rebase_read, rebase_put, rebase_putF64]

/-! ### Velocity offsets, cardiac cycle -/

theorem velocity_offset_fwd (sf : FloatFmt → Nat → String) (st : Run) :
    Fwd st (velocity_offset_body sf st) := by
  unfold velocity_offset_body velocity_offset_image planeCoeffsPreview
  dsimp only
  repeat
    with_reducible
      first
      | exact Fwd.stay _
      | apply fwd_put
      | apply fwd_putF64
      | apply fwd_putF64At
      | apply fwd_readF64s
      | apply fwd_read
      | apply fwd_loop
      | (intro j s; dsimp only)

theorem velocity_offset_appending (sf : FloatFmt → Nat → String) :
    Appending (velocity_offset_body sf) := by
  intro st r l ix
  unfold velocity_offset_body velocity_offset_image planeCoeffsPreview
  simp only [rebase_read, rebase_readF64s, rebase_put, rebase_putF64, rebase_putF64At,
    rebase_loop, implies_true]

theorem cardiac_cycle_fwd (sf : FloatFmt → Nat → String) (st : Run) :
    Fwd st (cardiac_cycle_body sf st) := by
  unfold cardiac_cycle_body cycleVessel
  dsimp only
  repeat
    with_reducible
      first
      | exact Fwd.stay _
      | apply fwd_put
      | apply fwd_putF64
      | apply fwd_putF64At
      | apply fwd_readF64s
      | apply fwd_read
      | apply fwd_loop
      | (intro j s; dsimp only)

theorem cardiac_cycle_appending (sf : FloatFmt → Nat → String) :
    Appending (cardiac_cycle_body sf) := by
  intro st r l ix
  unfold cardiac_cycle_body cycleVessel
  simp only [rebase_read, rebase_readF64s, rebase_put, rebase_putF64, rebase_putF64At,
    rebase_loop, implies_true]

/-! ### DICOM tags -/

theorem read_string_fwd (st : Run) : Fwd st (read_string st).2 := by
  unfold read_string
  exact (fwd_of_read st _ _).next (fwd_of_read _ _ _)

theorem read_string_rebase (st : Run) (r : String) (l : List Nat) (ix : List (Nat × Nat)) :
    read_string (st.rebase r l ix) = ((read_string st).1, (read_string st).2.rebase r l ix) := by
  unfold read_string
  simp only [rebase_read]

theorem tagString_fwd (st : Run) (label : String) : Fwd st (tagString st label) := by
  unfold tagString
  exact fwd_put (read_string_fwd st) _

theorem tagString_rebase (st : Run) (r : String) (l : List Nat) (ix : List (Nat × Nat))
    (label : String) : tagString (st.rebase r l ix) label = (tagString st label).rebase r l ix := by
  unfold tagString
  simp only [read_string_rebase, rebase_put]

theorem fwd_tagU16 {a b : Run} (h : Fwd a b) (label : String) : Fwd a (tagU16 b label) :=
  fwd_put (fwd_read h _ _) _

theorem fwd_tagU8 {a b : Run} (h : Fwd a b) (label : String) : Fwd a (tagU8 b label) :=
  fwd_put (fwd_read h _ _) _

theorem fwd_tagU32 {a b : Run} (h : Fwd a b) (label : String) : Fwd a (tagU32 b label) :=
  fwd_put (fwd_read h _ _) _

theorem fwd_tagF64 {a b : Run} (h : Fwd a b) (sf : FloatFmt → Nat → String) (label : String) :
    Fwd a (tagF64 sf b label) :=
  fwd_put (fwd_putF64 (fwd_put (fwd_read h _ _) _) sf _) _

theorem fwd_tagVec3 {a b : Run} (h : Fwd a b) (sf : FloatFmt → Nat → String) (label : String) :
    Fwd a (tagVec3 sf b label) :=
  fwd_tripleF64 (fwd_put (fwd_read h _ _) _) sf _ _ _

theorem fwd_tagStrings {a b : Run} (h : Fwd a b) (labels : List String) :
    Fwd a (labels.foldl tagString b) :=
  fwd_foldl tagString tagString_fwd labels b h

theorem tagMatRow_fwd (sf : FloatFmt → Nat → String) (buf : List Nat) (j : Nat)
    (cs : Nat × Run) : Fwd cs.2 (tagMatRow sf buf j cs).2 := by
  unfold tagMatRow
  dsimp only
  apply fwd_put
  apply fwd_loop2
  · exact Fwd.stay _
  · intro k s
    unfold matCell
    exact Fwd.stay _

theorem tagMatRow_rebase (sf : FloatFmt → Nat → String) (buf : List Nat) (j : Nat) (c : Nat)
    (s : Run) (r : String) (l : List Nat) (ix : List (Nat × Nat)) :
    tagMatRow sf buf j (c, s.rebase r l ix) =
      ((tagMatRow sf buf j (c, s)).1, (tagMatRow sf buf j (c, s)).2.rebase r l ix) := by
  unfold tagMatRow
  simp only [rebase_put]
  rw [rebase_loop2 r l ix _ (fun k x s => by
    unfold matCell
    simp only [rebase_put, rebase_putF64At])]
  simp only [rebase_put]

theorem dicom_image_fwd (sf : FloatFmt → Nat → String) (i : Nat) (st : Run) :
    Fwd st (dicom_image sf i st) := by
  unfold dicom_image dicom_pixels dicom_patient dicom_geometry
  dsimp only
  repeat
    with_reducible
      first
      | exact Fwd.stay _
      | exact tagMatRow_fwd sf _ _ _
      | apply fwd_tagU16
      | apply fwd_tagU8
      | apply fwd_tagU32
      | apply fwd_tagF64
      | apply fwd_tagVec3
      | apply fwd_tagStrings
      | apply fwd_put
      | apply fwd_read
      | apply fwd_loop2
      | (intro j s; dsimp only)

theorem dicom_image_rebase (sf : FloatFmt → Nat → String) (i : Nat) (st : Run) (r : String)
    (l : List Nat) (ix : List (Nat × Nat)) :
    dicom_image sf i (st.rebase r l ix) = (dicom_image sf i st).rebase r l ix := by
  unfold dicom_image dicom_pixels dicom_patient dicom_geometry tagU16 tagU8 tagU32 tagF64 tagVec3
  simp only [rebase_read, rebase_put, rebase_putF64, rebase_tripleF64,
    rebase_foldl r l ix tagString (fun s y => tagString_rebase s r l ix y),
    rebase_loop2 r l ix _ (fun j c s => tagMatRow_rebase sf _ j c s r l ix)]

theorem dicom_fwd (sf : FloatFmt → Nat → String) (st : Run) : Fwd st (dicom_body sf st) := by
  unfold dicom_body
  dsimp only
  repeat
    with_reducible
      first
      | exact Fwd.stay _
      | exact dicom_image_fwd sf _ _
      | apply fwd_put
      | apply fwd_read
      | apply fwd_loop
      | (intro j s; dsimp only)

theorem dicom_appending (sf : FloatFmt → Nat → String) : Appending (dicom_body sf) := by
  intro st r l ix
  unfold dicom_body
  simp only [rebase_read, rebase_put, rebase_loop, dicom_image_rebase, implies_true]

/-! ### Every decoder -/

theorem body_fwd (sf : FloatFmt → Nat → String) (tagsOf : List Nat → List (List Nat))
    (d : Decoder) (st : Run) : Fwd st (d.body sf tagsOf st) := by
  cases d
  case mesh => exact mesh_fwd sf st
  case centerlines => exact centerlines_fwd sf st
  case landmark_measuring_planes => exact landmark_fwd sf st
  case pathlines => exact pathlines_fwd sf st
  case flowfield => exact flowfield_fwd sf st
  case flow_jet => exact flow_jet_fwd sf st
  case flow_statistics => exact flow_statistics_fwd sf st
  case segmentation_info => exact lineLoop_fwd _ _ st
  case segmentation_graphcut_inside_outside_ids => exact graphcut_ids_fwd st
  case vessel_section_segmentation_in_flowfield_size => exact vessel_sections_fwd sf st
  case vessel_section_segmentation_semantics => exact lineLoop_fwd _ _ st
  case centerline_start_end_ids_on_mesh => exact centerline_ids_fwd st
  case static_tissue_ivsd_thresholds => exact ivsd_thresholds_fwd sf st
  case dataset_filter_tags => exact filter_tags_fwd tagsOf st
  case phase_wrapped_voxels => exact phase_wraps_fwd st
  case velocity_offset_correction_3dt => exact velocity_offset_fwd sf st
  case dicom_tags => exact dicom_fwd sf st
  case cardiac_cycle_definition => exact cardiac_cycle_fwd sf st
  case venc => exact venc_fwd sf st
  all_goals exact nd_fwd sf st

theorem body_appending (sf : FloatFmt → Nat → String) (tagsOf : List Nat → List (List Nat))
    (d : Decoder) : Appending (d.body sf tagsOf) := by
  cases d
  case mesh => exact mesh_appending sf
  case centerlines => exact centerlines_appending sf
  case landmark_measuring_planes => exact landmark_appending sf
  case pathlines => exact pathlines_appending sf
  case flowfield => exact flowfield_appending sf
  case flow_jet => exact flow_jet_appending sf
  case flow_statistics => exact flow_statistics_appending sf
  case segmentation_info => exact lineLoop_appending _ _
  case segmentation_graphcut_inside_outside_ids => exact graphcut_ids_appending
  case vessel_section_segmentation_in_flowfield_size => exact vessel_sections_appending sf
  case vessel_section_segmentation_semantics => exact lineLoop_appending _ _
  case centerline_start_end_ids_on_mesh => exact centerline_ids_appending
  case static_tissue_ivsd_thresholds => exact ivsd_thresholds_appending sf
  case dataset_filter_tags => exact filter_tags_appending tagsOf
  case phase_wrapped_voxels => exact phase_wraps_appending
  case velocity_offset_correction_3dt => exact velocity_offset_appending sf
  case dicom_tags => exact dicom_appending sf
  case cardiac_cycle_definition => exact cardiac_cycle_appending sf
  case venc => exact venc_appending sf
  all_goals exact nd_appending sf

/-- Each member function `read_X(filepath)` is `Decoder.read` at its decoder. -/
theorem read_named (sf : FloatFmt → Nat → String) (tagsOf : List Nat → List (List Nat)) :
    Decoder.mesh.read sf tagsOf = read_mesh sf ∧
      Decoder.centerlines.read sf tagsOf = read_centerlines sf ∧
      Decoder.landmark_measuring_planes.read sf tagsOf = read_landmark_measuring_planes sf ∧
      Decoder.pathlines.read sf tagsOf = read_pathlines sf ∧
      Decoder.flowfield.read sf tagsOf = read_flowfield sf ∧
      Decoder.pressure_map.read sf tagsOf = read_pressure_map sf ∧
      Decoder.rotation_direction_map.read sf tagsOf = read_rotation_direction_map sf ∧
      Decoder.axial_velocity_map.read sf tagsOf = read_axial_velocity_map sf ∧
      Decoder.cos_angle_to_centerline_map.read sf tagsOf = read_cos_angle_to_centerline_map sf ∧
      Decoder.turbulent_kinetic_energy_map.read sf tagsOf =
        read_turbulent_kinetic_energy_map sf ∧
      Decoder.flow_jet.read sf tagsOf = read_flow_jet sf ∧
      Decoder.ivsd.read sf tagsOf = read_ivsd sf ∧
      Decoder.magnitude_tmip.read sf tagsOf = read_magnitude_tmip sf ∧
      Decoder.flow_statistics.read sf tagsOf = read_flow_statistics sf ∧
      Decoder.segmentation.read sf tagsOf = read_segmentation sf ∧
      Decoder.segmentation_info.read sf tagsOf = read_segmentation_info ∧
      Decoder.segmentation_graphcut_inside_outside_ids.read sf tagsOf =
        read_segmentation_graphcut_inside_outside_ids ∧
      Decoder.segmentation_in_flowfield_size.read sf tagsOf =
        read_segmentation_in_flowfield_size sf ∧
      Decoder.vessel_section_segmentation_in_flowfield_size.read sf tagsOf =
        read_vessel_section_segmentation_in_flowfield_size sf ∧
      Decoder.vessel_section_segmentation_semantics.read sf tagsOf =
        read_vessel_section_segmentation_semantics ∧
      Decoder.centerline_start_end_ids_on_mesh.read sf tagsOf =
        read_centerline_start_end_ids_on_mesh ∧
      Decoder.static_tissue_mask.read sf tagsOf = read_static_tissue_mask sf ∧
      Decoder.static_tissue_ivsd_thresholds.read sf tagsOf =
        read_static_tissue_ivsd_thresholds sf ∧
      Decoder.dataset_filter_tags.read sf tagsOf = read_dataset_filter_tags tagsOf ∧
      Decoder.phase_wrapped_voxels.read sf tagsOf = read_phase_wrapped_voxels ∧
      Decoder.velocity_offset_correction_3dt.read sf tagsOf =
        read_velocity_offset_correction_3dt sf ∧
      Decoder.dicom_tags.read sf tagsOf = read_dicom_tags sf ∧
      Decoder.cardiac_cycle_definition.read sf tagsOf = read_cardiac_cycle_definition sf ∧
      Decoder.venc.read sf tagsOf = read_venc sf :=
  ⟨rfl, rfl, rfl, rfl, rfl, rfl, rfl, rfl, rfl, rfl, rfl, rfl, rfl, rfl, rfl, rfl, rfl, rfl, rfl,
    rfl, rfl, rfl, rfl, rfl, rfl, rfl, rfl, rfl, rfl⟩

theorem all_decoders (d : Decoder) : d ∈ Decoder.all := by
  cases d <;> decide

theorem all_decoders_count : Decoder.all.length = 29 ∧ Decoder.all.Nodup := by
  decide



theorem rebase_idx (st : Run) (r : String) (l : List Nat) (ix : List (Nat × Nat)) :
    (st.rebase r l ix).idx = ix ++ st.idx := rfl

theorem run_idx (d : Decoder) (body : Run → Run) (hA : Appending body) (fs : FileSystem)
    (filepath : String) (st : Run) :
    (d.run body fs filepath st).2.idx = st.idx ++ d.accesses body fs filepath st.fmt := by
  cases h : fs filepath with
  | missing => simp [Decoder.run, Decoder.accesses, h, Run.put]
  | unopenable => simp [Decoder.run, Decoder.accesses, h, Run.put]
  | present bytes =>
    rw [decoder_present d body fs filepath st bytes h]
    show (body ((st.put (d.readingNote ++ filepath ++ "\")\n")).opened bytes)).idx = _
    rw [opened_eq_rebase, hA]
    simp [Decoder.accesses, h, rebase_idx, Run.put]

/-! ### The loops over lines end -/

theorem getline_progress (st : Run) (line : List Nat) (hg : st.file.good = true)
    (hp : st.file.pos ≤ st.file.data.length) :
    (st.getline line).2.file.good = false ∨
      (st.file.pos < (st.getline line).2.file.pos ∧
        (st.getline line).2.file.pos ≤ (st.getline line).2.file.data.length ∧
        (st.getline line).2.file.data = st.file.data) := by
  unfold Run.getline
  simp only [hg, if_true]
  split
  · rename_i h
    right
    simp only [List.length_drop] at h
    refine ⟨by simp only; omega, by simp only; omega, rfl⟩
  · left
    rfl

theorem lineStep_file (before after : String) (j : Nat) (s : List Nat × Run) :
    (lineStep before after j s).2.file = (s.2.getline s.1).2.file := by
  unfold lineStep
  dsimp only
  split <;> rfl

theorem forFromWhile_stop {α : Type} (cond : α → Bool) (body : Nat → α → α) (s : α)
    (h : cond s = false) : ∀ (k i : Nat), forFromWhile cond body i k s = s := by
  intro k i
  cases k with
  | zero => rfl
  | succ k => simp [forFromWhile, h]

theorem lineLoop_passes (before after : String) :
    ∀ (k i : Nat) (s : List Nat × Run), s.2.file.pos ≤ s.2.file.data.length →
      s.2.file.data.length - s.2.file.pos + 1 ≤ k →
      (forFromWhile notAtEof (lineStep before after) i k s).2.file.good = false := by
  intro k
  induction k with
  | zero => intro i s _ hk; omega
  | succ k ih =>
    intro i s hp hk
    by_cases hc : notAtEof s = true
    · have hg : s.2.file.good = true := hc
      simp only [forFromWhile, hc, if_true]
      rcases getline_progress s.2 s.1 hg hp with hb | ⟨h1, h2, h3⟩
      · have hn : notAtEof (lineStep before after i s) = false := by
          show (lineStep before after i s).2.file.good = false
          rw [lineStep_file]; exact hb
        rw [forFromWhile_stop _ _ _ hn]
        exact hn
      · apply ih
        · rw [lineStep_file]; exact h2
        · rw [lineStep_file, h3]
          rw [h3] at h2
          omega
    · have hg : s.2.file.good = false := by
        cases hgood : s.2.file.good
        · rfl
        · exact absurd hgood hc
      have hn : notAtEof s = false := hg
      rw [forFromWhile_stop _ _ _ hn]
      exact hg

/-- The loop over the lines of a text file ends with the stream at its end: the
number of passes allowed for in `lineLoop` is never used up while the stream is
still good. -/
theorem lineLoop_ends (before after : String) (st : Run)
    (hp : st.file.pos ≤ st.file.data.length) : (lineLoop before after st).file.good = false :=
  lineLoop_passes before after _ 0 ([], st) hp (le_refl _)

/-! ## C11 -/

/-- C16, for the calls that evaluate no index outside its vector.  For every
decoder with a path argument (each of the 29), whatever the file system holds at
the path: when the first call stays inside its vectors, two calls in a row append
the same text `s`, so the report after them is `r ++ s ++ s`, they return the same
flag, and the second call stays inside its vectors as well. -/
theorem decoder_twice (sf : FloatFmt → Nat → String)
    (tagsOf : List Nat → List (List Nat)) (d : Decoder)
    (fs : FileSystem) (filepath : String) (st : Run)
    (hin : InBounds ((d.read sf tagsOf fs filepath st).2.idx.drop st.idx.length)) :
    ∃ s, (d.read sf tagsOf fs filepath st).2.res = st.res ++ s ∧
      (d.read sf tagsOf fs filepath (d.read sf tagsOf fs filepath st).2).2.res =
        st.res ++ s ++ s ∧
      (d.read sf tagsOf fs filepath (d.read sf tagsOf fs filepath st).2).1 =
        (d.read sf tagsOf fs filepath st).1 ∧
      InBounds ((d.read sf tagsOf fs filepath (d.read sf tagsOf fs filepath st).2).2.idx.drop
        (d.read sf tagsOf fs filepath st).2.idx.length) := by
  have hA := body_appending sf tagsOf d
  have hF := body_fwd sf tagsOf d
  refine ⟨d.segment (d.body sf tagsOf) fs filepath st.fmt, run_res d _ hA fs filepath st, ?_,
    run_flag d _ fs filepath _ _, ?_⟩
  · unfold Decoder.read
    rw [run_res d _ hA, run_res d _ hA, run_fmt d _ hF]
  · unfold Decoder.read at hin ⊢
    rw [run_idx d _ hA fs filepath (d.run (d.body sf tagsOf) fs filepath st).2,
      run_fmt d _ hF, run_idx d _ hA fs filepath st]
    rw [run_idx d _ hA] at hin
    simpa using hin

set_option maxRecDepth 100000 in
/-- C16 on the synthetic pressure map. -/
theorem decoder_twice_witness :
    ∃ s, (read_pressure_map bitsF64 (oneFile "pressuremap" (FileState.present exampleND))
        "pressuremap" Run.fresh).2.res = "" ++ s ∧
      (read_pressure_map bitsF64 (oneFile "pressuremap" (FileState.present exampleND))
        "pressuremap"
        (read_pressure_map bitsF64 (oneFile "pressuremap" (FileState.present exampleND))
          "pressuremap" Run.fresh).2).2.res = "" ++ s ++ s :=
  (decoder_twice bitsF64 (fun _ => []) Decoder.pressure_map
    (oneFile "pressuremap" (FileState.present exampleND)) "pressuremap" Run.fresh
    (by decide)).imp (fun _ h => ⟨h.1, h.2.1⟩)


/-! ## The ND decoder on a stream that ends early -/

theorem Drained.wrote {a b : Run} {t : String} (h : Drained a b t) (u : String) :
    Drained a (b.put u) (t ++ u) :=
  ⟨h.1, by show b.res ++ u = _; rw [h.2.1, String.append_assoc], h.2.2⟩

theorem Drained.emits {a b c : Run} {t u : String} {ix : List (Nat × Nat)}
    (h : Drained a b t) (e : c = b.emit u ix) : Drained a c (t ++ u) := by
  subst e
  exact ⟨h.1, by show b.res ++ u = _; rw [h.2.1, String.append_assoc], h.2.2⟩

theorem Drained.fetched {a b : Run} {t : String} (h : Drained a b t) (buf : List Nat) (n : Nat) :
    Drained a (b.read buf n).2 t ∧ (b.read buf n).1 = buf := by
  obtain ⟨hd, hr, hf⟩ := h
  have hs : slice b.file.data b.file.pos n = [] := by
    unfold slice
    rw [List.drop_eq_nil_of_le hd, List.take_nil]
  unfold Run.read IfStream.extract
  split
  · refine ⟨⟨?_, hr, hf⟩, ?_⟩
    · simp only [hs, List.length_nil, Nat.add_zero]
      exact hd
    · simp only [hs, List.length_nil, List.drop_zero, List.nil_append]
  · exact ⟨⟨hd, hr, hf⟩, by simp⟩

theorem Drained.fetchF64s {a b : Run} {t : String} (h : Drained a b t) (buf : List Nat) :
    Drained a (b.readF64s buf).2 t ∧ (b.readF64s buf).1 = buf :=
  h.fetched buf _

theorem Reaches.drained {data : List Nat} {a b : Run} {p : Nat} {l : List Nat} {t : String}
    (h : Reaches data a b p l t) (hp : data.length ≤ p) : Drained a b t := by
  obtain ⟨f, _, x, m⟩ := h
  exact ⟨by rw [f]; exact hp, x, m⟩

theorem slice_append_left (a b : List Nat) (p n : Nat) (h : p + n ≤ a.length) :
    slice (a ++ b) p n = slice a p n := by
  unfold slice
  rw [List.drop_append_of_le_length (by omega), List.take_append_of_le_length]
  rw [List.length_drop]
  omega

theorem elemAt_append_left (w : Nat) (a b : List Nat) (i : Nat) (h : w * i + w ≤ a.length) :
    elemAt w (a ++ b) i = elemAt w a i := by
  unfold elemAt
  rw [slice_append_left a b (w * i) w h]

theorem elemAt_append_zeros (w : Nat) (a : List Nat) (m i : Nat) (h : a.length ≤ w * i) :
    elemAt w (a ++ zeros m) i = 0 := by
  unfold elemAt slice
  rw [List.drop_append_eq_append_drop, List.drop_eq_nil_of_le h]
  simp [zeros, List.drop_replicate, List.take_replicate, leNat_replicate_zero]

theorem vresize_pad (w : Nat) (buf : List Nat) (k : Nat) (h : buf.length ≤ w * k) :
    vresize w buf k = buf ++ zeros (w * k - buf.length) := by
  unfold vresize
  rw [List.take_of_length_le]
  simp only [List.length_append, zeros_length]
  omega

theorem matText_render (sf : FloatFmt → Nat → String) (fmt : FloatFmt) (n : Nat)
    (buf L : List Nat)
    (h : ∀ r c, r < n → c < n → elemAt 8 buf (r * n + c) = L.getD (r * n + c) 0) :
    matText sf fmt n buf = renderMatrix sf fmt n L := by
  unfold matText renderMatrix
  rw [List.range_eq_range']
  congr 1
  apply List.map_congr_left
  intro r hr
  have hr' : r < n := by simpa using (List.mem_range'_1.mp hr).2
  congr 3
  apply List.map_congr_left
  intro c hc
  have hc' : c < n := by simpa using (List.mem_range'_1.mp hc).2
  rw [h r c hr' hc']

theorem f64sAt_length (data : List Nat) (q n : Nat) : (f64sAt data q n).length = n := by
  simp [f64sAt]

theorem getD_replicate_zero (m j : Nat) : (List.replicate m 0).getD j 0 = 0 := by
  induction m generalizing j with
  | zero => simp
  | succ m ih =>
    cases j with
    | zero => rfl
    | succ j => exact ih j

theorem matText_padded (sf : FloatFmt → Nat → String) (fmt : FloatFmt) (data : List Nat)
    (q : Nat) (hq : q + 128 ≤ data.length) :
    matText sf fmt 5 (vresize 8 (slice data q (8 * 16)) 25) =
      renderMatrix sf fmt 5 (f64sAt data q 16 ++ List.replicate 9 0) := by
  have hl : (slice data q (8 * 16)).length = 128 := slice_length data q _ (by omega)
  rw [vresize_pad 8 _ 25 (by omega), hl]
  apply matText_render
  intro r c hr hc
  by_cases hi : r * 5 + c < 16
  · rw [elemAt_append_left 8 _ _ _ (by omega), elemAt_slice 8 data q (8 * 16) _ (by omega),
      List.getD_append _ _ _ _ (by rw [f64sAt_length]; exact hi)]
    simp only [f64sAt, getD_map_range _ 16 _ hi, f64At]
  · rw [elemAt_append_zeros 8 _ _ _ (by omega),
      List.getD_append_right _ _ _ _ (by rw [f64sAt_length]; omega)]
    exact (getD_replicate_zero _ _).symm

theorem nd_matrices_stale (sf : FloatFmt → Nat → String) (data : List Nat) (st : Run) (q : Nat)
    (hf : st.file = ⟨data, q, true⟩) (hlen : data.length = q + 128) :
    Drained st (nd_matrices sf st)
      ("\t\t- world matrix:\n" ++ renderMatrix sf st.fmt 4 (f64sAt data q 16)
        ++ "\t\t- inverse world matrix:\n" ++ renderMatrix sf st.fmt 4 (f64sAt data q 16)
        ++ "\t\t- world matrix with time:\n"
        ++ renderMatrix sf st.fmt 5 (f64sAt data q 16 ++ List.replicate 9 0)
        ++ "\t\t- inverse world matrix with time:\n"
        ++ renderMatrix sf st.fmt 5 (f64sAt data q 16 ++ List.replicate 9 0)) := by
  unfold nd_matrices
  lift_lets
  extract_lets r1 s1 r2 s2 r3 s3 r4
  have h0 := Reaches.refl data st q hf
  obtain ⟨g1, v1, n1⟩ := h0.readF64s (zeros (8 * 16)) 16 (by simp [zeros]) (by omega)
  have h1 : Reaches data st s1 _ _ _ := (g1.put _).emit_eq (putMatrix_emit sf 4 r1.1 _)
  have d1 : Drained st s1 _ := h1.drained (by omega)
  obtain ⟨a2, v2⟩ := d1.fetchF64s r1.1
  have d2 : Drained st s2 _ := (a2.wrote _).emits (putMatrix_emit sf 4 r2.1 _)
  obtain ⟨a3, v3⟩ := d2.fetchF64s (vresize 8 r2.1 25)
  have d3 : Drained st s3 _ := (a3.wrote _).emits (putMatrix_emit sf 5 r3.1 _)
  obtain ⟨a4, v4⟩ := d3.fetchF64s r3.1
  have d4 : Drained st
      (putMatrix sf 5 r4.1 (r4.2.put "\t\t- inverse world matrix with time:\n")) _ :=
    (a4.wrote _).emits (putMatrix_emit sf 5 r4.1 _)
  have e1 : (r1.2.put "\t\t- world matrix:\n").fmt = st.fmt := (g1.put _).2.2.2
  have e2 : (r2.2.put "\t\t- inverse world matrix:\n").fmt = st.fmt := (a2.wrote _).2.2
  have e3 : (r3.2.put "\t\t- world matrix with time:\n").fmt = st.fmt := (a3.wrote _).2.2
  have e4 : (r4.2.put "\t\t- inverse world matrix with time:\n").fmt = st.fmt :=
    (a4.wrote _).2.2
  change r1.1 = slice data q (8 * 16) at v1
  change r2.1 = r1.1 at v2
  change r3.1 = vresize 8 r2.1 25 at v3
  change r4.1 = r3.1 at v4
  refine ⟨d4.1, ?_, d4.2.2⟩
  rw [d4.2.1, e1, e2, e3, e4, v4, v3, v2, v1,
    matText_slice sf st.fmt 4 16 data _ (by intro r c hr hc; omega),
    matText_padded sf st.fmt data q (by omega)]
  simp only [String.empty_append, String.append_assoc]

theorem nd_values_drained (sf : FloatFmt → Nat → String) (d : Nat) (a st : Run) (t : String)
    (h : Drained a st t) :
    Drained a (nd_values sf d st)
      (t ++ ("\t\t- num. non-zero values: " ++ toString 0 ++ "\n" ++ "\t\t\t- ...\n")) := by
  unfold nd_values
  lift_lets
  extract_lets r numNonZero s1 gridpos gs
  obtain ⟨a1, v1⟩ := h.fetched (zeros 4) 4
  have hn : numNonZero = 0 := by
    show elemAt 4 r.1 0 = 0
    rw [show r.1 = zeros 4 from v1]; decide
  have b1 : Drained a s1 _ := a1.wrote _
  have e5 : gs = (gridpos, s1) := by
    show forLoop numNonZero _ _ = _
    rw [hn]; rfl
  have b2 := b1.wrote "\t\t\t- ...\n"
  rw [e5]
  refine ⟨b2.1, ?_, b2.2.2⟩
  rw [b2.2.1, hn, String.append_assoc]



theorem ndEntry_tuple (sf : FloatFmt → Nat → String) (d j : Nat) (gs : List Nat × Run) :
    (ndEntry sf d j gs).1 = (gs.2.read gs.1 (d * 4)).1 := by
  unfold ndEntry
  dsimp only
  split <;> rfl

theorem ndEntry_drained (sf : FloatFmt → Nat → String) (a : Run) (gs : List Nat × Run)
    (d j : Nat) (t : String) (hd : d < U32) (h : Drained a gs.2 t) :
    (ndEntry sf d j gs).1 = gs.1 ∧
      Drained a (ndEntry sf d j gs).2
        (t ++ if j < NUM_DEMO then
          renderEntry sf a.fmt j ((List.range d).map (fun k => elemAt 4 gs.1 k), 0) else "") := by
  obtain ⟨g, st⟩ := gs
  simp only at h
  obtain ⟨a1, v1⟩ := h.fetched g (d * 4)
  obtain ⟨a2, v2⟩ := a1.fetched (zeros 8) 8
  have hval : elemAt 8 ((st.read g (d * 4)).2.read (zeros 8) 8).1 0 = 0 := by
    rw [v2]; decide
  unfold ndEntry
  simp only [hval, v1]
  by_cases hj : j < NUM_DEMO
  · simp only [if_pos hj]
    refine ⟨trivial, ?_⟩
    have h3 := ((a2.wrote ("\t\t\t- " ++ toString j ++ ": [")).emits
      (putU32Row_emit ", " d g _ hd)).wrote "] = "
    have h4 := (h3.emits (putF64_eq_emit sf _ 0)).wrote "\n"
    have m3 : ((putU32Row ", " d g
        (((st.read g (d * 4)).2.read (zeros 8) 8).2.put
          ("\t\t\t- " ++ toString j ++ ": ["))).put "] = ").fmt = a.fmt := h3.2.2
    refine ⟨h4.1, ?_, h4.2.2⟩
    rw [h4.2.1, m3]
    simp only [renderEntry, List.map_map, String.append_assoc]
    rfl
  · simp only [if_neg hj, String.append_empty]
    exact ⟨trivial, a2⟩

theorem tuple_of_slice (data : List Nat) (q d : Nat) :
    (List.range d).map (fun i => elemAt 4 (slice data q (d * 4)) i) =
      (List.range d).map (fun i => u32At data (q + 4 * i)) := by
  apply List.map_congr_left
  intro i hi
  have hi' : i < d := List.mem_range.mp hi
  rw [elemAt_slice 4 data q (d * 4) i (by omega)]
  rfl

theorem tuple_of_zeros (d : Nat) :
    (List.range d).map (fun i => elemAt 4 (zeros (4 * d)) i) = List.replicate d 0 := by
  simp only [elemAt_zeros]
  induction d with
  | zero => rfl
  | succ d ih => rw [List.range_succ, List.map_append, ih, List.replicate_succ']; rfl

theorem nd_values_stale (sf : FloatFmt → Nat → String) (data : List Nat) (st : Run)
    (q d k : Nat) (hf : st.file = ⟨data, q, true⟩) (hd : d < U32)
    (hlen : data.length = q + 4 + k * (4 * d + 8)) :
    (nd_values sf d st).res = st.res ++
      ("\t\t- num. non-zero values: " ++ toString (u32At data q) ++ "\n"
        ++ renderPreview sf st.fmt ((List.range (u32At data q)).map (fun i =>
          if i < k then sparseEntryAt data (q + 4) d i
          else (staleTuple data (q + 4) d k, 0)))
        ++ "\t\t\t- ...\n") := by
  unfold nd_values
  lift_lets
  extract_lets r numNonZero s1 gridpos gs
  have h0 := Reaches.refl data st q hf
  have v1 : r.1 = slice data q 4 := h0.read_value (zeros 4) 4 (by omega) (by simp [zeros])
  have hn : numNonZero = u32At data q := by
    show elemAt 4 r.1 0 = _
    rw [v1, elemAt_zero_slice]; rfl
  have h1 : Reaches data st s1 _ _ _ := (h0.read (zeros 4) 4 (by omega)).put _
  have inv := forFrom_inv (ndEntry sf d)
    (fun j gs => gs.1.length = 4 * d ∧
      (j ≤ k → ∃ l, Reaches data st gs.2 (q + 4 + j * (4 * d + 8)) l
        ("\t\t- num. non-zero values: " ++ toString numNonZero ++ "\n" ++
          cat ((List.range (min j NUM_DEMO)).map
            (fun i => renderEntry sf st.fmt i
              (if i < k then sparseEntryAt data (q + 4) d i
                else (staleTuple data (q + 4) d k, 0)))))) ∧
      (k < j → Drained st gs.2
        ("\t\t- num. non-zero values: " ++ toString numNonZero ++ "\n" ++
          cat ((List.range (min j NUM_DEMO)).map
            (fun i => renderEntry sf st.fmt i
              (if i < k then sparseEntryAt data (q + 4) d i
                else (staleTuple data (q + 4) d k, 0)))))) ∧
      (k ≤ j → (List.range d).map (fun i => elemAt 4 gs.1 i) = staleTuple data (q + 4) d k))
    numNonZero 0 (gridpos, s1)
    ⟨by simp [gridpos, zeros], fun _ => ⟨_, h1.congr (by omega) rfl (by simp [cat])⟩,
      fun hk => absurd hk (Nat.not_lt_zero _), fun hk => by
        have hk0 : k = 0 := by omega
        rw [show gridpos = zeros (4 * d) from rfl, tuple_of_zeros, staleTuple, if_pos hk0]⟩
    (by
      intro j gs' _ hj hP
      obtain ⟨hb, hR, hD, hT⟩ := hP
      by_cases hjk : j < k
      · obtain ⟨l, hr⟩ := hR (by omega)
        have hle : (j + 1) * (4 * d + 8) ≤ k * (4 * d + 8) :=
          Nat.mul_le_mul_right _ (by omega)
        have hm : (j + 1) * (4 * d + 8) = j * (4 * d + 8) + (4 * d + 8) := Nat.succ_mul _ _
        obtain ⟨hb', hr'⟩ := ndEntry_step sf data st gs' (q + 4) d j _ _ hd hb hr (by omega)
        refine ⟨hb', fun _ => ⟨_, hr'.congr rfl rfl ?_⟩, fun hk => absurd hk (by omega),
          fun hk => ?_⟩
        · rw [preview_succ, if_pos hjk, String.append_assoc]
        · have hk1 : k = j + 1 := by omega
          rw [ndEntry_tuple, hr.read_value gs'.1 (d * 4) (by omega) (by omega), tuple_of_slice,
            staleTuple, if_neg (by omega), hk1]
          simp only [sparseEntryAt, Nat.add_sub_cancel]
      · have hdr : Drained st gs'.2
            ("\t\t- num. non-zero values: " ++ toString numNonZero ++ "\n" ++
              cat ((List.range (min j NUM_DEMO)).map
                (fun i => renderEntry sf st.fmt i
                  (if i < k then sparseEntryAt data (q + 4) d i
                    else (staleTuple data (q + 4) d k, 0))))) := by
          rcases Nat.lt_or_ge k j with h | h
          · exact hD h
          · have hjk' : j = k := by omega
            obtain ⟨l, hr⟩ := hR (by omega)
            exact hr.drained (by rw [hjk']; omega)
        obtain ⟨e1, hd'⟩ := ndEntry_drained sf st gs' d j _ hd hdr
        refine ⟨by rw [e1]; exact hb, fun hk => absurd hk (by omega), fun _ => ?_,
          fun _ => by rw [e1]; exact hT (by omega)⟩
        refine ⟨hd'.1, ?_, hd'.2.2⟩
        rw [hd'.2.1, preview_succ, if_neg hjk, hT (by omega), String.append_assoc])
  simp only [Nat.zero_add] at inv
  obtain ⟨_, hR, hD, _⟩ := inv
  have hres : gs.2.res = st.res ++
      ("\t\t- num. non-zero values: " ++ toString numNonZero ++ "\n" ++
        cat ((List.range (min numNonZero NUM_DEMO)).map
          (fun i => renderEntry sf st.fmt i
            (if i < k then sparseEntryAt data (q + 4) d i
              else (staleTuple data (q + 4) d k, 0))))) := by
    rcases Nat.lt_or_ge k numNonZero with h | h
    · exact (hD h).2.1
    · obtain ⟨l, hr⟩ := hR h
      exact hr.2.2.1
  show (gs.2.put "\t\t\t- ...\n").res = _
  show gs.2.res ++ "\t\t\t- ...\n" = _
  rw [hres, hn]
  simp only [renderPreview, zipWith_range_map, String.append_assoc]

theorem nd_stale_world (sf : FloatFmt → Nat → String) (data : List Nat) (st : Run) (p : Nat)
    (hf : st.file = ⟨data, p, true⟩) (hlen : data.length = p + 4 + 12 * u32At data p + 128) :
    (_read_nd_scalar_image_in_sparse_matrix_style sf st).res =
      st.res ++ renderNDSparse sf st.fmt (staleAfterWorld data p) := by
  obtain ⟨hd, h1⟩ := nd_dims_spec sf data st p hf (by omega)
  have h2 := nd_matrices_stale sf data (nd_dims sf st).2 _ h1.1 (by omega)
  have m1 : (nd_dims sf st).2.fmt = st.fmt := h1.2.2.2
  have h3 := nd_values_drained sf (nd_dims sf st).1 (nd_dims sf st).2 _ _ h2
  unfold _read_nd_scalar_image_in_sparse_matrix_style
  rw [h3.2.1, h1.2.2.1, m1]
  have hp : renderPreview sf st.fmt [] = "" := by simp [renderPreview, cat]
  simp only [renderNDSparse, staleAfterWorld, decodeNDSparse, List.length_nil, hp,
    String.append_assoc, String.append_empty, String.empty_append]

theorem nd_stale_entries (sf : FloatFmt → Nat → String) (data : List Nat) (st : Run) (p k : Nat)
    (hf : st.file = ⟨data, p, true⟩)
    (hlen : data.length = p + 664 + 12 * u32At data p + k * (4 * u32At data p + 8)) :
    (_read_nd_scalar_image_in_sparse_matrix_style sf st).res =
      st.res ++ renderNDSparse sf st.fmt (staleAfterEntries data p k) := by
  obtain ⟨hd, h1⟩ := nd_dims_spec sf data st p hf (by omega)
  have h2 := nd_matrices_spec sf data (nd_dims sf st).2 _ h1.1 (by omega)
  have hq : p + 4 + 12 * u32At data p + 656 = p + 660 + 12 * u32At data p := by omega
  have h3 := nd_values_stale sf data (nd_matrices sf (nd_dims sf st).2) _ (u32At data p) k h2.1
    (u32At_lt data p) (by rw [hq]; omega)
  have m1 : (nd_dims sf st).2.fmt = st.fmt := h1.2.2.2
  have m2 : (nd_matrices sf (nd_dims sf st).2).fmt = st.fmt := by rw [h2.2.2.2, m1]
  rw [hq, m2] at h3
  rw [m1] at h2
  unfold _read_nd_scalar_image_in_sparse_matrix_style
  simp only [hd]
  rw [h3, h2.2.2.1, h1.2.2.1]
  have e2 : p + 660 + 12 * u32At data p + 4 = p + 664 + 12 * u32At data p := by omega
  simp only [renderNDSparse, staleAfterEntries, decodeNDSparse, hq, e2, List.length_map,
    List.length_range, String.append_assoc]



/-! ## A stream that is good at the end held the whole record -/

theorem pace_same {a b : Run} (h : b.file = a.file) : Pace a b 0 :=
  ⟨by rw [h], fun hg => ⟨by rw [← h]; exact hg, by rw [h]; rfl,
    fun h0 => absurd h0 (Nat.lt_irrefl 0)⟩⟩

theorem pace_trans {a b c : Run} {n m : Nat} (h1 : Pace a b n) (h2 : Pace b c m) :
    Pace a c (n + m) := by
  refine ⟨h2.1.trans h1.1, fun hg => ?_⟩
  obtain ⟨gb, pb, lb⟩ := h2.2 hg
  obtain ⟨ga, pa, la⟩ := h1.2 gb
  have hd := h1.1
  refine ⟨ga, by omega, fun _ => ?_⟩
  rcases Nat.eq_zero_or_pos m with hm | hm
  · subst hm
    have := la (by omega)
    omega
  · have := lb hm
    rw [hd] at this
    omega

theorem pace_read (st : Run) (buf : List Nat) (n : Nat) : Pace st (st.read buf n).2 n := by
  rcases st with ⟨⟨data, pos, good⟩, res, fmt, reads, idx⟩
  cases good
  · simp [Pace, Run.read, IfStream.extract]
  · simp only [Pace, Run.read, IfStream.extract, slice, List.length_take, List.length_drop,
      if_true, true_and, decide_eq_true_eq]
    intro h
    omega

theorem rowU32_file (sep : String) (d : Nat) (buf : List Nat) (st : Run) :
    (putU32Row sep d buf st).file = st.file := by
  have h := forFrom_inv (rowStepU32 sep d buf) (fun _ s => s.file = st.file) d 0 st rfl
    (fun j s _ _ h => by
      rw [rowStepU32_emit]
      show (s.emit _ _).file = st.file
      rw [emit_file]
      exact h)
  exact h

theorem rowF64_file (sf : FloatFmt → Nat → String) (sep : String) (d : Nat) (buf : List Nat)
    (st : Run) : (putF64Row sf sep d buf st).file = st.file := by
  have h := forFrom_inv (rowStepF64 sf sep d buf) (fun _ s => s.file = st.file) d 0 st rfl
    (fun j s _ _ h => by
      rw [rowStepF64_emit]
      show (s.emit _ _).file = st.file
      rw [emit_file]
      exact h)
  exact h

theorem file_eq_of_good (st : Run) (data : List Nat) (p : Nat) (hd : st.file.data = data)
    (hp : st.file.pos = p) (hg : st.file.good = true) : st.file = ⟨data, p, true⟩ := by
  rcases st with ⟨⟨_, _, _⟩, _, _, _, _⟩
  simp_all

/-- When the stream is good behind the dimensions, the grid size and the voxel scale,
these were in the file. -/
theorem nd_dims_good (sf : FloatFmt → Nat → String) (data : List Nat) (st : Run) (p : Nat)
    (hd : st.file.data = data) (hp : st.file.pos = p) :
    (nd_dims sf st).2.file.good = true →
      st.file.good = true ∧ p + 4 + 12 * u32At data p ≤ data.length := by
  unfold nd_dims
  lift_lets
  extract_lets r1 numDims s1 r2 gridsize s2 s3 r3 voxelscale s4
  intro hg
  have c1 : Pace st r1.2 4 := pace_read st _ 4
  have c2 : Pace r1.2 r2.2 (numDims * 4) := pace_read s1 _ _
  have c3 : Pace r2.2 s3 0 := pace_same (rowU32_file " x " numDims gridsize s2)
  have c4 : Pace s3 r3.2 (numDims * 8) := pace_read s3 _ _
  have c5 : Pace r3.2 ((putF64Row sf " x " numDims voxelscale s4).put "\n") 0 :=
    pace_same (rowF64_file sf " x " numDims voxelscale s4)
  have c := pace_trans (pace_trans (pace_trans (pace_trans c1 c2) c3) c4) c5
  obtain ⟨g0, _, l0⟩ := c.2 hg
  have l1 := l0 (by omega)
  rw [hd, hp] at l1
  have hf := file_eq_of_good st data p hd hp g0
  have v1 : r1.1 = slice data p 4 := read_fst st (zeros 4) 4 data p hf (by omega) (by simp [zeros])
  have hn : numDims = u32At data p := by
    show elemAt 4 r1.1 0 = _
    rw [v1, elemAt_zero_slice]; rfl
  rw [hn] at l1
  exact ⟨g0, by omega⟩

theorem pace_readF64s (st : Run) (buf : List Nat) (n : Nat) (h : buf.length = 8 * n) :
    Pace st (st.readF64s buf).2 (8 * n) := by
  have e : buf.length / 8 * 8 = 8 * n := by omega
  unfold Run.readF64s
  rw [e]
  exact pace_read st buf (8 * n)

theorem pace_matrix (sf : FloatFmt → Nat → String) (n : Nat) (buf : List Nat) (st : Run)
    (t : String) : Pace st (putMatrix sf n buf (st.put t)) 0 :=
  pace_same (by rw [putMatrix_emit, emit_file]; rfl)

theorem nd_matrices_pace (sf : FloatFmt → Nat → String) (st : Run) :
    Pace st (nd_matrices sf st) 656 := by
  unfold nd_matrices
  lift_lets
  extract_lets r1 s1 r2 s2 r3 s3 r4
  have n1 : r1.1.length = 8 * 16 := by
    rw [readF64s_length_any, zeros_length]
  have n2 : r2.1.length = 8 * 16 := by
    rw [readF64s_length_any]; exact n1
  have n3 : r3.1.length = 8 * 25 := by
    rw [readF64s_length_any, vresize_length]
  have c1 : Pace st r1.2 (8 * 16) := pace_readF64s st _ 16 (zeros_length _)
  have c2 : Pace r1.2 s1 0 := pace_matrix sf 4 r1.1 r1.2 _
  have c3 : Pace s1 r2.2 (8 * 16) := pace_readF64s s1 _ 16 n1
  have c4 : Pace r2.2 s2 0 := pace_matrix sf 4 r2.1 r2.2 _
  have c5 : Pace s2 r3.2 (8 * 25) := pace_readF64s s2 _ 25 (vresize_length 8 r2.1 25)
  have c6 : Pace r3.2 s3 0 := pace_matrix sf 5 r3.1 r3.2 _
  have c7 : Pace s3 r4.2 (8 * 25) := pace_readF64s s3 _ 25 n3
  have c8 := pace_matrix sf 5 r4.1 r4.2 "\t\t- inverse world matrix with time:\n"
  exact pace_trans (pace_trans (pace_trans (pace_trans (pace_trans (pace_trans (pace_trans c1 c2)
    c3) c4) c5) c6) c7) c8

theorem ndEntry_pace (sf : FloatFmt → Nat → String) (d j : Nat) (gs : List Nat × Run) :
    Pace gs.2 (ndEntry sf d j gs).2 (d * 4 + 8) := by
  have c1 : Pace gs.2 (gs.2.read gs.1 (d * 4)).2 (d * 4) := pace_read _ _ _
  have c2 := pace_trans c1 (pace_read (gs.2.read gs.1 (d * 4)).2 (zeros 8) 8)
  unfold ndEntry
  lift_lets
  extract_lets r gridpos v val st
  by_cases hj : j < NUM_DEMO
  · simp only [if_pos hj]
    have c3 : Pace v.2 (((((st.put ("\t\t\t- " ++ toString j ++ ": [")) |> putU32Row ", " d gridpos).put
        "] = ").putF64 sf val).put "\n") 0 :=
      pace_same (rowU32_file ", " d gridpos _)
    exact (pace_trans c2 c3 : Pace _ _ (d * 4 + 8 + 0))
  · simp only [if_neg hj]
    exact c2

theorem ndEntries_pace (sf : FloatFmt → Nat → String) (d : Nat) :
    ∀ (k i : Nat) (gs : List Nat × Run),
      Pace gs.2 (forFrom (ndEntry sf d) i k gs).2 (k * (d * 4 + 8)) := by
  intro k
  induction k with
  | zero => intro i gs; simpa [forFrom] using pace_same (a := gs.2) rfl
  | succ k ih =>
    intro i gs
    have h := pace_trans (ndEntry_pace sf d i gs) (ih (i + 1) (ndEntry sf d i gs))
    rw [show (k + 1) * (d * 4 + 8) = d * 4 + 8 + k * (d * 4 + 8) by ring]
    exact h

/-- When the stream is good behind the sparse entries, the count and the entries it
announces were in the file. -/
theorem nd_values_good (sf : FloatFmt → Nat → String) (data : List Nat) (st : Run) (q d : Nat)
    (hd : st.file.data = data) (hp : st.file.pos = q) :
    (nd_values sf d st).file.good = true →
      st.file.good = true ∧ q + 4 + u32At data q * (4 * d + 8) ≤ data.length := by
  unfold nd_values
  lift_lets
  extract_lets r numNonZero s1 gridpos gs
  intro hg
  have c1 : Pace st r.2 4 := pace_read st _ 4
  have c2 : Pace r.2 gs.2 (numNonZero * (d * 4 + 8)) := ndEntries_pace sf d numNonZero 0 (gridpos, s1)
  have c := pace_trans c1 c2
  obtain ⟨g0, _, l0⟩ := c.2 hg
  have l1 := l0 (by omega)
  rw [hd, hp] at l1
  have hf := file_eq_of_good st data q hd hp g0
  have v1 : r.1 = slice data q 4 := read_fst st (zeros 4) 4 data q hf (by omega) (by simp [zeros])
  have hn : numNonZero = u32At data q := by
    show elemAt 4 r.1 0 = _
    rw [v1, elemAt_zero_slice]; rfl
  rw [hn] at l1
  refine ⟨g0, ?_⟩
  have e : u32At data q * (d * 4 + 8) = u32At data q * (4 * d + 8) := by ring
  omega

/-- The ND decoder leaves the stream good only when the file holds the whole record
its counts announce. -/
theorem nd_good_complete (sf : FloatFmt → Nat → String) (data : List Nat) (st : Run) (p : Nat)
    (hd : st.file.data = data) (hp : st.file.pos = p)
    (hg : (_read_nd_scalar_image_in_sparse_matrix_style sf st).file.good = true) :
    p + ndSparseSize data p ≤ data.length := by
  unfold _read_nd_scalar_image_in_sparse_matrix_style at hg
  simp only at hg
  have cm := nd_matrices_pace sf (nd_dims sf st).2
  have hdd : (nd_matrices sf (nd_dims sf st).2).file.data = (nd_matrices sf (nd_dims sf st).2).file.data := rfl
  obtain ⟨gv, _⟩ := nd_values_good sf _ (nd_matrices sf (nd_dims sf st).2) _ (nd_dims sf st).1
    rfl rfl hg
  obtain ⟨gd, _, _⟩ := cm.2 gv
  obtain ⟨g0, l0⟩ := nd_dims_good sf data st p hd hp gd
  have hf := file_eq_of_good st data p hd hp g0
  obtain ⟨e1, r1⟩ := nd_dims_spec sf data st p hf l0
  obtain ⟨_, pm, _⟩ := cm.2 gv
  have fm : (nd_matrices sf (nd_dims sf st).2).file.data = data := by rw [cm.1, r1.1]
  have pq : (nd_matrices sf (nd_dims sf st).2).file.pos = p + 4 + 12 * u32At data p + 656 := by
    rw [pm, r1.1]
  obtain ⟨_, l2⟩ := nd_values_good sf data (nd_matrices sf (nd_dims sf st).2) _
    (nd_dims sf st).1 fm pq hg
  rw [e1] at l2
  simp only [ndSparseSize]
  have hq : p + 4 + 12 * u32At data p + 656 = p + 660 + 12 * u32At data p := by omega
  rw [hq] at l2
  omega

theorem slice_take (full : List Nat) (k p n : Nat) (h : p + n ≤ (full.take k).length) :
    slice (full.take k) p n = slice full p n := by
  have := slice_append_left (full.take k) (full.drop k) p n h
  rw [List.take_append_drop] at this
  exact this.symm

/-- On the first `k` bytes of a stream, fewer than the record at its start takes, the
ND decoder leaves the stream in the failed state. -/
theorem nd_cut_fails (sf : FloatFmt → Nat → String) (full : List Nat) (k : Nat) (st : Run)
    (hk : k < ndSparseSize full 0) (hd : st.file.data = full.take k) (hp : st.file.pos = 0) :
    (_read_nd_scalar_image_in_sparse_matrix_style sf st).file.good = false := by
  by_contra hg
  have hg : (_read_nd_scalar_image_in_sparse_matrix_style sf st).file.good = true := by
    simpa using hg
  have h := nd_good_complete sf (full.take k) st 0 hd hp hg
  have hl : (full.take k).length ≤ k := by simp
  simp only [ndSparseSize, Nat.zero_add] at h hk
  have e1 : u32At (full.take k) 0 = u32At full 0 := by
    have hb : 0 + 4 ≤ (full.take k).length := by omega
    unfold u32At
    rw [slice_take full k 0 4 hb]
  rw [e1] at h
  have e2 : u32At (full.take k) (660 + 12 * u32At full 0) =
      u32At full (660 + 12 * u32At full 0) := by
    have hb : 660 + 12 * u32At full 0 + 4 ≤ (full.take k).length := by omega
    show leNat (slice _ _ 4) = leNat (slice _ _ 4)
    rw [slice_take full k _ 4 hb]
  rw [e2] at h
  omega

/-! ## C4 -/

/-- C4, amended, for the ten decoders of one ND record: on a file that holds a
complete record cut off before its end (the first `k` bytes of a stream `full` with
a complete record of more than `k` bytes), a read falls short, which leaves the
stream in the failed state, and the call signals no failure: it returns true, and
it appends, after its note, a record text that runs from the line of the number of
dimensions to the closing line. -/
theorem truncation_not_detected (sf : FloatFmt → Nat → String) (fs : FileSystem)
    (filepath : String) (st : Run) (full : List Nat) (k : Nat)
    (_hfull : ndSparseSize full 0 ≤ full.length) (hk : k < ndSparseSize full 0)
    (h : fs filepath = FileState.present (full.take k)) :
    ∀ p ∈ ndDecoders sf,
      (p.2 fs filepath st).1 = true ∧
        (p.2 fs filepath st).2.file.good = false ∧
        ∃ (numDims : Nat) (t : String), (p.2 fs filepath st).2.res =
          st.res ++ (p.1.readingNote ++ filepath ++ "\")\n")
            ++ "\t\t- num. dimensions: " ++ toString numDims ++ "\n" ++ t ++ "\t\t\t- ...\n" := by
  intro p hp
  rw [nd_decoder_is_run sf p hp, decoder_present _ _ fs filepath st (full.take k) h]
  refine ⟨rfl, nd_cut_fails sf full k _ hk rfl rfl, ?_⟩
  obtain ⟨t, ht⟩ := nd_appends sf
    ((st.put (p.1.readingNote ++ filepath ++ "\")\n")).opened (full.take k))
  exact ⟨_, t, ht⟩

set_option maxRecDepth 100000 in
/-- C4, amended, on the first eight bytes of the synthetic record `exampleND`, which
end inside the grid-size array, read by `read_ivsd`. -/
theorem truncation_not_detected_witness :
    exampleND.take 8 = [2, 0, 0, 0, 4, 0, 0, 0] ∧ ndSparseSize exampleND 0 = 720 ∧
      (read_ivsd bitsF64 (oneFile "ivsd" (FileState.present (exampleND.take 8))) "ivsd"
        Run.fresh).1 = true ∧
      (read_ivsd bitsF64 (oneFile "ivsd" (FileState.present (exampleND.take 8))) "ivsd"
        Run.fresh).2.file.good = false ∧
      ∃ (numDims : Nat) (t : String),
        (read_ivsd bitsF64 (oneFile "ivsd" (FileState.present (exampleND.take 8))) "ivsd"
          Run.fresh).2.res =
          "" ++ (Decoder.ivsd.readingNote ++ "ivsd" ++ "\")\n")
            ++ "\t\t- num. dimensions: " ++ toString numDims ++ "\n" ++ t ++ "\t\t\t- ...\n" :=
  ⟨by decide, by decide,
    truncation_not_detected bitsF64 (oneFile "ivsd" (FileState.present (exampleND.take 8)))
      "ivsd" Run.fresh exampleND 8 (by decide) (by decide) (by decide)
      (Decoder.ivsd, read_ivsd bitsF64) (by simp [ndDecoders])⟩

/-! ## C17 -/

set_option maxRecDepth 100000 in
/-- C17, amended.  On a pressure-map file that ends early `read_pressure_map`
returns true, and a field that could not be read is reported with the content its
destination had before the read.  On an empty file every destination is new: the
report is that of a record of 664 zero bytes, with 0 dimensions, four zero
matrices and 0 non-zero values.  On a file that ends right behind the world matrix
the report is that of `staleAfterWorld`: the three later matrices, read into the
buffer of the first, repeat the world matrix, and 0 non-zero values are reported.
On a file that ends behind `k` of its sparse entries the report is that of
`staleAfterEntries`: every later entry has the index tuple that the buffer
`gridpos` holds from the last entry read (zeros when there is none) and the value
0. -/
theorem unread_fields_keep_destination (sf : FloatFmt → Nat → String) (fs : FileSystem)
    (filepath : String) (st : Run) (bytes : List Nat)
    (h : fs filepath = FileState.present bytes) :
    (bytes = [] →
      (read_pressure_map sf fs filepath st).1 = true ∧
        (read_pressure_map sf fs filepath st).2.res =
          st.res ++ ("\t- reading pressure map (path \"" ++ filepath ++ "\")\n")
            ++ renderNDSparse sf st.fmt (decodeNDSparse (zeros 664) 0)) ∧
      (bytes.length = 0 + 4 + 12 * u32At bytes 0 + 128 →
        (read_pressure_map sf fs filepath st).1 = true ∧
          (read_pressure_map sf fs filepath st).2.res =
            st.res ++ ("\t- reading pressure map (path \"" ++ filepath ++ "\")\n")
              ++ renderNDSparse sf st.fmt (staleAfterWorld bytes 0)) ∧
      (∀ k : Nat,
        bytes.length = 0 + 664 + 12 * u32At bytes 0 + k * (4 * u32At bytes 0 + 8) →
        (read_pressure_map sf fs filepath st).1 = true ∧
          (read_pressure_map sf fs filepath st).2.res =
            st.res ++ ("\t- reading pressure map (path \"" ++ filepath ++ "\")\n")
              ++ renderNDSparse sf st.fmt (staleAfterEntries bytes 0 k)) ∧
      ((staleAfterWorld bytes 0).world4x4 = (decodeNDSparse bytes 0).world4x4 ∧
        (staleAfterWorld bytes 0).invWorld4x4 = (decodeNDSparse bytes 0).world4x4 ∧
        (staleAfterWorld bytes 0).world5x5 =
          (decodeNDSparse bytes 0).world4x4 ++ List.replicate 9 0 ∧
        (staleAfterWorld bytes 0).invWorld5x5 =
          (decodeNDSparse bytes 0).world4x4 ++ List.replicate 9 0 ∧
        (staleAfterWorld bytes 0).sparseEntries = []) ∧
      (decodeNDSparse (zeros 664) 0).numDims = 0 ∧
      (decodeNDSparse (zeros 664) 0).world4x4 = List.replicate 16 0 ∧
      (decodeNDSparse (zeros 664) 0).invWorld4x4 = List.replicate 16 0 ∧
      (decodeNDSparse (zeros 664) 0).world5x5 = List.replicate 25 0 ∧
      (decodeNDSparse (zeros 664) 0).invWorld5x5 = List.replicate 25 0 ∧
      (decodeNDSparse (zeros 664) 0).sparseEntries = [] := by
  have hrun := decoder_present Decoder.pressure_map
    (_read_nd_scalar_image_in_sparse_matrix_style sf) fs filepath st bytes h
  refine ⟨fun hb => ?_, fun hl => ?_, fun k hl => ?_, ⟨rfl, rfl, rfl, rfl, rfl⟩,
    by decide, by decide, by decide, by decide, by decide, by decide⟩
  · subst hb
    rw [read_pressure_map, hrun]
    refine ⟨rfl, ?_⟩
    show (_read_nd_scalar_image_in_sparse_matrix_style sf
      ((st.put (Decoder.pressure_map.readingNote ++ filepath ++ "\")\n")).opened [])).res = _
    rw [nd_on_empty sf _ rfl]
    rfl
  · rw [read_pressure_map, hrun]
    refine ⟨rfl, ?_⟩
    show (_read_nd_scalar_image_in_sparse_matrix_style sf
      ((st.put (Decoder.pressure_map.readingNote ++ filepath ++ "\")\n")).opened bytes)).res = _
    rw [nd_stale_world sf bytes _ 0 rfl hl]
    rfl
  · rw [read_pressure_map, hrun]
    refine ⟨rfl, ?_⟩
    show (_read_nd_scalar_image_in_sparse_matrix_style sf
      ((st.put (Decoder.pressure_map.readingNote ++ filepath ++ "\")\n")).opened bytes)).res = _
    rw [nd_stale_entries sf bytes _ 0 k rfl hl]
    rfl

set_option maxRecDepth 1000000 in
/-- C17, amended, on three files: the empty file; the file `staleND`, which ends
behind a world matrix with the first entry 1.0 (bit pattern 4607182418800017408),
the entry all four matrices are then reported with; and the file `staleEntryND`,
the synthetic record cut off behind the first of its two sparse entries
`([1, 2], 3.5)`: the second entry is reported as `([1, 2], 0)`. -/
theorem unread_fields_keep_destination_witness :
    (read_pressure_map bitsF64 (oneFile "pressuremap" (FileState.present [])) "pressuremap"
        Run.fresh).2.res =
        "" ++ ("\t- reading pressure map (path \"" ++ "pressuremap" ++ "\")\n")
          ++ renderNDSparse bitsF64 FloatFmt.default (decodeNDSparse (zeros 664) 0) ∧
      (read_pressure_map bitsF64 (oneFile "pressuremap" (FileState.present staleND))
        "pressuremap" Run.fresh).2.res =
        "" ++ ("\t- reading pressure map (path \"" ++ "pressuremap" ++ "\")\n")
          ++ renderNDSparse bitsF64 FloatFmt.default (staleAfterWorld staleND 0) ∧
      (staleAfterWorld staleND 0).invWorld4x4 =
        [4607182418800017408, 0, 0, 0, 0, 0, 0, 0, 0, 0, 0, 0, 0, 0, 0, 0] ∧
      (read_pressure_map bitsF64 (oneFile "pressuremap" (FileState.present staleEntryND))
        "pressuremap" Run.fresh).2.res =
        "" ++ ("\t- reading pressure map (path \"" ++ "pressuremap" ++ "\")\n")
          ++ renderNDSparse bitsF64 FloatFmt.default (staleAfterEntries staleEntryND 0 1) ∧
      (staleAfterEntries staleEntryND 0 1).sparseEntries =
        [([1, 2], 4615063718147915776), ([1, 2], 0)] ∧
      renderPreview bitsF64 FloatFmt.default (staleAfterEntries staleEntryND 0 1).sparseEntries =
        "\t\t\t- 0: [1, 2] = #4615063718147915776\n\t\t\t- 1: [1, 2] = #0\n" :=
  ⟨((unread_fields_keep_destination bitsF64 (oneFile "pressuremap" (FileState.present []))
      "pressuremap" Run.fresh [] (by decide)).1 rfl).2,
    ((unread_fields_keep_destination bitsF64 (oneFile "pressuremap" (FileState.present staleND))
      "pressuremap" Run.fresh staleND (by decide)).2.1 (by decide)).2,
    by decide,
    ((unread_fields_keep_destination bitsF64
      (oneFile "pressuremap" (FileState.present staleEntryND))
      "pressuremap" Run.fresh staleEntryND (by decide)).2.2.1 1 (by decide)).2,
    by decide, by decide⟩

end Bloodline
